import Mathlib

/-!
# MicroZed IoT sensor demo (`uzed_iot.c`): shallow embedding and verified properties

The C translation unit drives three sensors (LPS25HB barometer and HTS221
hygrometer on the IIC bus, MAX31855 thermocouple behind an AXI SPI controller),
keeps their decoded readings in one global `System` record and publishes them.

Conventions of the embedding

* C integers are `Nat`/`Int`; every narrowing conversion is written out
  (`% 256`, `% 65536`, `toS32`).
* `float` fields hold the exact rational value of the binary32 number they
  store; conversions and divisions round with `f32`/`f64` (round to nearest,
  ties to even).  All values of this program are far inside the finite range,
  so infinities and NaN do not arise.
* The bus drivers (`XIic_Send`, `XIic_Recv`, `XSpi_ReadReg`) are external: an
  `Env` answers each call as a function of the whole history of events, so
  every device behaviour is covered.  Every call, every delay and every
  diagnostic print is appended to the event log of the `World`.
* `MAY_DIE` and the `goto L_DIE` it hides are the `Run` monad: `Res.die` means
  that control has jumped to the label `L_DIE` of the enclosing function.
-/

namespace UzedIot

/-! ## Constants of the headers and of the `#define` block -/

/-- Modelled from the spec: `xstatus.h` is not among the sources; the success
code is zero (failure codes are the non-zero ones). -/
abbrev XST_SUCCESS : Int := 0
/-- Modelled from the spec: `xstatus.h` is not among the sources; the generic
failure code is the non-zero value 1. -/
abbrev XST_FAILURE : Int := 1
/-- Modelled from the spec: FreeRTOS `projdefs.h` is not among the sources. -/
abbrev pdFALSE : Nat := 0
/-- Modelled from the spec: FreeRTOS `projdefs.h` is not among the sources. -/
abbrev pdTRUE : Nat := 1
/-- Modelled from the spec: `xiic_l.h` is not among the sources; the option that
ends a transfer with a stop condition. -/
abbrev XIIC_STOP : Nat := 0
/-- Modelled from the spec: `xiic_l.h` is not among the sources; the option that
keeps the bus for a repeated start. -/
abbrev XIIC_REPEATED_START : Nat := 1

abbrev BAROMETER_SLAVE_ADDRESS : Nat := 0x5D
abbrev HYGROMETER_SLAVE_ADDRESS : Nat := 0x5F

abbrev BAROMETER_REG_WHO_AM_I : Nat := 0x0F
abbrev BAROMETER_REG_CTRL_REG1 : Nat := 0x10
abbrev BAROMETER_BFLD_PD : Nat := 0 <<< 7
abbrev BAROMETER_ODR_2 : Nat := 0 <<< 6
abbrev BAROMETER_ODR_1 : Nat := 0 <<< 5
abbrev BAROMETER_ODR_0 : Nat := 0 <<< 4
abbrev BAROMETER_ENABLE_LPFP : Nat := 0 <<< 3
abbrev BAROMETER_LPFP_CFG : Nat := 0 <<< 2
abbrev BAROMETER_BDU : Nat := 0 <<< 1
abbrev BAROMETER_SIM : Nat := 0 <<< 0
abbrev BAROMETER_REG_CTRL_REG2 : Nat := 0x11
abbrev BAROMETER_BFLD_BOOT : Nat := 1 <<< 7
abbrev BAROMETER_FIFO_ENABLE : Nat := 0 <<< 6
abbrev BAROMETER_STOP_ON_FTH : Nat := 0 <<< 5
abbrev BAROMETER_IF_ADD_INC : Nat := 1 <<< 4
abbrev BAROMETER_I2C_DIS : Nat := 0 <<< 3
abbrev BAROMETER_BFLD_SWRESET : Nat := 1 <<< 2
abbrev BAROMETER_BFLD_ZEROBIT : Nat := 0 <<< 1
abbrev BAROMETER_BFLD_ONE_SHOT : Nat := 1 <<< 0
abbrev BAROMETER_REG_STATUS_REG : Nat := 0x27
abbrev BAROMETER_BFLD_P_DA : Nat := 1 <<< 0
abbrev BAROMETER_BFLD_T_DA : Nat := 1 <<< 1
abbrev BAROMETER_REG_PRESS_OUT_XL : Nat := 0x28
abbrev BAROMETER_REG_PRESS_OUT_L : Nat := 0x29
abbrev BAROMETER_REG_PRESS_OUT_H : Nat := 0x2A
abbrev BAROMETER_REG_TEMP_OUT_L : Nat := 0x2B
abbrev BAROMETER_REG_TEMP_OUT_H : Nat := 0x2C

abbrev HYGROMETER_REG_WHO_AM_I : Nat := 0x0F
abbrev HYGROMETER_REG_CTRL_REG1 : Nat := 0x20
abbrev HYGROMETER_BFLD_PD : Nat := 1 <<< 7
abbrev HYGROMETER_REG_CTRL_REG2 : Nat := 0x21
abbrev HYGROMETER_BFLD_BOOT : Nat := 1 <<< 7
abbrev HYGROMETER_BFLD_ONE_SHOT : Nat := 1 <<< 0
abbrev HYGROMETER_REG_STATUS_REG : Nat := 0x27
abbrev HYGROMETER_BFLD_H_DA : Nat := 1 <<< 1
abbrev HYGROMETER_BFLD_T_DA : Nat := 1 <<< 0
abbrev HYGROMETER_REG_HUMIDITY_OUT_L : Nat := 0x28
abbrev HYGROMETER_REG_HUMIDITY_OUT_H : Nat := 0x29
abbrev HYGROMETER_REG_TEMP_OUT_L : Nat := 0x2A
abbrev HYGROMETER_REG_TEMP_OUT_H : Nat := 0x2B
abbrev HYGROMETER_REG_CALIB_0 : Nat := 0x30
abbrev HYGROMETER_REG_H0_rH_x2 : Nat := 0x30
abbrev HYGROMETER_REG_H1_rH_x2 : Nat := 0x31
abbrev HYGROMETER_REG_T0_degC_x8 : Nat := 0x32
abbrev HYGROMETER_REG_T1_degC_x8 : Nat := 0x33
abbrev HYGROMETER_REG_T1_T0_MSB : Nat := 0x35
abbrev HYGROMETER_REG_H0_T0_OUT_LSB : Nat := 0x36
abbrev HYGROMETER_REG_H0_T0_OUT_MSB : Nat := 0x37
abbrev HYGROMETER_REG_H1_T0_OUT_LSB : Nat := 0x3A
abbrev HYGROMETER_REG_H1_T0_OUT_MSB : Nat := 0x3B
abbrev HYGROMETER_REG_T0_OUT_LSB : Nat := 0x3C
abbrev HYGROMETER_REG_T0_OUT_MSB : Nat := 0x3D
abbrev HYGROMETER_REG_T1_OUT_LSB : Nat := 0x3E
abbrev HYGROMETER_REG_T1_OUT_MSB : Nat := 0x3F

/-- Modelled from the spec: `xspi_l.h` is not among the sources; offset of the
software reset register of the AXI SPI controller. -/
abbrev XSP_SRR_OFFSET : Nat := 0x40
/-- Modelled from the spec: `xspi_l.h` is not among the sources; control register. -/
abbrev XSP_CR_OFFSET : Nat := 0x60
/-- Modelled from the spec: `xspi_l.h` is not among the sources; status register. -/
abbrev XSP_SR_OFFSET : Nat := 0x64
/-- Modelled from the spec: `xspi_l.h` is not among the sources; data transmit register. -/
abbrev XSP_DTR_OFFSET : Nat := 0x68
/-- Modelled from the spec: `xspi_l.h` is not among the sources; data receive register. -/
abbrev XSP_DRR_OFFSET : Nat := 0x6C
/-- Modelled from the spec: `xspi_l.h` is not among the sources; slave select register. -/
abbrev XSP_SSR_OFFSET : Nat := 0x70
/-- Modelled from the spec: `xspi_l.h` is not among the sources; receive FIFO occupancy. -/
abbrev XSP_RFO_OFFSET : Nat := 0x78
/-- Modelled from the spec: `xspi_l.h` is not among the sources; control bit
"transaction inhibited".  With the three bits below it gives the value 0x186
that the source comment spells out. -/
abbrev XSP_CR_TRANS_INHIBIT_MASK : Nat := 0x100
/-- Modelled from the spec: `xspi_l.h` is not among the sources; control bit
"manual slave select". -/
abbrev XSP_CR_MANUAL_SS_MASK : Nat := 0x80
/-- Modelled from the spec: `xspi_l.h` is not among the sources; control bit
"master mode". -/
abbrev XSP_CR_MASTER_MODE_MASK : Nat := 0x4
/-- Modelled from the spec: `xspi_l.h` is not among the sources; control bit
"controller enabled". -/
abbrev XSP_CR_ENABLE_MASK : Nat := 0x2
/-- Modelled from the spec: `xspi_l.h` is not among the sources; status bit
"receive FIFO empty". -/
abbrev XSP_SR_RX_EMPTY_MASK : Nat := 0x1
/-- Modelled from the spec: `xspi_l.h` is not among the sources; status bit
"transmit FIFO empty". -/
abbrev XSP_SR_TX_EMPTY_MASK : Nat := 0x4

abbrev PL_SPI_CHANNEL_SEL_0 : Nat := 0xFFFFFFFE
abbrev PL_SPI_CHANNEL_SEL_NONE : Nat := 0xFFFFFFFF
abbrev MAX31855_CR_INIT_MODE : Nat :=
  XSP_CR_TRANS_INHIBIT_MASK ||| XSP_CR_MANUAL_SS_MASK ||| XSP_CR_MASTER_MODE_MASK |||
    XSP_CR_ENABLE_MASK
abbrev MAX31855_CR_UNINHIBIT_MODE : Nat :=
  XSP_CR_MANUAL_SS_MASK ||| XSP_CR_MASTER_MODE_MASK ||| XSP_CR_ENABLE_MASK
abbrev AXI_SPI_RESET_VALUE : Nat := 0x0A

/-! ## Machine arithmetic -/

/-- The value of a 32-bit pattern read as `s32` (two's complement). -/
def toS32 (u : Nat) : Int :=
  if u % 2 ^ 32 < 2 ^ 31 then ((u % 2 ^ 32 : Nat) : Int) else ((u % 2 ^ 32 : Nat) : Int) - 2 ^ 32

/-- The 32-bit pattern of an `int`. -/
def toU32 (i : Int) : Nat := (i % 2 ^ 32).toNat

/-- The conversion of an `int` to `u16`. -/
def toU16 (i : Int) : Nat := (i % 2 ^ 16).toNat

/-- Round a rational to the nearest integer, ties to the even one. -/
def roundHalfEven (q : ℚ) : Int :=
  let n := ⌊q⌋
  let r := q - n
  if r < 1 / 2 then n else if 1 / 2 < r then n + 1 else if n % 2 = 0 then n else n + 1

/-- Round a rational to the nearest binary floating point number with `p`
significant bits whose least significant bit weighs at least `2 ^ emin`. -/
def roundBinary (p : Nat) (emin : Int) (q : ℚ) : ℚ :=
  let e := max (Int.log 2 |q| - ((p : Int) - 1)) emin
  (roundHalfEven (q / (2 : ℚ) ^ e) : ℚ) * (2 : ℚ) ^ e

/-- Rounding to IEEE 754 binary32, the C type `float`. -/
def f32 (q : ℚ) : ℚ := roundBinary 24 (-149) q

/-- Rounding to IEEE 754 binary64, the C type `double`. -/
def f64 (q : ℚ) : ℚ := roundBinary 53 (-1074) q

/-- The text of the conversion `%.2f` for a value that a `double` holds exactly:
the nearest number with two decimals, ties to the even one, with a sign for a
negative value. -/
def formatF2 (q : ℚ) : String :=
  let a := q.num.natAbs * 100
  let k := a / q.den
  let r := a % q.den
  let n := if 2 * r < q.den then k else if q.den < 2 * r then k + 1
    else if k % 2 = 0 then k else k + 1
  (if q.num < 0 then "-" else "") ++ toString (n / 100) ++ "." ++
    (if n % 100 < 10 then "0" else "") ++ toString (n % 100)

/-! ## Data model -/

/-- The fields of `struct System` that the sensor code reads or writes.  The
default value is the zero-initialised global `g_tSystem`. -/
structure System where
  pbHygrometerCalibration : List Nat := List.replicate 16 0
  rc : Int := 0
  pcErr : String := ""
  bError : Nat := 0
  bLastReportedError : Nat := 0
  bBarometerOk : Nat := 0
  bHygrometerOk : Nat := 0
  bThermocoupleOk : Nat := 0
  fBarometerPressure : ℚ := 0
  fBarometerTemperature : ℚ := 0
  fHygrometerHumidity : ℚ := 0
  fHygrometerTemperature : ℚ := 0
  fThermocoupleTemperature : ℚ := 0
  fThermocoupleBoardTemperature : ℚ := 0
  /-- the handle of the MQTT agent, 0 for `NULL` -/
  xMQTTHandle : Nat := 0
  /-- the field `gpio.IsReady` -/
  gpioIsReady : Nat := 0
  usSensorTopicLength : Nat := 0
  pbSensorTopic : String := ""
  usShadowTopicLength : Nat := 0
  pbShadowTopic : String := ""
  deriving DecidableEq

/-- Everything the program does that is visible outside the `System` record,
each with the answer it received. -/
inductive Event where
  | iicSend (addr : Nat) (buf : List Nat) (option : Nat) (sent : Nat)
  | iicRecv (addr : Nat) (count : Nat) (option : Nat) (data : List Nat)
  | spiWrite (offset : Nat) (value : Nat)
  | spiRead (offset : Nat) (value : Nat)
  | taskDelay (ms : Nat)
  | print (fmt : String) (args : List Int)
  | taskDelayUntil (ms : Nat)
  | gpioWritePin (pin : Nat) (value : Nat)
  | mqttPublish (topic : String) (topicLength : Nat) (qos : Nat) (data : String)
      (dataLength : Nat) (result : Nat)
  | printStr (fmt : String) (args : List String)
  deriving DecidableEq

/-- The external drivers.  Each answer may depend on the complete history. -/
structure Env where
  /-- number of bytes the device accepted -/
  XIic_Send : List Event → Nat → List Nat → Nat → Nat
  /-- the bytes the device delivered; their number is the return value -/
  XIic_Recv : List Event → Nat → Nat → Nat → List Nat
  /-- value read from a register of the AXI SPI controller -/
  XSpi_ReadReg : List Event → Nat → Nat
  /-- return code of `MQTT_AGENT_Publish` for the topic, its length, the quality
  of service, the data and their length; an agent that is not given answers
  `eMQTTAgentSuccess` -/
  MQTT_AGENT_Publish : List Event → String → Nat → Nat → String → Nat → Nat :=
    fun _ _ _ _ _ _ => 0
  /-- the text that `snprintf` writes for a `double` under the conversion `%.2f` -/
  snprintf_f2 : ℚ → String := formatF2

/-- The global `g_tSystem` together with the history of external events. -/
structure World where
  sys : System := {}
  log : List Event := []
  deriving DecidableEq

/-- The ways in which a C function of this file can fail to return. -/
inductive Fault where
  /-- integer division by zero -/
  | divisionByZero
  /-- a store behind the end of an array -/
  | bufferOverrun
  /-- a busy-wait loop that has no bound was still spinning when the fuel ran out -/
  | outOfFuel
  deriving DecidableEq

/-- Result of running a piece of a function body. -/
inductive Res (α : Type) where
  | ok (a : α) (w : World)
  | die (w : World)

/-- A piece of a function body that may jump to `L_DIE`. -/
def Run (α : Type) : Type := World → Res α

def Run.pure {α : Type} (a : α) : Run α := fun w => Res.ok a w

def Run.bind {α β : Type} (m : Run α) (f : α → Run β) : Run β := fun w =>
  match m w with
  | Res.ok a w1 => f a w1
  | Res.die w1 => Res.die w1

instance : Monad Run where
  pure := Run.pure
  bind := Run.bind

/-- The world in which a piece of code stops, whichever way it stops. -/
def Res.world {α : Type} : Res α → World
  | Res.ok _ w => w
  | Res.die w => w

/-- True when the piece of code ran to its end. -/
def Res.isOk {α : Type} : Res α → Bool
  | Res.ok _ _ => true
  | Res.die _ => false

def World.emit (e : Event) (w : World) : World := { w with log := w.log ++ [e] }

def World.setRc (rc : Int) (w : World) : World := { w with sys.rc := rc }

def World.setErr (msg : String) (w : World) : World := { w with sys.pcErr := msg }

def World.setBError (b : Nat) (w : World) : World := { w with sys.bError := b }

/-- A statement that only changes the world. -/
def Run.exec (f : World → World) : Run Unit := fun w => Res.ok () (f w)

/-- The call `configPRINTF( ( fmt, args ) )`. -/
def configPRINTF (fmt : String) (args : List Int) (w : World) : World :=
  w.emit (Event.print fmt args)

/-- The call `vTaskDelay(MS_TO_TICKS(ms))`. -/
def vTaskDelay (ms : Nat) (w : World) : World := w.emit (Event.taskDelay ms)

/-- The macro `MAY_DIE(code)`: run `code`; when `rc` is not `XST_SUCCESS`
afterwards set `bError`, print the message and jump to `L_DIE`. -/
def MAY_DIE {α : Type} (code : World → α × World) : Run α := fun w =>
  let r := code w
  if r.2.sys.rc ≠ XST_SUCCESS then
    Res.die (configPRINTF r.2.sys.pcErr [r.2.sys.rc] (r.2.setBError 1))
  else
    Res.ok r.1 r.2

/-! ## IIC helpers -/

def XIic_Send (env : Env) (addr : Nat) (buf : List Nat) (option : Nat) (w : World) :
    Nat × World :=
  let sent := env.XIic_Send w.log addr buf option
  (sent, w.emit (Event.iicSend addr buf option sent))

def XIic_Recv (env : Env) (addr count option : Nat) (w : World) : List Nat × World :=
  let data := env.XIic_Recv w.log addr count option
  (data, w.emit (Event.iicRecv addr count option data))

/-- The failure code `((x & 0xf) << 4) | (n & 0xf)` that the transfer functions
build from the count `x` they obtained and the count `n` they asked for. -/
def mismatchRc (x n : Nat) : Int := ((((x &&& 0xf) <<< 4) ||| (n &&& 0xf) : Nat) : Int)

/-- The bytes of a receive buffer after `XIic_Recv` has deposited `data` in it:
at most `xCount` bytes are written, each an octet; the rest keeps its value. -/
def deposit (pbBuf : List Nat) (xCount : Nat) (data : List Nat) : List Nat :=
  (data.take xCount).map (fun x => x % 256) ++ pbBuf.drop (min data.length xCount)

/-- The function `ReadIicRegs`; the result is the receive buffer and the world,
the C return value is `rc` of that world.  The receive call of the second
`MAY_DIE` block is written before the block so that the buffer it fills is
also known when the block jumps to `L_DIE`. -/
def ReadIicRegs (env : Env) (bSlaveAddress xCount bFirstSlaveReg : Nat) (pbBuf : List Nat)
    (w : World) : List Nat × World :=
  let bFirstSlaveReg := if xCount > 1 then (bFirstSlaveReg ||| 0x80) % 256 else bFirstSlaveReg
  match MAY_DIE (fun w =>
      let s := XIic_Send env bSlaveAddress [bFirstSlaveReg] XIIC_REPEATED_START w
      if 1 ≠ s.1 then
        ((), (s.2.setRc 1).setErr "ReadIicRegs::XIic_Send(Addr) -> 0x%08x\r\n")
      else ((), s.2)) w with
  | Res.die w1 => (pbBuf, w1)
  | Res.ok _ w1 =>
    let r := XIic_Recv env bSlaveAddress xCount XIIC_STOP w1
    let xReceived := r.1.length
    match MAY_DIE (fun w =>
        if xReceived ≠ xCount then
          ((), (w.setRc (mismatchRc xReceived xCount)).setErr
            "ReadIicRegs::XIic_Recv(Data) -> 0x%08x\r\n")
        else ((), w)) r.2 with
    | Res.die w2 => (deposit pbBuf xCount r.1, w2)
    | Res.ok _ w2 => (deposit pbBuf xCount r.1, w2)

/-- The function `ReadIicReg`: one register into the byte `b`. -/
def ReadIicReg (env : Env) (bSlaveAddress bFirstSlaveReg : Nat) (b : Nat) (w : World) :
    Nat × World :=
  let r := ReadIicRegs env bSlaveAddress 1 bFirstSlaveReg [b] w
  (r.1.headD b, r.2)

/-- The function `WriteIicRegs`; the C return value is `rc` of the result. -/
def WriteIicRegs (env : Env) (bSlaveAddress xCount : Nat) (pbBuf : List Nat) (w : World) :
    World :=
  let pbBuf := if xCount > 2 then pbBuf.modifyHead (fun x => (x ||| 0x80) % 256) else pbBuf
  match MAY_DIE (fun w =>
      let s := XIic_Send env bSlaveAddress (pbBuf.take xCount) XIIC_STOP w
      if xCount ≠ s.1 then
        ((), (s.2.setRc (mismatchRc s.1 xCount)).setErr
          "WriteIicRegs::XIic_Send(Buf) -> 0x%08x\r\n")
      else ((), s.2)) w with
  | Res.die w1 => w1
  | Res.ok _ w1 => w1

/-- The function `WriteIicReg`. -/
def WriteIicReg (env : Env) (bSlaveAddress bFirstSlaveReg bVal : Nat) (w : World) : World :=
  WriteIicRegs env bSlaveAddress 2 [bFirstSlaveReg, bVal] w

/-- The block `{ ReadIicReg(pSystem, addr, reg, &b); pSystem->pcErr = msg; }`;
the result is the byte `b`. -/
def readRegBlock (env : Env) (addr reg : Nat) (msg : String) (b : Nat) (w : World) :
    Nat × World :=
  let r := ReadIicReg env addr reg b w
  (r.1, r.2.setErr msg)

/-- The block `{ ReadIicRegs(pSystem, addr, n, reg, pbBuf); pSystem->pcErr = msg; }`;
the result is the buffer. -/
def readRegsBlock (env : Env) (addr n reg : Nat) (msg : String) (pbBuf : List Nat)
    (w : World) : List Nat × World :=
  let r := ReadIicRegs env addr n reg pbBuf w
  (r.1, r.2.setErr msg)

/-- The block `{ WriteIicReg(pSystem, addr, reg, val); pSystem->pcErr = msg; }`. -/
def writeRegBlock (env : Env) (addr reg val : Nat) (msg : String) (w : World) :
    Unit × World :=
  ((), (WriteIicReg env addr reg val w).setErr msg)

/-- The block `{ pSystem->rc = rc; pSystem->pcErr = msg; }`. -/
def failBlock (rc : Int) (msg : String) (w : World) : Unit × World :=
  ((), (w.setRc rc).setErr msg)

/-- The block `{ if(cond) { pSystem->rc = rc; pSystem->pcErr = msg; } }`. -/
def failIfBlock (cond : Bool) (rc : Int) (msg : String) (w : World) : Unit × World :=
  if cond then failBlock rc msg w else ((), w)

/-- The loop `for(t = n; t-- > 0; ) { MAY_DIE(read); if(done) break; vTaskDelay(1 ms); }`
that all bounded waits of the file share.  The result is the value of the
counter `t` when the loop is left and the value last read. -/
def forTimeout {α : Type} (read : α → World → α × World) (done : α → Bool) :
    Nat → α → Run (Int × α)
  | 0, b => Run.pure (-1, b)
  | n + 1, b => do
    let b ← MAY_DIE (read b)
    if done b then Run.pure ((n : Int), b)
    else do
      Run.exec (vTaskDelay 1)
      forTimeout read done n b

/-! ## Barometer bring-up -/

/-- The statements of `StartBarometer` from the identity check to the last
register write: all its `MAY_DIE` blocks. -/
def StartBarometer_body (env : Env) : Run Unit := do
  -- Verify it is the right chip
  let b ← MAY_DIE (readRegBlock env BAROMETER_SLAVE_ADDRESS BAROMETER_REG_WHO_AM_I
    "ReadIicReg(WHO_AM_I) -> 0x%08x\r\n" 0)
  MAY_DIE (failIfBlock (0xB1 != b) (if b ≠ 0 then (b : Int) else 1)
    "BAROMETER_WHO_AM_I = 0x%08x != 0xB1\r\n")
  -- Reset chip: first swreset, then boot
  MAY_DIE (writeRegBlock env BAROMETER_SLAVE_ADDRESS BAROMETER_REG_CTRL_REG2 BAROMETER_BFLD_SWRESET
    "WriteIicReg(BAROMETER_REG_CTRL_REG2::BFLD_SWRESET) -> 0x%08x\r\n")
  let t ← forTimeout (readRegBlock env BAROMETER_SLAVE_ADDRESS BAROMETER_REG_CTRL_REG2
      "ReadIicReg(BAROMETER_REG_CTRL_REG2) -> 0x%08x\r\n")
    (fun b => 0 == (b &&& BAROMETER_BFLD_SWRESET)) 100 b
  if t.1 ≤ 0 then
    MAY_DIE (failBlock XST_FAILURE "Barometer swreset timeout\r\n")
  MAY_DIE (writeRegBlock env BAROMETER_SLAVE_ADDRESS BAROMETER_REG_CTRL_REG2 BAROMETER_BFLD_BOOT
    "WriteIicReg(BAROMETER_REG_CTRL_REG2::BAROMETER_BFLD_BOOT -> 0x%08x\r\n")
  let t ← forTimeout (readRegBlock env BAROMETER_SLAVE_ADDRESS BAROMETER_REG_CTRL_REG2
      "ReadIicReg(BAROMETER_REG_CTRL_REG2) -> 0x%08x\r\n")
    (fun b => 0 == (b &&& BAROMETER_BFLD_BOOT)) 100 t.2
  if t.1 ≤ 0 then
    MAY_DIE (failBlock XST_FAILURE "Barometer boot timeout\r\n")
  MAY_DIE (writeRegBlock env BAROMETER_SLAVE_ADDRESS BAROMETER_REG_CTRL_REG2 BAROMETER_BFLD_ZEROBIT
    "WriteIicReg(BAROMETER_REG_CTRL_REG2::BAROMETER_BFLD_ZEROBIT -> 0x%08x\r\n")
  MAY_DIE (writeRegBlock env BAROMETER_SLAVE_ADDRESS BAROMETER_REG_CTRL_REG2 BAROMETER_FIFO_ENABLE
    "WriteIicReg(BAROMETER_REG_CTRL_REG2::BAROMETER_FIFO_ENABLE -> 0x%08x\r\n")
  MAY_DIE (writeRegBlock env BAROMETER_SLAVE_ADDRESS BAROMETER_REG_CTRL_REG2 BAROMETER_STOP_ON_FTH
    "WriteIicReg(BAROMETER_REG_CTRL_REG2::BAROMETER_STOP_ON_FTH -> 0x%08x\r\n")
  MAY_DIE (writeRegBlock env BAROMETER_SLAVE_ADDRESS BAROMETER_REG_CTRL_REG2 BAROMETER_IF_ADD_INC
    "WriteIicReg(BAROMETER_REG_CTRL_REG2::BAROMETER_IF_ADD_INC -> 0x%08x\r\n")
  MAY_DIE (writeRegBlock env BAROMETER_SLAVE_ADDRESS BAROMETER_REG_CTRL_REG2 BAROMETER_I2C_DIS
    "WriteIicReg(BAROMETER_REG_CTRL_REG1::BAROMETER_I2C_DIS) -> 0x%08x\r\n")
  MAY_DIE (writeRegBlock env BAROMETER_SLAVE_ADDRESS BAROMETER_REG_CTRL_REG1 BAROMETER_ODR_2
    "WriteIicReg(BAROMETER_REG_CTRL_REG1::BAROMETER_ODR_2) -> 0x%08x\r\n")
  MAY_DIE (writeRegBlock env BAROMETER_SLAVE_ADDRESS BAROMETER_REG_CTRL_REG1 BAROMETER_ODR_1
    "WriteIicReg(BAROMETER_REG_CTRL_REG1::BAROMETER_ODR_1) -> 0x%08x\r\n")
  MAY_DIE (writeRegBlock env BAROMETER_SLAVE_ADDRESS BAROMETER_REG_CTRL_REG1 BAROMETER_ODR_0
    "WriteIicReg(BAROMETER_REG_CTRL_REG1::BAROMETER_ODR_0) -> 0x%08x\r\n")
  MAY_DIE (writeRegBlock env BAROMETER_SLAVE_ADDRESS BAROMETER_REG_CTRL_REG1 BAROMETER_ENABLE_LPFP
    "WriteIicReg(BAROMETER_REG_CTRL_REG1::BAROMETER_ENABLE_LPFP) -> 0x%08x\r\n")
  MAY_DIE (writeRegBlock env BAROMETER_SLAVE_ADDRESS BAROMETER_REG_CTRL_REG1 BAROMETER_LPFP_CFG
    "WriteIicReg(BAROMETER_REG_CTRL_REG1::BAROMETER_LPFP_CFG) -> 0x%08x\r\n")
  MAY_DIE (writeRegBlock env BAROMETER_SLAVE_ADDRESS BAROMETER_REG_CTRL_REG1 BAROMETER_BDU
    "WriteIicReg(BAROMETER_REG_CTRL_REG1::BAROMETER_BDU) -> 0x%08x\r\n")
  MAY_DIE (writeRegBlock env BAROMETER_SLAVE_ADDRESS BAROMETER_REG_CTRL_REG1 BAROMETER_SIM
    "WriteIicReg(BAROMETER_REG_CTRL_REG1::BAROMETER_SIM) -> 0x%08x\r\n")
  MAY_DIE (writeRegBlock env BAROMETER_SLAVE_ADDRESS BAROMETER_REG_CTRL_REG1 BAROMETER_BFLD_PD
    "WriteIicReg(BAROMETER_REG_CTRL_REG1::BAROMETER_BFLD_PD) -> 0x%08x\r\n")

/-- The function `StartBarometer`. -/
def StartBarometer (env : Env) (w : World) : World :=
  let w0 : World := { w with
    sys.bBarometerOk := pdFALSE
    sys.fBarometerPressure := 0
    sys.fBarometerTemperature := 0 }
  match StartBarometer_body env w0 with
  | Res.ok _ w1 =>
    let w2 := vTaskDelay 1 w1
    let w3 : World := { w2 with sys.bBarometerOk := pdTRUE }
    configPRINTF "Barometer started ok\r\n" [] w3
  | Res.die w1 =>
    -- L_DIE:
    configPRINTF "ERROR: Barometer started not ok\r\n" [] w1

/-- The function `StopBarometer`. -/
def StopBarometer (w : World) : World := { w with sys.bBarometerOk := pdFALSE }

/-! ## Hygrometer bring-up -/

/-- The block of `StartHygrometer` that reads the 16 calibration registers into
`pSystem->pbHygrometerCalibration`. -/
def StartHygrometer_calibration (env : Env) (w : World) : Unit × World :=
  let r := ReadIicRegs env HYGROMETER_SLAVE_ADDRESS 16 HYGROMETER_REG_CALIB_0
    w.sys.pbHygrometerCalibration w
  ((), ({ r.2 with sys.pbHygrometerCalibration := r.1 } : World).setErr
    "ReadIicRegs(HYGROMETER_REG_CALIB_0) -> 0x%08x\r\n")

/-- The statements of `StartHygrometer` from the identity check to the last
register write: all its `MAY_DIE` blocks. -/
def StartHygrometer_body (env : Env) : Run Unit := do
  -- Verify it is the right chip
  let b ← MAY_DIE (readRegBlock env HYGROMETER_SLAVE_ADDRESS HYGROMETER_REG_WHO_AM_I
    "ReadIicReg(HYGROMETER_WHO_AM_I) -> 0x%08x\r\n" 0)
  MAY_DIE (failIfBlock (0xBC != b) (if b ≠ 0 then (b : Int) else 1)
    "HYGROMETER_WHO_AM_I = 0x%08x != BC\r\n")
  -- Reset chip: boot
  MAY_DIE (writeRegBlock env HYGROMETER_SLAVE_ADDRESS HYGROMETER_REG_CTRL_REG2 HYGROMETER_BFLD_BOOT
    "WriteIicReg(HYGROMETER_REG_CTRL_REG2::HYGROMETER_BFLD_BOOT -> 0x%08x\r\n")
  let t ← forTimeout (readRegBlock env HYGROMETER_SLAVE_ADDRESS HYGROMETER_REG_CTRL_REG2
      "ReadIicReg(BAROMETER_REG_CTRL_REG2) -> 0x%08x\r\n")
    (fun b => 0 == (b &&& HYGROMETER_BFLD_BOOT)) 1000 b
  if t.1 ≤ 0 then
    MAY_DIE (failBlock XST_FAILURE "Hygrometer boot timeout\r\n")
  -- Read and store calibration values
  MAY_DIE (StartHygrometer_calibration env)
  -- Power up device
  MAY_DIE (writeRegBlock env HYGROMETER_SLAVE_ADDRESS HYGROMETER_REG_CTRL_REG1 HYGROMETER_BFLD_PD
    "WriteIicReg(HYGROMETER_REG_CTRL_REG1::HYGROMETER_BFLD_PD) -> 0x%08x\r\n")

/-- The function `StartHygrometer`. -/
def StartHygrometer (env : Env) (w : World) : World :=
  let w0 : World := { w with
    sys.bHygrometerOk := pdFALSE
    sys.fHygrometerHumidity := 0
    sys.fHygrometerTemperature := 0 }
  match StartHygrometer_body env w0 with
  | Res.ok _ w1 =>
    let w2 := vTaskDelay 1 w1
    let w3 : World := { w2 with sys.bHygrometerOk := pdTRUE }
    configPRINTF "Hygrometer started ok\r\n" [] w3
  | Res.die w1 =>
    -- L_DIE:
    configPRINTF "ERROR: Hygrometer started not ok\r\n" [] w1

/-- The function `StopHygrometer`. -/
def StopHygrometer (w : World) : World := { w with sys.bHygrometerOk := pdFALSE }

/-! ## Thermocouple bring-up -/

/-- The register write `XSpi_WriteReg(PL_SPI_BASEADDR, offset, value)`. -/
def XSpi_WriteReg (offset value : Nat) (w : World) : World :=
  w.emit (Event.spiWrite offset value)

/-- The register read `XSpi_ReadReg(PL_SPI_BASEADDR, offset)`. -/
def XSpi_ReadReg (env : Env) (offset : Nat) (w : World) : Nat × World :=
  let v := env.XSpi_ReadReg w.log offset % 2 ^ 32
  (v, w.emit (Event.spiRead offset v))

/-- The function `StartPLTempSensor`. -/
def StartPLTempSensor (w : World) : World :=
  let w : World := { w with
    sys.bThermocoupleOk := pdFALSE
    sys.fThermocoupleBoardTemperature := 0
    sys.fThermocoupleTemperature := 0 }
  -- Reset the SPI Peripheral, which takes 4 cycles, so wait a bit after reset
  let w := XSpi_WriteReg XSP_SRR_OFFSET AXI_SPI_RESET_VALUE w
  let w := vTaskDelay 1 w
  -- Initialize the AXI SPI Controller with settings compatible with the MAX31855
  let w := XSpi_WriteReg XSP_CR_OFFSET MAX31855_CR_INIT_MODE w
  -- Deselect all slaves to start, then wait a bit for it to take affect
  let w := XSpi_WriteReg XSP_SSR_OFFSET PL_SPI_CHANNEL_SEL_NONE w
  let w := vTaskDelay 1 w
  let w : World := { w with sys.bThermocoupleOk := pdTRUE }
  configPRINTF "PL Thermocouple started - check state after first reading\r\n" [] w

/-- The function `StopPLTempSensor`. -/
def StopPLTempSensor (w : World) : World := { w with sys.bThermocoupleOk := pdFALSE }

/-! ## Barometer sampling -/

/-- The raw pressure `sqTmp` of `SampleBarometer`: the three output bytes put
together and sign-extended from bit 23. -/
def SampleBarometer_pressureRaw (xl l h : Nat) : Int :=
  let sqTmp : Nat := 0 ||| (xl <<< 0) ||| (l <<< 8) ||| (h <<< 16)
  let sqTmp : Nat := if sqTmp &&& 0x00800000 ≠ 0 then sqTmp ||| 0xFF800000 else sqTmp
  toS32 sqTmp

/-- The raw temperature `sqTmp` of `SampleBarometer`: the two output bytes put
together and sign-extended from bit 15. -/
def SampleBarometer_temperatureRaw (l h : Nat) : Int :=
  let sqTmp : Nat := 0 ||| (l <<< 0) ||| (h <<< 8)
  let sqTmp : Nat := if sqTmp &&& 0x00008000 ≠ 0 then sqTmp ||| 0xFFFF8000 else sqTmp
  toS32 sqTmp

/-- The statements of `SampleBarometer` after `rc = XST_SUCCESS` up to the last
register read: all its `MAY_DIE` blocks.  The result is the bytes
`pbBuf[1]` to `pbBuf[5]`. -/
def SampleBarometer_body (env : Env) : Run (Nat × Nat × Nat × Nat × Nat) := do
  MAY_DIE (writeRegBlock env BAROMETER_SLAVE_ADDRESS BAROMETER_REG_CTRL_REG2 BAROMETER_BFLD_ONE_SHOT
    "WriteIicReg(BAROMETER_REG_CTRL_REG2::BAROMETER_BFLD_ONE_SHOT) -> 0x%08x\r\n")
  let t ← forTimeout (readRegBlock env BAROMETER_SLAVE_ADDRESS BAROMETER_REG_CTRL_REG2
      "ReadIicReg(BAROMETER_REG_CTRL_REG2) -> 0x%08x\r\n")
    (fun b => 0 == (b &&& BAROMETER_BFLD_ONE_SHOT)) 50 0
  MAY_DIE (failIfBlock (decide (t.1 ≤ 0)) XST_FAILURE
    "Timed out waiting for BAROMETER_BFLD_ONE_SHOT\r\n")
  let t ← forTimeout (readRegsBlock env BAROMETER_SLAVE_ADDRESS 6 BAROMETER_REG_STATUS_REG
      "ReadIicRegs(6@BAROMETER_REG_STATUS_REG) -> 0x%08x\r\n")
    (fun pbBuf => (BAROMETER_BFLD_P_DA ||| BAROMETER_BFLD_T_DA) ==
      (pbBuf.headD 0 &&& (BAROMETER_BFLD_P_DA ||| BAROMETER_BFLD_T_DA)))
    50 (List.replicate 6 0)
  MAY_DIE (failIfBlock (decide (t.1 ≤ 0)) XST_FAILURE
    "Timed out waiting for P_DA and T_DA\r\n")
  -- for(count=1; count<6;count++) pbBuf[count] = 0;
  let xl ← MAY_DIE (readRegsBlock env BAROMETER_SLAVE_ADDRESS 1 BAROMETER_REG_PRESS_OUT_XL
    "ReadIicRegs(BAROMETER_REG_PRESS_OUT_XL) -> 0x%08x\r\n" [0])
  let l ← MAY_DIE (readRegsBlock env BAROMETER_SLAVE_ADDRESS 1 BAROMETER_REG_PRESS_OUT_L
    "ReadIicRegs(BAROMETER_REG_PRESS_OUT_L) -> 0x%08x\r\n" [0])
  let h ← MAY_DIE (readRegsBlock env BAROMETER_SLAVE_ADDRESS 1 BAROMETER_REG_PRESS_OUT_H
    "ReadIicRegs(BAROMETER_REG_PRESS_OUT_H) -> 0x%08x\r\n" [0])
  let tl ← MAY_DIE (readRegsBlock env BAROMETER_SLAVE_ADDRESS 1 BAROMETER_REG_TEMP_OUT_L
    "ReadIicRegs(BAROMETER_REG_TEMP_OUT_L) -> 0x%08x\r\n" [0])
  let th ← MAY_DIE (readRegsBlock env BAROMETER_SLAVE_ADDRESS 1 BAROMETER_REG_TEMP_OUT_H
    "ReadIicRegs(BAROMETER_REG_TEMP_OUT_H) -> 0x%08x\r\n" [0])
  Run.pure (xl.headD 0, l.headD 0, h.headD 0, tl.headD 0, th.headD 0)

/-- The function `SampleBarometer`. -/
def SampleBarometer (env : Env) (w : World) : World :=
  if w.sys.bBarometerOk = 0 then w
  else
    match SampleBarometer_body env (w.setRc XST_SUCCESS) with
    | Res.die w1 =>
      -- L_DIE:
      w1
    | Res.ok (xl, l, h, tl, th) w1 =>
      -- See ST TN1228
      { w1 with
        sys.fBarometerPressure := f32 (f32 (SampleBarometer_pressureRaw xl l h) / 4096)
        -- the divisor 100.0 is a double: the quotient is a double, the store narrows it
        sys.fBarometerTemperature :=
          f32 (f64 (f32 (SampleBarometer_temperatureRaw tl th) / 100)) }

/-! ## Hygrometer sampling -/

/-- One `MAY_DIE` block of `SampleHygrometer` that reads a single register. -/
def SampleHygrometer_read (env : Env) (reg : Nat) (msg : String) : Run Nat :=
  MAY_DIE (readRegBlock env HYGROMETER_SLAVE_ADDRESS reg msg 0)

/-- The value `(H_OUT - H0_OUT) * (H1_rh - H0_rh) / (H1_OUT - H0_OUT) + H0_rh`
of step 5 as an `int`, the division being the truncating division of C; `none`
when the divisor is zero. -/
def SampleHygrometer_interpolate (out out0 out1 y0 y1 : Int) : Option Int :=
  let tmp := (out - out0) * (y1 - y0)
  if out1 - out0 = 0 then none else some (Int.tdiv tmp (out1 - out0) + y0)

/-- Step 5 of the humidity decode: the `u16` variable `value` after the
conversion `(u16)(tmp / (H1_T0_out - H0_T0_out) + H0_rh)` and the saturation
test; `none` when the division is by zero. -/
def SampleHygrometer_humidityValue (H_T_out H0_T0_out H1_T0_out H0_rh H1_rh : Int) :
    Option Nat :=
  match SampleHygrometer_interpolate H_T_out H0_T0_out H1_T0_out H0_rh H1_rh with
  | none => none
  | some r =>
    let value : Nat := toU16 r
    -- Saturation condition
    let value : Nat := if value > 1000 then 1000 else value
    some value

/-- Step 6 of the temperature decode: the `u16` variable `value` after the
assignment `value = tmp32 / (T1_out - T0_out) + T0_degC`; `none` when the
division is by zero. -/
def SampleHygrometer_temperatureValue (T_out T0_out T1_out T0_degC T1_degC : Int) :
    Option Nat :=
  match SampleHygrometer_interpolate T_out T0_out T1_out T0_degC T1_degC with
  | none => none
  | some r => some (toU16 r)

/-- The first half of `SampleHygrometer` after `rc = XST_SUCCESS`: trigger, the
two waits, the humidity reads and step 5.  The result is the `u16` variable
`value` after the saturation test, `none` when step 5 divides by zero. -/
def SampleHygrometer_humidity (env : Env) : Run (Option Nat) := do
  MAY_DIE (writeRegBlock env HYGROMETER_SLAVE_ADDRESS HYGROMETER_REG_CTRL_REG2 HYGROMETER_BFLD_ONE_SHOT
    "WriteIicReg(HYGROMETER_REG_CTRL_REG2::HYGROMETER_BFLD_ONE_SHOT) -> 0x%08x\r\n")
  let t ← forTimeout (readRegBlock env HYGROMETER_SLAVE_ADDRESS HYGROMETER_REG_CTRL_REG2
      "ReadIicReg(HYGROMETER_REG_CTRL_REG2) -> 0x%08x\r\n")
    (fun b => 0 == (b &&& HYGROMETER_BFLD_ONE_SHOT)) 10000 0
  MAY_DIE (failIfBlock (decide (t.1 ≤ 0)) XST_FAILURE
    "Timed out waiting for HYGROMETER_BFLD_ONE_SHOT\r\n")
  let t ← forTimeout (readRegsBlock env HYGROMETER_SLAVE_ADDRESS 5 HYGROMETER_REG_STATUS_REG
      "ReadIicRegs(6@HYGROMETER_REG_STATUS_REG) -> 0x%08x\r\n")
    (fun pbBuf => (HYGROMETER_BFLD_H_DA ||| HYGROMETER_BFLD_T_DA) ==
      (pbBuf.headD 0 &&& (HYGROMETER_BFLD_H_DA ||| HYGROMETER_BFLD_T_DA)))
    50 (List.replicate 5 0)
  MAY_DIE (failIfBlock (decide (t.1 ≤ 0)) XST_FAILURE
    "Timed out waiting for HYGROMETER P_DA and T_DA\r\n")
  -- 1. Read H0_rH and H1_rH coefficients
  let b0 ← SampleHygrometer_read env HYGROMETER_REG_H0_rH_x2
    "ReadIicReg(HYGROMETER_REG_H0_rH_x2)  -> 0x%08x\r\n"
  let b1 ← SampleHygrometer_read env HYGROMETER_REG_H1_rH_x2
    "ReadIicReg(HYGROMETER_REG_H1_rH_x2) -> 0x%08x\r\n"
  let H0_rh : Int := ((b0 >>> 1 : Nat) : Int)
  let H1_rh : Int := ((b1 >>> 1 : Nat) : Int)
  -- 2. Read H0_T0_OUT
  let b0 ← SampleHygrometer_read env HYGROMETER_REG_H0_T0_OUT_LSB
    "ReadIicReg(HYGROMETER_REG_H0_T0_OUT_LSB) -> 0x%08x\r\n"
  let b1 ← SampleHygrometer_read env HYGROMETER_REG_H0_T0_OUT_MSB
    "ReadIicReg(HYGROMETER_REG_H0_T0_OUT_MSB -> 0x%08x\r\n"
  let H0_T0_out : Int := (((b1 <<< 8) ||| b0 : Nat) : Int)
  -- 3. Read H1_T0_OUT
  let b0 ← SampleHygrometer_read env HYGROMETER_REG_H1_T0_OUT_LSB
    "ReadIicReg(HYGROMETER_REG_H1_T0_OUT_LSB)  -> 0x%08x\r\n"
  let b1 ← SampleHygrometer_read env HYGROMETER_REG_H1_T0_OUT_MSB
    "ReadIicReg(HYGROMETER_REG_H1_T0_OUT_MSB) -> 0x%08x\r\n"
  let H1_T0_out : Int := (((b1 <<< 8) ||| b0 : Nat) : Int)
  -- 4. Read H_T_OUT
  let b0 ← SampleHygrometer_read env HYGROMETER_REG_HUMIDITY_OUT_L
    "ReadIicReg( HYGROMETER_REG_HUMIDITY_OUT_L) -> 0x%08x\r\n"
  let b1 ← SampleHygrometer_read env HYGROMETER_REG_HUMIDITY_OUT_H
    "ReadIicReg(HYGROMETER_REG_HUMIDITY_OUT_H -> 0x%08x\r\n"
  let H_T_out : Int := (((b1 <<< 8) ||| b0 : Nat) : Int)
  -- 5. Compute the RH [%] value by linear interpolation
  Run.pure (SampleHygrometer_humidityValue H_T_out H0_T0_out H1_T0_out H0_rh H1_rh)

/-- The second half of `SampleHygrometer`: the temperature reads.  The result is
the `u16` variable `value` of step 6, `none` when step 6 divides by zero. -/
def SampleHygrometer_temperature (env : Env) : Run (Option Nat) := do
  -- 1. Read from 0x32 & 0x33 registers the value of coefficients T0_degC_x8 and T1_degC_x8
  let b0 ← SampleHygrometer_read env HYGROMETER_REG_T0_degC_x8
    "ReadIicReg(HYGROMETER_REG_T0_degC_x8) -> 0x%08x\r\n"
  let b1 ← SampleHygrometer_read env HYGROMETER_REG_T1_degC_x8
    "ReadIicReg(HYGROMETER_REG_T1_degC_x8) -> 0x%08x\r\n"
  -- 2. Read from 0x35 register the value of the MSB bits of T1_degC and T0_degC
  let tmp5 ← SampleHygrometer_read env HYGROMETER_REG_T1_T0_MSB
    "ReadIicReg(HYGROMETER_REG_T1_T0_MSB) -> 0x%08x\r\n"
  -- Calculate the T0_degC and T1_degC values
  let T0_degC_x8_u16 : Nat := ((tmp5 &&& 0x03) <<< 8) ||| b0
  let T1_degC_x8_u16 : Nat := ((tmp5 &&& 0x0C) <<< 6) ||| b1
  let T0_degC : Int := ((T0_degC_x8_u16 >>> 3 : Nat) : Int)
  let T1_degC : Int := ((T1_degC_x8_u16 >>> 3 : Nat) : Int)
  -- 3. Read from 0x3C & 0x3D registers the value of T0_OUT
  -- 4. Read from 0x3E & 0x3F registers the value of T1_OUT
  let b0 ← SampleHygrometer_read env HYGROMETER_REG_T0_OUT_LSB
    "ReadIicReg(HYGROMETER_REG_T0_OUT_LSB) -> 0x%08x\r\n"
  let b1 ← SampleHygrometer_read env HYGROMETER_REG_T0_OUT_MSB
    "ReadIicReg(HYGROMETER_REG_T0_OUT_LSB) -> 0x%08x\r\n"
  let b2 ← SampleHygrometer_read env HYGROMETER_REG_T1_OUT_LSB
    "ReadIicReg(HYGROMETER_REG_T1_OUT_LSB) -> 0x%08x\r\n"
  let b3 ← SampleHygrometer_read env HYGROMETER_REG_T1_OUT_MSB
    "ReadIicReg(HYGROMETER_REG_T1_OUT_MSB) -> 0x%08x\r\n"
  let T0_out : Int := (((b1 <<< 8) ||| b0 : Nat) : Int)
  let T1_out : Int := (((b3 <<< 8) ||| b2 : Nat) : Int)
  -- 5. Read from 0x2A & 0x2B registers the value T_OUT (ADC_OUT).
  let b0 ← SampleHygrometer_read env HYGROMETER_REG_TEMP_OUT_L
    "ReadIicReg(HYGROMETER_REG_TEMP_OUT_L) -> 0x%08x\r\n"
  let b1 ← SampleHygrometer_read env HYGROMETER_REG_TEMP_OUT_H
    "ReadIicReg(HYGROMETER_REG_TEMP_OUT_H) -> 0x%08x\r\n"
  let T_out : Int := (((b1 <<< 8) ||| b0 : Nat) : Int)
  -- 6. Compute the Temperature value by linear interpolation
  Run.pure (SampleHygrometer_temperatureValue T_out T0_out T1_out T0_degC T1_degC)

/-- The function `SampleHygrometer`.  A division by zero ends the program
(`Except.error`); otherwise the function returns, by its end or by `L_DIE`. -/
def SampleHygrometer (env : Env) (w : World) : Except Fault World :=
  if w.sys.bHygrometerOk = 0 then Except.ok w
  else
    match SampleHygrometer_humidity env (w.setRc XST_SUCCESS) with
    | Res.die w1 => Except.ok w1
    | Res.ok none _ => Except.error Fault.divisionByZero
    | Res.ok (some value) w1 =>
      let w2 : World := { w1 with sys.fHygrometerHumidity := f32 value }
      match SampleHygrometer_temperature env w2 with
      | Res.die w3 => Except.ok w3
      | Res.ok none _ => Except.error Fault.divisionByZero
      | Res.ok (some value) w3 =>
        Except.ok { w3 with sys.fHygrometerTemperature := f32 value }

/-! ## Thermocouple sampling -/

/-- The loop `while (!(XSpi_ReadReg(.., XSP_SR_OFFSET) & XSP_SR_TX_EMPTY_MASK));`
of `XSpi_LowLevelExecute`, run for at most `fuel` reads. -/
def XSpi_LowLevelExecute_waitTx (env : Env) : Nat → World → Except Fault World
  | 0, _ => Except.error Fault.outOfFuel
  | fuel + 1, w =>
    let s := XSpi_ReadReg env XSP_SR_OFFSET w
    if s.1 &&& XSP_SR_TX_EMPTY_MASK ≠ 0 then Except.ok s.2
    else XSpi_LowLevelExecute_waitTx env fuel s.2

/-- The loop `while(xByteCount != XSpi_ReadReg(.., XSP_RFO_OFFSET)) ;` of
`XSpi_LowLevelExecute`, run for at most `fuel` reads; `expected` is the
decremented byte count as `u32`. -/
def XSpi_LowLevelExecute_waitRx (env : Env) (expected : Nat) : Nat → World → Except Fault World
  | 0, _ => Except.error Fault.outOfFuel
  | fuel + 1, w =>
    let s := XSpi_ReadReg env XSP_RFO_OFFSET w
    if expected ≠ s.1 then XSpi_LowLevelExecute_waitRx env expected fuel s.2
    else Except.ok s.2

/-- The loop of `XSpi_LowLevelExecute` that empties the receive FIFO into
`pqRxBuffer`, run for at most `fuel` rounds; the result is the buffer and
`xNumBytesRcvd`. -/
def XSpi_LowLevelExecute_drain (env : Env) :
    Nat → List Nat → Nat → World → Except Fault (List Nat × Nat × World)
  | 0, _, _, _ => Except.error Fault.outOfFuel
  | fuel + 1, pqRxBuffer, xNumBytesRcvd, w =>
    let s := XSpi_ReadReg env XSP_SR_OFFSET w
    if s.1 &&& XSP_SR_RX_EMPTY_MASK = 0 then
      let d := XSpi_ReadReg env XSP_DRR_OFFSET s.2
      if xNumBytesRcvd < pqRxBuffer.length then
        XSpi_LowLevelExecute_drain env fuel (pqRxBuffer.set xNumBytesRcvd d.1)
          (xNumBytesRcvd + 1) d.2
      else Except.error Fault.bufferOverrun
    else Except.ok (pqRxBuffer, xNumBytesRcvd, s.2)

/-- The function `XSpi_LowLevelExecute` on the controller at `PL_SPI_BASEADDR`.
Each of its three busy-wait loops may run for `fuel` rounds.  The result is
the receive buffer and the world. -/
def XSpi_LowLevelExecute (env : Env) (fuel : Nat) (xSPI_Channel xByteCount : Nat)
    (pqTxBuffer pqRxBuffer : List Nat) (w : World) : Except Fault (List Nat × World) :=
  -- Initialize the Tx FIFO with the transmit data contained in TxBuffer
  let w := (pqTxBuffer.take xByteCount).foldl (fun w v => XSpi_WriteReg XSP_DTR_OFFSET v w) w
  -- Assert the Slave Select, then wait a bit so it takes affect
  let w := XSpi_WriteReg XSP_SSR_OFFSET xSPI_Channel w
  let w := vTaskDelay 1 w
  -- Disable the Inhibit bit
  let w := XSpi_WriteReg XSP_CR_OFFSET MAX31855_CR_UNINHIBIT_MODE w
  match XSpi_LowLevelExecute_waitTx env fuel w with
  | Except.error f => Except.error f
  | Except.ok w =>
    match XSpi_LowLevelExecute_waitRx env (toU32 ((xByteCount : Int) - 1)) fuel w with
    | Except.error f => Except.error f
    | Except.ok w =>
      match XSpi_LowLevelExecute_drain env fuel pqRxBuffer 0 w with
      | Except.error f => Except.error f
      | Except.ok (pqRxBuffer, xNumBytesRcvd, w) =>
        -- Now that the Rx Data is retrieved, inhibit the AXI SPI Controller
        let w := XSpi_WriteReg XSP_CR_OFFSET MAX31855_CR_INIT_MODE w
        -- Deassert the Slave Select
        let w := XSpi_WriteReg XSP_SSR_OFFSET PL_SPI_CHANNEL_SEL_NONE w
        if xByteCount ≠ xNumBytesRcvd then
          Except.ok (pqRxBuffer,
            (w.setRc (mismatchRc xByteCount xNumBytesRcvd)).setErr
              "XSpi_LowLevelExecute() -> 0x%08x\r\n")
        else Except.ok (pqRxBuffer, w.setRc XST_SUCCESS)

/-- The fault test of `SamplePLTempSensor` on the received frame. -/
def SamplePLTempSensor_faults (pqRxBuffer : List Nat) (w : World) : World :=
  if XST_SUCCESS = w.sys.rc then
    if pqRxBuffer.getD 3 0 &&& 0x1 ≠ 0 then
      (w.setRc XST_FAILURE).setErr "Thermocouple: Open Circuit\r\n"
    else if pqRxBuffer.getD 3 0 &&& 0x2 ≠ 0 then
      (w.setRc XST_FAILURE).setErr "Thermocouple: Short to GND\r\n"
    else if pqRxBuffer.getD 3 0 &&& 0x4 ≠ 0 then
      (w.setRc XST_FAILURE).setErr "Thermocouple: Short to VCC\r\n"
    else if pqRxBuffer.getD 1 0 &&& 0x01 ≠ 0 then
      (w.setRc XST_FAILURE).setErr "Thermocouple: Fault\r\n"
    else w
  else w

/-- The raw internal (cold junction) temperature `sqTemporaryValue` of
`SamplePLTempSensor`, computed from the third and fourth received word. -/
def SamplePLTempSensor_internalRaw (rx2 rx3 : Nat) : Int :=
  let sqTemporaryValue : Nat := (rx2 <<< 4) % 2 ^ 32
  let sqTemporaryValue2 : Nat := toU32 (toS32 rx3 >>> 4)
  let sqTemporaryValue : Nat := sqTemporaryValue ||| sqTemporaryValue2
  let sqTemporaryValue : Nat :=
    if rx2 &&& 0x80 = 0x80 then sqTemporaryValue ||| 0xFFFFF800 else sqTemporaryValue
  toS32 sqTemporaryValue

/-- The raw thermocouple temperature `sqTemporaryValue` of `SamplePLTempSensor`,
computed from the first and second received word. -/
def SamplePLTempSensor_thermocoupleRaw (rx0 rx1 : Nat) : Int :=
  let sqTemporaryValue : Nat := (rx0 <<< 6) % 2 ^ 32
  let sqTemporaryValue2 : Nat := toU32 (toS32 rx1 >>> 2)
  let sqTemporaryValue : Nat := sqTemporaryValue ||| sqTemporaryValue2
  let sqTemporaryValue : Nat :=
    if rx0 &&& 0x80 = 0x80 then sqTemporaryValue ||| 0xFFFFE000 else sqTemporaryValue
  toS32 sqTemporaryValue

/-- The function `SamplePLTempSensor`.  The call of `XSpi_LowLevelExecute`, the
first statement of the `MAY_DIE` block, is written before the block. -/
def SamplePLTempSensor (env : Env) (fuel : Nat) (w : World) : Except Fault World :=
  if w.sys.bThermocoupleOk = 0 then Except.ok w
  else
    match XSpi_LowLevelExecute env fuel PL_SPI_CHANNEL_SEL_0 4 [0, 0, 0, 0]
        [0xFFFFFFFF, 0xFFFFFFFF, 0xFFFFFFFF, 0xFFFFFFFF] (w.setRc XST_SUCCESS) with
    | Except.error f => Except.error f
    | Except.ok (pqRxBuffer, w1) =>
      match MAY_DIE (fun w => ((), SamplePLTempSensor_faults pqRxBuffer w)) w1 with
      | Res.die w2 => Except.ok w2
      | Res.ok _ w2 =>
        Except.ok { w2 with
          sys.fThermocoupleBoardTemperature :=
            f32 (f32 (SamplePLTempSensor_internalRaw (pqRxBuffer.getD 2 0) (pqRxBuffer.getD 3 0))
              / 16)
          sys.fThermocoupleTemperature :=
            f32 (f32 (SamplePLTempSensor_thermocoupleRaw (pqRxBuffer.getD 0 0)
              (pqRxBuffer.getD 1 0)) / 4) }

/-! ## Devices used as concrete inputs -/

/-- An ideal IIC device: every transfer is complete, a read delivers the
registers `regs addr reg` starting at the register selected by the preceding
address write (bit 7 of which asks for auto-increment).  The SPI registers
read as zero. -/
def regEnv (regs : Nat → Nat → Nat) : Env where
  XIic_Send := fun _ _ buf _ => buf.length
  XIic_Recv := fun log addr count _ =>
    match log.getLast? with
    | some (Event.iicSend _ [r] _ _) =>
      (List.range count).map (fun i => regs addr ((r &&& 0x7F) + i))
    | _ => []
  XSpi_ReadReg := fun _ _ => 0

/-- Register contents of a healthy board: both identification registers hold
the expected value, every other register reads zero. -/
def healthyRegs : Nat → Nat → Nat := fun addr reg =>
  if addr = BAROMETER_SLAVE_ADDRESS ∧ reg = BAROMETER_REG_WHO_AM_I then 0xB1
  else if addr = HYGROMETER_SLAVE_ADDRESS ∧ reg = HYGROMETER_REG_WHO_AM_I then 0xBC
  else 0

/-- Register contents of a board whose barometer answers with a wrong identity
(0x00) while the hygrometer is healthy. -/
def wrongBarometerRegs : Nat → Nat → Nat := fun addr reg =>
  if addr = HYGROMETER_SLAVE_ADDRESS ∧ reg = HYGROMETER_REG_WHO_AM_I then 0xBC else 0

/-- The world in which `StartSystem` calls the three bring-up functions:
the zero-initialised global with `rc = XST_SUCCESS`, nothing logged yet. -/
def bootWorld : World := {}

/-- The three bring-up calls of `StartSystem`, in its order. -/
def StartSystem_sensors (env : Env) (w : World) : World :=
  StartHygrometer env (StartPLTempSensor (StartBarometer env w))

/-- True for the events that report a failure: the print of `MAY_DIE`, the
only print that carries an argument (the value of `rc`). -/
def Event.isFailureReport : Event → Bool
  | Event.print _ (_ :: _) => true
  | _ => false

/-- True for the transfers on the IIC bus and the accesses to the SPI controller. -/
def Event.isBus : Event → Bool
  | Event.iicSend _ _ _ _ => true
  | Event.iicRecv _ _ _ _ => true
  | Event.spiWrite _ _ => true
  | Event.spiRead _ _ => true
  | _ => false

/-- True for a register write on the IIC bus: a send that ends with a stop
condition (the address phase of a read ends with a repeated start). -/
def Event.isRegisterWrite : Event → Bool
  | Event.iicSend _ _ option _ => option == XIIC_STOP
  | _ => false

/-! ## Relations between the worlds of a run -/

/-- Every run of `m` relates the initial world, the final world and the way
the run ended (`true`: at its end, `false`: at `L_DIE`) by `R`. -/
def Run.Sat {α : Type} (R : World → World → Bool → Prop) (m : Run α) : Prop :=
  ∀ w, R w (m w).world (m w).isOk

/-- A relation under which runs can be chained. -/
structure Chains (R : World → World → Bool → Prop) : Prop where
  refl : ∀ w, R w w true
  trans : ∀ w w1 w2 b, R w w1 true → R w1 w2 b → R w w2 b

/-- Every run of `m` that reaches its end does so in a world with `P`. -/
def Run.OkPost {α : Type} (P : World → Prop) (m : Run α) : Prop :=
  ∀ w a w1, m w = Res.ok a w1 → P w1


/-- The second record differs from the first at most in the status fields
`rc`, `pcErr` and `bError`: flags, readings and calibration are the same. -/
def System.onlyStatus (s s1 : System) : Prop :=
  s1 = { s with rc := s1.rc, pcErr := s1.pcErr, bError := s1.bError }

/-- No event of the list reports a failure. -/
def noReport (l : List Event) : Bool := l.all (fun e => !e.isFailureReport)

/-- No event of the list is a bus access. -/
def noBus (l : List Event) : Bool := l.all (fun e => !e.isBus)

/-- No bus access follows a failure report anywhere in the list. -/
def quietAfterReport : List Event → Bool
  | [] => true
  | e :: l => (!e.isFailureReport || noBus l) && quietAfterReport l

/-- What a code block of a `MAY_DIE` does, from the world before it to the world
after it: it appends events in which no bus access follows a failure report,
and when it leaves `rc` at `XST_SUCCESS` it has reported no failure and has
not touched `bError`. -/
def CodeStep (w w1 : World) : Prop :=
  ∃ new, w1.log = w.log ++ new ∧ quietAfterReport new = true ∧
    (w1.sys.rc = XST_SUCCESS → noReport new = true ∧ w1.sys.bError = w.sys.bError)

/-- What a run of `MAY_DIE` blocks does: it appends events in which no bus access
follows a failure report; it reaches its end exactly when it has reported no
failure, and then it has not touched `bError` and has kept a successful `rc`;
when it jumps to `L_DIE` the `rc` is not `XST_SUCCESS` and `bError` is set. -/
def Step (w w1 : World) (ok : Bool) : Prop :=
  (∃ new, w1.log = w.log ++ new ∧ quietAfterReport new = true ∧ noReport new = ok) ∧
  (ok = true → w1.sys.bError = w.sys.bError ∧
    (w.sys.rc = XST_SUCCESS → w1.sys.rc = XST_SUCCESS)) ∧
  (ok = false → w1.sys.rc ≠ XST_SUCCESS ∧ w1.sys.bError = 1)

/-- A run changes the `System` record only within the frame `F`. -/
def Framed (F : System → System → Prop) (w w1 : World) (_ok : Bool) : Prop :=
  F w.sys w1.sys

/-- The second record differs from the first at most in the status fields and
in the stored calibration bytes. -/
def System.onlyStatusCal (s s1 : System) : Prop :=
  s1 = { s with rc := s1.rc, pcErr := s1.pcErr, bError := s1.bError,
                pbHygrometerCalibration := s1.pbHygrometerCalibration }

/-- The identification register of the device at `addr` can be read in the
world `w` and holds the byte `b`: `rc` is `XST_SUCCESS`, the device accepts the
register address and delivers exactly the byte `b`. -/
def readsIdentity (env : Env) (w : World) (addr b : Nat) : Prop :=
  w.sys.rc = XST_SUCCESS ∧
  env.XIic_Send w.log addr [0x0F] XIIC_REPEATED_START = 1 ∧
  env.XIic_Recv (w.log ++ [Event.iicSend addr [0x0F] XIIC_REPEATED_START 1]) addr 1 XIIC_STOP
    = [b]

/-- First failure wins, read off the events `new` that a bring-up function has
appended and the `enabled` flag and `rc` it returns with: behind a failure
report there is no bus access and the flag is false; the flag is true exactly
when no failure was reported, and then `rc` is `XST_SUCCESS`. -/
def firstFailureWins (new : List Event) (enabled : Nat) (rc : Int) : Prop :=
  (∀ pre e post, new = pre ++ e :: post → e.isFailureReport = true →
    (∀ x ∈ post, x.isBus = false) ∧ enabled = 0) ∧
  (enabled = 1 ↔ ∀ e ∈ new, e.isFailureReport = false) ∧
  (enabled = 1 → rc = XST_SUCCESS) ∧
  (enabled = 0 ∨ enabled = 1)

/-- Byte `k` of the two's complement encoding of `V` in `width` bits. -/
def encByte (width : Nat) (V : Int) (k : Nat) : Nat :=
  (V % ((2 ^ width : Nat) : Int)).toNat / 256 ^ k % 256

/-- The ten bus events of the five single-register reads that end a successful
barometer sample, with the bytes they delivered. -/
def barometerOutputReads (xl l h tl th : Nat) : List Event :=
  [Event.iicSend BAROMETER_SLAVE_ADDRESS [BAROMETER_REG_PRESS_OUT_XL] XIIC_REPEATED_START 1,
   Event.iicRecv BAROMETER_SLAVE_ADDRESS 1 XIIC_STOP [xl],
   Event.iicSend BAROMETER_SLAVE_ADDRESS [BAROMETER_REG_PRESS_OUT_L] XIIC_REPEATED_START 1,
   Event.iicRecv BAROMETER_SLAVE_ADDRESS 1 XIIC_STOP [l],
   Event.iicSend BAROMETER_SLAVE_ADDRESS [BAROMETER_REG_PRESS_OUT_H] XIIC_REPEATED_START 1,
   Event.iicRecv BAROMETER_SLAVE_ADDRESS 1 XIIC_STOP [h],
   Event.iicSend BAROMETER_SLAVE_ADDRESS [BAROMETER_REG_TEMP_OUT_L] XIIC_REPEATED_START 1,
   Event.iicRecv BAROMETER_SLAVE_ADDRESS 1 XIIC_STOP [tl],
   Event.iicSend BAROMETER_SLAVE_ADDRESS [BAROMETER_REG_TEMP_OUT_H] XIIC_REPEATED_START 1,
   Event.iicRecv BAROMETER_SLAVE_ADDRESS 1 XIIC_STOP [th]]

/-- Register contents given as a table of (device address, register, byte);
registers that are not listed read as zero. -/
def regsOf (table : List (Nat × Nat × Nat)) : Nat → Nat → Nat := fun addr reg =>
  match table.find? (fun e => e.1 == addr && e.2.1 == reg) with
  | some e => e.2.2
  | none => 0

/-- A world in which all three sensors are enabled, nothing logged yet. -/
def enabledWorld : World :=
  { sys := { bBarometerOk := pdTRUE, bHygrometerOk := pdTRUE, bThermocoupleOk := pdTRUE } }

/-- A barometer with data ready (status 0x03), pressure bytes 00 F0 FF (the
24-bit value -4096) and temperature bytes 2E FB (the 16-bit value -1234). -/
def barometerRegs : Nat → Nat → Nat :=
  regsOf [(BAROMETER_SLAVE_ADDRESS, BAROMETER_REG_STATUS_REG, 0x03),
    (BAROMETER_SLAVE_ADDRESS, BAROMETER_REG_PRESS_OUT_XL, 0x00),
    (BAROMETER_SLAVE_ADDRESS, BAROMETER_REG_PRESS_OUT_L, 0xF0),
    (BAROMETER_SLAVE_ADDRESS, BAROMETER_REG_PRESS_OUT_H, 0xFF),
    (BAROMETER_SLAVE_ADDRESS, BAROMETER_REG_TEMP_OUT_L, 0x2E),
    (BAROMETER_SLAVE_ADDRESS, BAROMETER_REG_TEMP_OUT_H, 0xFB)]

/-- The two bus events of a successful read of one register that delivered `b`. -/
def readEvents (addr reg b : Nat) : List Event :=
  [Event.iicSend addr [reg] XIIC_REPEATED_START 1, Event.iicRecv addr 1 XIIC_STOP [b]]

/-- The bus events of the eight register reads of the humidity decode, with the
bytes they delivered (named after the register numbers). -/
def hygrometerHumidityReads (b30 b31 b36 b37 b3A b3B b28 b29 : Nat) : List Event :=
  readEvents HYGROMETER_SLAVE_ADDRESS HYGROMETER_REG_H0_rH_x2 b30 ++
  readEvents HYGROMETER_SLAVE_ADDRESS HYGROMETER_REG_H1_rH_x2 b31 ++
  readEvents HYGROMETER_SLAVE_ADDRESS HYGROMETER_REG_H0_T0_OUT_LSB b36 ++
  readEvents HYGROMETER_SLAVE_ADDRESS HYGROMETER_REG_H0_T0_OUT_MSB b37 ++
  readEvents HYGROMETER_SLAVE_ADDRESS HYGROMETER_REG_H1_T0_OUT_LSB b3A ++
  readEvents HYGROMETER_SLAVE_ADDRESS HYGROMETER_REG_H1_T0_OUT_MSB b3B ++
  readEvents HYGROMETER_SLAVE_ADDRESS HYGROMETER_REG_HUMIDITY_OUT_L b28 ++
  readEvents HYGROMETER_SLAVE_ADDRESS HYGROMETER_REG_HUMIDITY_OUT_H b29

/-- The bus events of the nine register reads of the temperature decode, with
the bytes they delivered (named after the register numbers). -/
def hygrometerTemperatureReads (b32 b33 b35 b3C b3D b3E b3F b2A b2B : Nat) : List Event :=
  readEvents HYGROMETER_SLAVE_ADDRESS HYGROMETER_REG_T0_degC_x8 b32 ++
  readEvents HYGROMETER_SLAVE_ADDRESS HYGROMETER_REG_T1_degC_x8 b33 ++
  readEvents HYGROMETER_SLAVE_ADDRESS HYGROMETER_REG_T1_T0_MSB b35 ++
  readEvents HYGROMETER_SLAVE_ADDRESS HYGROMETER_REG_T0_OUT_LSB b3C ++
  readEvents HYGROMETER_SLAVE_ADDRESS HYGROMETER_REG_T0_OUT_MSB b3D ++
  readEvents HYGROMETER_SLAVE_ADDRESS HYGROMETER_REG_T1_OUT_LSB b3E ++
  readEvents HYGROMETER_SLAVE_ADDRESS HYGROMETER_REG_T1_OUT_MSB b3F ++
  readEvents HYGROMETER_SLAVE_ADDRESS HYGROMETER_REG_TEMP_OUT_L b2A ++
  readEvents HYGROMETER_SLAVE_ADDRESS HYGROMETER_REG_TEMP_OUT_H b2B

/-- The value `value` of the humidity decode as the code computes it from the
eight bytes it has read: `none` when the two anchors are equal. -/
def humidityOfBytes (b30 b31 b36 b37 b3A b3B b28 b29 : Nat) : Option Nat :=
  SampleHygrometer_humidityValue (((b29 <<< 8) ||| b28 : Nat) : Int)
    (((b37 <<< 8) ||| b36 : Nat) : Int) (((b3B <<< 8) ||| b3A : Nat) : Int)
    ((b30 >>> 1 : Nat) : Int) ((b31 >>> 1 : Nat) : Int)

/-- The value `value` of the temperature decode as the code computes it from the
nine bytes it has read: `none` when the two anchors are equal. -/
def temperatureOfBytes (b32 b33 b35 b3C b3D b3E b3F b2A b2B : Nat) : Option Nat :=
  SampleHygrometer_temperatureValue (((b2B <<< 8) ||| b2A : Nat) : Int)
    (((b3D <<< 8) ||| b3C : Nat) : Int) (((b3F <<< 8) ||| b3E : Nat) : Int)
    (((((b35 &&& 0x03) <<< 8) ||| b32) >>> 3 : Nat) : Int)
    (((((b35 &&& 0x0C) <<< 6) ||| b33) >>> 3 : Nat) : Int)

/-- True when the function returned (it did not end in a `Fault`). -/
def returned (r : Except Fault World) : Bool :=
  match r with
  | Except.ok _ => true
  | Except.error _ => false

/-- The world in which the function returned; the world `w` it started in when
it did not return. -/
def resultWorld (r : Except Fault World) (w : World) : World :=
  match r with
  | Except.ok w1 => w1
  | Except.error _ => w

/-- A 16-bit register pair read least significant byte first, as a number. -/
def le16 (lo hi : Nat) : Int := ((lo + 256 * hi : Nat) : Int)

/-- The interpolation `(OUT - OUT0) * (y1 - y0) / (OUT1 - OUT0) + y0` of the
spec, in integers, the division truncating toward zero. -/
def interpolationSpec (out out0 out1 y0 y1 : Int) : Int :=
  Int.tdiv ((out - out0) * (y1 - y0)) (out1 - out0) + y0

/-- The humidity that claim C7 states: the interpolation result, at most 1000. -/
def humiditySpec (H_OUT H0_OUT H1_OUT H0_rh H1_rh : Int) : Int :=
  min (interpolationSpec H_OUT H0_OUT H1_OUT H0_rh H1_rh) 1000

/-- A hygrometer with data ready and the calibration of the spec's example:
H0_rH_x2 = 80 and H1_rH_x2 = 160 (H0_rh = 40, H1_rh = 80), H0_OUT = 0,
H1_OUT = 1000, H_OUT = 500; T0_degC_x8 = 160, T1_degC_x8 = 240, T0_OUT = 0,
T1_OUT = 1000, T_OUT = 500. -/
def hygrometerRegs : Nat → Nat → Nat :=
  regsOf [(HYGROMETER_SLAVE_ADDRESS, HYGROMETER_REG_STATUS_REG, 0x03),
    (HYGROMETER_SLAVE_ADDRESS, HYGROMETER_REG_H0_rH_x2, 80),
    (HYGROMETER_SLAVE_ADDRESS, HYGROMETER_REG_H1_rH_x2, 160),
    (HYGROMETER_SLAVE_ADDRESS, HYGROMETER_REG_H1_T0_OUT_LSB, 0xE8),
    (HYGROMETER_SLAVE_ADDRESS, HYGROMETER_REG_H1_T0_OUT_MSB, 0x03),
    (HYGROMETER_SLAVE_ADDRESS, HYGROMETER_REG_HUMIDITY_OUT_L, 0xF4),
    (HYGROMETER_SLAVE_ADDRESS, HYGROMETER_REG_HUMIDITY_OUT_H, 0x01),
    (HYGROMETER_SLAVE_ADDRESS, HYGROMETER_REG_T0_degC_x8, 160),
    (HYGROMETER_SLAVE_ADDRESS, HYGROMETER_REG_T1_degC_x8, 240),
    (HYGROMETER_SLAVE_ADDRESS, HYGROMETER_REG_T1_OUT_LSB, 0xE8),
    (HYGROMETER_SLAVE_ADDRESS, HYGROMETER_REG_T1_OUT_MSB, 0x03),
    (HYGROMETER_SLAVE_ADDRESS, HYGROMETER_REG_TEMP_OUT_L, 0xF4),
    (HYGROMETER_SLAVE_ADDRESS, HYGROMETER_REG_TEMP_OUT_H, 0x01)]

/-- A hygrometer with data ready whose output lies below the first anchor:
H0_rh = 0, H1_rh = 1, H0_OUT = 1, H1_OUT = 2, H_OUT = 0, so that the humidity
interpolation gives -1; T0_degC = 0, T1_degC = 1, T0_OUT = 1, T1_OUT = 2,
T_OUT = 0, so that the temperature interpolation gives -1. -/
def belowAnchorRegs : Nat → Nat → Nat :=
  regsOf [(HYGROMETER_SLAVE_ADDRESS, HYGROMETER_REG_STATUS_REG, 0x03),
    (HYGROMETER_SLAVE_ADDRESS, HYGROMETER_REG_H1_rH_x2, 2),
    (HYGROMETER_SLAVE_ADDRESS, HYGROMETER_REG_H0_T0_OUT_LSB, 1),
    (HYGROMETER_SLAVE_ADDRESS, HYGROMETER_REG_H1_T0_OUT_LSB, 2),
    (HYGROMETER_SLAVE_ADDRESS, HYGROMETER_REG_T1_degC_x8, 8),
    (HYGROMETER_SLAVE_ADDRESS, HYGROMETER_REG_T0_OUT_LSB, 1),
    (HYGROMETER_SLAVE_ADDRESS, HYGROMETER_REG_T1_OUT_LSB, 2)]

/-- A hygrometer with data ready whose humidity anchors are one count apart:
H0_rh = 0, H1_rh = 2, H0_OUT = 0, H1_OUT = 1, H_OUT = 32768, so that the
humidity interpolation gives 65536; the temperature registers are those of
`hygrometerRegs`. -/
def steepAnchorRegs : Nat → Nat → Nat :=
  regsOf [(HYGROMETER_SLAVE_ADDRESS, HYGROMETER_REG_STATUS_REG, 0x03),
    (HYGROMETER_SLAVE_ADDRESS, HYGROMETER_REG_H1_rH_x2, 4),
    (HYGROMETER_SLAVE_ADDRESS, HYGROMETER_REG_H1_T0_OUT_LSB, 1),
    (HYGROMETER_SLAVE_ADDRESS, HYGROMETER_REG_HUMIDITY_OUT_H, 0x80),
    (HYGROMETER_SLAVE_ADDRESS, HYGROMETER_REG_T0_degC_x8, 160),
    (HYGROMETER_SLAVE_ADDRESS, HYGROMETER_REG_T1_degC_x8, 240),
    (HYGROMETER_SLAVE_ADDRESS, HYGROMETER_REG_T1_OUT_LSB, 0xE8),
    (HYGROMETER_SLAVE_ADDRESS, HYGROMETER_REG_T1_OUT_MSB, 0x03),
    (HYGROMETER_SLAVE_ADDRESS, HYGROMETER_REG_TEMP_OUT_L, 0xF4),
    (HYGROMETER_SLAVE_ADDRESS, HYGROMETER_REG_TEMP_OUT_H, 0x01)]

/-- The calibration temperature `T0_degC` as the code reconstructs it from the
register T0_degC_x8 (`b32`) and the register T1_T0_MSB (`b35`). -/
def T0_degC_of (b32 b35 : Nat) : Nat := (((b35 &&& 0x03) <<< 8) ||| b32) >>> 3

/-- The calibration temperature `T1_degC` as the code reconstructs it from the
register T1_degC_x8 (`b33`) and the register T1_T0_MSB (`b35`). -/
def T1_degC_of (b33 b35 : Nat) : Nat := (((b35 &&& 0x0C) <<< 6) ||| b33) >>> 3

/-- A hygrometer with data ready whose humidity lies above the second anchor:
H0_rh = 0, H1_rh = 100, H0_OUT = 0, H1_OUT = 1, H_OUT = 11, so that the humidity
interpolation gives 1100; the temperature registers are those of
`hygrometerRegs`. -/
def saturatedRegs : Nat → Nat → Nat :=
  regsOf [(HYGROMETER_SLAVE_ADDRESS, HYGROMETER_REG_STATUS_REG, 0x03),
    (HYGROMETER_SLAVE_ADDRESS, HYGROMETER_REG_H1_rH_x2, 200),
    (HYGROMETER_SLAVE_ADDRESS, HYGROMETER_REG_H1_T0_OUT_LSB, 1),
    (HYGROMETER_SLAVE_ADDRESS, HYGROMETER_REG_HUMIDITY_OUT_L, 11),
    (HYGROMETER_SLAVE_ADDRESS, HYGROMETER_REG_T0_degC_x8, 160),
    (HYGROMETER_SLAVE_ADDRESS, HYGROMETER_REG_T1_degC_x8, 240),
    (HYGROMETER_SLAVE_ADDRESS, HYGROMETER_REG_T1_OUT_LSB, 0xE8),
    (HYGROMETER_SLAVE_ADDRESS, HYGROMETER_REG_T1_OUT_MSB, 0x03),
    (HYGROMETER_SLAVE_ADDRESS, HYGROMETER_REG_TEMP_OUT_L, 0xF4),
    (HYGROMETER_SLAVE_ADDRESS, HYGROMETER_REG_TEMP_OUT_H, 0x01)]

/-- The faults of the thermocouple converter that the spec distinguishes. -/
inductive ThermocoupleFault where
  | OpenCircuit
  | ShortToGround
  | ShortToSupply
  | GenericFault
  deriving DecidableEq

/-- The text with which `SamplePLTempSensor` reports each fault. -/
def ThermocoupleFault.message : ThermocoupleFault → String
  | ThermocoupleFault.OpenCircuit => "Thermocouple: Open Circuit\r\n"
  | ThermocoupleFault.ShortToGround => "Thermocouple: Short to GND\r\n"
  | ThermocoupleFault.ShortToSupply => "Thermocouple: Short to VCC\r\n"
  | ThermocoupleFault.GenericFault => "Thermocouple: Fault\r\n"

/-- The fault of a received frame as the spec words it: the first, in the order
open-circuit (bit 0 of the fourth byte), short-to-ground (bit 1 of the fourth
byte), short-to-supply (bit 2 of the fourth byte), generic fault (bit 0 of the
second byte), whose bit is set; `none` when none of the four bits is set. -/
def faultSpec (frame : List Nat) : Option ThermocoupleFault :=
  if (frame.getD 3 0).testBit 0 then some ThermocoupleFault.OpenCircuit
  else if (frame.getD 3 0).testBit 1 then some ThermocoupleFault.ShortToGround
  else if (frame.getD 3 0).testBit 2 then some ThermocoupleFault.ShortToSupply
  else if (frame.getD 1 0).testBit 0 then some ThermocoupleFault.GenericFault
  else none

/-- The result of `XSpi_LowLevelExecute` when it returned: the receive buffer
and the world; the given buffer and world when it did not return. -/
def transferResult (r : Except Fault (List Nat × World)) (d : List Nat × World) :
    List Nat × World :=
  match r with
  | Except.ok p => p
  | Except.error _ => d

/-- An ideal SPI controller with the words of `frame` in its receive FIFO: the
transmit FIFO always reads empty, the occupancy register reads the number of
words less one, each read of the data register delivers the next word, and the
receive FIFO reads empty once all words have been read. -/
def spiEnv (frame : List Nat) : Env where
  XIic_Send := fun _ _ buf _ => buf.length
  XIic_Recv := fun _ _ count _ => List.replicate count 0
  XSpi_ReadReg := fun log offset =>
    let n := log.countP (fun e =>
      match e with
      | Event.spiRead o _ => o == XSP_DRR_OFFSET
      | _ => false)
    if offset = XSP_SR_OFFSET then
      XSP_SR_TX_EMPTY_MASK ||| (if n < frame.length then 0 else XSP_SR_RX_EMPTY_MASK)
    else if offset = XSP_RFO_OFFSET then frame.length - 1
    else if offset = XSP_DRR_OFFSET then frame.getD n 0
    else 0

/-- The bits `hi .. lo` of the two's complement encoding of `V` in `width` bits,
as a number. -/
def encBits (width : Nat) (V : Int) (hi lo : Nat) : Nat :=
  (V % ((2 ^ width : Nat) : Int)).toNat / 2 ^ lo % 2 ^ (hi + 1 - lo)

/-- True for a read of the receive data register of the SPI controller: one
word taken out of the receive FIFO. -/
def Event.isDataRead : Event → Bool
  | Event.spiRead offset _ => offset == XSP_DRR_OFFSET
  | _ => false

/-- The number of words that the events of the list took out of the receive
FIFO. -/
def receivedWords (l : List Event) : Nat := l.countP Event.isDataRead

/-- An SPI controller whose occupancy register always reads 3 (four words
received) although its receive FIFO holds the words of `frame` only. -/
def shortSpiEnv (frame : List Nat) : Env where
  XIic_Send := fun _ _ buf _ => buf.length
  XIic_Recv := fun _ _ count _ => List.replicate count 0
  XSpi_ReadReg := fun log offset =>
    let n := receivedWords log
    if offset = XSP_SR_OFFSET then
      XSP_SR_TX_EMPTY_MASK ||| (if n < frame.length then 0 else XSP_SR_RX_EMPTY_MASK)
    else if offset = XSP_RFO_OFFSET then 3
    else if offset = XSP_DRR_OFFSET then frame.getD n 0
    else 0

/-- A world in which all three sensors are enabled and hold readings of an
earlier tick, nothing logged yet. -/
def sampledWorld : World :=
  { sys := { bBarometerOk := pdTRUE, bHygrometerOk := pdTRUE, bThermocoupleOk := pdTRUE,
             fBarometerPressure := 1013, fBarometerTemperature := 21,
             fHygrometerHumidity := 45, fHygrometerTemperature := 22,
             fThermocoupleTemperature := 300, fThermocoupleBoardTemperature := 24 } }

/-! ## Publishing and the task loop -/

/-- Modelled from the spec: the publish sink returns success, failure or
timeout.  The numbers are those of the enumeration `MQTTAgentReturnCode_t` of
the MQTT agent, whose header is not among the sources. -/
abbrev eMQTTAgentSuccess : Nat := 0
/-- Modelled from the spec: the publish sink reports a failure. -/
abbrev eMQTTAgentFailure : Nat := 1
/-- Modelled from the spec: the publish sink reports a timeout. -/
abbrev eMQTTAgentTimeout : Nat := 2
/-- Modelled from the spec: the quality of service "at most once" (QoS 0) of
the MQTT agent, whose header is not among the sources. -/
abbrev eMQTTQoS0 : Nat := 0

abbrev LED_PIN : Nat := 47
abbrev SAMPLING_PERIOD_MS : Nat := 5000
abbrev UZedMAX_DATA_LENGTH : Nat := 256

/-- The call `XGpioPs_WritePin(&pSystem->gpio, pin, value)`. -/
def XGpioPs_WritePin (pin value : Nat) (w : World) : World :=
  w.emit (Event.gpioWritePin pin value)

/-- The function `BlinkLed`. -/
def BlinkLed (xCount xFinalOn : Nat) (w : World) : World :=
  if w.sys.gpioIsReady = 0 then w
  else
    let w := (List.range xCount).foldl (fun w _ =>
      let w := XGpioPs_WritePin LED_PIN 1 w
      let w := vTaskDelay 500 w
      let w := XGpioPs_WritePin LED_PIN 0 w
      vTaskDelay 500 w) w
    if xFinalOn ≠ 0 then XGpioPs_WritePin LED_PIN 1 w else w

/-- The call `configPRINTF( ( fmt, args ) )` with string arguments. -/
def configPRINTF_s (fmt : String) (args : List String) (w : World) : World :=
  w.emit (Event.printStr fmt args)

/-- The function `prvPublish` on the publish parameters topic, topic length,
quality of service, data and data length. -/
def prvPublish (env : Env) (pucTopic : String) (usTopicLength xQoS : Nat) (pvData : String)
    (ulDataLength : Nat) (w : World) : World :=
  let usTopicLength := if usTopicLength = 0 then pucTopic.length % 2 ^ 16 else usTopicLength
  if usTopicLength = 0 then w
  else
    let ulDataLength := if ulDataLength = 0 then pvData.length % 2 ^ 32 else ulDataLength
    if ulDataLength = 0 then w
    else
      -- Publish the message.
      let xReturned := env.MQTT_AGENT_Publish w.log pucTopic usTopicLength xQoS pvData ulDataLength
      let w := w.emit (Event.mqttPublish pucTopic usTopicLength xQoS pvData ulDataLength xReturned)
      if xReturned = eMQTTAgentSuccess then
        configPRINTF_s "Success: Published '%s'\r\n" [pucTopic, pvData] w
      else if xReturned = eMQTTAgentFailure then
        configPRINTF_s "ERROR: Failed to publish '%s'\r\n" [pucTopic, pvData] (BlinkLed 1 pdFALSE w)
      else if xReturned = eMQTTAgentTimeout then
        configPRINTF_s "ERROR: Timed out publishing '%s'\r\n" [pucTopic, pvData]
          (BlinkLed 1 pdFALSE w)
      else
        configPRINTF_s "ERROR: Unexpected callback publishing '%s'\r\n" [pucTopic, pvData]
          (BlinkLed 1 pdFALSE w)

/-- The text that `prvPublishShadow` composes for the error flag. -/
def prvPublishShadow_data (bError : Nat) : String :=
  "\x7b\"state\": \x7b \"desired\": \x7b\"led\":" ++ toString bError ++ "\x7d\x7d\x7d"

/-- The function `prvPublishShadow`; `snprintf` is taken not to fail, so the
branch for a negative length is left out. -/
def prvPublishShadow (env : Env) (w : World) : World :=
  if w.sys.xMQTTHandle = 0 then w
  else
    -- Compose the message
    let text := prvPublishShadow_data w.sys.bError
    let iDataLength := text.length
    let pcDataBuffer := text.take (UZedMAX_DATA_LENGTH - 1)
    let iDataLength :=
      if iDataLength ≥ UZedMAX_DATA_LENGTH then UZedMAX_DATA_LENGTH - 1 else iDataLength
    prvPublish env w.sys.pbShadowTopic w.sys.usShadowTopicLength eMQTTQoS0 pcDataBuffer
      iDataLength w

/-- The text that `prvPublishSensors` composes for the six readings. -/
def prvPublishSensors_data (env : Env) (s : System) : String :=
  "\x7b\n " ++
  "\"" ++ "Pressure" ++ "\": " ++ env.snprintf_f2 s.fBarometerPressure ++ ",\n" ++
  "\"" ++ "Pressure_Sensor_Temp" ++ "\": " ++ env.snprintf_f2 s.fBarometerTemperature ++ ",\n" ++
  "\"" ++ "Thermocouple_Temp" ++ "\": " ++ env.snprintf_f2 s.fThermocoupleTemperature ++ ",\n" ++
  "\"" ++ "Board_Temp_1" ++ "\": " ++ env.snprintf_f2 s.fThermocoupleBoardTemperature ++ ",\n" ++
  "\"" ++ "Relative_Humidity" ++ "\": " ++ env.snprintf_f2 s.fHygrometerHumidity ++ ",\n" ++
  "\"" ++ "Humidity_Sensor_Temp" ++ "\": " ++ env.snprintf_f2 s.fHygrometerTemperature ++ "\n" ++
  "\x7d"

/-- The function `prvPublishSensors`; `snprintf` is taken not to fail, so the
test for a negative length is left out. -/
def prvPublishSensors (env : Env) (w : World) : World :=
  if w.sys.xMQTTHandle = 0 then w
  else
    -- Compose the message
    let text := prvPublishSensors_data env w.sys
    let iDataLength := text.length
    if iDataLength ≥ UZedMAX_DATA_LENGTH then w.setBError 1
    else
      prvPublish env w.sys.pbSensorTopic w.sys.usSensorTopicLength eMQTTQoS0 text iDataLength w

/-- The call `vTaskDelayUntil( &xPreviousWakeTime, MS_TO_TICKS( ms ) )`. -/
def vTaskDelayUntil (ms : Nat) (w : World) : World := w.emit (Event.taskDelayUntil ms)

/-- The statements `pSystem->bError = 0; SampleBarometer(pSystem);
SamplePLTempSensor(pSystem); SampleHygrometer(pSystem);` of the loop of
`prvUZedIotTask`. -/
def prvUZedIotTask_samples (env : Env) (fuel : Nat) (w : World) : Except Fault World :=
  let w := w.setBError 0
  let w := SampleBarometer env w
  match SamplePLTempSensor env fuel w with
  | Except.error f => Except.error f
  | Except.ok w => SampleHygrometer env w

/-- The statement `if((pSystem->bLastReportedError != pSystem->bError) || bFirst)
{ ... }` of the loop of `prvUZedIotTask`. -/
def prvUZedIotTask_report (env : Env) (bFirst : Nat) (w : World) : World :=
  if w.sys.bLastReportedError ≠ w.sys.bError ∨ bFirst ≠ 0 then
    prvPublishShadow env { w with sys.bLastReportedError := w.sys.bError }
  else w

/-- One round of the loop of `prvUZedIotTask`; the result is the new value of
the local variable `bFirst` and the world. -/
def prvUZedIotTask_tick (env : Env) (fuel : Nat) (bFirst : Nat) (w : World) :
    Except Fault (Nat × World) :=
  -- Line up with next period boundary
  let w := vTaskDelayUntil SAMPLING_PERIOD_MS w
  -- Publish all sensors
  match prvUZedIotTask_samples env fuel w with
  | Except.error f => Except.error f
  | Except.ok w =>
    let w := prvPublishSensors env w
    let w := prvUZedIotTask_report env bFirst w
    Except.ok (0, w)

/-- The first `n` rounds of the loop `for(;;)` of `prvUZedIotTask`, entered with
the given value of `bFirst`; the result is the world at the end of each round. -/
def prvUZedIotTask_loop (env : Env) (fuel : Nat) : Nat → Nat → World → Except Fault (List World)
  | 0, _, _ => Except.ok []
  | n + 1, bFirst, w =>
    match prvUZedIotTask_tick env fuel bFirst w with
    | Except.error f => Except.error f
    | Except.ok (bFirst1, w1) =>
      match prvUZedIotTask_loop env fuel n bFirst1 w1 with
      | Except.error f => Except.error f
      | Except.ok ws => Except.ok (w1 :: ws)

/-- The second record differs from the first at most in the status fields
`rc`, `pcErr`, `bError` and in the six readings: the flags, the calibration, the
last reported error, the MQTT handle and the topics are the same. -/
def System.onlyStatusReadings (s s1 : System) : Prop :=
  s1 = { s with rc := s1.rc, pcErr := s1.pcErr, bError := s1.bError,
                fBarometerPressure := s1.fBarometerPressure,
                fBarometerTemperature := s1.fBarometerTemperature,
                fHygrometerHumidity := s1.fHygrometerHumidity,
                fHygrometerTemperature := s1.fHygrometerTemperature,
                fThermocoupleTemperature := s1.fThermocoupleTemperature,
                fThermocoupleBoardTemperature := s1.fThermocoupleBoardTemperature }

/-- Register contents of a board whose barometer holds the registers of
`barometerRegs` and whose hygrometer holds those of `hygrometerRegs`. -/
def boardRegs : Nat → Nat → Nat := fun addr reg =>
  if addr = BAROMETER_SLAVE_ADDRESS then barometerRegs addr reg else hygrometerRegs addr reg

/-- An ideal board: the IIC devices hold `boardRegs`, the SPI controller
delivers the words of `frame`. -/
def boardEnv (frame : List Nat) : Env :=
  { regEnv boardRegs with XSpi_ReadReg := (spiEnv frame).XSpi_ReadReg }

/-- True for the events of the sensor code: transfers on the IIC bus, accesses
to the SPI controller, delays and the prints of `configPRINTF` with numbers. -/
def Event.isSensorEvent : Event → Bool
  | Event.iicSend _ _ _ _ => true
  | Event.iicRecv _ _ _ _ => true
  | Event.spiWrite _ _ => true
  | Event.spiRead _ _ => true
  | Event.taskDelay _ => true
  | Event.print _ _ => true
  | _ => false

/-- True for a transfer on the IIC bus that moved another number of bytes than
it was asked to: a failed bus write or read. -/
def Event.isShortTransfer : Event → Bool
  | Event.iicSend _ buf _ sent => sent != buf.length
  | Event.iicRecv _ count _ data => data.length != count
  | _ => false

/-- What a code block of a `MAY_DIE` in a sample function does to the log: it
appends events of the sensor code, and when it leaves `rc` at `XST_SUCCESS` none
of its transfers was short. -/
def CodeTidy (w w1 : World) : Prop :=
  ∃ new, w1.log = w.log ++ new ∧ (∀ e ∈ new, e.isSensorEvent = true) ∧
    (w1.sys.rc = XST_SUCCESS → ∀ e ∈ new, e.isShortTransfer = false)

/-- What a run of `MAY_DIE` blocks in a sample function does to the log: it
appends events of the sensor code, and when it reaches its end none of its
transfers was short. -/
def Tidy (w w1 : World) (ok : Bool) : Prop :=
  ∃ new, w1.log = w.log ++ new ∧ (∀ e ∈ new, e.isSensorEvent = true) ∧
    (ok = true → ∀ e ∈ new, e.isShortTransfer = false)

/-- True for a publication on the given topic. -/
def Event.isPublishTo (topic : String) : Event → Bool
  | Event.mqttPublish t _ _ _ _ _ => t == topic
  | _ => false

/-- The number of publications on `topic` among the events of the list. -/
def publishesTo (topic : String) (l : List Event) : Nat := l.countP (Event.isPublishTo topic)

/-- The number of health payloads (publications on the shadow topic) among the
events logged between the two worlds. -/
def healthPublishes (before after : World) : Nat :=
  publishesTo after.sys.pbShadowTopic (after.log.drop before.log.length)

/-- The state in which `StartSystem` leaves the publish side when it returns:
the MQTT handle is not `NULL`, the shadow topic is not empty and is not the
sensor topic. -/
@[reducible] def connected (w : World) : Prop :=
  w.sys.xMQTTHandle ≠ 0 ∧
  (w.sys.usShadowTopicLength ≠ 0 ∨ w.sys.pbShadowTopic.length % 2 ^ 16 ≠ 0) ∧
  w.sys.pbShadowTopic ≠ w.sys.pbSensorTopic

/-- The edge-triggered health policy as the spec words it, run over the error
flags of a sequence of ticks: a health payload is published exactly when the
flag differs from the last reported flag or the tick is the first one, and the
last reported flag is updated only then.  The result gives, for each tick, the
number of health payloads published and the last reported flag after it. -/
def healthSpec : List Nat → Nat → Bool → List (Nat × Nat)
  | [], _, _ => []
  | flag :: flags, last, first =>
    if first ∨ flag ≠ last then (1, flag) :: healthSpec flags flag false
    else (0, last) :: healthSpec flags last false

/-- What the task loop did in each of its rounds, read off the worlds at the end
of the rounds: the number of health payloads published in the round and the
value of `bLastReportedError` at its end. -/
def healthObserved : World → List World → List (Nat × Nat)
  | _, [] => []
  | w, w1 :: ws => (healthPublishes w w1, w1.sys.bLastReportedError) :: healthObserved w1 ws

/-- The worlds at the end of the rounds of a loop that returned; none when it
did not return. -/
def loopResult (r : Except Fault (List World)) : List World :=
  match r with
  | Except.ok ws => ws
  | Except.error _ => []

/-- An SPI controller that delivers one frame of four words in every
transaction: the first three words are zero, the fourth word of the frame of
transaction `i` is entry `i` of `fourth`. -/
def tickSpiEnv (fourth : List Nat) : Env where
  XIic_Send := fun _ _ buf _ => buf.length
  XIic_Recv := fun _ _ count _ => List.replicate count 0
  XSpi_ReadReg := fun log offset =>
    let n := receivedWords log
    if offset = XSP_SR_OFFSET then
      XSP_SR_TX_EMPTY_MASK |||
        (if n % 4 = 0 ∧ (log.getLast?.map Event.isDataRead).getD false = true
         then XSP_SR_RX_EMPTY_MASK else 0)
    else if offset = XSP_RFO_OFFSET then 3
    else if offset = XSP_DRR_OFFSET then (if n % 4 = 3 then fourth.getD (n / 4) 0 else 0)
    else 0
  snprintf_f2 := fun _ => "0.00"

/-- A world as `StartSystem` leaves it when only the thermocouple is enabled:
the MQTT handle is set, the LED is usable and both topics are composed (for the
group "g"). -/
def connectedWorld : World :=
  { sys := { bThermocoupleOk := pdTRUE, xMQTTHandle := 1, gpioIsReady := 1,
             pbSensorTopic := "compressor/g-gateway-ultra96/cooling_system/1",
             usSensorTopicLength := 45,
             pbShadowTopic := "$aws/things/g-gateway-ultra96/shadow/update",
             usShadowTopicLength := 43 } }

/-- The result of a piece of code that ran to its end; `none` when it jumped to
`L_DIE`. -/
def Res.value? {α : Type} : Res α → Option α
  | Res.ok a _ => some a
  | Res.die _ => none

/-- A hygrometer that holds the registers of `hygrometerRegs` and answers every
read but the read of the calibration register T0_degC_x8, the first read of the
temperature decode, for which it delivers no byte. -/
def temperatureReadFailsEnv : Env where
  XIic_Send := fun _ _ buf _ => buf.length
  XIic_Recv := fun log addr count _ =>
    match log.getLast? with
    | some (Event.iicSend _ [r] _ _) =>
      if r = HYGROMETER_REG_T0_degC_x8 then []
      else (List.range count).map (fun i => hygrometerRegs addr ((r &&& 0x7F) + i))
    | _ => []
  XSpi_ReadReg := fun _ _ => 0

/-- A healthy hygrometer (identity 0xBC, boot bit cleared) that accepts every
write and answers every single-register read, but delivers no byte at all for a
read of more than one register. -/
def silentBurstEnv : Env where
  XIic_Send := fun _ _ buf _ => buf.length
  XIic_Recv := fun log addr count _ =>
    match log.getLast? with
    | some (Event.iicSend _ [r] _ _) =>
      if count > 1 then []
      else (List.range count).map (fun i => healthyRegs addr ((r &&& 0x7F) + i))
    | _ => []
  XSpi_ReadReg := fun _ _ => 0

/-- The events of the rounds of a poll of the register `reg` that delivered the
bytes `bs`, one byte per round, each round followed by the delay of one
millisecond. -/
def pollLog (addr reg : Nat) : List Nat → List Event
  | [] => []
  | b :: bs => readEvents addr reg b ++ [Event.taskDelay 1] ++ pollLog addr reg bs

/-- True when the device answers the successive reads of a poll of the register
`reg`, started with the history `log`, with the bytes `bs`: in every round it
accepts the register address and delivers exactly one byte. -/
def pollAnswers (env : Env) (addr reg : Nat) : List Event → List Nat → Bool
  | _, [] => true
  | log, b :: bs =>
    env.XIic_Send log addr [reg] XIIC_REPEATED_START == 1 &&
    env.XIic_Recv (log ++ [Event.iicSend addr [reg] XIIC_REPEATED_START 1]) addr 1 XIIC_STOP
      == [b] &&
    pollAnswers env addr reg (log ++ readEvents addr reg b ++ [Event.taskDelay 1]) bs

/-- True for the write of the address of the register `reg` that opens a read
of that register. -/
def Event.isReadOf (reg : Nat) : Event → Bool
  | Event.iicSend _ [r] _ _ => r == reg
  | _ => false

/-- A healthy board whose barometer shows the soft-reset bit of control register
2 set in the first `k - 1` reads of that register and clear from the `k`-th read
on; every write is accepted. -/
def slowResetEnv (k : Nat) : Env where
  XIic_Send := fun _ _ buf _ => buf.length
  XIic_Recv := fun log addr _ _ =>
    match log.getLast? with
    | some (Event.iicSend _ [r] _ _) =>
      if addr = BAROMETER_SLAVE_ADDRESS ∧ r = BAROMETER_REG_CTRL_REG2 then
        if log.countP (Event.isReadOf BAROMETER_REG_CTRL_REG2) < k
        then [BAROMETER_BFLD_SWRESET] else [0]
      else [healthyRegs addr r]
    | _ => []
  XSpi_ReadReg := fun _ _ => 0

/-- The history at the start of the soft-reset wait of `StartBarometer` when the
function was entered with the history `log`, the identification register held
0xB1 and the reset command was accepted. -/
def swresetLog (log : List Event) : List Event :=
  log ++ readEvents BAROMETER_SLAVE_ADDRESS BAROMETER_REG_WHO_AM_I 0xB1 ++
    [Event.iicSend BAROMETER_SLAVE_ADDRESS [BAROMETER_REG_CTRL_REG2, BAROMETER_BFLD_SWRESET]
      XIIC_STOP 2]

/-- An SPI controller that never reports its transmit FIFO empty: every one of
its registers reads zero.  The IIC bus is ideal and all its registers read zero. -/
def busySpiEnv : Env where
  XIic_Send := fun _ _ buf _ => buf.length
  XIic_Recv := fun _ _ count _ => List.replicate count 0
  XSpi_ReadReg := fun _ _ => 0

/-- An SPI controller that reports its transmit FIFO empty at once but whose
receive FIFO occupancy register stays at zero: no word ever arrives. -/
def noAnswerSpiEnv : Env where
  XIic_Send := fun _ _ buf _ => buf.length
  XIic_Recv := fun _ _ count _ => List.replicate count 0
  XSpi_ReadReg := fun _ offset =>
    if offset = XSP_SR_OFFSET then XSP_SR_TX_EMPTY_MASK ||| XSP_SR_RX_EMPTY_MASK else 0

/-- The fault in which a function ended; `none` when it returned. -/
def faultOf (r : Except Fault World) : Option Fault :=
  match r with
  | Except.ok _ => none
  | Except.error f => some f

/-- A hygrometer with data ready all of whose calibration and output registers
read zero: the humidity anchors H0_OUT and H1_OUT are equal. -/
def equalAnchorRegs : Nat → Nat → Nat :=
  regsOf [(HYGROMETER_SLAVE_ADDRESS, HYGROMETER_REG_STATUS_REG, 0x03)]

/-- A hygrometer with data ready and the humidity registers of `hygrometerRegs`
whose temperature anchors T0_OUT and T1_OUT both read zero. -/
def equalTemperatureAnchorRegs : Nat → Nat → Nat :=
  regsOf [(HYGROMETER_SLAVE_ADDRESS, HYGROMETER_REG_STATUS_REG, 0x03),
    (HYGROMETER_SLAVE_ADDRESS, HYGROMETER_REG_H0_rH_x2, 80),
    (HYGROMETER_SLAVE_ADDRESS, HYGROMETER_REG_H1_rH_x2, 160),
    (HYGROMETER_SLAVE_ADDRESS, HYGROMETER_REG_H1_T0_OUT_LSB, 0xE8),
    (HYGROMETER_SLAVE_ADDRESS, HYGROMETER_REG_H1_T0_OUT_MSB, 0x03),
    (HYGROMETER_SLAVE_ADDRESS, HYGROMETER_REG_HUMIDITY_OUT_L, 0xF4),
    (HYGROMETER_SLAVE_ADDRESS, HYGROMETER_REG_HUMIDITY_OUT_H, 0x01),
    (HYGROMETER_SLAVE_ADDRESS, HYGROMETER_REG_T0_degC_x8, 160),
    (HYGROMETER_SLAVE_ADDRESS, HYGROMETER_REG_T1_degC_x8, 240),
    (HYGROMETER_SLAVE_ADDRESS, HYGROMETER_REG_TEMP_OUT_L, 0xF4),
    (HYGROMETER_SLAVE_ADDRESS, HYGROMETER_REG_TEMP_OUT_H, 0x01)]

/-- The event of a register write of value `val` to the register `reg` that the
device at `addr` accepted in full. -/
def regWrite (addr reg val : Nat) : Event := Event.iicSend addr [reg, val] XIIC_STOP 2

/-- Every run of `m` that reaches its end has appended events whose register
writes are exactly those of `ws`, in that order. -/
def Run.WritesOk {α : Type} (m : Run α) (ws : List Event) : Prop :=
  ∀ w a w1, m w = Res.ok a w1 →
    ∃ new, w1.log = w.log ++ new ∧ new.filter Event.isRegisterWrite = ws

/-- Every run of `m` that reaches its end has appended events the last of which
is `e`. -/
def Run.EndsWith {α : Type} (m : Run α) (e : Event) : Prop :=
  ∀ w a w1, m w = Res.ok a w1 → ∃ pre, w1.log = w.log ++ pre ++ [e]

/-- The register writes of `StartBarometer` that precede its last one, in the
order of the source: soft reset, boot, the five configuration fields of control
register 2 and the seven configuration fields of control register 1. -/
def StartBarometer_configWrites : List Event :=
  [regWrite BAROMETER_SLAVE_ADDRESS BAROMETER_REG_CTRL_REG2 BAROMETER_BFLD_SWRESET,
   regWrite BAROMETER_SLAVE_ADDRESS BAROMETER_REG_CTRL_REG2 BAROMETER_BFLD_BOOT,
   regWrite BAROMETER_SLAVE_ADDRESS BAROMETER_REG_CTRL_REG2 BAROMETER_BFLD_ZEROBIT,
   regWrite BAROMETER_SLAVE_ADDRESS BAROMETER_REG_CTRL_REG2 BAROMETER_FIFO_ENABLE,
   regWrite BAROMETER_SLAVE_ADDRESS BAROMETER_REG_CTRL_REG2 BAROMETER_STOP_ON_FTH,
   regWrite BAROMETER_SLAVE_ADDRESS BAROMETER_REG_CTRL_REG2 BAROMETER_IF_ADD_INC,
   regWrite BAROMETER_SLAVE_ADDRESS BAROMETER_REG_CTRL_REG2 BAROMETER_I2C_DIS,
   regWrite BAROMETER_SLAVE_ADDRESS BAROMETER_REG_CTRL_REG1 BAROMETER_ODR_2,
   regWrite BAROMETER_SLAVE_ADDRESS BAROMETER_REG_CTRL_REG1 BAROMETER_ODR_1,
   regWrite BAROMETER_SLAVE_ADDRESS BAROMETER_REG_CTRL_REG1 BAROMETER_ODR_0,
   regWrite BAROMETER_SLAVE_ADDRESS BAROMETER_REG_CTRL_REG1 BAROMETER_ENABLE_LPFP,
   regWrite BAROMETER_SLAVE_ADDRESS BAROMETER_REG_CTRL_REG1 BAROMETER_LPFP_CFG,
   regWrite BAROMETER_SLAVE_ADDRESS BAROMETER_REG_CTRL_REG1 BAROMETER_BDU,
   regWrite BAROMETER_SLAVE_ADDRESS BAROMETER_REG_CTRL_REG1 BAROMETER_SIM]

/-- True for the transfers to a device (`XIic_Send`) whose address, bytes and
option satisfy `q`, whatever the number of bytes the device accepted. -/
def Event.sendIs (q : Nat → List Nat → Nat → Bool) : Event → Bool
  | Event.iicSend addr buf option _ => q addr buf option
  | _ => false

/-- Every run of `m`, however it ends, appends events of which at most `k` are
transfers to a device with `q`. -/
def Run.Sends {α : Type} (q : Nat → List Nat → Nat → Bool) (m : Run α) (k : Nat) : Prop :=
  ∀ w, ∃ new, (m w).world.log = w.log ++ new ∧ new.countP (Event.sendIs q) ≤ k

/-- What a code block of a `MAY_DIE` does to the log: it appends events of which
at most `k` are transfers to a device with `q`. -/
def CodeSends (q : Nat → List Nat → Nat → Bool) (w w1 : World) (k : Nat) : Prop :=
  ∃ new, w1.log = w.log ++ new ∧ new.countP (Event.sendIs q) ≤ k

/-- The address phase of a read that starts at one of the registers of `regs`. -/
def isReadIn (regs : List Nat) : Nat → List Nat → Nat → Bool := fun _ buf option =>
  option == XIIC_REPEATED_START && regs.any (fun r => buf == [r])

/-- A transfer that ends with a stop condition: a register write. -/
def isWrite : Nat → List Nat → Nat → Bool := fun _ _ option => option == XIIC_STOP

/-- The register number that `ReadIicRegs` sends for a read of more than one
register starting at `reg`: bit 7 asks the device to increment the address. -/
def burstReg (reg : Nat) : Nat := (reg ||| 0x80) % 256

/-- The five output registers of the barometer. -/
def barometerOutputRegs : List Nat :=
  [BAROMETER_REG_PRESS_OUT_XL, BAROMETER_REG_PRESS_OUT_L, BAROMETER_REG_PRESS_OUT_H,
   BAROMETER_REG_TEMP_OUT_L, BAROMETER_REG_TEMP_OUT_H]

/-- A transfer of `SampleBarometer` that is none of the four kinds it is made
of: the register write, the reads of control register 2, the reads of the
status register and the reads of the output registers. -/
def isOtherTransfer : Nat → List Nat → Nat → Bool := fun addr buf option =>
  !(isWrite addr buf option || isReadIn [BAROMETER_REG_CTRL_REG2] addr buf option ||
    isReadIn [burstReg BAROMETER_REG_STATUS_REG] addr buf option ||
    isReadIn barometerOutputRegs addr buf option)

/-- The number of transfers with `q` that the text of `SampleBarometer` allows:
one register write, two polls of at most 50 reads each and five reads of the
output registers. -/
def SampleBarometer_sendBound (q : Nat → List Nat → Nat → Bool) : Nat :=
  (q BAROMETER_SLAVE_ADDRESS [BAROMETER_REG_CTRL_REG2, BAROMETER_BFLD_ONE_SHOT] XIIC_STOP).toNat +
  50 * (q BAROMETER_SLAVE_ADDRESS [BAROMETER_REG_CTRL_REG2] XIIC_REPEATED_START).toNat +
  50 * (q BAROMETER_SLAVE_ADDRESS [burstReg BAROMETER_REG_STATUS_REG]
    XIIC_REPEATED_START).toNat +
  ((q BAROMETER_SLAVE_ADDRESS [BAROMETER_REG_PRESS_OUT_XL] XIIC_REPEATED_START).toNat +
   (q BAROMETER_SLAVE_ADDRESS [BAROMETER_REG_PRESS_OUT_L] XIIC_REPEATED_START).toNat +
   (q BAROMETER_SLAVE_ADDRESS [BAROMETER_REG_PRESS_OUT_H] XIIC_REPEATED_START).toNat +
   (q BAROMETER_SLAVE_ADDRESS [BAROMETER_REG_TEMP_OUT_L] XIIC_REPEATED_START).toNat +
   (q BAROMETER_SLAVE_ADDRESS [BAROMETER_REG_TEMP_OUT_H] XIIC_REPEATED_START).toNat)

/-- The telemetry record as the spec words it: six named numeric fields, in the
fixed order pressure, temperature of the pressure sensor, thermocouple
temperature, board temperature of the thermocouple, relative humidity,
temperature of the humidity sensor, each with the reading currently stored. -/
def telemetryRecord (s : System) : List (String × ℚ) :=
  [("Pressure", s.fBarometerPressure),
   ("Pressure_Sensor_Temp", s.fBarometerTemperature),
   ("Thermocouple_Temp", s.fThermocoupleTemperature),
   ("Board_Temp_1", s.fThermocoupleBoardTemperature),
   ("Relative_Humidity", s.fHygrometerHumidity),
   ("Humidity_Sensor_Temp", s.fHygrometerTemperature)]

/-- The text of one field of a record: the name in quotes, a colon and the
number as `fmt` prints it. -/
def renderField (fmt : ℚ → String) (f : String × ℚ) : String :=
  "\"" ++ f.1 ++ "\": " ++ fmt f.2

/-- The fields of a record, one a line, separated by commas. -/
def renderFields (fmt : ℚ → String) : List (String × ℚ) → String
  | [] => ""
  | [f] => renderField fmt f
  | f :: fs => renderField fmt f ++ ",\n" ++ renderFields fmt fs

/-- The text of a record: one object whose members are the fields of the
record, in their order. -/
def renderRecord (fmt : ℚ → String) (fields : List (String × ℚ)) : String :=
  "\x7b\n " ++ renderFields fmt fields ++ "\n\x7d"

/-! ## Two runs on buses that answer alike -/

/-- A relation between two histories that lasts when the same event is added
to both. -/
def Grows (L : List Event → List Event → Prop) : Prop :=
  ∀ l l1 e, L l l1 → L (l ++ [e]) (l1 ++ [e])

/-- Two buses that give the same answers on histories related by `L`: the IIC
transfers and the reads of the SPI controller. -/
def Env.alike (L : List Event → List Event → Prop) (env env1 : Env) : Prop :=
  Grows L ∧
  (∀ l l1 a b o, L l l1 → env.XIic_Send l a b o = env1.XIic_Send l1 a b o) ∧
  (∀ l l1 a n o, L l l1 → env.XIic_Recv l a n o = env1.XIic_Recv l1 a n o) ∧
  (∀ l l1 r, L l l1 → env.XSpi_ReadReg l r = env1.XSpi_ReadReg l1 r)

/-- Two worlds with histories related by `L` in both of which `rc` is
`XST_SUCCESS`; the other fields of the two `System` records may differ. -/
def sameHistory (L : List Event → List Event → Prop) (w w1 : World) : Prop :=
  L w.log w1.log ∧ w.sys.rc = XST_SUCCESS ∧ w1.sys.rc = XST_SUCCESS

/-- Two code blocks of a `MAY_DIE` that do the same in worlds with related
histories: the same result, related histories, the same `rc`, and the same
message when `rc` is not `XST_SUCCESS`. -/
def CodeSame {α : Type} (L : List Event → List Event → Prop)
    (code code1 : World → α × World) : Prop :=
  ∀ w w1, sameHistory L w w1 →
    (code w).1 = (code1 w1).1 ∧ L (code w).2.log (code1 w1).2.log ∧
    (code w).2.sys.rc = (code1 w1).2.sys.rc ∧
    ((code w).2.sys.rc ≠ XST_SUCCESS → (code w).2.sys.pcErr = (code1 w1).2.sys.pcErr)

/-- Two runs that do the same in worlds with related histories: they end the
same way, with the same result, related histories and the same `rc`. -/
def Run.Same {α : Type} (L : List Event → List Event → Prop) (m m1 : Run α) : Prop :=
  ∀ w w1, sameHistory L w w1 →
    (∀ a v, m w = Res.ok a v → ∃ v1, m1 w1 = Res.ok a v1 ∧ sameHistory L v v1) ∧
    (∀ v, m w = Res.die v →
      ∃ v1, m1 w1 = Res.die v1 ∧ L v.log v1.log ∧ v.sys.rc = v1.sys.rc)

/-- The histories that extend `l` and `l1` by the same events. -/
def sameSince (l l1 : List Event) (k k1 : List Event) : Prop :=
  ∃ new, k = l ++ new ∧ k1 = l1 ++ new

/-- Two results of a function that may fail to return: the same fault, or two
values related by `R`. -/
def sameOutcome {α : Type} (R : α → α → Prop) : Except Fault α → Except Fault α → Prop
  | Except.error f, Except.error f1 => f = f1
  | Except.ok a, Except.ok a1 => R a a1
  | _, _ => False

/-- The two readings of the barometer. -/
def System.barometerReadings (s : System) : ℚ × ℚ :=
  (s.fBarometerPressure, s.fBarometerTemperature)

/-- The two readings of the hygrometer. -/
def System.hygrometerReadings (s : System) : ℚ × ℚ :=
  (s.fHygrometerHumidity, s.fHygrometerTemperature)

/-- The two readings of the thermocouple. -/
def System.thermocoupleReadings (s : System) : ℚ × ℚ :=
  (s.fThermocoupleTemperature, s.fThermocoupleBoardTemperature)

/-- The registers of `hygrometerRegs` with another calibration byte H1_rH_x2
(200 for 160, so H1_rh = 100 for 80); the output registers H_OUT and T_OUT and
every other register are the same. -/
def driftedCalibrationRegs : Nat → Nat → Nat := fun addr reg =>
  if addr = HYGROMETER_SLAVE_ADDRESS ∧ reg = HYGROMETER_REG_H1_rH_x2 then 200
  else hygrometerRegs addr reg

/-- A world with all sensors enabled whose stored calibration bytes are the
sixteen calibration registers of `hygrometerRegs`, as a bring-up on that device
stores them. -/
def calibratedWorld : World :=
  { enabledWorld with
    sys.pbHygrometerCalibration := (List.range 16).map (fun i =>
      hygrometerRegs HYGROMETER_SLAVE_ADDRESS (HYGROMETER_REG_CALIB_0 + i)) }

/-- The world a failed earlier sample leaves behind: all sensors enabled, `rc`
a failure code, its message, `bError` set and the failure report logged. -/
def failedWorld : World :=
  { enabledWorld with
    sys.rc := XST_FAILURE
    sys.pcErr := "Timed out waiting for P_DA and T_DA\r\n"
    sys.bError := 1
    sys.fBarometerPressure := 1013
    log := [Event.print "Timed out waiting for P_DA and T_DA\r\n" [XST_FAILURE]] }

/-! # Theorems -/

/-! ## Reasoning about runs -/

theorem Run.bind_eq {α β : Type} (m : Run α) (f : α → Run β) : (m >>= f) = Run.bind m f := rfl

theorem Run.pure_eq {α : Type} (a : α) : (Pure.pure a : Run α) = Run.pure a := rfl

theorem Run.Sat.ofPure {α : Type} {R : World → World → Bool → Prop} (hR : Chains R) (a : α) :
    Run.Sat R (Run.pure a) := fun w => hR.refl w

theorem Run.Sat.ofPureUnit {R : World → World → Bool → Prop} (hR : Chains R) :
    Run.Sat R (Pure.pure PUnit.unit : Run PUnit) := fun w => hR.refl w

theorem Run.Sat.ofBind {α β : Type} {R : World → World → Bool → Prop} (hR : Chains R)
    {m : Run α} {f : α → Run β} (hm : Run.Sat R m) (hf : ∀ a, Run.Sat R (f a)) :
    Run.Sat R (m >>= f) := by
  intro w
  have h1 := hm w
  rw [Run.bind_eq]
  unfold Run.bind
  cases h : m w with
  | ok a w1 =>
    rw [h] at h1
    exact hR.trans _ _ _ _ h1 (hf a w1)
  | die w1 =>
    rw [h] at h1
    exact h1

theorem Run.Sat.ofIte {α : Type} {R : World → World → Bool → Prop} {c : Prop} [Decidable c]
    {m n : Run α} (hm : Run.Sat R m) (hn : Run.Sat R n) :
    Run.Sat R (if c then m else n) := by
  split
  · exact hm
  · exact hn

theorem Run.Sat.ofForTimeout {α : Type} {R : World → World → Bool → Prop} (hR : Chains R)
    {read : α → World → α × World} {done : α → Bool}
    (hread : ∀ b, Run.Sat R (MAY_DIE (read b)))
    (hdelay : Run.Sat R (Run.exec (vTaskDelay 1))) (n : Nat) (b : α) :
    Run.Sat R (forTimeout read done n b) := by
  induction n generalizing b with
  | zero => exact Run.Sat.ofPure hR _
  | succ n ih =>
    unfold UzedIot.forTimeout
    refine Run.Sat.ofBind hR (hread b) (fun b1 => ?_)
    split
    · exact Run.Sat.ofPure hR _
    · exact Run.Sat.ofBind hR hdelay (fun _ => ih b1)

theorem Run.bind_ok {α β : Type} {m : Run α} {f : α → Run β} {w w2 : World} {b : β}
    (h : (m >>= f) w = Res.ok b w2) : ∃ a w1, m w = Res.ok a w1 ∧ f a w1 = Res.ok b w2 := by
  rw [Run.bind_eq] at h
  unfold Run.bind at h
  cases hm : m w with
  | ok a w1 =>
    rw [hm] at h
    exact ⟨a, w1, rfl, h⟩
  | die w1 =>
    rw [hm] at h
    cases h

theorem Run.bind_die {α β : Type} {m : Run α} {f : α → Run β} {w w1 : World}
    (h : m w = Res.die w1) : (m >>= f) w = Res.die w1 := by
  rw [Run.bind_eq]
  unfold Run.bind
  rw [h]

theorem Run.bind_of_ok {α β : Type} {m : Run α} {f : α → Run β} {w w1 : World} {a : α}
    (h : m w = Res.ok a w1) : (m >>= f) w = f a w1 := by
  rw [Run.bind_eq]
  unfold Run.bind
  rw [h]

theorem MAY_DIE_ok {α : Type} {code : World → α × World} {w w1 : World} {a : α}
    (h : MAY_DIE code w = Res.ok a w1) :
    (code w).2.sys.rc = XST_SUCCESS ∧ a = (code w).1 ∧ w1 = (code w).2 := by
  unfold MAY_DIE at h
  by_cases hrc : (code w).2.sys.rc ≠ XST_SUCCESS
  · rw [if_pos hrc] at h
    cases h
  · rw [if_neg hrc] at h
    cases h
    exact ⟨not_not.mp hrc, rfl, rfl⟩

theorem MAY_DIE_of_rc_ne {α : Type} {code : World → α × World} {w : World}
    (h : (code w).2.sys.rc ≠ XST_SUCCESS) :
    MAY_DIE code w =
      Res.die (configPRINTF (code w).2.sys.pcErr [(code w).2.sys.rc] ((code w).2.setBError 1)) := by
  unfold MAY_DIE
  rw [if_pos h]

theorem MAY_DIE_of_rc_eq {α : Type} {code : World → α × World} {w : World}
    (h : (code w).2.sys.rc = XST_SUCCESS) : MAY_DIE code w = Res.ok (code w).1 (code w).2 := by
  unfold MAY_DIE
  rw [if_neg (not_not.mpr h)]

/-! ## Setters and projections -/

@[simp] theorem World.emit_sys (e : Event) (w : World) : (w.emit e).sys = w.sys := rfl
@[simp] theorem World.emit_log (e : Event) (w : World) : (w.emit e).log = w.log ++ [e] := rfl
@[simp] theorem World.setRc_log (r : Int) (w : World) : (w.setRc r).log = w.log := rfl
@[simp] theorem World.setRc_rc (r : Int) (w : World) : (w.setRc r).sys.rc = r := rfl
@[simp] theorem World.setRc_pcErr (r : Int) (w : World) :
    (w.setRc r).sys.pcErr = w.sys.pcErr := rfl
@[simp] theorem World.setRc_bError (r : Int) (w : World) :
    (w.setRc r).sys.bError = w.sys.bError := rfl
@[simp] theorem World.setErr_log (m : String) (w : World) : (w.setErr m).log = w.log := rfl
@[simp] theorem World.setErr_rc (m : String) (w : World) : (w.setErr m).sys.rc = w.sys.rc := rfl
@[simp] theorem World.setErr_pcErr (m : String) (w : World) : (w.setErr m).sys.pcErr = m := rfl
@[simp] theorem World.setErr_bError (m : String) (w : World) :
    (w.setErr m).sys.bError = w.sys.bError := rfl
@[simp] theorem World.setBError_log (b : Nat) (w : World) : (w.setBError b).log = w.log := rfl
@[simp] theorem World.setBError_rc (b : Nat) (w : World) :
    (w.setBError b).sys.rc = w.sys.rc := rfl
@[simp] theorem World.setBError_pcErr (b : Nat) (w : World) :
    (w.setBError b).sys.pcErr = w.sys.pcErr := rfl
@[simp] theorem World.setBError_bError (b : Nat) (w : World) :
    (w.setBError b).sys.bError = b := rfl
@[simp] theorem configPRINTF_sys (f : String) (a : List Int) (w : World) :
    (configPRINTF f a w).sys = w.sys := rfl
@[simp] theorem configPRINTF_log (f : String) (a : List Int) (w : World) :
    (configPRINTF f a w).log = w.log ++ [Event.print f a] := rfl
@[simp] theorem vTaskDelay_sys (n : Nat) (w : World) : (vTaskDelay n w).sys = w.sys := rfl
@[simp] theorem vTaskDelay_log (n : Nat) (w : World) :
    (vTaskDelay n w).log = w.log ++ [Event.taskDelay n] := rfl

theorem System.onlyStatus.same (s : System) : s.onlyStatus s := rfl

theorem System.onlyStatus.next {s s1 s2 : System} (h1 : s.onlyStatus s1)
    (h2 : s1.onlyStatus s2) : s.onlyStatus s2 := by
  unfold System.onlyStatus at *
  rw [h2, h1]

@[simp] theorem World.setRc_onlyStatus (r : Int) (w : World) :
    w.sys.onlyStatus (w.setRc r).sys := rfl
@[simp] theorem World.setErr_onlyStatus (m : String) (w : World) :
    w.sys.onlyStatus (w.setErr m).sys := rfl
@[simp] theorem World.setBError_onlyStatus (b : Nat) (w : World) :
    w.sys.onlyStatus (w.setBError b).sys := rfl

theorem System.onlyStatus.toCal {s s1 : System} (h : s.onlyStatus s1) : s.onlyStatusCal s1 := by
  unfold System.onlyStatus at h
  unfold System.onlyStatusCal
  rw [h]

theorem System.onlyStatusCal.sameCal (s : System) : s.onlyStatusCal s := rfl

theorem System.onlyStatusCal.nextCal {s s1 s2 : System} (h1 : s.onlyStatusCal s1)
    (h2 : s1.onlyStatusCal s2) : s.onlyStatusCal s2 := by
  unfold System.onlyStatusCal at *
  rw [h2, h1]

/-! ## The failure code of a short transfer -/

theorem mismatchRc_eq (x n : Nat) : mismatchRc x n = ((16 * (x % 16) + n % 16 : Nat) : Int) := by
  unfold mismatchRc
  have h1 : x &&& 0xf = x % 16 := Nat.and_pow_two_sub_one_eq_mod x 4
  have h2 : n &&& 0xf = n % 16 := Nat.and_pow_two_sub_one_eq_mod n 4
  rw [h1, h2, Nat.shiftLeft_eq, Nat.mul_comm]
  have h3 : n % 16 < 2 ^ 4 := Nat.mod_lt _ (by norm_num)
  have h4 := Nat.mul_add_lt_is_or h3 (x % 16)
  rw [← h4]

theorem mismatchRc_ne_zero (x n : Nat) (h : n % 16 ≠ 0) : mismatchRc x n ≠ XST_SUCCESS := by
  rw [mismatchRc_eq]
  show ((16 * (x % 16) + n % 16 : Nat) : Int) ≠ 0
  omega

/-! ## The IIC helpers in normal form -/

theorem ReadIicRegs_eq (env : Env) (a n r : Nat) (buf : List Nat) (w : World) :
    ReadIicRegs env a n r buf w =
      (let reg := if n > 1 then (r ||| 0x80) % 256 else r
       let sent := env.XIic_Send w.log a [reg] XIIC_REPEATED_START
       let w1 := w.emit (Event.iicSend a [reg] XIIC_REPEATED_START sent)
       let data := env.XIic_Recv w1.log a n XIIC_STOP
       let w2 := w1.emit (Event.iicRecv a n XIIC_STOP data)
       if 1 ≠ sent then
         (buf, configPRINTF "ReadIicRegs::XIic_Send(Addr) -> 0x%08x\r\n" [1]
           ((((w1.setRc 1).setErr "ReadIicRegs::XIic_Send(Addr) -> 0x%08x\r\n")).setBError 1))
       else if w.sys.rc ≠ XST_SUCCESS then
         (buf, configPRINTF w.sys.pcErr [w.sys.rc] (w1.setBError 1))
       else if data.length ≠ n ∧ mismatchRc data.length n ≠ XST_SUCCESS then
         (deposit buf n data,
           configPRINTF "ReadIicRegs::XIic_Recv(Data) -> 0x%08x\r\n" [mismatchRc data.length n]
             (((w2.setRc (mismatchRc data.length n)).setErr
               "ReadIicRegs::XIic_Recv(Data) -> 0x%08x\r\n").setBError 1))
       else if data.length ≠ n then
         (deposit buf n data,
           (w2.setRc (mismatchRc data.length n)).setErr
               "ReadIicRegs::XIic_Recv(Data) -> 0x%08x\r\n")
       else (deposit buf n data, w2)) := by
  unfold ReadIicRegs MAY_DIE XIic_Send XIic_Recv
  simp only []
  by_cases h1 : 1 ≠ env.XIic_Send w.log a [if n > 1 then (r ||| 0x80) % 256 else r]
      XIIC_REPEATED_START
  · simp [h1]
  · by_cases h2 : w.sys.rc ≠ XST_SUCCESS
    · simp [h1, h2]
    · simp only [ne_eq, not_not] at h2
      by_cases h3 : (env.XIic_Recv (w.log ++ [Event.iicSend a
          [if n > 1 then (r ||| 0x80) % 256 else r] XIIC_REPEATED_START
          (env.XIic_Send w.log a [if n > 1 then (r ||| 0x80) % 256 else r]
            XIIC_REPEATED_START)]) a n XIIC_STOP).length ≠ n
      · by_cases h4 : mismatchRc (env.XIic_Recv (w.log ++ [Event.iicSend a
          [if n > 1 then (r ||| 0x80) % 256 else r] XIIC_REPEATED_START
          (env.XIic_Send w.log a [if n > 1 then (r ||| 0x80) % 256 else r]
            XIIC_REPEATED_START)]) a n XIIC_STOP).length n ≠ XST_SUCCESS
        · simp [h1, h2, h3, h4]
        · simp [h1, h2, h3, h4]
      · simp [h1, h2, h3]

theorem WriteIicReg_eq (env : Env) (a r v : Nat) (w : World) :
    WriteIicReg env a r v w =
      (let sent := env.XIic_Send w.log a [r, v] XIIC_STOP
       let w1 := w.emit (Event.iicSend a [r, v] XIIC_STOP sent)
       if 2 ≠ sent then
         configPRINTF "WriteIicRegs::XIic_Send(Buf) -> 0x%08x\r\n" [mismatchRc sent 2]
           (((w1.setRc (mismatchRc sent 2)).setErr
             "WriteIicRegs::XIic_Send(Buf) -> 0x%08x\r\n").setBError 1)
       else if w.sys.rc ≠ XST_SUCCESS then
         configPRINTF w.sys.pcErr [w.sys.rc] (w1.setBError 1)
       else w1) := by
  unfold WriteIicReg WriteIicRegs MAY_DIE XIic_Send
  simp only []
  by_cases h1 : 2 ≠ env.XIic_Send w.log a [r, v] XIIC_STOP
  · have := mismatchRc_ne_zero (env.XIic_Send w.log a [r, v] XIIC_STOP) 2 (by decide)
    simp [h1, this]
  · by_cases h2 : w.sys.rc ≠ XST_SUCCESS
    · simp [h1, h2]
    · simp [h1, h2]

/-! ## Event lists -/

theorem noReport_append (a b : List Event) :
    noReport (a ++ b) = (noReport a && noReport b) := by
  unfold noReport
  exact List.all_append

theorem noBus_append (a b : List Event) : noBus (a ++ b) = (noBus a && noBus b) := by
  unfold noBus
  exact List.all_append

theorem quietAfterReport_append_of_noReport (a b : List Event) (h : noReport a = true) :
    quietAfterReport (a ++ b) = quietAfterReport b := by
  induction a with
  | nil => rfl
  | cons e a ih =>
    have h1 : e.isFailureReport = false ∧ noReport a = true := by
      simpa [noReport] using h
    simp [quietAfterReport, h1.1, ih h1.2]

theorem quietAfterReport_of_noReport (a : List Event) (h : noReport a = true) :
    quietAfterReport a = true := by
  have := quietAfterReport_append_of_noReport a [] h
  simpa [quietAfterReport] using this

theorem quietAfterReport_append_single (l : List Event) (e : Event)
    (h : quietAfterReport l = true) (he : e.isBus = false) :
    quietAfterReport (l ++ [e]) = true := by
  induction l with
  | nil => simp [quietAfterReport, noBus]
  | cons x l ih =>
    simp only [quietAfterReport, Bool.and_eq_true, Bool.or_eq_true, List.cons_append] at h ⊢
    refine ⟨?_, ih h.2⟩
    rcases h.1 with h1 | h1
    · exact Or.inl h1
    · right
      show noBus (l ++ [e]) = true
      rw [noBus_append, h1]
      simp [noBus, he]

/-- The meaning of `quietAfterReport`: behind a failure report there is no bus access. -/
theorem quietAfterReport_iff (l : List Event) :
    quietAfterReport l = true ↔
      ∀ pre e post, l = pre ++ e :: post → e.isFailureReport = true →
        ∀ x ∈ post, x.isBus = false := by
  induction l with
  | nil =>
    simp [quietAfterReport]
  | cons y l ih =>
    simp only [quietAfterReport, Bool.and_eq_true, Bool.or_eq_true]
    constructor
    · rintro ⟨h1, h2⟩ pre e post heq he x hx
      cases pre with
      | nil =>
        simp only [List.nil_append, List.cons.injEq] at heq
        obtain ⟨rfl, rfl⟩ := heq
        rcases h1 with h1 | h1
        · simp [he] at h1
        · have := List.all_eq_true.mp h1 x hx
          simpa using this
      | cons z pre =>
        simp only [List.cons_append, List.cons.injEq] at heq
        exact (ih.mp h2) pre e post heq.2 he x hx
    · intro h
      refine ⟨?_, ih.mpr (fun pre e post heq he x hx => h (y :: pre) e post (by simp [heq]) he x hx)⟩
      by_cases hy : y.isFailureReport = true
      · right
        unfold noBus
        rw [List.all_eq_true]
        intro x hx
        have := h [] y l rfl hy x hx
        simp [this]
      · left
        simpa using hy

/-! ## The relation `Step` -/

theorem Step_chains : Chains Step where
  refl := by
    intro w
    exact ⟨⟨[], by simp, rfl, rfl⟩, fun _ => ⟨rfl, fun h => h⟩, fun h => by cases h⟩
  trans := by
    rintro w w1 w2 b ⟨⟨n1, hl1, _, hn1⟩, ho1, _⟩ ⟨⟨n2, hl2, hq2, hn2⟩, ho2, hd2⟩
    refine ⟨⟨n1 ++ n2, by rw [hl2, hl1, List.append_assoc], ?_, ?_⟩, ?_, hd2⟩
    · rw [quietAfterReport_append_of_noReport _ _ hn1]
      exact hq2
    · rw [noReport_append, hn1, hn2]
      rfl
    · intro hb
      have h1 := ho1 rfl
      have h2 := ho2 hb
      exact ⟨h2.1.trans h1.1, fun h => h2.2 (h1.2 h)⟩

theorem CodeStep.idle (w : World) : CodeStep w w :=
  ⟨[], by simp, rfl, fun _ => ⟨rfl, rfl⟩⟩

theorem CodeStep.setErr {w w1 : World} (m : String) (h : CodeStep w w1) :
    CodeStep w (w1.setErr m) := by
  obtain ⟨new, h1, h2, h3⟩ := h
  exact ⟨new, by simpa using h1, h2, by simpa using h3⟩

theorem MAY_DIE_step {α : Type} {code : World → α × World}
    (h : ∀ w, CodeStep w (code w).2) : Run.Sat Step (MAY_DIE code) := by
  intro w
  obtain ⟨new, h1, h2, h3⟩ := h w
  by_cases hrc : (code w).2.sys.rc = XST_SUCCESS
  · rw [MAY_DIE_of_rc_eq hrc]
    have h4 := h3 hrc
    exact ⟨⟨new, h1, h2, h4.1⟩, fun _ => ⟨h4.2, fun _ => hrc⟩, fun h => by cases h⟩
  · rw [MAY_DIE_of_rc_ne hrc]
    refine ⟨⟨new ++ [Event.print (code w).2.sys.pcErr [(code w).2.sys.rc]], ?_, ?_, ?_⟩, ?_, ?_⟩
    · simp [Res.world, h1]
    · exact quietAfterReport_append_single _ _ h2 rfl
    · rw [noReport_append]
      show (noReport new && false) = false
      simp
    · intro h; cases h
    · intro _
      exact ⟨by simpa [Res.world] using hrc, by simp [Res.world]⟩

theorem exec_delay_step : Run.Sat Step (Run.exec (vTaskDelay 1)) := by
  intro w
  exact ⟨⟨[Event.taskDelay 1], rfl, rfl, rfl⟩, fun _ => ⟨rfl, fun h => h⟩,
    fun h => by cases h⟩

theorem CodeStep.of_fail {w w1 : World} (new : List Event) (hlog : w1.log = w.log ++ new)
    (hq : quietAfterReport new = true) (hrc : w1.sys.rc ≠ XST_SUCCESS) : CodeStep w w1 :=
  ⟨new, hlog, hq, fun h => absurd h hrc⟩

theorem CodeStep.of_ok {w w1 : World} (new : List Event) (hlog : w1.log = w.log ++ new)
    (hn : noReport new = true) (hb : w1.sys.bError = w.sys.bError) : CodeStep w w1 :=
  ⟨new, hlog, quietAfterReport_of_noReport new hn, fun _ => ⟨hn, hb⟩⟩

theorem ReadIicRegs_codeStep (env : Env) (a n r : Nat) (buf : List Nat) (w : World) :
    CodeStep w (ReadIicRegs env a n r buf w).2 := by
  rw [ReadIicRegs_eq]
  simp only []
  generalize (if n > 1 then (r ||| 0x80) % 256 else r) = reg
  generalize env.XIic_Send w.log a [reg] XIIC_REPEATED_START = sent
  generalize env.XIic_Recv _ a n XIIC_STOP = data
  split_ifs with h1 h2 h3 h4
  · exact CodeStep.of_fail [Event.iicSend a [reg] XIIC_REPEATED_START sent,
      Event.print "ReadIicRegs::XIic_Send(Addr) -> 0x%08x\r\n" [1]] (by simp) rfl (by simp)
  · exact CodeStep.of_fail [Event.iicSend a [reg] XIIC_REPEATED_START sent,
      Event.print w.sys.pcErr [w.sys.rc]] (by simp) rfl (by simpa using h2)
  · exact CodeStep.of_fail [Event.iicSend a [reg] XIIC_REPEATED_START sent,
      Event.iicRecv a n XIIC_STOP data,
      Event.print "ReadIicRegs::XIic_Recv(Data) -> 0x%08x\r\n" [mismatchRc data.length n]]
      (by simp) rfl (by simpa using h3.2)
  · exact CodeStep.of_ok [Event.iicSend a [reg] XIIC_REPEATED_START sent,
      Event.iicRecv a n XIIC_STOP data] (by simp) rfl (by simp)
  · exact CodeStep.of_ok [Event.iicSend a [reg] XIIC_REPEATED_START sent,
      Event.iicRecv a n XIIC_STOP data] (by simp) rfl (by simp)

theorem WriteIicReg_codeStep (env : Env) (a r v : Nat) (w : World) :
    CodeStep w (WriteIicReg env a r v w) := by
  rw [WriteIicReg_eq]
  simp only []
  generalize env.XIic_Send w.log a [r, v] XIIC_STOP = sent
  split_ifs with h1 h2
  · exact CodeStep.of_fail [Event.iicSend a [r, v] XIIC_STOP sent,
      Event.print "WriteIicRegs::XIic_Send(Buf) -> 0x%08x\r\n" [mismatchRc sent 2]]
      (by simp) rfl (by simpa using mismatchRc_ne_zero sent 2 (by decide))
  · exact CodeStep.of_fail [Event.iicSend a [r, v] XIIC_STOP sent,
      Event.print w.sys.pcErr [w.sys.rc]] (by simp) rfl (by simpa using h2)
  · exact CodeStep.of_ok [Event.iicSend a [r, v] XIIC_STOP sent] (by simp) rfl (by simp)

theorem readRegBlock_codeStep (env : Env) (a r : Nat) (m : String) (b : Nat) (w : World) :
    CodeStep w (readRegBlock env a r m b w).2 :=
  CodeStep.setErr m (ReadIicRegs_codeStep env a 1 r [b] w)

theorem readRegsBlock_codeStep (env : Env) (a n r : Nat) (m : String) (buf : List Nat)
    (w : World) : CodeStep w (readRegsBlock env a n r m buf w).2 :=
  CodeStep.setErr m (ReadIicRegs_codeStep env a n r buf w)

theorem writeRegBlock_codeStep (env : Env) (a r v : Nat) (m : String) (w : World) :
    CodeStep w (writeRegBlock env a r v m w).2 :=
  CodeStep.setErr m (WriteIicReg_codeStep env a r v w)

theorem failBlock_codeStep (rc : Int) (m : String) (w : World) :
    CodeStep w (failBlock rc m w).2 :=
  ⟨[], by simp [failBlock], rfl, fun _ => ⟨rfl, rfl⟩⟩

theorem failIfBlock_codeStep (c : Bool) (rc : Int) (m : String) (w : World) :
    CodeStep w (failIfBlock c rc m w).2 := by
  unfold failIfBlock
  split
  · exact failBlock_codeStep rc m w
  · exact CodeStep.idle w

theorem StartHygrometer_calibration_codeStep (env : Env) (w : World) :
    CodeStep w (StartHygrometer_calibration env w).2 := by
  obtain ⟨new, h1, h2, h3⟩ := ReadIicRegs_codeStep env HYGROMETER_SLAVE_ADDRESS 16
    HYGROMETER_REG_CALIB_0 w.sys.pbHygrometerCalibration w
  exact ⟨new, h1, h2, h3⟩

set_option maxRecDepth 8192 in
theorem StartBarometer_body_step (env : Env) : Run.Sat Step (StartBarometer_body env) := by
  unfold StartBarometer_body
  repeat' (with_reducible first
    | exact MAY_DIE_step (readRegBlock_codeStep _ _ _ _ _)
    | exact MAY_DIE_step (writeRegBlock_codeStep _ _ _ _ _)
    | exact MAY_DIE_step (failBlock_codeStep _ _)
    | exact MAY_DIE_step (failIfBlock_codeStep _ _ _)
    | exact Run.Sat.ofPure Step_chains _
    | exact Run.Sat.ofPureUnit Step_chains
    | exact Run.Sat.ofForTimeout Step_chains (fun b => MAY_DIE_step (readRegBlock_codeStep _ _ _ _ b))
        exec_delay_step _ _
    | refine Run.Sat.ofIte ?_ ?_
    | refine Run.Sat.ofBind Step_chains ?_ (fun _ => ?_))

set_option maxRecDepth 8192 in
theorem StartHygrometer_body_step (env : Env) : Run.Sat Step (StartHygrometer_body env) := by
  unfold StartHygrometer_body
  repeat' (with_reducible first
    | exact MAY_DIE_step (readRegBlock_codeStep _ _ _ _ _)
    | exact MAY_DIE_step (writeRegBlock_codeStep _ _ _ _ _)
    | exact MAY_DIE_step (failBlock_codeStep _ _)
    | exact MAY_DIE_step (failIfBlock_codeStep _ _ _)
    | exact MAY_DIE_step (StartHygrometer_calibration_codeStep _)
    | exact Run.Sat.ofPure Step_chains _
    | exact Run.Sat.ofPureUnit Step_chains
    | exact Run.Sat.ofForTimeout Step_chains (fun b => MAY_DIE_step (readRegBlock_codeStep _ _ _ _ b))
        exec_delay_step _ _
    | refine Run.Sat.ofIte ?_ ?_
    | refine Run.Sat.ofBind Step_chains ?_ (fun _ => ?_))

/-! ## Frames -/

theorem Framed_chains {F : System → System → Prop} (hr : ∀ s, F s s)
    (ht : ∀ s s1 s2, F s s1 → F s1 s2 → F s s2) : Chains (Framed F) where
  refl := fun (w : World) => hr w.sys
  trans := fun (w w1 w2 : World) _ h1 h2 => ht w.sys w1.sys w2.sys h1 h2

theorem onlyStatus_chains : Chains (Framed System.onlyStatus) :=
  Framed_chains System.onlyStatus.same (fun _ _ _ h1 h2 => System.onlyStatus.next h1 h2)

theorem onlyStatusCal_chains : Chains (Framed System.onlyStatusCal) :=
  Framed_chains System.onlyStatusCal.sameCal (fun _ _ _ h1 h2 => System.onlyStatusCal.nextCal h1 h2)

theorem MAY_DIE_onlyStatus {α : Type} {code : World → α × World}
    (h : ∀ w : World, w.sys.onlyStatus (code w).2.sys) :
    Run.Sat (Framed System.onlyStatus) (MAY_DIE code) := by
  intro w
  by_cases hrc : (code w).2.sys.rc = XST_SUCCESS
  · rw [MAY_DIE_of_rc_eq hrc]
    exact h w
  · rw [MAY_DIE_of_rc_ne hrc]
    exact System.onlyStatus.next (h w) (World.setBError_onlyStatus 1 (code w).2)

theorem MAY_DIE_onlyStatusCal {α : Type} {code : World → α × World}
    (h : ∀ w : World, w.sys.onlyStatusCal (code w).2.sys) :
    Run.Sat (Framed System.onlyStatusCal) (MAY_DIE code) := by
  intro w
  by_cases hrc : (code w).2.sys.rc = XST_SUCCESS
  · rw [MAY_DIE_of_rc_eq hrc]
    exact h w
  · rw [MAY_DIE_of_rc_ne hrc]
    exact System.onlyStatusCal.nextCal (h w)
      (System.onlyStatus.toCal (World.setBError_onlyStatus 1 (code w).2))

theorem MAY_DIE_onlyStatusCal_of {α : Type} {code : World → α × World}
    (h : ∀ w : World, w.sys.onlyStatus (code w).2.sys) :
    Run.Sat (Framed System.onlyStatusCal) (MAY_DIE code) :=
  MAY_DIE_onlyStatusCal (fun w => System.onlyStatus.toCal (h w))

theorem exec_delay_onlyStatus : Run.Sat (Framed System.onlyStatus) (Run.exec (vTaskDelay 1)) :=
  fun w => System.onlyStatus.same w.sys

theorem exec_delay_onlyStatusCal :
    Run.Sat (Framed System.onlyStatusCal) (Run.exec (vTaskDelay 1)) :=
  fun w => System.onlyStatusCal.sameCal w.sys

theorem ReadIicRegs_onlyStatus (env : Env) (a n r : Nat) (buf : List Nat) (w : World) :
    w.sys.onlyStatus (ReadIicRegs env a n r buf w).2.sys := by
  rw [ReadIicRegs_eq]
  simp only []
  generalize (if n > 1 then (r ||| 0x80) % 256 else r) = reg
  split_ifs
  · exact ((World.setRc_onlyStatus _ _).next (World.setErr_onlyStatus _ _)).next
      (World.setBError_onlyStatus _ _)
  · exact World.setBError_onlyStatus _ _
  · exact ((World.setRc_onlyStatus _ _).next (World.setErr_onlyStatus _ _)).next
      (World.setBError_onlyStatus _ _)
  · exact (World.setRc_onlyStatus _ _).next (World.setErr_onlyStatus _ _)
  · exact System.onlyStatus.same _

theorem WriteIicReg_onlyStatus (env : Env) (a r v : Nat) (w : World) :
    w.sys.onlyStatus (WriteIicReg env a r v w).sys := by
  rw [WriteIicReg_eq]
  simp only []
  split_ifs
  · exact ((World.setRc_onlyStatus _ _).next (World.setErr_onlyStatus _ _)).next
      (World.setBError_onlyStatus _ _)
  · exact World.setBError_onlyStatus _ _
  · exact System.onlyStatus.same _

theorem readRegBlock_onlyStatus (env : Env) (a r : Nat) (m : String) (b : Nat) (w : World) :
    w.sys.onlyStatus (readRegBlock env a r m b w).2.sys :=
  (ReadIicRegs_onlyStatus env a 1 r [b] w).next (World.setErr_onlyStatus _ _)

theorem readRegsBlock_onlyStatus (env : Env) (a n r : Nat) (m : String) (buf : List Nat)
    (w : World) : w.sys.onlyStatus (readRegsBlock env a n r m buf w).2.sys :=
  (ReadIicRegs_onlyStatus env a n r buf w).next (World.setErr_onlyStatus _ _)

theorem writeRegBlock_onlyStatus (env : Env) (a r v : Nat) (m : String) (w : World) :
    w.sys.onlyStatus (writeRegBlock env a r v m w).2.sys :=
  (WriteIicReg_onlyStatus env a r v w).next (World.setErr_onlyStatus _ _)

theorem failBlock_onlyStatus (rc : Int) (m : String) (w : World) :
    w.sys.onlyStatus (failBlock rc m w).2.sys :=
  (World.setRc_onlyStatus _ _).next (World.setErr_onlyStatus _ _)

theorem failIfBlock_onlyStatus (c : Bool) (rc : Int) (m : String) (w : World) :
    w.sys.onlyStatus (failIfBlock c rc m w).2.sys := by
  unfold failIfBlock
  split
  · exact failBlock_onlyStatus rc m w
  · exact System.onlyStatus.same _

theorem StartHygrometer_calibration_onlyStatusCal (env : Env) (w : World) :
    w.sys.onlyStatusCal (StartHygrometer_calibration env w).2.sys := by
  have h := (ReadIicRegs_onlyStatus env HYGROMETER_SLAVE_ADDRESS 16 HYGROMETER_REG_CALIB_0
    w.sys.pbHygrometerCalibration w).toCal
  unfold StartHygrometer_calibration
  simp only []
  unfold System.onlyStatusCal at h ⊢
  unfold World.setErr
  simp only []
  rw [h]

set_option maxRecDepth 8192 in
theorem StartBarometer_body_onlyStatus (env : Env) :
    Run.Sat (Framed System.onlyStatus) (StartBarometer_body env) := by
  unfold StartBarometer_body
  repeat' (with_reducible first
    | exact MAY_DIE_onlyStatus (readRegBlock_onlyStatus _ _ _ _ _)
    | exact MAY_DIE_onlyStatus (writeRegBlock_onlyStatus _ _ _ _ _)
    | exact MAY_DIE_onlyStatus (failBlock_onlyStatus _ _)
    | exact MAY_DIE_onlyStatus (failIfBlock_onlyStatus _ _ _)
    | exact Run.Sat.ofPure onlyStatus_chains _
    | exact Run.Sat.ofPureUnit onlyStatus_chains
    | exact Run.Sat.ofForTimeout onlyStatus_chains
        (fun b => MAY_DIE_onlyStatus (readRegBlock_onlyStatus _ _ _ _ b)) exec_delay_onlyStatus _ _
    | refine Run.Sat.ofIte ?_ ?_
    | refine Run.Sat.ofBind onlyStatus_chains ?_ (fun _ => ?_))

set_option maxRecDepth 8192 in
theorem StartHygrometer_body_onlyStatusCal (env : Env) :
    Run.Sat (Framed System.onlyStatusCal) (StartHygrometer_body env) := by
  unfold StartHygrometer_body
  repeat' (with_reducible first
    | exact MAY_DIE_onlyStatusCal_of (readRegBlock_onlyStatus _ _ _ _ _)
    | exact MAY_DIE_onlyStatusCal_of (writeRegBlock_onlyStatus _ _ _ _ _)
    | exact MAY_DIE_onlyStatusCal_of (failBlock_onlyStatus _ _)
    | exact MAY_DIE_onlyStatusCal_of (failIfBlock_onlyStatus _ _ _)
    | exact MAY_DIE_onlyStatusCal (StartHygrometer_calibration_onlyStatusCal _)
    | exact Run.Sat.ofPure onlyStatusCal_chains _
    | exact Run.Sat.ofPureUnit onlyStatusCal_chains
    | exact Run.Sat.ofForTimeout onlyStatusCal_chains
        (fun b => MAY_DIE_onlyStatusCal_of (readRegBlock_onlyStatus _ _ _ _ b))
        exec_delay_onlyStatusCal _ _
    | refine Run.Sat.ofIte ?_ ?_
    | refine Run.Sat.ofBind onlyStatusCal_chains ?_ (fun _ => ?_))

/-! ## Bring-up -/

theorem System.onlyStatusCal.bBarometerOk {s s1 : System} (h : s.onlyStatusCal s1) :
    s1.bBarometerOk = s.bBarometerOk := by
  rw [h]

theorem System.onlyStatusCal.bHygrometerOk {s s1 : System} (h : s.onlyStatusCal s1) :
    s1.bHygrometerOk = s.bHygrometerOk := by
  rw [h]

theorem System.onlyStatusCal.bThermocoupleOk {s s1 : System} (h : s.onlyStatusCal s1) :
    s1.bThermocoupleOk = s.bThermocoupleOk := by
  rw [h]

theorem ReadIicRegs_rc_ne (env : Env) (a n r : Nat) (buf : List Nat) (w : World)
    (h : w.sys.rc ≠ XST_SUCCESS) : (ReadIicRegs env a n r buf w).2.sys.rc ≠ XST_SUCCESS := by
  rw [ReadIicRegs_eq]
  simp only []
  generalize (if n > 1 then (r ||| 0x80) % 256 else r) = reg
  rw [if_pos h]
  split_ifs
  · simp
  · simpa using h

theorem readRegBlock_of_ok (env : Env) (a r : Nat) (m : String) (b0 b : Nat) (w : World)
    (hrc : w.sys.rc = XST_SUCCESS)
    (hs : env.XIic_Send w.log a [r] XIIC_REPEATED_START = 1)
    (hr : env.XIic_Recv (w.log ++ [Event.iicSend a [r] XIIC_REPEATED_START 1]) a 1 XIIC_STOP
      = [b]) :
    readRegBlock env a r m b0 w =
      (b % 256, ((w.emit (Event.iicSend a [r] XIIC_REPEATED_START 1)).emit
        (Event.iicRecv a 1 XIIC_STOP [b])).setErr m) := by
  unfold readRegBlock ReadIicReg
  rw [ReadIicRegs_eq]
  simp [hrc, hs, hr, deposit]

/-- The result of `StartBarometer` when its body jumps to `L_DIE`. -/
theorem StartBarometer_of_die (env : Env) (w w1 : World)
    (h : StartBarometer_body env { w with
      sys.bBarometerOk := pdFALSE
      sys.fBarometerPressure := 0
      sys.fBarometerTemperature := 0 } = Res.die w1) :
    StartBarometer env w = configPRINTF "ERROR: Barometer started not ok\r\n" [] w1 := by
  unfold StartBarometer
  simp only []
  rw [h]

/-- The result of `StartBarometer` when its body runs to its end. -/
theorem StartBarometer_of_ok (env : Env) (w w1 : World) (a : Unit)
    (h : StartBarometer_body env { w with
      sys.bBarometerOk := pdFALSE
      sys.fBarometerPressure := 0
      sys.fBarometerTemperature := 0 } = Res.ok a w1) :
    StartBarometer env w = configPRINTF "Barometer started ok\r\n" []
      { vTaskDelay 1 w1 with sys.bBarometerOk := pdTRUE } := by
  unfold StartBarometer
  simp only []
  rw [h]

/-- The result of `StartHygrometer` when its body jumps to `L_DIE`. -/
theorem StartHygrometer_of_die (env : Env) (w w1 : World)
    (h : StartHygrometer_body env { w with
      sys.bHygrometerOk := pdFALSE
      sys.fHygrometerHumidity := 0
      sys.fHygrometerTemperature := 0 } = Res.die w1) :
    StartHygrometer env w = configPRINTF "ERROR: Hygrometer started not ok\r\n" [] w1 := by
  unfold StartHygrometer
  simp only []
  rw [h]

/-- The result of `StartHygrometer` when its body runs to its end. -/
theorem StartHygrometer_of_ok (env : Env) (w w1 : World) (a : Unit)
    (h : StartHygrometer_body env { w with
      sys.bHygrometerOk := pdFALSE
      sys.fHygrometerHumidity := 0
      sys.fHygrometerTemperature := 0 } = Res.ok a w1) :
    StartHygrometer env w = configPRINTF "Hygrometer started ok\r\n" []
      { vTaskDelay 1 w1 with sys.bHygrometerOk := pdTRUE } := by
  unfold StartHygrometer
  simp only []
  rw [h]

/-- A failed barometer bring-up returns with an `rc` other than `XST_SUCCESS`. -/
theorem StartBarometer_failed_rc (env : Env) (w : World)
    (h : (StartBarometer env w).sys.bBarometerOk = 0) :
    (StartBarometer env w).sys.rc ≠ XST_SUCCESS := by
  cases hb : StartBarometer_body env { w with
      sys.bBarometerOk := pdFALSE
      sys.fBarometerPressure := 0
      sys.fBarometerTemperature := 0 } with
  | ok a w1 =>
    rw [StartBarometer_of_ok env w w1 a hb] at h
    cases h
  | die w1 =>
    rw [StartBarometer_of_die env w w1 hb]
    have hd := StartBarometer_body_step env { w with
      sys.bBarometerOk := pdFALSE
      sys.fBarometerPressure := 0
      sys.fBarometerTemperature := 0 }
    rw [hb] at hd
    exact (hd.2.2 rfl).1

/-- `StartPLTempSensor` leaves `rc` alone and enables the thermocouple. -/
theorem StartPLTempSensor_sys (w : World) :
    (StartPLTempSensor w).sys.rc = w.sys.rc ∧ (StartPLTempSensor w).sys.bThermocoupleOk = 1 :=
  ⟨rfl, rfl⟩

/-- Entered with an `rc` other than `XST_SUCCESS`, the hygrometer bring-up fails at
its first `MAY_DIE`, whatever the device does. -/
theorem StartHygrometer_stale_rc (env : Env) (w : World) (h : w.sys.rc ≠ XST_SUCCESS) :
    (StartHygrometer env w).sys.bHygrometerOk = 0 ∧
    (StartHygrometer env w).sys.bThermocoupleOk = w.sys.bThermocoupleOk := by
  have h1 : ((readRegBlock env HYGROMETER_SLAVE_ADDRESS HYGROMETER_REG_WHO_AM_I
      "ReadIicReg(HYGROMETER_WHO_AM_I) -> 0x%08x\r\n" 0) { w with
      sys.bHygrometerOk := pdFALSE
      sys.fHygrometerHumidity := 0
      sys.fHygrometerTemperature := 0 }).2.sys.rc ≠ XST_SUCCESS := by
    unfold readRegBlock ReadIicReg
    simp only [World.setErr_rc]
    exact ReadIicRegs_rc_ne _ _ _ _ _ _ h
  have h2 := MAY_DIE_of_rc_ne h1
  have h3 : StartHygrometer_body env { w with
      sys.bHygrometerOk := pdFALSE
      sys.fHygrometerHumidity := 0
      sys.fHygrometerTemperature := 0 } = _ := Run.bind_die h2
  rw [StartHygrometer_of_die env w _ h3]
  have h4 := readRegBlock_onlyStatus env HYGROMETER_SLAVE_ADDRESS HYGROMETER_REG_WHO_AM_I
      "ReadIicReg(HYGROMETER_WHO_AM_I) -> 0x%08x\r\n" 0 { w with
      sys.bHygrometerOk := pdFALSE
      sys.fHygrometerHumidity := 0
      sys.fHygrometerTemperature := 0 }
  simp only [configPRINTF_sys]
  refine ⟨?_, ?_⟩
  · show (World.setBError 1 _).sys.bHygrometerOk = 0
    rw [(h4.next (World.setBError_onlyStatus 1 _)).toCal.bHygrometerOk]
  · show (World.setBError 1 _).sys.bThermocoupleOk = _
    rw [(h4.next (World.setBError_onlyStatus 1 _)).toCal.bThermocoupleOk]

/-! ## Claims -/

/-- C1, as the code behaves: whenever the barometer bring-up fails, the hygrometer
bring-up that follows it in `StartSystem` fails as well, whatever the hygrometer
does on the bus, because `StartBarometer` returns with `rc` not `XST_SUCCESS`
and `StartHygrometer` never resets `rc`; only the thermocouple is enabled. -/
theorem C1_failed_barometer_disables_hygrometer (env : Env) (w : World)
    (h : (StartBarometer env w).sys.bBarometerOk = 0) :
    (StartSystem_sensors env w).sys.bHygrometerOk = 0 ∧
    (StartSystem_sensors env w).sys.bThermocoupleOk = 1 := by
  have h1 := StartBarometer_failed_rc env w h
  have h2 := StartPLTempSensor_sys (StartBarometer env w)
  have h3 := StartHygrometer_stale_rc env (StartPLTempSensor (StartBarometer env w))
    (by rw [h2.1]; exact h1)
  unfold StartSystem_sensors
  exact ⟨h3.1, h3.2.trans h2.2⟩

/-- C1 at the failing input: the barometer answers the identity read with 0x00,
every hygrometer transfer is complete with identity 0xBC and a cleared boot bit
(on its own the hygrometer bring-up succeeds), and still the hygrometer ends
disabled. -/
theorem C1_failing_input :
    (StartBarometer (regEnv wrongBarometerRegs) bootWorld).sys.bBarometerOk = 0 ∧
    (StartHygrometer (regEnv wrongBarometerRegs) bootWorld).sys.bHygrometerOk = 1 ∧
    (StartSystem_sensors (regEnv wrongBarometerRegs) bootWorld).sys.bHygrometerOk = 0 ∧
    (StartSystem_sensors (regEnv wrongBarometerRegs) bootWorld).sys.bThermocoupleOk = 1 :=
  ⟨by decide, by decide,
    (C1_failed_barometer_disables_hygrometer (regEnv wrongBarometerRegs) bootWorld
      (by decide)).1,
    (C1_failed_barometer_disables_hygrometer (regEnv wrongBarometerRegs) bootWorld
      (by decide)).2⟩

/-- C2: a Sample function called while its sensor is disabled issues no bus
operation and returns the world unchanged (all readings, `bError`, `rc`, the
flags and the event log are the same). -/
theorem C2_disabled_sample_is_noop (env : Env) (fuel : Nat) (w : World) :
    (w.sys.bBarometerOk = 0 → SampleBarometer env w = w) ∧
    (w.sys.bThermocoupleOk = 0 → SamplePLTempSensor env fuel w = Except.ok w) ∧
    (w.sys.bHygrometerOk = 0 → SampleHygrometer env w = Except.ok w) := by
  refine ⟨fun h => ?_, fun h => ?_, fun h => ?_⟩
  · unfold SampleBarometer
    rw [if_pos h]
  · unfold SamplePLTempSensor
    rw [if_pos h]
  · unfold SampleHygrometer
    rw [if_pos h]

/-- C2 at a concrete input: the world after a bring-up in which the barometer
identity was wrong (barometer and hygrometer disabled) and then the
thermocouple was stopped. -/
theorem C2_witness :
    SampleBarometer (regEnv wrongBarometerRegs)
        (StopPLTempSensor (StartSystem_sensors (regEnv wrongBarometerRegs) bootWorld)) =
      StopPLTempSensor (StartSystem_sensors (regEnv wrongBarometerRegs) bootWorld) ∧
    SamplePLTempSensor (regEnv wrongBarometerRegs) 0
        (StopPLTempSensor (StartSystem_sensors (regEnv wrongBarometerRegs) bootWorld)) =
      Except.ok (StopPLTempSensor (StartSystem_sensors (regEnv wrongBarometerRegs) bootWorld)) ∧
    SampleHygrometer (regEnv wrongBarometerRegs)
        (StopPLTempSensor (StartSystem_sensors (regEnv wrongBarometerRegs) bootWorld)) =
      Except.ok (StopPLTempSensor (StartSystem_sensors (regEnv wrongBarometerRegs) bootWorld)) :=
  ⟨(C2_disabled_sample_is_noop _ 0 _).1 (by decide),
   (C2_disabled_sample_is_noop _ 0 _).2.1 (by decide),
   (C2_disabled_sample_is_noop _ 0 _).2.2 (by decide)⟩

theorem Run.bind_bind_die {α β γ : Type} {m : Run α} {f : α → Run β} {g : α → β → Run γ}
    {w w1 w2 : World} {a : α} (h1 : m w = Res.ok a w1) (h2 : f a w1 = Res.die w2) :
    (m >>= fun a => f a >>= g a) w = Res.die w2 := by
  rw [Run.bind_of_ok h1]
  exact Run.bind_die h2

/-- C4: when the identification register is read and holds a byte other than the
expected one (0xB1 for the barometer, 0xBC for the hygrometer; 0 included), the
bring-up returns with the enabled flag false and the error flag set, having
issued only the address write and the read of that register and the two
failure prints: no register write has gone to the device. -/
theorem C4_identity_check (env : Env) (w : World) (b : Nat) (hb : b < 256) :
    (readsIdentity env w BAROMETER_SLAVE_ADDRESS b → b ≠ 0xB1 →
      (StartBarometer env w).sys.bBarometerOk = 0 ∧
      (StartBarometer env w).sys.bError = 1 ∧
      (StartBarometer env w).log = w.log ++
        [Event.iicSend BAROMETER_SLAVE_ADDRESS [BAROMETER_REG_WHO_AM_I] XIIC_REPEATED_START 1,
         Event.iicRecv BAROMETER_SLAVE_ADDRESS 1 XIIC_STOP [b],
         Event.print "BAROMETER_WHO_AM_I = 0x%08x != 0xB1\r\n" [if b ≠ 0 then (b : Int) else 1],
         Event.print "ERROR: Barometer started not ok\r\n" []] ∧
      ∀ e ∈ (StartBarometer env w).log.drop w.log.length, e.isRegisterWrite = false) ∧
    (readsIdentity env w HYGROMETER_SLAVE_ADDRESS b → b ≠ 0xBC →
      (StartHygrometer env w).sys.bHygrometerOk = 0 ∧
      (StartHygrometer env w).sys.bError = 1 ∧
      (StartHygrometer env w).log = w.log ++
        [Event.iicSend HYGROMETER_SLAVE_ADDRESS [HYGROMETER_REG_WHO_AM_I] XIIC_REPEATED_START 1,
         Event.iicRecv HYGROMETER_SLAVE_ADDRESS 1 XIIC_STOP [b],
         Event.print "HYGROMETER_WHO_AM_I = 0x%08x != BC\r\n" [if b ≠ 0 then (b : Int) else 1],
         Event.print "ERROR: Hygrometer started not ok\r\n" []] ∧
      ∀ e ∈ (StartHygrometer env w).log.drop w.log.length, e.isRegisterWrite = false) := by
  have hmod : b % 256 = b := Nat.mod_eq_of_lt hb
  have hrcv : (if b ≠ 0 then (b : Int) else 1) ≠ XST_SUCCESS := by
    split
    · rename_i h
      exact_mod_cast h
    · decide
  constructor
  · rintro ⟨hrc, hs, hr⟩ hne
    have e1 := readRegBlock_of_ok env BAROMETER_SLAVE_ADDRESS BAROMETER_REG_WHO_AM_I
      "ReadIicReg(WHO_AM_I) -> 0x%08x\r\n" 0 b { w with
        sys.bBarometerOk := pdFALSE
        sys.fBarometerPressure := 0
        sys.fBarometerTemperature := 0 } hrc hs hr
    rw [hmod] at e1
    have r1 := @MAY_DIE_of_rc_eq _ (readRegBlock env BAROMETER_SLAVE_ADDRESS
      BAROMETER_REG_WHO_AM_I "ReadIicReg(WHO_AM_I) -> 0x%08x\r\n" 0) { w with
        sys.bBarometerOk := pdFALSE
        sys.fBarometerPressure := 0
        sys.fBarometerTemperature := 0 } (by rw [e1]; exact hrc)
    rw [e1] at r1
    have hb1 : (0xB1 != b) = true := by simpa [bne_iff_ne] using fun h : 0xB1 = b => hne h.symm
    have r2 := @MAY_DIE_of_rc_ne _ (failIfBlock (0xB1 != b) (if b ≠ 0 then (b : Int) else 1)
      "BAROMETER_WHO_AM_I = 0x%08x != 0xB1\r\n") (((World.emit
        (Event.iicSend BAROMETER_SLAVE_ADDRESS [BAROMETER_REG_WHO_AM_I] XIIC_REPEATED_START 1)
        { w with
          sys.bBarometerOk := pdFALSE
          sys.fBarometerPressure := 0
          sys.fBarometerTemperature := 0 }).emit
        (Event.iicRecv BAROMETER_SLAVE_ADDRESS 1 XIIC_STOP [b])).setErr
        "ReadIicReg(WHO_AM_I) -> 0x%08x\r\n") (by
          rw [hb1]
          simpa [failIfBlock, failBlock] using hrcv)
    have hbody : StartBarometer_body env { w with
        sys.bBarometerOk := pdFALSE
        sys.fBarometerPressure := 0
        sys.fBarometerTemperature := 0 } = _ := Run.bind_bind_die r1 r2
    rw [StartBarometer_of_die env w _ hbody]
    simp only [hb1, failIfBlock, failBlock, if_true]
    refine ⟨rfl, rfl, ?_, ?_⟩
    · simp
    · simp [Event.isRegisterWrite]
  · rintro ⟨hrc, hs, hr⟩ hne
    have e1 := readRegBlock_of_ok env HYGROMETER_SLAVE_ADDRESS HYGROMETER_REG_WHO_AM_I
      "ReadIicReg(HYGROMETER_WHO_AM_I) -> 0x%08x\r\n" 0 b { w with
        sys.bHygrometerOk := pdFALSE
        sys.fHygrometerHumidity := 0
        sys.fHygrometerTemperature := 0 } hrc hs hr
    rw [hmod] at e1
    have r1 := @MAY_DIE_of_rc_eq _ (readRegBlock env HYGROMETER_SLAVE_ADDRESS
      HYGROMETER_REG_WHO_AM_I "ReadIicReg(HYGROMETER_WHO_AM_I) -> 0x%08x\r\n" 0) { w with
        sys.bHygrometerOk := pdFALSE
        sys.fHygrometerHumidity := 0
        sys.fHygrometerTemperature := 0 } (by rw [e1]; exact hrc)
    rw [e1] at r1
    have hb1 : (0xBC != b) = true := by simpa [bne_iff_ne] using fun h : 0xBC = b => hne h.symm
    have r2 := @MAY_DIE_of_rc_ne _ (failIfBlock (0xBC != b) (if b ≠ 0 then (b : Int) else 1)
      "HYGROMETER_WHO_AM_I = 0x%08x != BC\r\n") (((World.emit
        (Event.iicSend HYGROMETER_SLAVE_ADDRESS [HYGROMETER_REG_WHO_AM_I] XIIC_REPEATED_START 1)
        { w with
          sys.bHygrometerOk := pdFALSE
          sys.fHygrometerHumidity := 0
          sys.fHygrometerTemperature := 0 }).emit
        (Event.iicRecv HYGROMETER_SLAVE_ADDRESS 1 XIIC_STOP [b])).setErr
        "ReadIicReg(HYGROMETER_WHO_AM_I) -> 0x%08x\r\n") (by
          rw [hb1]
          simpa [failIfBlock, failBlock] using hrcv)
    have hbody : StartHygrometer_body env { w with
        sys.bHygrometerOk := pdFALSE
        sys.fHygrometerHumidity := 0
        sys.fHygrometerTemperature := 0 } = _ := Run.bind_bind_die r1 r2
    rw [StartHygrometer_of_die env w _ hbody]
    simp only [hb1, failIfBlock, failBlock, if_true]
    refine ⟨rfl, rfl, ?_, ?_⟩
    · simp
    · simp [Event.isRegisterWrite]

/-- C4 at concrete inputs: a barometer that identifies as 0x00 and a hygrometer
that identifies as 0xB1, each on an otherwise ideal bus. -/
theorem C4_witness :
    ((StartBarometer (regEnv wrongBarometerRegs) bootWorld).sys.bBarometerOk = 0 ∧
      (StartBarometer (regEnv wrongBarometerRegs) bootWorld).sys.bError = 1) ∧
    ((StartHygrometer (regEnv (fun _ _ => 0xB1)) bootWorld).sys.bHygrometerOk = 0 ∧
      (StartHygrometer (regEnv (fun _ _ => 0xB1)) bootWorld).sys.bError = 1) :=
  ⟨⟨((C4_identity_check (regEnv wrongBarometerRegs) bootWorld 0 (by decide)).1
      ⟨rfl, rfl, rfl⟩ (by decide)).1,
    ((C4_identity_check (regEnv wrongBarometerRegs) bootWorld 0 (by decide)).1
      ⟨rfl, rfl, rfl⟩ (by decide)).2.1⟩,
   ⟨((C4_identity_check (regEnv (fun _ _ => 0xB1)) bootWorld 0xB1 (by decide)).2
      ⟨rfl, rfl, rfl⟩ (by decide)).1,
    ((C4_identity_check (regEnv (fun _ _ => 0xB1)) bootWorld 0xB1 (by decide)).2
      ⟨rfl, rfl, rfl⟩ (by decide)).2.1⟩⟩

theorem Run.OkPost.okBind {α β : Type} {P : World → Prop} {m : Run α} {f : α → Run β}
    (hf : ∀ a, Run.OkPost P (f a)) : Run.OkPost P (m >>= f) := by
  intro w b w2 h
  obtain ⟨a, w1, _, h2⟩ := Run.bind_ok h
  exact hf a w1 b w2 h2

theorem Run.OkPost.okIte {α : Type} {P : World → Prop} {c : Prop} [Decidable c]
    {m n : Run α} (hm : Run.OkPost P m) (hn : Run.OkPost P n) :
    Run.OkPost P (if c then m else n) := by
  split
  · exact hm
  · exact hn

theorem MAY_DIE_okPost_rc {α : Type} (code : World → α × World) :
    Run.OkPost (fun w => w.sys.rc = XST_SUCCESS) (MAY_DIE code) := by
  intro w a w1 h
  obtain ⟨h1, _, h3⟩ := MAY_DIE_ok h
  rw [h3]
  exact h1

set_option maxRecDepth 8192 in
theorem StartBarometer_body_ok_rc (env : Env) :
    Run.OkPost (fun w => w.sys.rc = XST_SUCCESS) (StartBarometer_body env) := by
  unfold StartBarometer_body
  repeat' (with_reducible first
    | exact MAY_DIE_okPost_rc _
    | refine Run.OkPost.okBind (fun _ => ?_)
    | refine Run.OkPost.okIte ?_ ?_)

set_option maxRecDepth 8192 in
theorem StartHygrometer_body_ok_rc (env : Env) :
    Run.OkPost (fun w => w.sys.rc = XST_SUCCESS) (StartHygrometer_body env) := by
  unfold StartHygrometer_body
  repeat' (with_reducible first
    | exact MAY_DIE_okPost_rc _
    | refine Run.OkPost.okBind (fun _ => ?_)
    | refine Run.OkPost.okIte ?_ ?_)

theorem noReport_iff (l : List Event) :
    noReport l = true ↔ ∀ e ∈ l, e.isFailureReport = false := by
  unfold noReport
  rw [List.all_eq_true]
  constructor
  · intro h e he
    simpa using h e he
  · intro h e he
    simpa using h e he

/-- The events of a bring-up whose body ran to its end. -/
theorem firstFailureWins_of_ok (n1 : List Event) (tail : List Event) (rc : Int)
    (h1 : noReport n1 = true) (h2 : noReport tail = true) (hrc : rc = XST_SUCCESS) :
    firstFailureWins (n1 ++ tail) 1 rc := by
  have hn : noReport (n1 ++ tail) = true := by rw [noReport_append, h1, h2]; rfl
  have hall := (noReport_iff _).mp hn
  refine ⟨?_, ⟨fun _ => hall, fun _ => rfl⟩, fun _ => hrc, Or.inr rfl⟩
  intro pre e post heq he
  have : e.isFailureReport = false := hall e (by rw [heq]; simp)
  rw [this] at he
  cases he

/-- The events of a bring-up whose body jumped to `L_DIE`. -/
theorem firstFailureWins_of_die (n1 : List Event) (p : Event) (rc : Int)
    (h1 : quietAfterReport n1 = true) (h2 : noReport n1 = false) (hp : p.isBus = false) :
    firstFailureWins (n1 ++ [p]) 0 rc := by
  have hq := quietAfterReport_append_single n1 p h1 hp
  refine ⟨?_, ⟨fun h => absurd h (by decide), fun h => ?_⟩, fun h => absurd h (by decide),
    Or.inl rfl⟩
  · intro pre e post heq he
    exact ⟨(quietAfterReport_iff _).mp hq pre e post heq he, rfl⟩
  · exfalso
    have : noReport n1 = true :=
      (noReport_iff _).mpr (fun e he => h e (by simp [he]))
    rw [this] at h2
    cases h2

/-- C3: first failure wins in both bring-up functions.  Of the events that the
function appends to the log, none that follows a failure report (the print of
a `MAY_DIE` whose block left `rc` non-zero: a bus helper failed, the identity
was wrong or a wait timed out) is a bus access, and after a failure report the
function returns with the enabled flag false; the flag is true on return
exactly when no step has reported a failure, and then `rc` is `XST_SUCCESS`. -/
theorem C3_first_failure_wins (env : Env) (w : World) :
    (∃ new, (StartBarometer env w).log = w.log ++ new ∧
      firstFailureWins new (StartBarometer env w).sys.bBarometerOk
        (StartBarometer env w).sys.rc) ∧
    (∃ new, (StartHygrometer env w).log = w.log ++ new ∧
      firstFailureWins new (StartHygrometer env w).sys.bHygrometerOk
        (StartHygrometer env w).sys.rc) := by
  constructor
  · have hs := StartBarometer_body_step env { w with
      sys.bBarometerOk := pdFALSE
      sys.fBarometerPressure := 0
      sys.fBarometerTemperature := 0 }
    have hf := StartBarometer_body_onlyStatus env { w with
      sys.bBarometerOk := pdFALSE
      sys.fBarometerPressure := 0
      sys.fBarometerTemperature := 0 }
    cases hb : StartBarometer_body env { w with
      sys.bBarometerOk := pdFALSE
      sys.fBarometerPressure := 0
      sys.fBarometerTemperature := 0 } with
    | ok a w1 =>
      rw [hb] at hs
      obtain ⟨⟨n1, hl, _, hn⟩, _, _⟩ := hs
      have hrc := StartBarometer_body_ok_rc env _ a w1 hb
      rw [StartBarometer_of_ok env w w1 a hb]
      refine ⟨n1 ++ [Event.taskDelay 1, Event.print "Barometer started ok\r\n" []], ?_, ?_⟩
      · have hl1 : w1.log = w.log ++ n1 := hl
        simp [hl1]
      · exact firstFailureWins_of_ok n1 _ _ hn rfl hrc
    | die w1 =>
      rw [hb] at hs hf
      obtain ⟨⟨n1, hl, hq, hn⟩, _, _⟩ := hs
      rw [StartBarometer_of_die env w w1 hb]
      refine ⟨n1 ++ [Event.print "ERROR: Barometer started not ok\r\n" []], ?_, ?_⟩
      · have hl1 : w1.log = w.log ++ n1 := hl
        simp [hl1]
      · have hflag : w1.sys.bBarometerOk = 0 := (System.onlyStatus.toCal hf).bBarometerOk
        simp only [configPRINTF_sys, hflag]
        exact firstFailureWins_of_die n1 _ _ hq hn rfl
  · have hs := StartHygrometer_body_step env { w with
      sys.bHygrometerOk := pdFALSE
      sys.fHygrometerHumidity := 0
      sys.fHygrometerTemperature := 0 }
    have hf := StartHygrometer_body_onlyStatusCal env { w with
      sys.bHygrometerOk := pdFALSE
      sys.fHygrometerHumidity := 0
      sys.fHygrometerTemperature := 0 }
    cases hb : StartHygrometer_body env { w with
      sys.bHygrometerOk := pdFALSE
      sys.fHygrometerHumidity := 0
      sys.fHygrometerTemperature := 0 } with
    | ok a w1 =>
      rw [hb] at hs
      obtain ⟨⟨n1, hl, _, hn⟩, _, _⟩ := hs
      have hrc := StartHygrometer_body_ok_rc env _ a w1 hb
      rw [StartHygrometer_of_ok env w w1 a hb]
      refine ⟨n1 ++ [Event.taskDelay 1, Event.print "Hygrometer started ok\r\n" []], ?_, ?_⟩
      · have hl1 : w1.log = w.log ++ n1 := hl
        simp [hl1]
      · exact firstFailureWins_of_ok n1 _ _ hn rfl hrc
    | die w1 =>
      rw [hb] at hs hf
      obtain ⟨⟨n1, hl, hq, hn⟩, _, _⟩ := hs
      rw [StartHygrometer_of_die env w w1 hb]
      refine ⟨n1 ++ [Event.print "ERROR: Hygrometer started not ok\r\n" []], ?_, ?_⟩
      · have hl1 : w1.log = w.log ++ n1 := hl
        simp [hl1]
      · have hflag : w1.sys.bHygrometerOk = 0 := hf.bHygrometerOk
        simp only [configPRINTF_sys, hflag]
        exact firstFailureWins_of_die n1 _ _ hq hn rfl

/-! ## Rounding to binary floating point -/

theorem roundHalfEven_intCast (n : Int) : roundHalfEven (n : ℚ) = n := by
  unfold roundHalfEven
  simp

theorem roundHalfEven_err (q : ℚ) : |(roundHalfEven q : ℚ) - q| ≤ 1 / 2 := by
  unfold roundHalfEven
  simp only []
  have h1 := Int.floor_le q
  have h2 := Int.lt_floor_add_one q
  split_ifs with h3 h4 h5
  · rw [abs_le]; constructor <;> linarith
  · rw [abs_le]; push_cast; constructor <;> linarith
  · rw [abs_le]; constructor <;> linarith
  · rw [abs_le]; push_cast; constructor <;> linarith

/-- The exponent of the last place is at most `k` for a number below `2 ^ (k + p)`. -/
theorem roundBinary_exp_le (p : Nat) (emin k : Int) (q : ℚ) (hq : q ≠ 0)
    (hlt : |q| < (2 : ℚ) ^ (k + p)) (hk : emin ≤ k) :
    max (Int.log 2 |q| - ((p : Int) - 1)) emin ≤ k := by
  have hpos : 0 < |q| := abs_pos.mpr hq
  have h := (Int.lt_zpow_iff_log_lt (b := 2) (by norm_num) hpos (x := k + p)).mp
    (by exact_mod_cast hlt)
  exact max_le (by omega) hk

theorem roundBinary_exact (p : Nat) (emin : Int) (m k : Int) (hm : |m| < 2 ^ p)
    (hk : emin ≤ k) : roundBinary p emin ((m : ℚ) * (2 : ℚ) ^ k) = (m : ℚ) * (2 : ℚ) ^ k := by
  by_cases hq : (m : ℚ) * (2 : ℚ) ^ k = 0
  · rw [hq]
    unfold roundBinary
    simp [roundHalfEven]
  · unfold roundBinary
    simp only []
    have h2 : (0 : ℚ) < 2 := by norm_num
    have hlt : |(m : ℚ) * (2 : ℚ) ^ k| < (2 : ℚ) ^ (k + p) := by
      rw [abs_mul, abs_of_pos (zpow_pos h2 k), zpow_add₀ (by norm_num), mul_comm]
      apply mul_lt_mul_of_pos_left _ (zpow_pos h2 k)
      rw [zpow_natCast]
      exact_mod_cast hm
    have he := roundBinary_exp_le p emin k _ hq hlt hk
    generalize max (Int.log 2 |(m : ℚ) * (2 : ℚ) ^ k| - ((p : Int) - 1)) emin = e at he
    obtain ⟨d, hd⟩ : ∃ d : Nat, k = e + d := ⟨(k - e).toNat, by omega⟩
    have hdiv : (m : ℚ) * (2 : ℚ) ^ k / (2 : ℚ) ^ e = ((m * 2 ^ d : Int) : ℚ) := by
      rw [hd, zpow_add₀ (by norm_num), zpow_natCast]
      field_simp
      ring
    rw [hdiv, roundHalfEven_intCast, hd, zpow_add₀ (by norm_num), zpow_natCast]
    push_cast
    ring

theorem f32_int (m : Int) (hm : |m| < 2 ^ 24) : f32 (m : ℚ) = m := by
  have := roundBinary_exact 24 (-149) m 0 hm (by norm_num)
  simpa [f32] using this

theorem f32_int_div_pow (m : Int) (j : Nat) (hm : |m| < 2 ^ 24) (hj : j ≤ 149) :
    f32 ((m : ℚ) / 2 ^ j) = (m : ℚ) / 2 ^ j := by
  have := roundBinary_exact 24 (-149) m (-(j : Int)) hm (by omega)
  simpa [f32, zpow_neg, div_eq_mul_inv] using this

theorem roundBinary_err (p : Nat) (emin k : Int) (q : ℚ)
    (hlt : |q| < (2 : ℚ) ^ (k + p)) (hk : emin ≤ k) (hp : 1 - (p : Int) ≤ k) :
    |roundBinary p emin q - q| ≤ (2 : ℚ) ^ k / 2 := by
  have he : max (Int.log 2 |q| - ((p : Int) - 1)) emin ≤ k := by
    by_cases hq : q = 0
    · rw [hq]
      simp only [abs_zero]
      rw [Int.log_of_right_le_zero 2 (le_refl (0 : ℚ))]
      exact max_le (by omega) hk
    · exact roundBinary_exp_le p emin k q hq hlt hk
  unfold roundBinary
  simp only []
  generalize max (Int.log 2 |q| - ((p : Int) - 1)) emin = e at he
  have h2 : (0 : ℚ) < 2 := by norm_num
  have hpos := zpow_pos h2 e
  have herr := roundHalfEven_err (q / (2 : ℚ) ^ e)
  have : (roundHalfEven (q / (2 : ℚ) ^ e) : ℚ) * (2 : ℚ) ^ e - q =
      ((roundHalfEven (q / (2 : ℚ) ^ e) : ℚ) - q / (2 : ℚ) ^ e) * (2 : ℚ) ^ e := by
    field_simp
  rw [this, abs_mul, abs_of_pos hpos]
  have hmono : (2 : ℚ) ^ e ≤ (2 : ℚ) ^ k := zpow_le_zpow_right₀ (by norm_num) he
  calc |(roundHalfEven (q / (2 : ℚ) ^ e) : ℚ) - q / (2 : ℚ) ^ e| * (2 : ℚ) ^ e
      ≤ 1 / 2 * (2 : ℚ) ^ e := mul_le_mul_of_nonneg_right herr (le_of_lt hpos)
    _ ≤ 1 / 2 * (2 : ℚ) ^ k := mul_le_mul_of_nonneg_left hmono (by norm_num)
    _ = (2 : ℚ) ^ k / 2 := by ring

/-! ## Bit patterns -/

theorem shiftLeft_or_of_lt (a b i : Nat) (hb : b < 2 ^ i) : (a <<< i) ||| b = 2 ^ i * a + b := by
  rw [Nat.shiftLeft_eq, Nat.mul_comm, Nat.mul_add_lt_is_or hb]

theorem or_shiftLeft_of_lt (a b i : Nat) (hb : b < 2 ^ i) : b ||| (a <<< i) = 2 ^ i * a + b := by
  rw [Nat.or_comm, shiftLeft_or_of_lt a b i hb]

/-- The sign test `x & 2^k` of a value of `k + 1` bits. -/
theorem and_two_pow_ne_zero_iff (k x : Nat) (hx : x < 2 ^ (k + 1)) :
    x &&& 2 ^ k ≠ 0 ↔ 2 ^ k ≤ x := by
  rw [Nat.and_two_pow, Nat.testBit_to_div_mod]
  have hpos : 0 < 2 ^ k := Nat.pow_pos (by norm_num)
  have hdiv : x / 2 ^ k < 2 := by
    rw [Nat.div_lt_iff_lt_mul hpos, Nat.mul_comm]
    rw [Nat.pow_succ] at hx
    exact hx
  constructor
  · intro h
    by_contra hlt
    push_neg at hlt
    rw [Nat.div_eq_of_lt hlt] at h
    simp at h
  · intro h
    have h1 : 1 ≤ x / 2 ^ k := (Nat.one_le_div_iff hpos).mpr h
    have h2 : x / 2 ^ k = 1 := by omega
    rw [h2]
    simp

/-- The sign extension `x | mask` of a negative value of `k + 1` bits, the mask
having bit `k` and the bits above it. -/
theorem or_signMask (k c x : Nat) (h1 : 2 ^ k ≤ x) (h2 : x < 2 ^ (k + 1)) :
    x ||| 2 ^ k * (2 * c + 1) = x + 2 ^ (k + 1) * c := by
  have hk : 2 ^ k < 2 ^ (k + 1) := Nat.pow_lt_pow_right (by norm_num) (by omega)
  have hpow : 2 ^ (k + 1) = 2 * 2 ^ k := by rw [Nat.pow_succ, Nat.mul_comm]
  have hr : x - 2 ^ k < 2 ^ k := by omega
  have e1 : 2 ^ k * (2 * c + 1) = 2 ^ (k + 1) * c ||| 2 ^ k := by
    rw [← Nat.mul_add_lt_is_or hk, hpow]
    ring
  have e2 : x = 2 ^ k ||| (x - 2 ^ k) := by
    have := Nat.mul_add_lt_is_or hr 1
    rw [Nat.mul_one] at this
    rw [← this]
    omega
  have e3 : 2 ^ (k + 1) * c ||| x = 2 ^ (k + 1) * c + x := (Nat.mul_add_lt_is_or h2 c).symm
  calc x ||| 2 ^ k * (2 * c + 1)
      = (2 ^ k ||| (x - 2 ^ k)) ||| (2 ^ (k + 1) * c ||| 2 ^ k) := by rw [e1, ← e2]
    _ = 2 ^ (k + 1) * c ||| (2 ^ k ||| (x - 2 ^ k)) := by
        rw [Nat.or_comm (2 ^ (k + 1) * c) (2 ^ k), ← Nat.or_assoc,
          Nat.or_comm (2 ^ k ||| (x - 2 ^ k)) (2 ^ k), ← Nat.or_assoc, Nat.or_self,
          Nat.or_comm]
    _ = 2 ^ (k + 1) * c ||| x := by rw [← e2]
    _ = x + 2 ^ (k + 1) * c := by rw [e3, Nat.add_comm]

theorem SampleBarometer_pressureRaw_eq (xl l h : Nat) (hxl : xl < 256) (hl : l < 256)
    (hh : h < 256) :
    SampleBarometer_pressureRaw xl l h =
      if xl + 256 * l + 65536 * h < 2 ^ 23 then ((xl + 256 * l + 65536 * h : Nat) : Int)
      else ((xl + 256 * l + 65536 * h : Nat) : Int) - 2 ^ 24 := by
  unfold SampleBarometer_pressureRaw
  have e0 : 0 ||| (xl <<< 0) = xl := by simp
  have e1 : xl ||| (l <<< 8) = 2 ^ 8 * l + xl := or_shiftLeft_of_lt l xl 8 (by omega)
  have e2 : (2 ^ 8 * l + xl) ||| (h <<< 16) = 2 ^ 16 * h + (2 ^ 8 * l + xl) :=
    or_shiftLeft_of_lt h _ 16 (by omega)
  simp only [e0, e1, e2]
  have hU : 2 ^ 16 * h + (2 ^ 8 * l + xl) = xl + 256 * l + 65536 * h := by omega
  rw [hU]
  generalize xl + 256 * l + 65536 * h = U at *
  have hlt : U < 2 ^ (23 + 1) := by omega
  have htest := and_two_pow_ne_zero_iff 23 U hlt
  have hm : (0x00800000 : Nat) = 2 ^ 23 := by norm_num
  rw [hm]
  by_cases hs : 2 ^ 23 ≤ U
  · rw [if_pos (htest.mpr hs), if_neg (by omega)]
    have := or_signMask 23 255 U hs hlt
    have hmask : (0xFF800000 : Nat) = 2 ^ 23 * (2 * 255 + 1) := by norm_num
    rw [hmask, this]
    unfold toS32
    norm_num
    omega
  · rw [if_neg (fun h => hs (htest.mp h)), if_pos (by omega)]
    unfold toS32
    norm_num
    omega

theorem SampleBarometer_temperatureRaw_eq (l h : Nat) (hl : l < 256) (hh : h < 256) :
    SampleBarometer_temperatureRaw l h =
      if l + 256 * h < 2 ^ 15 then ((l + 256 * h : Nat) : Int)
      else ((l + 256 * h : Nat) : Int) - 2 ^ 16 := by
  unfold SampleBarometer_temperatureRaw
  have e0 : 0 ||| (l <<< 0) = l := by simp
  have e1 : l ||| (h <<< 8) = 2 ^ 8 * h + l := or_shiftLeft_of_lt h l 8 (by omega)
  simp only [e0, e1]
  have hU : 2 ^ 8 * h + l = l + 256 * h := by omega
  rw [hU]
  generalize l + 256 * h = U at *
  have hlt : U < 2 ^ (15 + 1) := by omega
  have htest := and_two_pow_ne_zero_iff 15 U hlt
  have hm : (0x00008000 : Nat) = 2 ^ 15 := by norm_num
  rw [hm]
  by_cases hs : 2 ^ 15 ≤ U
  · rw [if_pos (htest.mpr hs), if_neg (by omega)]
    have := or_signMask 15 65535 U hs hlt
    have hmask : (0xFFFF8000 : Nat) = 2 ^ 15 * (2 * 65535 + 1) := by norm_num
    rw [hmask, this]
    unfold toS32
    norm_num
    omega
  · rw [if_neg (fun h => hs (htest.mp h)), if_pos (by omega)]
    unfold toS32
    norm_num
    omega

theorem encByte_lt (width : Nat) (V : Int) (k : Nat) : encByte width V k < 256 :=
  Nat.mod_lt _ (by norm_num)

/-- Decoding the three bytes of a 24-bit two's complement value gives the value back. -/
theorem SampleBarometer_pressureRaw_enc (V : Int) (h1 : -2 ^ 23 ≤ V) (h2 : V < 2 ^ 23) :
    SampleBarometer_pressureRaw (encByte 24 V 0) (encByte 24 V 1) (encByte 24 V 2) = V := by
  rw [SampleBarometer_pressureRaw_eq _ _ _ (encByte_lt _ _ _) (encByte_lt _ _ _)
    (encByte_lt _ _ _)]
  unfold encByte
  norm_num at h1 h2 ⊢
  split_ifs <;> omega

/-- Decoding the two bytes of a 16-bit two's complement value gives the value back. -/
theorem SampleBarometer_temperatureRaw_enc (V : Int) (h1 : -2 ^ 15 ≤ V) (h2 : V < 2 ^ 15) :
    SampleBarometer_temperatureRaw (encByte 16 V 0) (encByte 16 V 1) = V := by
  rw [SampleBarometer_temperatureRaw_eq _ _ (encByte_lt _ _ _) (encByte_lt _ _ _)]
  unfold encByte
  norm_num at h1 h2 ⊢
  split_ifs <;> omega

/-! ## Barometer sampling -/

set_option maxRecDepth 8192 in
theorem SampleBarometer_body_step (env : Env) : Run.Sat Step (SampleBarometer_body env) := by
  unfold SampleBarometer_body
  repeat' (with_reducible first
    | exact MAY_DIE_step (readRegBlock_codeStep _ _ _ _ _)
    | exact MAY_DIE_step (readRegsBlock_codeStep _ _ _ _ _ _)
    | exact MAY_DIE_step (writeRegBlock_codeStep _ _ _ _ _)
    | exact MAY_DIE_step (failBlock_codeStep _ _)
    | exact MAY_DIE_step (failIfBlock_codeStep _ _ _)
    | exact Run.Sat.ofPure Step_chains _
    | exact Run.Sat.ofPureUnit Step_chains
    | exact Run.Sat.ofForTimeout Step_chains
        (fun b => MAY_DIE_step (readRegBlock_codeStep _ _ _ _ b)) exec_delay_step _ _
    | exact Run.Sat.ofForTimeout Step_chains
        (fun b => MAY_DIE_step (readRegsBlock_codeStep _ _ _ _ _ b)) exec_delay_step _ _
    | refine Run.Sat.ofIte ?_ ?_
    | refine Run.Sat.ofBind Step_chains ?_ (fun _ => ?_))

/-- A single-register read block that leaves `rc` at `XST_SUCCESS` has sent the
register address, received exactly one byte and changed nothing but `pcErr`. -/
theorem readRegsBlock_one_ok (env : Env) (a r : Nat) (m : String) (b0 : Nat) (w : World)
    (h : (readRegsBlock env a 1 r m [b0] w).2.sys.rc = XST_SUCCESS) :
    ∃ b, readRegsBlock env a 1 r m [b0] w =
      ([b % 256], ((w.emit (Event.iicSend a [r] XIIC_REPEATED_START 1)).emit
        (Event.iicRecv a 1 XIIC_STOP [b])).setErr m) := by
  unfold readRegsBlock at h ⊢
  rw [ReadIicRegs_eq] at h ⊢
  simp only [gt_iff_lt, lt_self_iff_false, if_false] at h ⊢
  generalize hsent : env.XIic_Send w.log a [r] XIIC_REPEATED_START = sent at h ⊢
  generalize hdata : env.XIic_Recv _ a 1 XIIC_STOP = data at h ⊢
  split_ifs at h ⊢ with h1 h2 h3 h4
  · simp at h
  · simp at h
    exact absurd h h2
  · simp at h
    exact absurd h h3.2
  · exact absurd h (by simpa using mismatchRc_ne_zero data.length 1 (by decide))
  · have hs : sent = 1 := by omega
    have hl : data.length = 1 := by omega
    obtain ⟨b, hb⟩ := List.length_eq_one.mp hl
    subst hs hb
    exact ⟨b, by simp [deposit]⟩

theorem readRegBlock_ok (env : Env) (a r : Nat) (m : String) (b0 : Nat) (w : World)
    (h : (readRegBlock env a r m b0 w).2.sys.rc = XST_SUCCESS) :
    ∃ b, readRegBlock env a r m b0 w =
      (b % 256, ((w.emit (Event.iicSend a [r] XIIC_REPEATED_START 1)).emit
        (Event.iicRecv a 1 XIIC_STOP [b])).setErr m) := by
  have h1 : (readRegsBlock env a 1 r m [b0] w).2.sys.rc = XST_SUCCESS := h
  obtain ⟨b, hb⟩ := readRegsBlock_one_ok env a r m b0 w h1
  refine ⟨b, ?_⟩
  unfold readRegsBlock at hb
  unfold readRegBlock ReadIicReg
  simp only [Prod.mk.injEq] at hb ⊢
  rw [hb.1, hb.2]
  simp

/-- A `MAY_DIE` around a single-register read that ran on. -/
theorem MAY_DIE_readRegsBlock_one_ok {env : Env} {a r : Nat} {m : String} {b0 : Nat}
    {w w1 : World} {x : List Nat}
    (h : MAY_DIE (readRegsBlock env a 1 r m [b0]) w = Res.ok x w1) :
    ∃ b, x = [b % 256] ∧ w1.log = w.log ++ [Event.iicSend a [r] XIIC_REPEATED_START 1,
      Event.iicRecv a 1 XIIC_STOP [b]] := by
  obtain ⟨h1, h2, h3⟩ := MAY_DIE_ok h
  obtain ⟨b, hb⟩ := readRegsBlock_one_ok env a r m b0 w h1
  rw [hb] at h2 h3
  exact ⟨b, h2, by rw [h3]; simp⟩

set_option maxRecDepth 8192 in
/-- A barometer sample whose body ran to its end has ended with the five
single-register reads, and the bytes it decodes are the bytes they delivered. -/
theorem SampleBarometer_body_ok (env : Env) (w w1 : World) (d : Nat × Nat × Nat × Nat × Nat)
    (h : SampleBarometer_body env w = Res.ok d w1) :
    ∃ (pre : List Event) (xl l hh tl th : Nat),
      d = (xl % 256, l % 256, hh % 256, tl % 256, th % 256) ∧
      w1.log = pre ++ barometerOutputReads xl l hh tl th := by
  unfold SampleBarometer_body at h
  obtain ⟨_, wa, _, h⟩ := Run.bind_ok h
  obtain ⟨_, wb, _, h⟩ := Run.bind_ok h
  obtain ⟨_, wc, _, h⟩ := Run.bind_ok h
  obtain ⟨_, wd, _, h⟩ := Run.bind_ok h
  obtain ⟨_, we, _, h⟩ := Run.bind_ok h
  obtain ⟨x1, w2, h1, h⟩ := Run.bind_ok h
  obtain ⟨x2, w3, h2, h⟩ := Run.bind_ok h
  obtain ⟨x3, w4, h3, h⟩ := Run.bind_ok h
  obtain ⟨x4, w5, h4, h⟩ := Run.bind_ok h
  obtain ⟨x5, w6, h5, h⟩ := Run.bind_ok h
  obtain ⟨b1, e1, l1⟩ := MAY_DIE_readRegsBlock_one_ok h1
  obtain ⟨b2, e2, l2⟩ := MAY_DIE_readRegsBlock_one_ok h2
  obtain ⟨b3, e3, l3⟩ := MAY_DIE_readRegsBlock_one_ok h3
  obtain ⟨b4, e4, l4⟩ := MAY_DIE_readRegsBlock_one_ok h4
  obtain ⟨b5, e5, l5⟩ := MAY_DIE_readRegsBlock_one_ok h5
  cases h
  refine ⟨we.log, b1, b2, b3, b4, b5, ?_, ?_⟩
  · rw [e1, e2, e3, e4, e5]
    rfl
  · rw [l5, l4, l3, l2, l1]
    simp [barometerOutputReads]

/-- The result of `SampleBarometer` on an enabled barometer whose body ran to its end. -/
theorem SampleBarometer_of_ok (env : Env) (w w1 : World) (xl l h tl th : Nat)
    (hen : w.sys.bBarometerOk ≠ 0)
    (hb : SampleBarometer_body env (w.setRc XST_SUCCESS) = Res.ok (xl, l, h, tl, th) w1) :
    SampleBarometer env w = { w1 with
      sys.fBarometerPressure := f32 (f32 (SampleBarometer_pressureRaw xl l h) / 4096)
      sys.fBarometerTemperature :=
        f32 (f64 (f32 (SampleBarometer_temperatureRaw tl th) / 100)) } := by
  unfold SampleBarometer
  rw [if_neg hen, hb]

/-- The result of `SampleBarometer` on an enabled barometer whose body jumped to `L_DIE`. -/
theorem SampleBarometer_of_die (env : Env) (w w1 : World) (hen : w.sys.bBarometerOk ≠ 0)
    (hb : SampleBarometer_body env (w.setRc XST_SUCCESS) = Res.die w1) :
    SampleBarometer env w = w1 := by
  unfold SampleBarometer
  rw [if_neg hen, hb]

/-- What a successful sample of an enabled barometer stores, in terms of the
bytes of its last five reads. -/
theorem SampleBarometer_success (env : Env) (w : World) (pre : List Event)
    (xl l h tl th : Nat) (hen : w.sys.bBarometerOk ≠ 0)
    (hrc : (SampleBarometer env w).sys.rc = XST_SUCCESS)
    (hlog : (SampleBarometer env w).log = pre ++ barometerOutputReads xl l h tl th) :
    (SampleBarometer env w).sys.fBarometerPressure =
      f32 (f32 (SampleBarometer_pressureRaw (xl % 256) (l % 256) (h % 256)) / 4096) ∧
    (SampleBarometer env w).sys.fBarometerTemperature =
      f32 (f64 (f32 (SampleBarometer_temperatureRaw (tl % 256) (th % 256)) / 100)) := by
  cases hb : SampleBarometer_body env (w.setRc XST_SUCCESS) with
  | die w1 =>
    exfalso
    rw [SampleBarometer_of_die env w w1 hen hb] at hrc
    have hs := SampleBarometer_body_step env (w.setRc XST_SUCCESS)
    rw [hb] at hs
    exact (hs.2.2 rfl).1 hrc
  | ok d w1 =>
    obtain ⟨pre1, b1, b2, b3, b4, b5, hd, hl⟩ := SampleBarometer_body_ok env _ w1 d hb
    subst hd
    rw [SampleBarometer_of_ok env w w1 _ _ _ _ _ hen hb] at hlog ⊢
    have hl2 : pre1 ++ barometerOutputReads b1 b2 b3 b4 b5 =
        pre ++ barometerOutputReads xl l h tl th := by
      rw [← hl]
      exact hlog
    have hev := (List.append_inj' hl2 rfl).2
    simp only [barometerOutputReads, List.cons.injEq, Event.iicRecv.injEq, and_true,
      true_and] at hev
    obtain ⟨r1, r2, r3, r4, r5⟩ := hev
    subst r1 r2 r3 r4 r5
    exact ⟨rfl, rfl⟩

/-- C5: a successful sample of an enabled barometer that reads the three bytes
of the 24-bit two's complement encoding of `V`, least significant first, from
PRESS_OUT_XL, PRESS_OUT_L, PRESS_OUT_H assembles the raw value `V` and stores
exactly `V / 4096` as pressure (the `float` division is exact). -/
theorem C5_pressure_decode (env : Env) (w : World) (V : Int) (tl th : Nat) (pre : List Event)
    (hen : w.sys.bBarometerOk ≠ 0) (hlo : -2 ^ 23 ≤ V) (hhi : V < 2 ^ 23)
    (hrc : (SampleBarometer env w).sys.rc = XST_SUCCESS)
    (hlog : (SampleBarometer env w).log = pre ++
      barometerOutputReads (encByte 24 V 0) (encByte 24 V 1) (encByte 24 V 2) tl th) :
    SampleBarometer_pressureRaw (encByte 24 V 0) (encByte 24 V 1) (encByte 24 V 2) = V ∧
    (SampleBarometer env w).sys.fBarometerPressure = (V : ℚ) / 4096 := by
  have hraw := SampleBarometer_pressureRaw_enc V hlo hhi
  refine ⟨hraw, ?_⟩
  rw [(SampleBarometer_success env w pre _ _ _ tl th hen hrc hlog).1]
  rw [Nat.mod_eq_of_lt (encByte_lt 24 V 0), Nat.mod_eq_of_lt (encByte_lt 24 V 1),
    Nat.mod_eq_of_lt (encByte_lt 24 V 2), hraw]
  have hV : |V| < 2 ^ 24 := by
    rw [abs_lt]
    constructor <;> omega
  rw [f32_int V hV]
  have := f32_int_div_pow V 12 hV (by norm_num)
  norm_num at this ⊢
  exact this

/-- C5 at a concrete input: an ideal bus whose barometer holds the pressure bytes
00 F0 FF, the encoding of -4096; the stored pressure is -4096 / 4096. -/
theorem C5_witness :
    (SampleBarometer (regEnv barometerRegs) enabledWorld).sys.rc = XST_SUCCESS ∧
    SampleBarometer_pressureRaw (encByte 24 (-4096) 0) (encByte 24 (-4096) 1)
      (encByte 24 (-4096) 2) = -4096 ∧
    (SampleBarometer (regEnv barometerRegs) enabledWorld).sys.fBarometerPressure =
      ((-4096 : Int) : ℚ) / 4096 :=
  ⟨by decide,
   (C5_pressure_decode (regEnv barometerRegs) enabledWorld (-4096) 0x2E 0xFB
      ((SampleBarometer (regEnv barometerRegs) enabledWorld).log.take 5)
      (by decide) (by decide) (by decide) (by decide) (by decide)).1,
   (C5_pressure_decode (regEnv barometerRegs) enabledWorld (-4096) 0x2E 0xFB
      ((SampleBarometer (regEnv barometerRegs) enabledWorld).log.take 5)
      (by decide) (by decide) (by decide) (by decide) (by decide)).2⟩

/-- C6: a successful sample of an enabled barometer that reads the two bytes of
the 16-bit two's complement encoding of `V`, least significant first, from
TEMP_OUT_L, TEMP_OUT_H assembles the raw value `V` and stores `V / 100` as
temperature: the quotient of the `double` division `(float)V / 100.0` narrowed
to `float`, which is within `2 ^ (-15)` of the rational `V / 100`. -/
theorem C6_temperature_decode (env : Env) (w : World) (V : Int) (xl l h : Nat)
    (pre : List Event)
    (hen : w.sys.bBarometerOk ≠ 0) (hlo : -32768 ≤ V) (hhi : V ≤ 32767)
    (hrc : (SampleBarometer env w).sys.rc = XST_SUCCESS)
    (hlog : (SampleBarometer env w).log = pre ++
      barometerOutputReads xl l h (encByte 16 V 0) (encByte 16 V 1)) :
    SampleBarometer_temperatureRaw (encByte 16 V 0) (encByte 16 V 1) = V ∧
    (SampleBarometer env w).sys.fBarometerTemperature = f32 (f64 ((V : ℚ) / 100)) ∧
    |(SampleBarometer env w).sys.fBarometerTemperature - (V : ℚ) / 100| ≤ 1 / 2 ^ 15 := by
  have hraw := SampleBarometer_temperatureRaw_enc V (by omega) (by omega)
  have hst : (SampleBarometer env w).sys.fBarometerTemperature = f32 (f64 ((V : ℚ) / 100)) := by
    rw [(SampleBarometer_success env w pre xl l h _ _ hen hrc hlog).2]
    rw [Nat.mod_eq_of_lt (encByte_lt 16 V 0), Nat.mod_eq_of_lt (encByte_lt 16 V 1), hraw]
    have hV : |V| < 2 ^ 24 := by
      rw [abs_lt]
      constructor <;> omega
    rw [f32_int V hV]
  refine ⟨hraw, hst, ?_⟩
  rw [hst]
  have hq : |(V : ℚ) / 100| ≤ 32768 / 100 := by
    rw [abs_div, abs_of_pos (by norm_num : (0 : ℚ) < 100)]
    apply div_le_div_of_nonneg_right _ (by norm_num)
    rw [abs_le]
    constructor
    · have : ((-32768 : Int) : ℚ) ≤ (V : ℚ) := by exact_mod_cast hlo
      norm_num at this ⊢
      exact this
    · have : (V : ℚ) ≤ ((32767 : Int) : ℚ) := by exact_mod_cast hhi
      norm_num at this ⊢
      linarith
  have h64 : |f64 ((V : ℚ) / 100) - (V : ℚ) / 100| ≤ (2 : ℚ) ^ (-44 : Int) / 2 :=
    roundBinary_err 53 (-1074) (-44) _ (by
      norm_num
      exact lt_of_le_of_lt hq (by norm_num)) (by norm_num) (by norm_num)
  have hy : |f64 ((V : ℚ) / 100)| < (2 : ℚ) ^ ((-15 : Int) + (24 : Nat)) := by
    have h1 : |f64 ((V : ℚ) / 100)| ≤ |f64 ((V : ℚ) / 100) - (V : ℚ) / 100| + |(V : ℚ) / 100| := by
      have := abs_add (f64 ((V : ℚ) / 100) - (V : ℚ) / 100) ((V : ℚ) / 100)
      simpa using this
    have h2 : (2 : ℚ) ^ (-44 : Int) / 2 + 32768 / 100 < (2 : ℚ) ^ ((-15 : Int) + (24 : Nat)) := by
      norm_num
    linarith
  have h32 : |f32 (f64 ((V : ℚ) / 100)) - f64 ((V : ℚ) / 100)| ≤ (2 : ℚ) ^ (-15 : Int) / 2 :=
    roundBinary_err 24 (-149) (-15) _ hy (by norm_num) (by norm_num)
  have htri : |f32 (f64 ((V : ℚ) / 100)) - (V : ℚ) / 100| ≤
      |f32 (f64 ((V : ℚ) / 100)) - f64 ((V : ℚ) / 100)| +
      |f64 ((V : ℚ) / 100) - (V : ℚ) / 100| := by
    have := abs_add (f32 (f64 ((V : ℚ) / 100)) - f64 ((V : ℚ) / 100))
      (f64 ((V : ℚ) / 100) - (V : ℚ) / 100)
    simpa using this
  have hsum : (2 : ℚ) ^ (-15 : Int) / 2 + (2 : ℚ) ^ (-44 : Int) / 2 ≤ 1 / 2 ^ 15 := by
    norm_num
  linarith

/-- C6 at a concrete input: an ideal bus whose barometer holds the temperature
bytes 2E FB, the encoding of -1234. -/
theorem C6_witness :
    (SampleBarometer (regEnv barometerRegs) enabledWorld).sys.rc = XST_SUCCESS ∧
    SampleBarometer_temperatureRaw (encByte 16 (-1234) 0) (encByte 16 (-1234) 1) = -1234 ∧
    (SampleBarometer (regEnv barometerRegs) enabledWorld).sys.fBarometerTemperature =
      f32 (f64 (((-1234 : Int) : ℚ) / 100)) :=
  ⟨by decide,
   (C6_temperature_decode (regEnv barometerRegs) enabledWorld (-1234) 0x00 0xF0 0xFF
      ((SampleBarometer (regEnv barometerRegs) enabledWorld).log.take 5)
      (by decide) (by decide) (by decide) (by decide) (by decide)).1,
   (C6_temperature_decode (regEnv barometerRegs) enabledWorld (-1234) 0x00 0xF0 0xFF
      ((SampleBarometer (regEnv barometerRegs) enabledWorld).log.take 5)
      (by decide) (by decide) (by decide) (by decide) (by decide)).2.1⟩

/-! ## Hygrometer sampling -/

/-- A `MAY_DIE` around the read of one register that ran on. -/
theorem MAY_DIE_readRegBlock_ok {env : Env} {a r : Nat} {m : String} {b0 : Nat}
    {w w1 : World} {x : Nat} (h : MAY_DIE (readRegBlock env a r m b0) w = Res.ok x w1) :
    ∃ b, x = b % 256 ∧ w1.log = w.log ++ readEvents a r b := by
  obtain ⟨h1, h2, h3⟩ := MAY_DIE_ok h
  obtain ⟨b, hb⟩ := readRegBlock_ok env a r m b0 w h1
  rw [hb] at h2 h3
  exact ⟨b, h2, by rw [h3]; simp [readEvents]⟩

theorem SampleHygrometer_read_ok {env : Env} {r : Nat} {m : String} {w w1 : World} {x : Nat}
    (h : SampleHygrometer_read env r m w = Res.ok x w1) :
    ∃ b, x = b % 256 ∧ w1.log = w.log ++ readEvents HYGROMETER_SLAVE_ADDRESS r b :=
  MAY_DIE_readRegBlock_ok h

theorem SampleHygrometer_read_step (env : Env) (r : Nat) (m : String) :
    Run.Sat Step (SampleHygrometer_read env r m) :=
  MAY_DIE_step (readRegBlock_codeStep _ _ _ _ _)

theorem SampleHygrometer_read_onlyStatus (env : Env) (r : Nat) (m : String) :
    Run.Sat (Framed System.onlyStatus) (SampleHygrometer_read env r m) :=
  MAY_DIE_onlyStatus (readRegBlock_onlyStatus _ _ _ _ _)

set_option maxRecDepth 8192 in
theorem SampleHygrometer_humidity_step (env : Env) :
    Run.Sat Step (SampleHygrometer_humidity env) := by
  unfold SampleHygrometer_humidity
  repeat' (with_reducible first
    | exact SampleHygrometer_read_step _ _ _
    | exact MAY_DIE_step (writeRegBlock_codeStep _ _ _ _ _)
    | exact MAY_DIE_step (failIfBlock_codeStep _ _ _)
    | exact Run.Sat.ofPure Step_chains _
    | exact Run.Sat.ofForTimeout Step_chains
        (fun b => MAY_DIE_step (readRegBlock_codeStep _ _ _ _ b)) exec_delay_step _ _
    | exact Run.Sat.ofForTimeout Step_chains
        (fun b => MAY_DIE_step (readRegsBlock_codeStep _ _ _ _ _ b)) exec_delay_step _ _
    | refine Run.Sat.ofBind Step_chains ?_ (fun _ => ?_))

set_option maxRecDepth 8192 in
theorem SampleHygrometer_temperature_step (env : Env) :
    Run.Sat Step (SampleHygrometer_temperature env) := by
  unfold SampleHygrometer_temperature
  repeat' (with_reducible first
    | exact SampleHygrometer_read_step _ _ _
    | exact Run.Sat.ofPure Step_chains _
    | refine Run.Sat.ofBind Step_chains ?_ (fun _ => ?_))

set_option maxRecDepth 8192 in
theorem SampleHygrometer_temperature_onlyStatus (env : Env) :
    Run.Sat (Framed System.onlyStatus) (SampleHygrometer_temperature env) := by
  unfold SampleHygrometer_temperature
  repeat' (with_reducible first
    | exact SampleHygrometer_read_onlyStatus _ _ _
    | exact Run.Sat.ofPure onlyStatus_chains _
    | refine Run.Sat.ofBind onlyStatus_chains ?_ (fun _ => ?_))

set_option maxRecDepth 8192 in
/-- The humidity half of a hygrometer sample that ran to its end has ended with
the eight reads of the humidity decode and returns the value computed from the
bytes they delivered. -/
theorem SampleHygrometer_humidity_ok (env : Env) (w w1 : World) (v : Option Nat)
    (h : SampleHygrometer_humidity env w = Res.ok v w1) :
    ∃ (pre : List Event) (b30 b31 b36 b37 b3A b3B b28 b29 : Nat),
      w1.log = pre ++ hygrometerHumidityReads b30 b31 b36 b37 b3A b3B b28 b29 ∧
      v = humidityOfBytes (b30 % 256) (b31 % 256) (b36 % 256) (b37 % 256) (b3A % 256)
        (b3B % 256) (b28 % 256) (b29 % 256) := by
  unfold SampleHygrometer_humidity at h
  obtain ⟨_, wa, _, h⟩ := Run.bind_ok h
  obtain ⟨_, wb, _, h⟩ := Run.bind_ok h
  obtain ⟨_, wc, _, h⟩ := Run.bind_ok h
  obtain ⟨_, wd, _, h⟩ := Run.bind_ok h
  obtain ⟨_, we, _, h⟩ := Run.bind_ok h
  obtain ⟨x1, w2, h1, h⟩ := Run.bind_ok h
  obtain ⟨x2, w3, h2, h⟩ := Run.bind_ok h
  obtain ⟨x3, w4, h3, h⟩ := Run.bind_ok h
  obtain ⟨x4, w5, h4, h⟩ := Run.bind_ok h
  obtain ⟨x5, w6, h5, h⟩ := Run.bind_ok h
  obtain ⟨x6, w7, h6, h⟩ := Run.bind_ok h
  obtain ⟨x7, w8, h7, h⟩ := Run.bind_ok h
  obtain ⟨x8, w9, h8, h⟩ := Run.bind_ok h
  obtain ⟨b1, e1, l1⟩ := SampleHygrometer_read_ok h1
  obtain ⟨b2, e2, l2⟩ := SampleHygrometer_read_ok h2
  obtain ⟨b3, e3, l3⟩ := SampleHygrometer_read_ok h3
  obtain ⟨b4, e4, l4⟩ := SampleHygrometer_read_ok h4
  obtain ⟨b5, e5, l5⟩ := SampleHygrometer_read_ok h5
  obtain ⟨b6, e6, l6⟩ := SampleHygrometer_read_ok h6
  obtain ⟨b7, e7, l7⟩ := SampleHygrometer_read_ok h7
  obtain ⟨b8, e8, l8⟩ := SampleHygrometer_read_ok h8
  subst e1 e2 e3 e4 e5 e6 e7 e8
  refine ⟨we.log, b1, b2, b3, b4, b5, b6, b7, b8, ?_, ?_⟩
  · cases h
    rw [l8, l7, l6, l5, l4, l3, l2, l1]
    simp [hygrometerHumidityReads]
  · cases h
    rfl

set_option maxRecDepth 8192 in
/-- The temperature half of a hygrometer sample that ran to its end has made
exactly the nine reads of the temperature decode and returns the value
computed from the bytes they delivered. -/
theorem SampleHygrometer_temperature_ok (env : Env) (w w1 : World) (v : Option Nat)
    (h : SampleHygrometer_temperature env w = Res.ok v w1) :
    ∃ (b32 b33 b35 b3C b3D b3E b3F b2A b2B : Nat),
      w1.log = w.log ++ hygrometerTemperatureReads b32 b33 b35 b3C b3D b3E b3F b2A b2B ∧
      v = temperatureOfBytes (b32 % 256) (b33 % 256) (b35 % 256) (b3C % 256) (b3D % 256)
        (b3E % 256) (b3F % 256) (b2A % 256) (b2B % 256) := by
  unfold SampleHygrometer_temperature at h
  obtain ⟨x1, w2, h1, h⟩ := Run.bind_ok h
  obtain ⟨x2, w3, h2, h⟩ := Run.bind_ok h
  obtain ⟨x3, w4, h3, h⟩ := Run.bind_ok h
  obtain ⟨x4, w5, h4, h⟩ := Run.bind_ok h
  obtain ⟨x5, w6, h5, h⟩ := Run.bind_ok h
  obtain ⟨x6, w7, h6, h⟩ := Run.bind_ok h
  obtain ⟨x7, w8, h7, h⟩ := Run.bind_ok h
  obtain ⟨x8, w9, h8, h⟩ := Run.bind_ok h
  obtain ⟨x9, w10, h9, h⟩ := Run.bind_ok h
  obtain ⟨b1, e1, l1⟩ := SampleHygrometer_read_ok h1
  obtain ⟨b2, e2, l2⟩ := SampleHygrometer_read_ok h2
  obtain ⟨b3, e3, l3⟩ := SampleHygrometer_read_ok h3
  obtain ⟨b4, e4, l4⟩ := SampleHygrometer_read_ok h4
  obtain ⟨b5, e5, l5⟩ := SampleHygrometer_read_ok h5
  obtain ⟨b6, e6, l6⟩ := SampleHygrometer_read_ok h6
  obtain ⟨b7, e7, l7⟩ := SampleHygrometer_read_ok h7
  obtain ⟨b8, e8, l8⟩ := SampleHygrometer_read_ok h8
  obtain ⟨b9, e9, l9⟩ := SampleHygrometer_read_ok h9
  subst e1 e2 e3 e4 e5 e6 e7 e8 e9
  refine ⟨b1, b2, b3, b4, b5, b6, b7, b8, b9, ?_, ?_⟩
  · cases h
    rw [l9, l8, l7, l6, l5, l4, l3, l2, l1]
    simp [hygrometerTemperatureReads]
  · cases h
    rfl

theorem returned_eq_ok (r : Except Fault World) (w : World) (h : returned r = true) :
    r = Except.ok (resultWorld r w) := by
  cases r with
  | ok w1 => rfl
  | error f => cases h

theorem System.onlyStatus.fHygrometerHumidity {s s1 : System} (h : s.onlyStatus s1) :
    s1.fHygrometerHumidity = s.fHygrometerHumidity := by
  rw [h]

/-- What a successful sample of an enabled hygrometer stores, in terms of the
bytes of its last seventeen reads. -/
theorem SampleHygrometer_success (env : Env) (w w1 : World) (pre : List Event)
    (b30 b31 b36 b37 b3A b3B b28 b29 b32 b33 b35 b3C b3D b3E b3F b2A b2B : Nat)
    (hen : w.sys.bHygrometerOk ≠ 0)
    (hok : SampleHygrometer env w = Except.ok w1)
    (hrc : w1.sys.rc = XST_SUCCESS)
    (hlog : w1.log = pre ++ hygrometerHumidityReads b30 b31 b36 b37 b3A b3B b28 b29 ++
      hygrometerTemperatureReads b32 b33 b35 b3C b3D b3E b3F b2A b2B) :
    ∃ vh vt : Nat,
      humidityOfBytes (b30 % 256) (b31 % 256) (b36 % 256) (b37 % 256) (b3A % 256)
        (b3B % 256) (b28 % 256) (b29 % 256) = some vh ∧
      temperatureOfBytes (b32 % 256) (b33 % 256) (b35 % 256) (b3C % 256) (b3D % 256)
        (b3E % 256) (b3F % 256) (b2A % 256) (b2B % 256) = some vt ∧
      w1.sys.fHygrometerHumidity = f32 vh ∧ w1.sys.fHygrometerTemperature = f32 vt := by
  unfold SampleHygrometer at hok
  rw [if_neg hen] at hok
  have hs1 := SampleHygrometer_humidity_step env (w.setRc XST_SUCCESS)
  cases hh : SampleHygrometer_humidity env (w.setRc XST_SUCCESS) with
  | die wa =>
    rw [hh] at hok hs1
    simp only [] at hok
    cases hok
    exact absurd hrc (hs1.2.2 rfl).1
  | ok v wa =>
    rw [hh] at hok
    cases v with
    | none => cases hok
    | some vh =>
      simp only [] at hok
      have hs2 := SampleHygrometer_temperature_step env
        { wa with sys.fHygrometerHumidity := f32 vh }
      have hf2 := SampleHygrometer_temperature_onlyStatus env
        { wa with sys.fHygrometerHumidity := f32 vh }
      cases ht : SampleHygrometer_temperature env
        { wa with sys.fHygrometerHumidity := f32 vh } with
      | die wb =>
        rw [ht] at hok hs2
        simp only [] at hok
        cases hok
        exact absurd hrc (hs2.2.2 rfl).1
      | ok v2 wb =>
        rw [ht] at hok hf2
        cases v2 with
        | none => cases hok
        | some vt =>
          simp only [] at hok
          cases hok
          obtain ⟨pre1, x1, x2, x3, x4, x5, x6, x7, x8, hl1, hv1⟩ :=
            SampleHygrometer_humidity_ok env _ wa _ hh
          obtain ⟨y1, y2, y3, y4, y5, y6, y7, y8, y9, hl2, hv2⟩ :=
            SampleHygrometer_temperature_ok env _ wb _ ht
          have hl3 : pre1 ++ (hygrometerHumidityReads x1 x2 x3 x4 x5 x6 x7 x8 ++
              hygrometerTemperatureReads y1 y2 y3 y4 y5 y6 y7 y8 y9) =
              pre ++ (hygrometerHumidityReads b30 b31 b36 b37 b3A b3B b28 b29 ++
              hygrometerTemperatureReads b32 b33 b35 b3C b3D b3E b3F b2A b2B) := by
            rw [← List.append_assoc, ← List.append_assoc, ← hlog]
            show _ = wb.log
            rw [hl2]
            show _ = wa.log ++ _
            rw [hl1]
          have hev := (List.append_inj' hl3 (by
            simp [hygrometerHumidityReads, hygrometerTemperatureReads, readEvents])).2
          simp only [hygrometerHumidityReads, hygrometerTemperatureReads, readEvents,
            List.cons_append, List.nil_append, List.cons.injEq, Event.iicRecv.injEq,
            and_true, true_and] at hev
          obtain ⟨r1, r2, r3, r4, r5, r6, r7, r8, q1, q2, q3, q4, q5, q6, q7, q8, q9⟩ := hev
          subst r1 r2 r3 r4 r5 r6 r7 r8 q1 q2 q3 q4 q5 q6 q7 q8 q9
          refine ⟨vh, vt, hv1.symm, hv2.symm, ?_, rfl⟩
          exact System.onlyStatus.fHygrometerHumidity hf2

theorem le16_eq (lo hi : Nat) (h : lo < 256) : (((hi <<< 8) ||| lo : Nat) : Int) = le16 lo hi := by
  rw [shiftLeft_or_of_lt hi lo 8 (by simpa using h)]
  unfold le16
  norm_num
  ring

theorem SampleHygrometer_interpolate_eq (out out0 out1 y0 y1 : Int) (h : out1 ≠ out0) :
    SampleHygrometer_interpolate out out0 out1 y0 y1 =
      some (interpolationSpec out out0 out1 y0 y1) := by
  unfold SampleHygrometer_interpolate interpolationSpec
  simp only []
  rw [if_neg (by omega)]

theorem humidityOfBytes_eq (b30 b31 b36 b37 b3A b3B b28 b29 : Nat)
    (h36 : b36 < 256) (h3A : b3A < 256) (h28 : b28 < 256)
    (hne : le16 b3A b3B ≠ le16 b36 b37) :
    humidityOfBytes b30 b31 b36 b37 b3A b3B b28 b29 =
      some (min (toU16 (interpolationSpec (le16 b28 b29) (le16 b36 b37) (le16 b3A b3B)
        ((b30 / 2 : Nat) : Int) ((b31 / 2 : Nat) : Int))) 1000) := by
  unfold humidityOfBytes SampleHygrometer_humidityValue
  rw [le16_eq _ _ h36, le16_eq _ _ h3A, le16_eq _ _ h28,
    SampleHygrometer_interpolate_eq _ _ _ _ _ hne]
  simp only [Nat.shiftRight_one, gt_iff_lt, Option.some.injEq]
  split_ifs with h
  · omega
  · omega

theorem temperatureOfBytes_eq (b32 b33 b35 b3C b3D b3E b3F b2A b2B : Nat)
    (h3C : b3C < 256) (h3E : b3E < 256) (h2A : b2A < 256)
    (hne : le16 b3E b3F ≠ le16 b3C b3D) :
    temperatureOfBytes b32 b33 b35 b3C b3D b3E b3F b2A b2B =
      some (toU16 (interpolationSpec (le16 b2A b2B) (le16 b3C b3D) (le16 b3E b3F)
        ((T0_degC_of b32 b35 : Nat) : Int) ((T1_degC_of b33 b35 : Nat) : Int))) := by
  unfold temperatureOfBytes SampleHygrometer_temperatureValue
  rw [le16_eq _ _ h3C, le16_eq _ _ h3E, le16_eq _ _ h2A]
  show (match SampleHygrometer_interpolate (le16 b2A b2B) (le16 b3C b3D) (le16 b3E b3F)
    ((T0_degC_of b32 b35 : Nat) : Int) ((T1_degC_of b33 b35 : Nat) : Int) with
    | none => none
    | some r => some (toU16 r)) = _
  rw [SampleHygrometer_interpolate_eq _ _ _ _ _ hne]

theorem toU16_of_fits (r : Int) (h0 : 0 ≤ r) (h1 : r < 65536) : ((toU16 r : Nat) : Int) = r := by
  unfold toU16
  rw [Int.toNat_of_nonneg (Int.emod_nonneg _ (by norm_num))]
  exact Int.emod_eq_of_lt h0 (by simpa using h1)

theorem toU16_lt (r : Int) : toU16 r < 65536 := by
  unfold toU16
  have := Int.emod_lt_of_pos r (show (0 : Int) < 2 ^ 16 by norm_num)
  have := Int.emod_nonneg r (show (2 ^ 16 : Int) ≠ 0 by norm_num)
  omega

theorem f32_nat (n : Nat) (h : n < 2 ^ 24) : f32 (n : ℚ) = n := by
  have := f32_int (n : Int) (by rw [abs_of_nonneg (by positivity)]; exact_mod_cast h)
  simpa using this

/-- What a successful sample of an enabled hygrometer stores, in terms of the
interpolation formula over the bytes of its last seventeen reads. -/
theorem SampleHygrometer_stored (env : Env) (w w1 : World) (pre : List Event)
    (b30 b31 b36 b37 b3A b3B b28 b29 b32 b33 b35 b3C b3D b3E b3F b2A b2B : Nat)
    (hen : w.sys.bHygrometerOk ≠ 0)
    (hok : SampleHygrometer env w = Except.ok w1)
    (hrc : w1.sys.rc = XST_SUCCESS)
    (hlog : w1.log = pre ++ hygrometerHumidityReads b30 b31 b36 b37 b3A b3B b28 b29 ++
      hygrometerTemperatureReads b32 b33 b35 b3C b3D b3E b3F b2A b2B)
    (hb : ∀ b ∈ [b30, b31, b36, b37, b3A, b3B, b28, b29, b32, b33, b35, b3C, b3D, b3E,
      b3F, b2A, b2B], b < 256) :
    (le16 b3A b3B ≠ le16 b36 b37 →
      w1.sys.fHygrometerHumidity =
        ((min (toU16 (interpolationSpec (le16 b28 b29) (le16 b36 b37) (le16 b3A b3B)
          ((b30 / 2 : Nat) : Int) ((b31 / 2 : Nat) : Int))) 1000 : Nat) : ℚ)) ∧
    (le16 b3E b3F ≠ le16 b3C b3D →
      w1.sys.fHygrometerTemperature =
        ((toU16 (interpolationSpec (le16 b2A b2B) (le16 b3C b3D) (le16 b3E b3F)
          ((T0_degC_of b32 b35 : Nat) : Int) ((T1_degC_of b33 b35 : Nat) : Int)) : Nat) : ℚ)) := by
  obtain ⟨vh, vt, h1, h2, h3, h4⟩ := SampleHygrometer_success env w w1 pre
    b30 b31 b36 b37 b3A b3B b28 b29 b32 b33 b35 b3C b3D b3E b3F b2A b2B hen hok hrc hlog
  simp only [List.mem_cons, List.mem_singleton, List.not_mem_nil, or_false, forall_eq_or_imp,
    forall_eq] at hb
  obtain ⟨c30, c31, c36, c37, c3A, c3B, c28, c29, c32, c33, c35, c3C, c3D, c3E, c3F, c2A, c2B⟩ := hb
  rw [Nat.mod_eq_of_lt c30, Nat.mod_eq_of_lt c31, Nat.mod_eq_of_lt c36, Nat.mod_eq_of_lt c37,
    Nat.mod_eq_of_lt c3A, Nat.mod_eq_of_lt c3B, Nat.mod_eq_of_lt c28, Nat.mod_eq_of_lt c29] at h1
  rw [Nat.mod_eq_of_lt c32, Nat.mod_eq_of_lt c33, Nat.mod_eq_of_lt c35, Nat.mod_eq_of_lt c3C,
    Nat.mod_eq_of_lt c3D, Nat.mod_eq_of_lt c3E, Nat.mod_eq_of_lt c3F, Nat.mod_eq_of_lt c2A,
    Nat.mod_eq_of_lt c2B] at h2
  constructor
  · intro hne
    rw [humidityOfBytes_eq _ _ _ _ _ _ _ _ c36 c3A c28 hne] at h1
    cases h1
    rw [h3]
    exact f32_nat _ (by omega)
  · intro hne
    rw [temperatureOfBytes_eq _ _ _ _ _ _ _ _ _ c3C c3E c2A hne] at h2
    cases h2
    rw [h4]
    exact f32_nat _ (by have := toU16_lt (interpolationSpec (le16 b2A b2B) (le16 b3C b3D)
      (le16 b3E b3F) ((T0_degC_of b32 b35 : Nat) : Int) ((T1_degC_of b33 b35 : Nat) : Int)); omega)

/-- C7 (what the code does): for every successful sample of an enabled
hygrometer with H1_OUT ≠ H0_OUT, with H0_rh, H1_rh the two calibration bytes
shifted right by 1 and H0_OUT, H1_OUT, H_OUT the 16-bit little-endian register
pairs as read, the stored humidity is `min (r mod 2 ^ 16) 1000`, where `r` is
the truncating interpolation
`(H_OUT - H0_OUT) * (H1_rh - H0_rh) / (H1_OUT - H0_OUT) + H0_rh`: the result is
narrowed to `u16` before the saturation test.  When `0 ≤ r < 65536` this is the
stated `min r 1000`; for H0_OUT = 0, H1_OUT = 1000, H0_rh = 40, H1_rh = 80,
H_OUT = 500 it is 60.  It differs from the stated `min r 1000` whenever `r` is
negative, and whenever `r ≥ 65536` and `r mod 2 ^ 16 < 1000`. -/
theorem C7_humidity_interpolation (env : Env) (w w1 : World) (pre : List Event)
    (b30 b31 b36 b37 b3A b3B b28 b29 b32 b33 b35 b3C b3D b3E b3F b2A b2B : Nat)
    (hen : w.sys.bHygrometerOk ≠ 0)
    (hok : SampleHygrometer env w = Except.ok w1)
    (hrc : w1.sys.rc = XST_SUCCESS)
    (hlog : w1.log = pre ++ hygrometerHumidityReads b30 b31 b36 b37 b3A b3B b28 b29 ++
      hygrometerTemperatureReads b32 b33 b35 b3C b3D b3E b3F b2A b2B)
    (hb : ∀ b ∈ [b30, b31, b36, b37, b3A, b3B, b28, b29, b32, b33, b35, b3C, b3D, b3E,
      b3F, b2A, b2B], b < 256)
    (hne : le16 b3A b3B ≠ le16 b36 b37) :
    w1.sys.fHygrometerHumidity =
      ((min (toU16 (interpolationSpec (le16 b28 b29) (le16 b36 b37) (le16 b3A b3B)
        ((b30 / 2 : Nat) : Int) ((b31 / 2 : Nat) : Int))) 1000 : Nat) : ℚ) ∧
    (0 ≤ interpolationSpec (le16 b28 b29) (le16 b36 b37) (le16 b3A b3B)
        ((b30 / 2 : Nat) : Int) ((b31 / 2 : Nat) : Int) →
      interpolationSpec (le16 b28 b29) (le16 b36 b37) (le16 b3A b3B)
        ((b30 / 2 : Nat) : Int) ((b31 / 2 : Nat) : Int) < 65536 →
      w1.sys.fHygrometerHumidity =
        ((humiditySpec (le16 b28 b29) (le16 b36 b37) (le16 b3A b3B)
          ((b30 / 2 : Nat) : Int) ((b31 / 2 : Nat) : Int) : Int) : ℚ)) ∧
    (le16 b36 b37 = 0 → le16 b3A b3B = 1000 → b30 / 2 = 40 → b31 / 2 = 80 →
      le16 b28 b29 = 500 → w1.sys.fHygrometerHumidity = 60) ∧
    (interpolationSpec (le16 b28 b29) (le16 b36 b37) (le16 b3A b3B)
        ((b30 / 2 : Nat) : Int) ((b31 / 2 : Nat) : Int) < 0 →
      w1.sys.fHygrometerHumidity ≠
        ((humiditySpec (le16 b28 b29) (le16 b36 b37) (le16 b3A b3B)
          ((b30 / 2 : Nat) : Int) ((b31 / 2 : Nat) : Int) : Int) : ℚ)) ∧
    (65536 ≤ interpolationSpec (le16 b28 b29) (le16 b36 b37) (le16 b3A b3B)
        ((b30 / 2 : Nat) : Int) ((b31 / 2 : Nat) : Int) →
      toU16 (interpolationSpec (le16 b28 b29) (le16 b36 b37) (le16 b3A b3B)
        ((b30 / 2 : Nat) : Int) ((b31 / 2 : Nat) : Int)) < 1000 →
      w1.sys.fHygrometerHumidity ≠
        ((humiditySpec (le16 b28 b29) (le16 b36 b37) (le16 b3A b3B)
          ((b30 / 2 : Nat) : Int) ((b31 / 2 : Nat) : Int) : Int) : ℚ)) := by
  have hst := (SampleHygrometer_stored env w w1 pre b30 b31 b36 b37 b3A b3B b28 b29 b32 b33
    b35 b3C b3D b3E b3F b2A b2B hen hok hrc hlog hb).1 hne
  have hfit : ∀ r : Int, 0 ≤ r → r < 65536 →
      (((min (toU16 r) 1000 : Nat) : Int)) = min r 1000 := by
    intro r h0 h1
    have := toU16_of_fits r h0 h1
    omega
  refine ⟨hst, ?_, ?_, ?_, ?_⟩
  · intro h0 h1
    rw [hst]
    unfold humiditySpec
    exact_mod_cast hfit _ h0 h1
  · intro e0 e1 e2 e3 e4
    rw [hst, e0, e1, e2, e3, e4]
    have h60 : interpolationSpec 500 0 1000 ((40 : Nat) : Int) ((80 : Nat) : Int) = 60 := by
      decide
    rw [h60]
    have := hfit 60 (by norm_num) (by norm_num)
    have h2 : (min (60 : Int) 1000) = 60 := by decide
    rw [h2] at this
    exact_mod_cast this
  · intro hneg heq
    rw [hst] at heq
    unfold humiditySpec at heq
    have h2 : ((min (toU16 (interpolationSpec (le16 b28 b29) (le16 b36 b37) (le16 b3A b3B)
        ((b30 / 2 : Nat) : Int) ((b31 / 2 : Nat) : Int))) 1000 : Nat) : Int) =
        min (interpolationSpec (le16 b28 b29) (le16 b36 b37) (le16 b3A b3B)
        ((b30 / 2 : Nat) : Int) ((b31 / 2 : Nat) : Int)) 1000 := by
      exact_mod_cast heq
    omega
  · intro hbig hlow heq
    rw [hst] at heq
    unfold humiditySpec at heq
    have h2 : ((min (toU16 (interpolationSpec (le16 b28 b29) (le16 b36 b37) (le16 b3A b3B)
        ((b30 / 2 : Nat) : Int) ((b31 / 2 : Nat) : Int))) 1000 : Nat) : Int) =
        min (interpolationSpec (le16 b28 b29) (le16 b36 b37) (le16 b3A b3B)
        ((b30 / 2 : Nat) : Int) ((b31 / 2 : Nat) : Int)) 1000 := by
      exact_mod_cast heq
    omega

/-- C7 at a failing input: on an ideal bus whose hygrometer holds H0_rh = 0,
H1_rh = 1, H0_OUT = 1, H1_OUT = 2 and H_OUT = 0 the sample succeeds, the
interpolation gives -1, so the stated humidity `min (-1) 1000` is -1, but the
stored humidity is 1000. -/
theorem C7_failing_input :
    returned (SampleHygrometer (regEnv belowAnchorRegs) enabledWorld) = true ∧
    (resultWorld (SampleHygrometer (regEnv belowAnchorRegs) enabledWorld) enabledWorld).sys.rc =
      XST_SUCCESS ∧
    (resultWorld (SampleHygrometer (regEnv belowAnchorRegs) enabledWorld) enabledWorld).log =
      (resultWorld (SampleHygrometer (regEnv belowAnchorRegs) enabledWorld)
        enabledWorld).log.take 5 ++
      hygrometerHumidityReads 0 2 1 0 2 0 0 0 ++ hygrometerTemperatureReads 0 8 0 1 0 2 0 0 0 ∧
    le16 2 0 ≠ le16 1 0 ∧
    humiditySpec (le16 0 0) (le16 1 0) (le16 2 0) ((0 / 2 : Nat) : Int) ((2 / 2 : Nat) : Int) =
      -1 ∧
    (resultWorld (SampleHygrometer (regEnv belowAnchorRegs) enabledWorld)
      enabledWorld).sys.fHygrometerHumidity = 1000 ∧
    (resultWorld (SampleHygrometer (regEnv belowAnchorRegs) enabledWorld)
      enabledWorld).sys.fHygrometerHumidity ≠
      ((humiditySpec (le16 0 0) (le16 1 0) (le16 2 0) ((0 / 2 : Nat) : Int)
        ((2 / 2 : Nat) : Int) : Int) : ℚ) := by
  have h := C7_humidity_interpolation (regEnv belowAnchorRegs) enabledWorld
    (resultWorld (SampleHygrometer (regEnv belowAnchorRegs) enabledWorld) enabledWorld)
    ((resultWorld (SampleHygrometer (regEnv belowAnchorRegs) enabledWorld)
      enabledWorld).log.take 5)
    0 2 1 0 2 0 0 0 0 8 0 1 0 2 0 0 0
    (by decide) (returned_eq_ok _ _ (by decide)) (by decide) (by decide) (by decide)
    (by decide)
  have hst := h.1
  have hv : min (toU16 (interpolationSpec (le16 0 0) (le16 1 0) (le16 2 0)
      ((0 / 2 : Nat) : Int) ((2 / 2 : Nat) : Int))) 1000 = 1000 := by decide
  rw [hv] at hst
  refine ⟨by decide, by decide, by decide, by decide, by decide, ?_, h.2.2.2.1 (by decide)⟩
  rw [hst]; norm_num

/-- The example of the spec: an ideal bus whose hygrometer holds the calibration
H0_OUT = 0, H1_OUT = 1000, H0_rh = 40, H1_rh = 80 and H_OUT = 500; the sample
returns with success and stores the humidity 60. -/
theorem SampleHygrometer_example_humidity :
    returned (SampleHygrometer (regEnv hygrometerRegs) enabledWorld) = true ∧
    (resultWorld (SampleHygrometer (regEnv hygrometerRegs) enabledWorld) enabledWorld).sys.rc =
      XST_SUCCESS ∧
    (resultWorld (SampleHygrometer (regEnv hygrometerRegs) enabledWorld)
      enabledWorld).sys.fHygrometerHumidity = 60 := by
  have hst := (SampleHygrometer_stored (regEnv hygrometerRegs) enabledWorld
    (resultWorld (SampleHygrometer (regEnv hygrometerRegs) enabledWorld) enabledWorld)
    ((resultWorld (SampleHygrometer (regEnv hygrometerRegs) enabledWorld)
      enabledWorld).log.take 5)
    80 160 0 0 0xE8 3 0xF4 1 160 240 0 0 0 0xE8 3 0xF4 1
    (by decide) (returned_eq_ok _ _ (by decide)) (by decide) (by decide) (by decide)).1
    (by decide)
  have hv : min (toU16 (interpolationSpec (le16 0xF4 1) (le16 0 0) (le16 0xE8 3)
      ((80 / 2 : Nat) : Int) ((160 / 2 : Nat) : Int))) 1000 = 60 := by decide
  rw [hv] at hst
  refine ⟨by decide, by decide, ?_⟩
  rw [hst]; norm_num

/-- C8 (what the code does): for every successful sample of an enabled
hygrometer with H1_OUT ≠ H0_OUT the saturation test is made on the interpolation
result `r` narrowed to 16 bits: the stored humidity is exactly 1000 when
`r mod 2 ^ 16` exceeds 1000 (in particular when `1000 < r < 65536`), and it is
`r mod 2 ^ 16` otherwise.  So a result that exceeds 1000 is not clamped to 1000
when it is narrowed to less than 1000, which needs `r ≥ 65536`. -/
theorem C8_humidity_saturation (env : Env) (w w1 : World) (pre : List Event)
    (b30 b31 b36 b37 b3A b3B b28 b29 b32 b33 b35 b3C b3D b3E b3F b2A b2B : Nat)
    (hen : w.sys.bHygrometerOk ≠ 0)
    (hok : SampleHygrometer env w = Except.ok w1)
    (hrc : w1.sys.rc = XST_SUCCESS)
    (hlog : w1.log = pre ++ hygrometerHumidityReads b30 b31 b36 b37 b3A b3B b28 b29 ++
      hygrometerTemperatureReads b32 b33 b35 b3C b3D b3E b3F b2A b2B)
    (hb : ∀ b ∈ [b30, b31, b36, b37, b3A, b3B, b28, b29, b32, b33, b35, b3C, b3D, b3E,
      b3F, b2A, b2B], b < 256)
    (hne : le16 b3A b3B ≠ le16 b36 b37) :
    (1000 < toU16 (interpolationSpec (le16 b28 b29) (le16 b36 b37) (le16 b3A b3B)
        ((b30 / 2 : Nat) : Int) ((b31 / 2 : Nat) : Int)) →
      w1.sys.fHygrometerHumidity = 1000) ∧
    (1000 < interpolationSpec (le16 b28 b29) (le16 b36 b37) (le16 b3A b3B)
        ((b30 / 2 : Nat) : Int) ((b31 / 2 : Nat) : Int) →
      interpolationSpec (le16 b28 b29) (le16 b36 b37) (le16 b3A b3B)
        ((b30 / 2 : Nat) : Int) ((b31 / 2 : Nat) : Int) < 65536 →
      w1.sys.fHygrometerHumidity = 1000) ∧
    (toU16 (interpolationSpec (le16 b28 b29) (le16 b36 b37) (le16 b3A b3B)
        ((b30 / 2 : Nat) : Int) ((b31 / 2 : Nat) : Int)) ≤ 1000 →
      w1.sys.fHygrometerHumidity =
        ((toU16 (interpolationSpec (le16 b28 b29) (le16 b36 b37) (le16 b3A b3B)
          ((b30 / 2 : Nat) : Int) ((b31 / 2 : Nat) : Int)) : Nat) : ℚ)) ∧
    (1000 < interpolationSpec (le16 b28 b29) (le16 b36 b37) (le16 b3A b3B)
        ((b30 / 2 : Nat) : Int) ((b31 / 2 : Nat) : Int) →
      toU16 (interpolationSpec (le16 b28 b29) (le16 b36 b37) (le16 b3A b3B)
        ((b30 / 2 : Nat) : Int) ((b31 / 2 : Nat) : Int)) < 1000 →
      65536 ≤ interpolationSpec (le16 b28 b29) (le16 b36 b37) (le16 b3A b3B)
        ((b30 / 2 : Nat) : Int) ((b31 / 2 : Nat) : Int) ∧
      w1.sys.fHygrometerHumidity ≠ 1000) := by
  have hst := (SampleHygrometer_stored env w w1 pre b30 b31 b36 b37 b3A b3B b28 b29 b32 b33
    b35 b3C b3D b3E b3F b2A b2B hen hok hrc hlog hb).1 hne
  refine ⟨?_, ?_, ?_, ?_⟩
  · intro h
    rw [hst, min_eq_right (by omega)]
    norm_num
  · intro h0 h1
    have := toU16_of_fits _ (by omega) h1
    rw [hst, min_eq_right (by omega)]
    norm_num
  · intro h
    rw [hst, min_eq_left h]
  · intro h0 h1
    refine ⟨?_, ?_⟩
    · by_contra hlt
      have := toU16_of_fits _ (by omega) (not_le.mp hlt)
      omega
    · rw [hst, min_eq_left (by omega)]
      intro heq
      have h2 : toU16 (interpolationSpec (le16 b28 b29) (le16 b36 b37) (le16 b3A b3B)
          ((b30 / 2 : Nat) : Int) ((b31 / 2 : Nat) : Int)) = 1000 := by
        exact_mod_cast heq
      omega

/-- C8 at a failing input: on an ideal bus whose hygrometer holds H0_rh = 0,
H1_rh = 2, H0_OUT = 0, H1_OUT = 1 and H_OUT = 32768 the sample succeeds, the
interpolation gives 65536, which exceeds 1000, but the stored humidity is 0. -/
theorem C8_failing_input :
    returned (SampleHygrometer (regEnv steepAnchorRegs) enabledWorld) = true ∧
    (resultWorld (SampleHygrometer (regEnv steepAnchorRegs) enabledWorld) enabledWorld).sys.rc =
      XST_SUCCESS ∧
    (resultWorld (SampleHygrometer (regEnv steepAnchorRegs) enabledWorld) enabledWorld).log =
      (resultWorld (SampleHygrometer (regEnv steepAnchorRegs) enabledWorld)
        enabledWorld).log.take 5 ++
      hygrometerHumidityReads 0 4 0 0 1 0 0 0x80 ++
      hygrometerTemperatureReads 160 240 0 0 0 0xE8 3 0xF4 1 ∧
    le16 1 0 ≠ le16 0 0 ∧
    interpolationSpec (le16 0 0x80) (le16 0 0) (le16 1 0) ((0 / 2 : Nat) : Int)
      ((4 / 2 : Nat) : Int) = 65536 ∧
    (resultWorld (SampleHygrometer (regEnv steepAnchorRegs) enabledWorld)
      enabledWorld).sys.fHygrometerHumidity = 0 ∧
    (resultWorld (SampleHygrometer (regEnv steepAnchorRegs) enabledWorld)
      enabledWorld).sys.fHygrometerHumidity ≠ 1000 := by
  have h := C8_humidity_saturation (regEnv steepAnchorRegs) enabledWorld
    (resultWorld (SampleHygrometer (regEnv steepAnchorRegs) enabledWorld) enabledWorld)
    ((resultWorld (SampleHygrometer (regEnv steepAnchorRegs) enabledWorld)
      enabledWorld).log.take 5)
    0 4 0 0 1 0 0 0x80 160 240 0 0 0 0xE8 3 0xF4 1
    (by decide) (returned_eq_ok _ _ (by decide)) (by decide) (by decide) (by decide)
    (by decide)
  have hst := h.2.2.1 (by decide)
  have hv : toU16 (interpolationSpec (le16 0 0x80) (le16 0 0) (le16 1 0)
      ((0 / 2 : Nat) : Int) ((4 / 2 : Nat) : Int)) = 0 := by decide
  rw [hv] at hst
  refine ⟨by decide, by decide, by decide, by decide, by decide, ?_,
    (h.2.2.2 (by decide) (by decide)).2⟩
  rw [hst]; norm_num

/-- A result between the saturation limit and the range of `u16`: an ideal bus
whose hygrometer holds H0_rh = 0, H1_rh = 100, H0_OUT = 0, H1_OUT = 1 and
H_OUT = 11; the interpolation gives 1100 and the stored humidity is 1000. -/
theorem SampleHygrometer_example_saturation :
    returned (SampleHygrometer (regEnv saturatedRegs) enabledWorld) = true ∧
    (resultWorld (SampleHygrometer (regEnv saturatedRegs) enabledWorld) enabledWorld).sys.rc =
      XST_SUCCESS ∧
    interpolationSpec (le16 11 0) (le16 0 0) (le16 1 0) ((0 / 2 : Nat) : Int)
      ((200 / 2 : Nat) : Int) = 1100 ∧
    (resultWorld (SampleHygrometer (regEnv saturatedRegs) enabledWorld)
      enabledWorld).sys.fHygrometerHumidity = 1000 := by
  have hst := (SampleHygrometer_stored (regEnv saturatedRegs) enabledWorld
    (resultWorld (SampleHygrometer (regEnv saturatedRegs) enabledWorld) enabledWorld)
    ((resultWorld (SampleHygrometer (regEnv saturatedRegs) enabledWorld)
      enabledWorld).log.take 5)
    0 200 0 0 1 0 11 0 160 240 0 0 0 0xE8 3 0xF4 1
    (by decide) (returned_eq_ok _ _ (by decide)) (by decide) (by decide) (by decide)).1
    (by decide)
  have hv : min (toU16 (interpolationSpec (le16 11 0) (le16 0 0) (le16 1 0)
      ((0 / 2 : Nat) : Int) ((200 / 2 : Nat) : Int))) 1000 = 1000 := by decide
  rw [hv] at hst
  refine ⟨by decide, by decide, by decide, ?_⟩
  rw [hst]; norm_num

/-- C9, what the code does: for every successful sample of an enabled hygrometer
with T1_OUT ≠ T0_OUT the stored temperature is `r mod 2 ^ 16`, where `r` is the
truncating interpolation
`(T_OUT - T0_OUT) * (T1_degC - T0_degC) / (T1_OUT - T0_OUT) + T0_degC`: the
result is assigned to a `u16` before it is stored.  It is `r` when
`0 ≤ r < 65536`, and it differs from `r` whenever `r` is negative. -/
theorem C9_temperature_interpolation (env : Env) (w w1 : World) (pre : List Event)
    (b30 b31 b36 b37 b3A b3B b28 b29 b32 b33 b35 b3C b3D b3E b3F b2A b2B : Nat)
    (hen : w.sys.bHygrometerOk ≠ 0)
    (hok : SampleHygrometer env w = Except.ok w1)
    (hrc : w1.sys.rc = XST_SUCCESS)
    (hlog : w1.log = pre ++ hygrometerHumidityReads b30 b31 b36 b37 b3A b3B b28 b29 ++
      hygrometerTemperatureReads b32 b33 b35 b3C b3D b3E b3F b2A b2B)
    (hb : ∀ b ∈ [b30, b31, b36, b37, b3A, b3B, b28, b29, b32, b33, b35, b3C, b3D, b3E,
      b3F, b2A, b2B], b < 256)
    (hne : le16 b3E b3F ≠ le16 b3C b3D) :
    w1.sys.fHygrometerTemperature =
      ((toU16 (interpolationSpec (le16 b2A b2B) (le16 b3C b3D) (le16 b3E b3F)
        ((T0_degC_of b32 b35 : Nat) : Int) ((T1_degC_of b33 b35 : Nat) : Int)) : Nat) : ℚ) ∧
    (0 ≤ interpolationSpec (le16 b2A b2B) (le16 b3C b3D) (le16 b3E b3F)
        ((T0_degC_of b32 b35 : Nat) : Int) ((T1_degC_of b33 b35 : Nat) : Int) →
      interpolationSpec (le16 b2A b2B) (le16 b3C b3D) (le16 b3E b3F)
        ((T0_degC_of b32 b35 : Nat) : Int) ((T1_degC_of b33 b35 : Nat) : Int) < 65536 →
      w1.sys.fHygrometerTemperature =
        ((interpolationSpec (le16 b2A b2B) (le16 b3C b3D) (le16 b3E b3F)
          ((T0_degC_of b32 b35 : Nat) : Int) ((T1_degC_of b33 b35 : Nat) : Int) : Int) : ℚ)) ∧
    (interpolationSpec (le16 b2A b2B) (le16 b3C b3D) (le16 b3E b3F)
        ((T0_degC_of b32 b35 : Nat) : Int) ((T1_degC_of b33 b35 : Nat) : Int) < 0 →
      w1.sys.fHygrometerTemperature ≠
        ((interpolationSpec (le16 b2A b2B) (le16 b3C b3D) (le16 b3E b3F)
          ((T0_degC_of b32 b35 : Nat) : Int) ((T1_degC_of b33 b35 : Nat) : Int) : Int) : ℚ)) := by
  have hst := (SampleHygrometer_stored env w w1 pre b30 b31 b36 b37 b3A b3B b28 b29 b32 b33
    b35 b3C b3D b3E b3F b2A b2B hen hok hrc hlog hb).2 hne
  refine ⟨hst, ?_, ?_⟩
  · intro h0 h1
    rw [hst]
    exact_mod_cast toU16_of_fits _ h0 h1
  · intro hneg heq
    rw [hst] at heq
    have h2 : ((toU16 (interpolationSpec (le16 b2A b2B) (le16 b3C b3D) (le16 b3E b3F)
        ((T0_degC_of b32 b35 : Nat) : Int) ((T1_degC_of b33 b35 : Nat) : Int)) : Nat) : Int) =
        interpolationSpec (le16 b2A b2B) (le16 b3C b3D) (le16 b3E b3F)
        ((T0_degC_of b32 b35 : Nat) : Int) ((T1_degC_of b33 b35 : Nat) : Int) := by
      exact_mod_cast heq
    omega

/-- C9 at a failing input: an ideal bus whose hygrometer holds T0_degC = 0,
T1_degC = 1, T0_OUT = 1, T1_OUT = 2 and T_OUT = 0; the sample succeeds, the
interpolation gives -1, and the stored temperature is 65535. -/
theorem C9_failing_input :
    returned (SampleHygrometer (regEnv belowAnchorRegs) enabledWorld) = true ∧
    (resultWorld (SampleHygrometer (regEnv belowAnchorRegs) enabledWorld) enabledWorld).sys.rc =
      XST_SUCCESS ∧
    interpolationSpec (le16 0 0) (le16 1 0) (le16 2 0) ((T0_degC_of 0 0 : Nat) : Int)
      ((T1_degC_of 8 0 : Nat) : Int) = -1 ∧
    (resultWorld (SampleHygrometer (regEnv belowAnchorRegs) enabledWorld)
      enabledWorld).sys.fHygrometerTemperature = 65535 := by
  have hst := (C9_temperature_interpolation (regEnv belowAnchorRegs) enabledWorld
    (resultWorld (SampleHygrometer (regEnv belowAnchorRegs) enabledWorld) enabledWorld)
    ((resultWorld (SampleHygrometer (regEnv belowAnchorRegs) enabledWorld)
      enabledWorld).log.take 5)
    0 2 1 0 2 0 0 0 0 8 0 1 0 2 0 0 0
    (by decide) (returned_eq_ok _ _ (by decide)) (by decide) (by decide) (by decide)
    (by decide)).1
  have hv : toU16 (interpolationSpec (le16 0 0) (le16 1 0) (le16 2 0)
      ((T0_degC_of 0 0 : Nat) : Int) ((T1_degC_of 8 0 : Nat) : Int)) = 65535 := by decide
  rw [hv] at hst
  refine ⟨by decide, by decide, by decide, ?_⟩
  rw [hst]; norm_num

theorem and_two_pow_ne_zero_iff_testBit (x k : Nat) : x &&& 2 ^ k ≠ 0 ↔ x.testBit k = true := by
  rw [Nat.and_two_pow]
  have hpos : 0 < 2 ^ k := Nat.pow_pos (by norm_num)
  cases x.testBit k
  · simp
  · simp only [Bool.toNat_true, Nat.one_mul, iff_true]
    omega

theorem SamplePLTempSensor_faults_eq (rx : List Nat) (w : World) (h : w.sys.rc = XST_SUCCESS) :
    SamplePLTempSensor_faults rx w =
      match faultSpec rx with
      | some f => (w.setRc XST_FAILURE).setErr f.message
      | none => w := by
  unfold SamplePLTempSensor_faults faultSpec
  rw [if_pos h.symm]
  have e0 : rx.getD 3 0 &&& 0x1 ≠ 0 ↔ (rx.getD 3 0).testBit 0 = true :=
    and_two_pow_ne_zero_iff_testBit (rx.getD 3 0) 0
  have e1 : rx.getD 3 0 &&& 0x2 ≠ 0 ↔ (rx.getD 3 0).testBit 1 = true :=
    and_two_pow_ne_zero_iff_testBit (rx.getD 3 0) 1
  have e2 : rx.getD 3 0 &&& 0x4 ≠ 0 ↔ (rx.getD 3 0).testBit 2 = true :=
    and_two_pow_ne_zero_iff_testBit (rx.getD 3 0) 2
  have e3 : rx.getD 1 0 &&& 0x01 ≠ 0 ↔ (rx.getD 1 0).testBit 0 = true :=
    and_two_pow_ne_zero_iff_testBit (rx.getD 1 0) 0
  by_cases h0 : (rx.getD 3 0).testBit 0 = true
  · rw [if_pos (e0.mpr h0), if_pos h0]; rfl
  · rw [if_neg (fun h => h0 (e0.mp h)), if_neg h0]
    by_cases h1 : (rx.getD 3 0).testBit 1 = true
    · rw [if_pos (e1.mpr h1), if_pos h1]; rfl
    · rw [if_neg (fun h => h1 (e1.mp h)), if_neg h1]
      by_cases h2 : (rx.getD 3 0).testBit 2 = true
      · rw [if_pos (e2.mpr h2), if_pos h2]; rfl
      · rw [if_neg (fun h => h2 (e2.mp h)), if_neg h2]
        by_cases h3 : (rx.getD 1 0).testBit 0 = true
        · rw [if_pos (e3.mpr h3), if_pos h3]; rfl
        · rw [if_neg (fun h => h3 (e3.mp h)), if_neg h3]

theorem transferResult_eq_ok (r : Except Fault (List Nat × World)) (d : List Nat × World)
    (h : r.toBool = true) : r = Except.ok ((transferResult r d).1, (transferResult r d).2) := by
  cases r with
  | ok p => rfl
  | error f => cases h

/-- C10: whenever the 4-byte transaction of an enabled thermocouple sample
returns a frame of correct length (`XSpi_LowLevelExecute` returns with
rc = XST_SUCCESS), `SamplePLTempSensor` returns, and the fault it reports is the
first, in the order open-circuit (bit 0 of the fourth byte), short-to-ground
(bit 1), short-to-supply (bit 2), generic fault (bit 0 of the second byte),
whose bit is set: rc is XST_FAILURE, pcErr is the text of that fault, the error
flag is set, and the text is printed once with rc as argument.  With none of
the four bits set rc stays XST_SUCCESS and nothing is printed.  The sample is
failed exactly when one of the four bits is set, and a frame with both the
open-circuit and the short-to-ground bit reports open-circuit. -/
theorem C10_fault_priority (env : Env) (fuel : Nat) (w w1 : World) (rx : List Nat)
    (hen : w.sys.bThermocoupleOk ≠ 0)
    (hx : XSpi_LowLevelExecute env fuel PL_SPI_CHANNEL_SEL_0 4 [0, 0, 0, 0]
      [0xFFFFFFFF, 0xFFFFFFFF, 0xFFFFFFFF, 0xFFFFFFFF] (w.setRc XST_SUCCESS) =
      Except.ok (rx, w1))
    (hrc : w1.sys.rc = XST_SUCCESS) :
    returned (SamplePLTempSensor env fuel w) = true ∧
    (∀ f : ThermocoupleFault, faultSpec rx = some f →
      (resultWorld (SamplePLTempSensor env fuel w) w).sys.rc = XST_FAILURE ∧
      (resultWorld (SamplePLTempSensor env fuel w) w).sys.pcErr = f.message ∧
      (resultWorld (SamplePLTempSensor env fuel w) w).sys.bError = 1 ∧
      (resultWorld (SamplePLTempSensor env fuel w) w).log =
        w1.log ++ [Event.print f.message [XST_FAILURE]]) ∧
    (faultSpec rx = none →
      (resultWorld (SamplePLTempSensor env fuel w) w).sys.rc = XST_SUCCESS ∧
      (resultWorld (SamplePLTempSensor env fuel w) w).log = w1.log) ∧
    ((resultWorld (SamplePLTempSensor env fuel w) w).sys.rc ≠ XST_SUCCESS ↔
      ((rx.getD 3 0).testBit 0 = true ∨ (rx.getD 3 0).testBit 1 = true ∨
       (rx.getD 3 0).testBit 2 = true ∨ (rx.getD 1 0).testBit 0 = true)) ∧
    ((rx.getD 3 0).testBit 0 = true → (rx.getD 3 0).testBit 1 = true →
      (resultWorld (SamplePLTempSensor env fuel w) w).sys.pcErr =
        ThermocoupleFault.OpenCircuit.message) := by
  have hbits : faultSpec rx = none ↔
      ¬ ((rx.getD 3 0).testBit 0 = true ∨ (rx.getD 3 0).testBit 1 = true ∨
       (rx.getD 3 0).testBit 2 = true ∨ (rx.getD 1 0).testBit 0 = true) := by
    unfold faultSpec
    generalize (rx.getD 3 0).testBit 0 = a
    generalize (rx.getD 3 0).testBit 1 = b
    generalize (rx.getD 3 0).testBit 2 = c
    generalize (rx.getD 1 0).testBit 0 = d
    cases a <;> cases b <;> cases c <;> cases d <;> simp
  have hopen : (rx.getD 3 0).testBit 0 = true →
      faultSpec rx = some ThermocoupleFault.OpenCircuit := by
    intro h0
    unfold faultSpec
    rw [if_pos h0]
  have hsome : ∀ f : ThermocoupleFault, faultSpec rx = some f →
      SamplePLTempSensor env fuel w = Except.ok (configPRINTF f.message [XST_FAILURE]
        (((w1.setRc XST_FAILURE).setErr f.message).setBError 1)) := by
    intro f hf
    unfold SamplePLTempSensor
    rw [if_neg hen, hx]
    simp only []
    have hcode : (SamplePLTempSensor_faults rx w1) =
        (w1.setRc XST_FAILURE).setErr f.message := by
      rw [SamplePLTempSensor_faults_eq rx w1 hrc, hf]
    rw [@MAY_DIE_of_rc_ne _ (fun w => ((), SamplePLTempSensor_faults rx w)) w1
      (by show (SamplePLTempSensor_faults rx w1).sys.rc ≠ XST_SUCCESS
          rw [hcode]
          show (1 : Int) ≠ 0
          decide)]
    simp only [hcode]
    rfl
  have hnone : faultSpec rx = none →
      ∃ w2 : World, SamplePLTempSensor env fuel w = Except.ok w2 ∧
        w2.sys.rc = XST_SUCCESS ∧ w2.log = w1.log := by
    intro hf
    unfold SamplePLTempSensor
    rw [if_neg hen, hx]
    simp only []
    have hcode : (SamplePLTempSensor_faults rx w1) = w1 := by
      rw [SamplePLTempSensor_faults_eq rx w1 hrc, hf]
    rw [@MAY_DIE_of_rc_eq _ (fun w => ((), SamplePLTempSensor_faults rx w)) w1
      (by show (SamplePLTempSensor_faults rx w1).sys.rc = XST_SUCCESS
          rw [hcode]; exact hrc)]
    simp only [hcode]
    exact ⟨_, rfl, hrc, rfl⟩
  have hA : ∀ f : ThermocoupleFault, faultSpec rx = some f →
      (resultWorld (SamplePLTempSensor env fuel w) w).sys.rc = XST_FAILURE ∧
      (resultWorld (SamplePLTempSensor env fuel w) w).sys.pcErr = f.message ∧
      (resultWorld (SamplePLTempSensor env fuel w) w).sys.bError = 1 ∧
      (resultWorld (SamplePLTempSensor env fuel w) w).log =
        w1.log ++ [Event.print f.message [XST_FAILURE]] := by
    intro f hf
    rw [hsome f hf]
    exact ⟨rfl, rfl, rfl, rfl⟩
  have hB : faultSpec rx = none →
      (resultWorld (SamplePLTempSensor env fuel w) w).sys.rc = XST_SUCCESS ∧
      (resultWorld (SamplePLTempSensor env fuel w) w).log = w1.log := by
    intro hf
    obtain ⟨w2, e, h1, h2⟩ := hnone hf
    rw [e]
    exact ⟨h1, h2⟩
  refine ⟨?_, hA, hB, ?_, ?_⟩
  · cases hf : faultSpec rx with
    | none =>
      obtain ⟨w2, e, -, -⟩ := hnone hf
      rw [e]; rfl
    | some f => rw [hsome f hf]; rfl
  · constructor
    · intro hne
      by_contra hno
      exact hne (hB (hbits.mpr hno)).1
    · intro hany
      cases hf : faultSpec rx with
      | none => exact absurd hany (hbits.mp hf)
      | some f =>
        rw [(hA f hf).1]
        decide
  · intro h0 _
    exact (hA _ (hopen h0)).2.1

/-- C10 at a concrete input: an ideal SPI controller that delivers the frame
01 90 19 03, in which both the open-circuit and the short-to-ground bit are
set; the sample returns failed and reports the open circuit. -/
theorem C10_witness :
    (transferResult (XSpi_LowLevelExecute (spiEnv [0x01, 0x90, 0x19, 0x03]) 8
      PL_SPI_CHANNEL_SEL_0 4 [0, 0, 0, 0]
      [0xFFFFFFFF, 0xFFFFFFFF, 0xFFFFFFFF, 0xFFFFFFFF] (enabledWorld.setRc XST_SUCCESS))
      ([], enabledWorld)).1 = [0x01, 0x90, 0x19, 0x03] ∧
    (Nat.testBit 0x03 0 = true ∧ Nat.testBit 0x03 1 = true) ∧
    returned (SamplePLTempSensor (spiEnv [0x01, 0x90, 0x19, 0x03]) 8 enabledWorld) = true ∧
    (resultWorld (SamplePLTempSensor (spiEnv [0x01, 0x90, 0x19, 0x03]) 8 enabledWorld)
      enabledWorld).sys.rc = XST_FAILURE ∧
    (resultWorld (SamplePLTempSensor (spiEnv [0x01, 0x90, 0x19, 0x03]) 8 enabledWorld)
      enabledWorld).sys.pcErr = "Thermocouple: Open Circuit\r\n" := by
  have h := C10_fault_priority (spiEnv [0x01, 0x90, 0x19, 0x03]) 8 enabledWorld
    (transferResult (XSpi_LowLevelExecute (spiEnv [0x01, 0x90, 0x19, 0x03]) 8
      PL_SPI_CHANNEL_SEL_0 4 [0, 0, 0, 0]
      [0xFFFFFFFF, 0xFFFFFFFF, 0xFFFFFFFF, 0xFFFFFFFF] (enabledWorld.setRc XST_SUCCESS))
      ([], enabledWorld)).2
    (transferResult (XSpi_LowLevelExecute (spiEnv [0x01, 0x90, 0x19, 0x03]) 8
      PL_SPI_CHANNEL_SEL_0 4 [0, 0, 0, 0]
      [0xFFFFFFFF, 0xFFFFFFFF, 0xFFFFFFFF, 0xFFFFFFFF] (enabledWorld.setRc XST_SUCCESS))
      ([], enabledWorld)).1
    (by decide) (transferResult_eq_ok _ _ (by decide)) (by decide)
  exact ⟨by decide, ⟨by decide, by decide⟩, h.1,
    (h.2.1 ThermocoupleFault.OpenCircuit (by decide)).1,
    (h.2.1 ThermocoupleFault.OpenCircuit (by decide)).2.1⟩

/-! ## Thermocouple decode -/

theorem and_signBit_eq_iff (k x : Nat) (hx : x < 2 ^ (k + 1)) :
    x &&& 2 ^ k = 2 ^ k ↔ 2 ^ k ≤ x := by
  rw [← and_two_pow_ne_zero_iff k x hx, Nat.and_two_pow]
  have hpos : 0 < 2 ^ k := Nat.pow_pos (by norm_num)
  cases x.testBit k
  · simp only [Bool.toNat_false, Nat.zero_mul, ne_eq, not_true_eq_false, iff_false]
    omega
  · simp only [Bool.toNat_true, Nat.one_mul, true_iff]
    omega

theorem toU32_toS32_shiftRight (x k : Nat) (hx : x < 256) :
    toU32 (toS32 x >>> ((k : Nat) : Int)) = x / 2 ^ k := by
  have h1 : toS32 x = ((x : Nat) : Int) := by
    unfold toS32
    rw [Nat.mod_eq_of_lt (by omega), if_pos (by omega)]
  have h2 : toS32 x >>> ((k : Nat) : Int) = ((x >>> k : Nat) : Int) := by
    rw [h1]
    exact Int.shiftRight_coe_nat x k
  rw [h2]
  unfold toU32
  have hle : x >>> k ≤ x := by
    rw [Nat.shiftRight_eq_div_pow]
    exact Nat.div_le_self _ _
  have h4 : ((x >>> k : Nat) : Int) % 2 ^ 32 = ((x >>> k : Nat) : Int) :=
    Int.emod_eq_of_lt (by positivity) (by
      have : x >>> k < 2 ^ 32 := by omega
      exact_mod_cast this)
  rw [h4, Int.toNat_ofNat, Nat.shiftRight_eq_div_pow]

theorem SamplePLTempSensor_internalRaw_eq (rx2 rx3 : Nat) (h2 : rx2 < 256) (h3 : rx3 < 256) :
    SamplePLTempSensor_internalRaw rx2 rx3 =
      if 16 * rx2 + rx3 / 16 < 2 ^ 11 then ((16 * rx2 + rx3 / 16 : Nat) : Int)
      else ((16 * rx2 + rx3 / 16 : Nat) : Int) - 2 ^ 12 := by
  unfold SamplePLTempSensor_internalRaw
  have e1 : (rx2 <<< 4) % 2 ^ 32 = rx2 <<< 4 := by
    rw [Nat.shiftLeft_eq]
    exact Nat.mod_eq_of_lt (by omega)
  have e2 : toU32 (toS32 rx3 >>> 4) = rx3 / 2 ^ 4 := by
    have := toU32_toS32_shiftRight rx3 4 h3
    rw [Nat.cast_ofNat] at this
    exact this
  have hq : rx3 / 2 ^ 4 < 2 ^ 4 := by omega
  have e3 : (rx2 <<< 4) ||| (rx3 / 2 ^ 4) = 16 * rx2 + rx3 / 16 := by
    rw [shiftLeft_or_of_lt rx2 _ 4 hq]
    norm_num
  have hs2 : rx2 &&& 0x80 = 0x80 ↔ 2 ^ 7 ≤ rx2 := and_signBit_eq_iff 7 rx2 (by omega)
  simp only [e1, e2, e3]
  have hq2 : rx3 / 16 < 16 := by omega
  generalize hU : 16 * rx2 + rx3 / 16 = U
  have hlt : U < 2 ^ (11 + 1) := by omega
  by_cases hs : 2 ^ 11 ≤ U
  · rw [if_pos (hs2.mpr (by omega)), if_neg (by omega)]
    have := or_signMask 11 1048575 U hs hlt
    have hmask : (0xFFFFF800 : Nat) = 2 ^ 11 * (2 * 1048575 + 1) := by norm_num
    rw [hmask, this]
    unfold toS32
    norm_num
    omega
  · rw [if_neg (fun h => hs (by have := hs2.mp h; omega)), if_pos (by omega)]
    unfold toS32
    norm_num
    omega

theorem SamplePLTempSensor_thermocoupleRaw_eq (rx0 rx1 : Nat) (h0 : rx0 < 256)
    (h1 : rx1 < 256) :
    SamplePLTempSensor_thermocoupleRaw rx0 rx1 =
      if 64 * rx0 + rx1 / 4 < 2 ^ 13 then ((64 * rx0 + rx1 / 4 : Nat) : Int)
      else ((64 * rx0 + rx1 / 4 : Nat) : Int) - 2 ^ 14 := by
  unfold SamplePLTempSensor_thermocoupleRaw
  have e1 : (rx0 <<< 6) % 2 ^ 32 = rx0 <<< 6 := by
    rw [Nat.shiftLeft_eq]
    exact Nat.mod_eq_of_lt (by omega)
  have e2 : toU32 (toS32 rx1 >>> 2) = rx1 / 2 ^ 2 := by
    have := toU32_toS32_shiftRight rx1 2 h1
    rw [Nat.cast_ofNat] at this
    exact this
  have hq : rx1 / 2 ^ 2 < 2 ^ 6 := by omega
  have e3 : (rx0 <<< 6) ||| (rx1 / 2 ^ 2) = 64 * rx0 + rx1 / 4 := by
    rw [shiftLeft_or_of_lt rx0 _ 6 hq]
    norm_num
  have hs2 : rx0 &&& 0x80 = 0x80 ↔ 2 ^ 7 ≤ rx0 := and_signBit_eq_iff 7 rx0 (by omega)
  simp only [e1, e2, e3]
  have hq2 : rx1 / 4 < 64 := by omega
  generalize hU : 64 * rx0 + rx1 / 4 = U
  have hlt : U < 2 ^ (13 + 1) := by omega
  by_cases hs : 2 ^ 13 ≤ U
  · rw [if_pos (hs2.mpr (by omega)), if_neg (by omega)]
    have := or_signMask 13 262143 U hs hlt
    have hmask : (0xFFFFE000 : Nat) = 2 ^ 13 * (2 * 262143 + 1) := by norm_num
    rw [hmask, this]
    unfold toS32
    norm_num
    omega
  · rw [if_neg (fun h => hs (by have := hs2.mp h; omega)), if_pos (by omega)]
    unfold toS32
    norm_num
    omega

/-- Decoding the two frame bytes that carry a 12-bit two's complement value gives
the value back. -/
theorem SamplePLTempSensor_internalRaw_enc (V : Int) (rx2 rx3 : Nat)
    (hlo : -2048 ≤ V) (hhi : V ≤ 2047)
    (h2 : rx2 = encBits 12 V 11 4) (h3 : rx3 / 16 = encBits 12 V 3 0) (hb : rx3 < 256) :
    SamplePLTempSensor_internalRaw rx2 rx3 = V := by
  unfold encBits at h2 h3
  have hE0 : 0 ≤ V % 4096 := Int.emod_nonneg _ (by norm_num)
  have hE1 : V % 4096 < 4096 := Int.emod_lt_of_pos _ (by norm_num)
  norm_num at h2 h3
  have hr2 : rx2 < 256 := by omega
  rw [SamplePLTempSensor_internalRaw_eq rx2 rx3 hr2 hb]
  split_ifs <;> omega

/-- Decoding the two frame bytes that carry a 14-bit two's complement value gives
the value back. -/
theorem SamplePLTempSensor_thermocoupleRaw_enc (V : Int) (rx0 rx1 : Nat)
    (hlo : -8192 ≤ V) (hhi : V ≤ 8191)
    (h0 : rx0 = encBits 14 V 13 6) (h1 : rx1 / 4 = encBits 14 V 5 0) (hb : rx1 < 256) :
    SamplePLTempSensor_thermocoupleRaw rx0 rx1 = V := by
  unfold encBits at h0 h1
  have hE0 : 0 ≤ V % 16384 := Int.emod_nonneg _ (by norm_num)
  have hE1 : V % 16384 < 16384 := Int.emod_lt_of_pos _ (by norm_num)
  norm_num at h0 h1
  have hr0 : rx0 < 256 := by omega
  rw [SamplePLTempSensor_thermocoupleRaw_eq rx0 rx1 hr0 hb]
  split_ifs <;> omega

/-- What a sample of an enabled thermocouple stores when the transaction returned
a frame of correct length without a fault bit. -/
theorem SamplePLTempSensor_success (env : Env) (fuel : Nat) (w w1 : World) (rx : List Nat)
    (hen : w.sys.bThermocoupleOk ≠ 0)
    (hx : XSpi_LowLevelExecute env fuel PL_SPI_CHANNEL_SEL_0 4 [0, 0, 0, 0]
      [0xFFFFFFFF, 0xFFFFFFFF, 0xFFFFFFFF, 0xFFFFFFFF] (w.setRc XST_SUCCESS) =
      Except.ok (rx, w1))
    (hrc : w1.sys.rc = XST_SUCCESS) (hfree : faultSpec rx = none) :
    SamplePLTempSensor env fuel w = Except.ok { w1 with
      sys.fThermocoupleBoardTemperature :=
        f32 (f32 (SamplePLTempSensor_internalRaw (rx.getD 2 0) (rx.getD 3 0)) / 16)
      sys.fThermocoupleTemperature :=
        f32 (f32 (SamplePLTempSensor_thermocoupleRaw (rx.getD 0 0) (rx.getD 1 0)) / 4) } := by
  unfold SamplePLTempSensor
  rw [if_neg hen, hx]
  simp only []
  have hcode : (SamplePLTempSensor_faults rx w1) = w1 := by
    rw [SamplePLTempSensor_faults_eq rx w1 hrc, hfree]
  rw [@MAY_DIE_of_rc_eq _ (fun w => ((), SamplePLTempSensor_faults rx w)) w1
    (by show (SamplePLTempSensor_faults rx w1).sys.rc = XST_SUCCESS
        rw [hcode]; exact hrc)]
  simp only [hcode]

/-- C11: for every signed 12-bit value `V`, when the transaction of an enabled
thermocouple sample returns a fault-free frame of correct length whose third
byte holds bits 11..4 of the two's complement encoding of `V` and whose fourth
byte holds bits 3..0 in its high nibble, the sample returns and the stored board
temperature is exactly `V / 16`; for the raw value 0x100 it is 16. -/
theorem C11_board_temperature_decode (env : Env) (fuel : Nat) (w w1 : World) (rx : List Nat)
    (V : Int)
    (hen : w.sys.bThermocoupleOk ≠ 0)
    (hx : XSpi_LowLevelExecute env fuel PL_SPI_CHANNEL_SEL_0 4 [0, 0, 0, 0]
      [0xFFFFFFFF, 0xFFFFFFFF, 0xFFFFFFFF, 0xFFFFFFFF] (w.setRc XST_SUCCESS) =
      Except.ok (rx, w1))
    (hrc : w1.sys.rc = XST_SUCCESS) (hfree : faultSpec rx = none)
    (hlo : -2048 ≤ V) (hhi : V ≤ 2047)
    (h2 : rx.getD 2 0 = encBits 12 V 11 4)
    (h3 : rx.getD 3 0 / 16 = encBits 12 V 3 0) (hb : rx.getD 3 0 < 256) :
    returned (SamplePLTempSensor env fuel w) = true ∧
    SamplePLTempSensor_internalRaw (rx.getD 2 0) (rx.getD 3 0) = V ∧
    (resultWorld (SamplePLTempSensor env fuel w) w).sys.fThermocoupleBoardTemperature =
      (V : ℚ) / 16 ∧
    (V = 0x100 →
      (resultWorld (SamplePLTempSensor env fuel w) w).sys.fThermocoupleBoardTemperature = 16) := by
  have hraw := SamplePLTempSensor_internalRaw_enc V _ _ hlo hhi h2 h3 hb
  have hst : (resultWorld (SamplePLTempSensor env fuel w) w).sys.fThermocoupleBoardTemperature =
      (V : ℚ) / 16 := by
    rw [SamplePLTempSensor_success env fuel w w1 rx hen hx hrc hfree]
    show f32 (f32 (SamplePLTempSensor_internalRaw (rx.getD 2 0) (rx.getD 3 0)) / 16) = _
    have hV : |V| < 2 ^ 24 := by
      rw [abs_lt]
      constructor <;> omega
    rw [hraw, f32_int V hV]
    have := f32_int_div_pow V 4 hV (by norm_num)
    norm_num at this ⊢
    exact this
  refine ⟨?_, hraw, hst, ?_⟩
  · rw [SamplePLTempSensor_success env fuel w w1 rx hen hx hrc hfree]
    rfl
  · intro hV
    rw [hst, hV]
    norm_num

/-- C11 at a concrete input: an ideal SPI controller that delivers the frame
00 00 10 00, which carries the raw 12-bit value 0x100; the stored board
temperature is 16. -/
theorem C11_witness :
    (transferResult (XSpi_LowLevelExecute (spiEnv [0x00, 0x00, 0x10, 0x00]) 8
      PL_SPI_CHANNEL_SEL_0 4 [0, 0, 0, 0]
      [0xFFFFFFFF, 0xFFFFFFFF, 0xFFFFFFFF, 0xFFFFFFFF] (enabledWorld.setRc XST_SUCCESS))
      ([], enabledWorld)).1 = [0x00, 0x00, 0x10, 0x00] ∧
    (encBits 12 0x100 11 4 = 0x10 ∧ encBits 12 0x100 3 0 = 0x00) ∧
    returned (SamplePLTempSensor (spiEnv [0x00, 0x00, 0x10, 0x00]) 8 enabledWorld) = true ∧
    (resultWorld (SamplePLTempSensor (spiEnv [0x00, 0x00, 0x10, 0x00]) 8 enabledWorld)
      enabledWorld).sys.fThermocoupleBoardTemperature = 16 := by
  have h := C11_board_temperature_decode (spiEnv [0x00, 0x00, 0x10, 0x00]) 8 enabledWorld
    (transferResult (XSpi_LowLevelExecute (spiEnv [0x00, 0x00, 0x10, 0x00]) 8
      PL_SPI_CHANNEL_SEL_0 4 [0, 0, 0, 0]
      [0xFFFFFFFF, 0xFFFFFFFF, 0xFFFFFFFF, 0xFFFFFFFF] (enabledWorld.setRc XST_SUCCESS))
      ([], enabledWorld)).2
    (transferResult (XSpi_LowLevelExecute (spiEnv [0x00, 0x00, 0x10, 0x00]) 8
      PL_SPI_CHANNEL_SEL_0 4 [0, 0, 0, 0]
      [0xFFFFFFFF, 0xFFFFFFFF, 0xFFFFFFFF, 0xFFFFFFFF] (enabledWorld.setRc XST_SUCCESS))
      ([], enabledWorld)).1
    0x100
    (by decide) (transferResult_eq_ok _ _ (by decide)) (by decide) (by decide)
    (by decide) (by decide) (by decide) (by decide) (by decide)
  exact ⟨by decide, ⟨by decide, by decide⟩, h.1, h.2.2.2 rfl⟩

/-- C12: for every signed 14-bit value `V`, when the transaction of an enabled
thermocouple sample returns a fault-free frame of correct length whose first
byte holds bits 13..6 of the two's complement encoding of `V` and whose second
byte holds bits 5..0 in its bits 7..2, the sample returns and the stored
thermocouple temperature is exactly `V / 4`; for `V = -8192` (raw 0x2000) it is
-2048. -/
theorem C12_thermocouple_temperature_decode (env : Env) (fuel : Nat) (w w1 : World)
    (rx : List Nat) (V : Int)
    (hen : w.sys.bThermocoupleOk ≠ 0)
    (hx : XSpi_LowLevelExecute env fuel PL_SPI_CHANNEL_SEL_0 4 [0, 0, 0, 0]
      [0xFFFFFFFF, 0xFFFFFFFF, 0xFFFFFFFF, 0xFFFFFFFF] (w.setRc XST_SUCCESS) =
      Except.ok (rx, w1))
    (hrc : w1.sys.rc = XST_SUCCESS) (hfree : faultSpec rx = none)
    (hlo : -8192 ≤ V) (hhi : V ≤ 8191)
    (h0 : rx.getD 0 0 = encBits 14 V 13 6)
    (h1 : rx.getD 1 0 / 4 = encBits 14 V 5 0) (hb : rx.getD 1 0 < 256) :
    returned (SamplePLTempSensor env fuel w) = true ∧
    SamplePLTempSensor_thermocoupleRaw (rx.getD 0 0) (rx.getD 1 0) = V ∧
    (resultWorld (SamplePLTempSensor env fuel w) w).sys.fThermocoupleTemperature =
      (V : ℚ) / 4 ∧
    (V = -8192 →
      (resultWorld (SamplePLTempSensor env fuel w) w).sys.fThermocoupleTemperature = -2048) := by
  have hraw := SamplePLTempSensor_thermocoupleRaw_enc V _ _ hlo hhi h0 h1 hb
  have hst : (resultWorld (SamplePLTempSensor env fuel w) w).sys.fThermocoupleTemperature =
      (V : ℚ) / 4 := by
    rw [SamplePLTempSensor_success env fuel w w1 rx hen hx hrc hfree]
    show f32 (f32 (SamplePLTempSensor_thermocoupleRaw (rx.getD 0 0) (rx.getD 1 0)) / 4) = _
    have hV : |V| < 2 ^ 24 := by
      rw [abs_lt]
      constructor <;> omega
    rw [hraw, f32_int V hV]
    have := f32_int_div_pow V 2 hV (by norm_num)
    norm_num at this ⊢
    exact this
  refine ⟨?_, hraw, hst, ?_⟩
  · rw [SamplePLTempSensor_success env fuel w w1 rx hen hx hrc hfree]
    rfl
  · intro hV
    rw [hst, hV]
    norm_num

/-- C12 at a concrete input: an ideal SPI controller that delivers the frame
80 00 00 00, which carries the raw 14-bit value 0x2000, the encoding of -8192;
the stored thermocouple temperature is -2048. -/
theorem C12_witness :
    (transferResult (XSpi_LowLevelExecute (spiEnv [0x80, 0x00, 0x00, 0x00]) 8
      PL_SPI_CHANNEL_SEL_0 4 [0, 0, 0, 0]
      [0xFFFFFFFF, 0xFFFFFFFF, 0xFFFFFFFF, 0xFFFFFFFF] (enabledWorld.setRc XST_SUCCESS))
      ([], enabledWorld)).1 = [0x80, 0x00, 0x00, 0x00] ∧
    (encBits 14 (-8192) 13 6 = 0x80 ∧ encBits 14 (-8192) 5 0 = 0x00) ∧
    returned (SamplePLTempSensor (spiEnv [0x80, 0x00, 0x00, 0x00]) 8 enabledWorld) = true ∧
    (resultWorld (SamplePLTempSensor (spiEnv [0x80, 0x00, 0x00, 0x00]) 8 enabledWorld)
      enabledWorld).sys.fThermocoupleTemperature = -2048 := by
  have h := C12_thermocouple_temperature_decode (spiEnv [0x80, 0x00, 0x00, 0x00]) 8
    enabledWorld
    (transferResult (XSpi_LowLevelExecute (spiEnv [0x80, 0x00, 0x00, 0x00]) 8
      PL_SPI_CHANNEL_SEL_0 4 [0, 0, 0, 0]
      [0xFFFFFFFF, 0xFFFFFFFF, 0xFFFFFFFF, 0xFFFFFFFF] (enabledWorld.setRc XST_SUCCESS))
      ([], enabledWorld)).2
    (transferResult (XSpi_LowLevelExecute (spiEnv [0x80, 0x00, 0x00, 0x00]) 8
      PL_SPI_CHANNEL_SEL_0 4 [0, 0, 0, 0]
      [0xFFFFFFFF, 0xFFFFFFFF, 0xFFFFFFFF, 0xFFFFFFFF] (enabledWorld.setRc XST_SUCCESS))
      ([], enabledWorld)).1
    (-8192)
    (by decide) (transferResult_eq_ok _ _ (by decide)) (by decide) (by decide)
    (by decide) (by decide) (by decide) (by decide) (by decide)
  exact ⟨by decide, ⟨by decide, by decide⟩, h.1, h.2.2.2 rfl⟩

/-! ## The SPI transaction -/

theorem receivedWords_append (l1 l2 : List Event) :
    receivedWords (l1 ++ l2) = receivedWords l1 + receivedWords l2 := by
  unfold receivedWords
  exact List.countP_append _ _ _

theorem receivedWords_cons_other (o v : Nat) (l : List Event) (h : o ≠ XSP_DRR_OFFSET) :
    receivedWords (Event.spiRead o v :: l) = receivedWords l := by
  unfold receivedWords
  rw [List.countP_cons_of_neg]
  simp [Event.isDataRead, h]

theorem receivedWords_cons_data (v : Nat) (l : List Event) :
    receivedWords (Event.spiRead XSP_DRR_OFFSET v :: l) = receivedWords l + 1 := by
  unfold receivedWords
  rw [List.countP_cons_of_pos]
  simp [Event.isDataRead]

theorem XSpi_LowLevelExecute_waitTx_spec (env : Env) (fuel : Nat) (w w1 : World)
    (h : XSpi_LowLevelExecute_waitTx env fuel w = Except.ok w1) :
    w1.sys = w.sys ∧ ∃ new, w1.log = w.log ++ new ∧ receivedWords new = 0 := by
  induction fuel generalizing w with
  | zero => cases h
  | succ n ih =>
    unfold XSpi_LowLevelExecute_waitTx at h
    simp only [] at h
    split_ifs at h with hc
    · cases h
      exact ⟨rfl, [Event.spiRead XSP_SR_OFFSET (XSpi_ReadReg env XSP_SR_OFFSET w).1], rfl,
        receivedWords_cons_other _ _ _ (by decide)⟩
    · obtain ⟨h1, new, h2, h3⟩ := ih _ h
      refine ⟨h1, Event.spiRead XSP_SR_OFFSET (XSpi_ReadReg env XSP_SR_OFFSET w).1 :: new,
        ?_, ?_⟩
      · rw [h2]
        show (w.log ++ [_]) ++ new = _
        rw [List.append_assoc]
        rfl
      · rw [receivedWords_cons_other _ _ _ (by decide), h3]

theorem XSpi_LowLevelExecute_waitRx_spec (env : Env) (expected fuel : Nat) (w w1 : World)
    (h : XSpi_LowLevelExecute_waitRx env expected fuel w = Except.ok w1) :
    w1.sys = w.sys ∧ ∃ new, w1.log = w.log ++ new ∧ receivedWords new = 0 := by
  induction fuel generalizing w with
  | zero => cases h
  | succ n ih =>
    unfold XSpi_LowLevelExecute_waitRx at h
    simp only [] at h
    split_ifs at h with hc
    · obtain ⟨h1, new, h2, h3⟩ := ih _ h
      refine ⟨h1, Event.spiRead XSP_RFO_OFFSET (XSpi_ReadReg env XSP_RFO_OFFSET w).1 :: new,
        ?_, ?_⟩
      · rw [h2]
        show (w.log ++ [_]) ++ new = _
        rw [List.append_assoc]
        rfl
      · rw [receivedWords_cons_other _ _ _ (by decide), h3]
    · cases h
      exact ⟨rfl, [Event.spiRead XSP_RFO_OFFSET (XSpi_ReadReg env XSP_RFO_OFFSET w).1], rfl,
        receivedWords_cons_other _ _ _ (by decide)⟩

theorem XSpi_LowLevelExecute_drain_spec (env : Env) (fuel : Nat) (buf buf1 : List Nat)
    (n n1 : Nat) (w w1 : World)
    (h : XSpi_LowLevelExecute_drain env fuel buf n w = Except.ok (buf1, n1, w1)) :
    w1.sys = w.sys ∧ buf1.length = buf.length ∧
      ∃ new, w1.log = w.log ++ new ∧ n1 = n + receivedWords new := by
  induction fuel generalizing w buf n with
  | zero => cases h
  | succ k ih =>
    unfold XSpi_LowLevelExecute_drain at h
    simp only [] at h
    split_ifs at h with hc hlen
    · obtain ⟨h1, hl, new, h2, h3⟩ := ih _ _ _ h
      refine ⟨h1, ?_, Event.spiRead XSP_SR_OFFSET (XSpi_ReadReg env XSP_SR_OFFSET w).1 ::
        Event.spiRead XSP_DRR_OFFSET
          (XSpi_ReadReg env XSP_DRR_OFFSET (XSpi_ReadReg env XSP_SR_OFFSET w).2).1 :: new,
        ?_, ?_⟩
      · rw [hl]
        simp
      · rw [h2]
        show ((w.log ++ [_]) ++ [_]) ++ new = _
        rw [List.append_assoc, List.append_assoc]
        rfl
      · rw [h3, receivedWords_cons_other _ _ _ (by decide), receivedWords_cons_data]
        omega
    · cases h
      exact ⟨rfl, rfl, [Event.spiRead XSP_SR_OFFSET (XSpi_ReadReg env XSP_SR_OFFSET w).1], rfl,
        by rw [receivedWords_cons_other _ _ _ (by decide)]; rfl⟩

theorem receivedWords_cons_of_not (e : Event) (l : List Event) (h : e.isDataRead = false) :
    receivedWords (e :: l) = receivedWords l := by
  unfold receivedWords
  rw [List.countP_cons_of_neg]
  simp [h]

theorem XSpi_LowLevelExecute_fill_spec (l : List Nat) (w : World) :
    (l.foldl (fun w v => XSpi_WriteReg XSP_DTR_OFFSET v w) w).sys = w.sys ∧
    ∃ new, (l.foldl (fun w v => XSpi_WriteReg XSP_DTR_OFFSET v w) w).log = w.log ++ new ∧
      receivedWords new = 0 := by
  induction l generalizing w with
  | nil => exact ⟨rfl, [], by simp, rfl⟩
  | cons v l ih =>
    obtain ⟨h1, new, h2, h3⟩ := ih (XSpi_WriteReg XSP_DTR_OFFSET v w)
    refine ⟨h1, Event.spiWrite XSP_DTR_OFFSET v :: new, ?_, ?_⟩
    · show (l.foldl _ (XSpi_WriteReg XSP_DTR_OFFSET v w)).log = _
      rw [h2]
      show (w.log ++ [_]) ++ new = _
      rw [List.append_assoc]
      rfl
    · rw [receivedWords_cons_of_not (Event.spiWrite XSP_DTR_OFFSET v) new rfl, h3]

/-- What `XSpi_LowLevelExecute` does when it returns: it changes `rc` and
`pcErr` only, and `rc` is `XST_SUCCESS` exactly when the number of words taken out
of the receive FIFO is the byte count asked for. -/
theorem XSpi_LowLevelExecute_spec (env : Env) (fuel ch n : Nat) (tx rxb rx : List Nat)
    (w w1 : World)
    (h : XSpi_LowLevelExecute env fuel ch n tx rxb w = Except.ok (rx, w1)) :
    w.sys.onlyStatus w1.sys ∧ w1.sys.bError = w.sys.bError ∧ rx.length = rxb.length ∧
    ∃ new, w1.log = w.log ++ new ∧
      (receivedWords new = n → w1.sys.rc = XST_SUCCESS) ∧
      (receivedWords new ≠ n → w1.sys.rc = mismatchRc n (receivedWords new)) := by
  unfold XSpi_LowLevelExecute at h
  simp only [] at h
  obtain ⟨f1, fnew, f2, f3⟩ := XSpi_LowLevelExecute_fill_spec (tx.take n) w
  generalize (tx.take n).foldl (fun w v => XSpi_WriteReg XSP_DTR_OFFSET v w) w = w0 at h f1 f2
  generalize hwa : XSpi_WriteReg XSP_CR_OFFSET MAX31855_CR_UNINHIBIT_MODE
    (vTaskDelay 1 (XSpi_WriteReg XSP_SSR_OFFSET ch w0)) = wa at h
  have ha1 : wa.sys = w.sys := by rw [← hwa, ← f1]; rfl
  have ha2 : wa.log = w.log ++ (fnew ++ [Event.spiWrite XSP_SSR_OFFSET ch, Event.taskDelay 1,
      Event.spiWrite XSP_CR_OFFSET MAX31855_CR_UNINHIBIT_MODE]) := by
    rw [← hwa]
    show ((w0.log ++ [_]) ++ [_]) ++ [_] = _
    rw [f2]
    simp
  have ha3 : receivedWords (fnew ++ [Event.spiWrite XSP_SSR_OFFSET ch, Event.taskDelay 1,
      Event.spiWrite XSP_CR_OFFSET MAX31855_CR_UNINHIBIT_MODE]) = 0 := by
    rw [receivedWords_append, f3]
    rfl
  cases hb : XSpi_LowLevelExecute_waitTx env fuel wa with
  | error f => rw [hb] at h; cases h
  | ok wb =>
    rw [hb] at h
    simp only [] at h
    obtain ⟨b1, bnew, b2, b3⟩ := XSpi_LowLevelExecute_waitTx_spec env fuel wa wb hb
    cases hc : XSpi_LowLevelExecute_waitRx env (toU32 ((n : Int) - 1)) fuel wb with
    | error f => rw [hc] at h; cases h
    | ok wc =>
      rw [hc] at h
      simp only [] at h
      obtain ⟨c1, cnew, c2, c3⟩ := XSpi_LowLevelExecute_waitRx_spec env _ fuel wb wc hc
      cases hd : XSpi_LowLevelExecute_drain env fuel rxb 0 wc with
      | error f => rw [hd] at h; cases h
      | ok r =>
        obtain ⟨rx1, k, wd⟩ := r
        rw [hd] at h
        simp only [] at h
        obtain ⟨d1, dl, dnew, d2, d3⟩ := XSpi_LowLevelExecute_drain_spec env fuel rxb rx1 0 k wc wd hd
        have hsys : wd.sys = w.sys := by rw [d1, c1, b1, ha1]
        have hlog : (wd.log ++ [Event.spiWrite XSP_CR_OFFSET MAX31855_CR_INIT_MODE]) ++
            [Event.spiWrite XSP_SSR_OFFSET PL_SPI_CHANNEL_SEL_NONE] = w.log ++
            ((fnew ++ [Event.spiWrite XSP_SSR_OFFSET ch, Event.taskDelay 1,
              Event.spiWrite XSP_CR_OFFSET MAX31855_CR_UNINHIBIT_MODE]) ++ bnew ++ cnew ++
              dnew ++ [Event.spiWrite XSP_CR_OFFSET MAX31855_CR_INIT_MODE,
              Event.spiWrite XSP_SSR_OFFSET PL_SPI_CHANNEL_SEL_NONE]) := by
          rw [d2, c2, b2, ha2]
          simp only [List.append_assoc, List.cons_append, List.nil_append]
        have hcount : receivedWords ((fnew ++ [Event.spiWrite XSP_SSR_OFFSET ch,
            Event.taskDelay 1, Event.spiWrite XSP_CR_OFFSET MAX31855_CR_UNINHIBIT_MODE]) ++
            bnew ++ cnew ++ dnew ++ [Event.spiWrite XSP_CR_OFFSET MAX31855_CR_INIT_MODE,
            Event.spiWrite XSP_SSR_OFFSET PL_SPI_CHANNEL_SEL_NONE]) = k := by
          rw [receivedWords_append, receivedWords_append, receivedWords_append,
            receivedWords_append, ha3, b3, c3, d3]
          have : receivedWords [Event.spiWrite XSP_CR_OFFSET MAX31855_CR_INIT_MODE,
            Event.spiWrite XSP_SSR_OFFSET PL_SPI_CHANNEL_SEL_NONE] = 0 := rfl
          omega
        split_ifs at h with hk
        · cases h
          refine ⟨?_, ?_, dl, _, hlog, ?_, ?_⟩
          · show w.sys.onlyStatus
              ({ wd.sys with rc := mismatchRc n k,
                             pcErr := "XSpi_LowLevelExecute() -> 0x%08x\r\n" })
            rw [hsys]
            rfl
          · show wd.sys.bError = _
            rw [hsys]
          · intro hn
            rw [hcount] at hn
            exact absurd hn.symm hk
          · intro _
            rw [hcount]
            rfl
        · cases h
          refine ⟨?_, ?_, dl, _, hlog, ?_, ?_⟩
          · show w.sys.onlyStatus ({ wd.sys with rc := XST_SUCCESS })
            rw [hsys]
            rfl
          · show wd.sys.bError = _
            rw [hsys]
          · intro _
            rfl
          · intro hn
            rw [hcount] at hn
            exact absurd (not_not.mp hk).symm hn

theorem System.onlyStatus.fThermocoupleTemperature {s s1 : System} (h : s.onlyStatus s1) :
    s1.fThermocoupleTemperature = s.fThermocoupleTemperature := by
  rw [h]

theorem System.onlyStatus.fThermocoupleBoardTemperature {s s1 : System}
    (h : s.onlyStatus s1) :
    s1.fThermocoupleBoardTemperature = s.fThermocoupleBoardTemperature := by
  rw [h]

/-- A sample of an enabled thermocouple whose fault test leaves `rc` different
from `XST_SUCCESS` returns at `L_DIE`. -/
theorem SamplePLTempSensor_of_fail (env : Env) (fuel : Nat) (w w1 : World) (rx : List Nat)
    (hen : w.sys.bThermocoupleOk ≠ 0)
    (hx : XSpi_LowLevelExecute env fuel PL_SPI_CHANNEL_SEL_0 4 [0, 0, 0, 0]
      [0xFFFFFFFF, 0xFFFFFFFF, 0xFFFFFFFF, 0xFFFFFFFF] (w.setRc XST_SUCCESS) =
      Except.ok (rx, w1))
    (hrc : (SamplePLTempSensor_faults rx w1).sys.rc ≠ XST_SUCCESS) :
    SamplePLTempSensor env fuel w = Except.ok
      (configPRINTF (SamplePLTempSensor_faults rx w1).sys.pcErr
        [(SamplePLTempSensor_faults rx w1).sys.rc]
        ((SamplePLTempSensor_faults rx w1).setBError 1)) := by
  unfold SamplePLTempSensor
  rw [if_neg hen, hx]
  simp only []
  rw [@MAY_DIE_of_rc_ne _ (fun w => ((), SamplePLTempSensor_faults rx w)) w1 hrc]

theorem SamplePLTempSensor_faults_onlyStatus (rx : List Nat) (w : World) :
    w.sys.onlyStatus (SamplePLTempSensor_faults rx w).sys := by
  unfold SamplePLTempSensor_faults
  split_ifs <;> rfl

theorem XSpi_LowLevelExecute_waitRx_first (env : Env) (x fuel : Nat) (w : World)
    (h : env.XSpi_ReadReg w.log XSP_RFO_OFFSET % 2 ^ 32 = x) :
    XSpi_LowLevelExecute_waitRx env x (fuel + 1) w =
      Except.ok (w.emit (Event.spiRead XSP_RFO_OFFSET
        (env.XSpi_ReadReg w.log XSP_RFO_OFFSET % 2 ^ 32))) := by
  unfold XSpi_LowLevelExecute_waitRx
  simp only [XSpi_ReadReg]
  rw [if_neg (not_not.mpr h.symm)]

theorem XSpi_LowLevelExecute_waitTx_ready (env : Env) (fuel : Nat) (w : World)
    (h : env.XSpi_ReadReg w.log XSP_SR_OFFSET % 2 ^ 32 &&& XSP_SR_TX_EMPTY_MASK ≠ 0) :
    XSpi_LowLevelExecute_waitTx env (fuel + 1) w =
      Except.ok (w.emit (Event.spiRead XSP_SR_OFFSET
        (env.XSpi_ReadReg w.log XSP_SR_OFFSET % 2 ^ 32))) := by
  unfold XSpi_LowLevelExecute_waitTx
  simp only [XSpi_ReadReg]
  rw [if_pos h]

/-- The drain loop on a receive FIFO that holds more than four words: as long
as at most four words have been taken out the status register shows the FIFO
not empty, so the fifth word is stored behind the end of the four-word buffer. -/
theorem XSpi_LowLevelExecute_drain_overrun (env : Env) (l0 : List Event)
    (hfull : ∀ new, receivedWords new ≤ 4 →
      env.XSpi_ReadReg (l0 ++ new) XSP_SR_OFFSET % 2 ^ 32 &&& XSP_SR_RX_EMPTY_MASK = 0)
    (fuel : Nat) (rx : List Nat) (k : Nat) (w : World) (cur : List Event)
    (hrx : rx.length = 4) (hk : k ≤ 4) (hf : 5 ≤ fuel + k)
    (hlog : w.log = l0 ++ cur) (hcur : receivedWords cur = k) :
    XSpi_LowLevelExecute_drain env fuel rx k w = Except.error Fault.bufferOverrun := by
  induction fuel generalizing rx k w cur with
  | zero => omega
  | succ n ih =>
    unfold XSpi_LowLevelExecute_drain
    simp only [XSpi_ReadReg]
    have h0 := hfull cur (by omega)
    rw [← hlog] at h0
    rw [if_pos h0]
    by_cases hlt : k < rx.length
    · rw [if_pos hlt]
      refine ih _ (k + 1) _ (cur ++ [Event.spiRead XSP_SR_OFFSET
        (env.XSpi_ReadReg w.log XSP_SR_OFFSET % 2 ^ 32),
        Event.spiRead XSP_DRR_OFFSET (env.XSpi_ReadReg (w.emit (Event.spiRead XSP_SR_OFFSET
          (env.XSpi_ReadReg w.log XSP_SR_OFFSET % 2 ^ 32))).log XSP_DRR_OFFSET % 2 ^ 32)])
        ?_ (by omega) (by omega) ?_ ?_
      · simp [hrx]
      · show (w.log ++ [_]) ++ [_] = _
        rw [hlog]
        simp
      · rw [receivedWords_append, hcur]
        rfl
    · rw [if_neg hlt]

theorem XSpi_LowLevelExecute_drain_count (env : Env) (fuel : Nat) (buf buf1 : List Nat)
    (n n1 : Nat) (w w1 : World)
    (h : XSpi_LowLevelExecute_drain env fuel buf n w = Except.ok (buf1, n1, w1))
    (hn : n ≤ buf.length) : n1 ≤ buf.length := by
  induction fuel generalizing buf n w with
  | zero =>
    unfold XSpi_LowLevelExecute_drain at h
    cases h
  | succ m ih =>
    unfold XSpi_LowLevelExecute_drain at h
    simp only [] at h
    split_ifs at h with h1 h2
    · have := ih _ _ _ h (by simp; omega)
      simpa using this
    · cases h
      exact hn

/-- A transaction that returns has taken at most as many words out of the
receive FIFO as the receive buffer holds. -/
theorem XSpi_LowLevelExecute_count (env : Env) (fuel ch n : Nat) (tx rxb rx : List Nat)
    (w w1 : World) (new : List Event)
    (h : XSpi_LowLevelExecute env fuel ch n tx rxb w = Except.ok (rx, w1))
    (hnew : w1.log = w.log ++ new) : receivedWords new ≤ rxb.length := by
  unfold XSpi_LowLevelExecute at h
  simp only [] at h
  obtain ⟨f1, fnew, f2, f3⟩ := XSpi_LowLevelExecute_fill_spec (tx.take n) w
  generalize (tx.take n).foldl (fun w v => XSpi_WriteReg XSP_DTR_OFFSET v w) w = w0 at h f1 f2
  generalize hwa : XSpi_WriteReg XSP_CR_OFFSET MAX31855_CR_UNINHIBIT_MODE
    (vTaskDelay 1 (XSpi_WriteReg XSP_SSR_OFFSET ch w0)) = wa at h
  have ha2 : wa.log = w.log ++ (fnew ++ [Event.spiWrite XSP_SSR_OFFSET ch, Event.taskDelay 1,
      Event.spiWrite XSP_CR_OFFSET MAX31855_CR_UNINHIBIT_MODE]) := by
    rw [← hwa]
    show ((w0.log ++ [_]) ++ [_]) ++ [_] = _
    rw [f2]
    simp
  have ha3 : receivedWords (fnew ++ [Event.spiWrite XSP_SSR_OFFSET ch, Event.taskDelay 1,
      Event.spiWrite XSP_CR_OFFSET MAX31855_CR_UNINHIBIT_MODE]) = 0 := by
    rw [receivedWords_append, f3]
    rfl
  cases hb : XSpi_LowLevelExecute_waitTx env fuel wa with
  | error f => rw [hb] at h; cases h
  | ok wb =>
    rw [hb] at h
    simp only [] at h
    obtain ⟨-, bnew, b2, b3⟩ := XSpi_LowLevelExecute_waitTx_spec env fuel wa wb hb
    cases hc : XSpi_LowLevelExecute_waitRx env (toU32 ((n : Int) - 1)) fuel wb with
    | error f => rw [hc] at h; cases h
    | ok wc =>
      rw [hc] at h
      simp only [] at h
      obtain ⟨-, cnew, c2, c3⟩ := XSpi_LowLevelExecute_waitRx_spec env _ fuel wb wc hc
      cases hd : XSpi_LowLevelExecute_drain env fuel rxb 0 wc with
      | error f => rw [hd] at h; cases h
      | ok r =>
        obtain ⟨rx1, k, wd⟩ := r
        rw [hd] at h
        simp only [] at h
        obtain ⟨-, -, dnew, d2, d3⟩ :=
          XSpi_LowLevelExecute_drain_spec env fuel rxb rx1 0 k wc wd hd
        have hk := XSpi_LowLevelExecute_drain_count env fuel rxb rx1 0 k wc wd hd (by omega)
        have hlog : (wd.log ++ [Event.spiWrite XSP_CR_OFFSET MAX31855_CR_INIT_MODE]) ++
            [Event.spiWrite XSP_SSR_OFFSET PL_SPI_CHANNEL_SEL_NONE] = w.log ++
            ((fnew ++ [Event.spiWrite XSP_SSR_OFFSET ch, Event.taskDelay 1,
              Event.spiWrite XSP_CR_OFFSET MAX31855_CR_UNINHIBIT_MODE]) ++ bnew ++ cnew ++
              dnew ++ [Event.spiWrite XSP_CR_OFFSET MAX31855_CR_INIT_MODE,
              Event.spiWrite XSP_SSR_OFFSET PL_SPI_CHANNEL_SEL_NONE]) := by
          rw [d2, c2, b2, ha2]
          simp only [List.append_assoc, List.cons_append, List.nil_append]
        have hcount : receivedWords ((fnew ++ [Event.spiWrite XSP_SSR_OFFSET ch,
            Event.taskDelay 1, Event.spiWrite XSP_CR_OFFSET MAX31855_CR_UNINHIBIT_MODE]) ++
            bnew ++ cnew ++ dnew ++ [Event.spiWrite XSP_CR_OFFSET MAX31855_CR_INIT_MODE,
            Event.spiWrite XSP_SSR_OFFSET PL_SPI_CHANNEL_SEL_NONE]) = k := by
          rw [receivedWords_append, receivedWords_append, receivedWords_append,
            receivedWords_append, ha3, b3, c3, d3]
          have : receivedWords [Event.spiWrite XSP_CR_OFFSET MAX31855_CR_INIT_MODE,
            Event.spiWrite XSP_SSR_OFFSET PL_SPI_CHANNEL_SEL_NONE] = 0 := rfl
          omega
        have hw1 : w1.log = (wd.log ++ [Event.spiWrite XSP_CR_OFFSET MAX31855_CR_INIT_MODE]) ++
            [Event.spiWrite XSP_SSR_OFFSET PL_SPI_CHANNEL_SEL_NONE] := by
          split_ifs at h <;> cases h <;> rfl
        rw [hw1, hlog] at hnew
        rw [← List.append_cancel_left hnew, hcount]
        exact hk

/-- The transaction on a controller that shows its transmit FIFO empty, four
words received and a receive FIFO that holds more than four words: the drain
loop stores a fifth word behind the end of `pqRxBuffer`. -/
theorem XSpi_LowLevelExecute_overrun (env : Env) (fuel : Nat) (w : World)
    (htx : ∀ log, env.XSpi_ReadReg log XSP_SR_OFFSET % 2 ^ 32 &&& XSP_SR_TX_EMPTY_MASK ≠ 0)
    (hrfo : ∀ log, env.XSpi_ReadReg log XSP_RFO_OFFSET % 2 ^ 32 = 3)
    (hfull : ∀ new, receivedWords new ≤ 4 →
      env.XSpi_ReadReg (w.log ++ new) XSP_SR_OFFSET % 2 ^ 32 &&& XSP_SR_RX_EMPTY_MASK = 0)
    (hfuel : 5 ≤ fuel) :
    XSpi_LowLevelExecute env fuel PL_SPI_CHANNEL_SEL_0 4 [0, 0, 0, 0]
      [0xFFFFFFFF, 0xFFFFFFFF, 0xFFFFFFFF, 0xFFFFFFFF] w =
      Except.error Fault.bufferOverrun := by
  obtain ⟨m, rfl⟩ : ∃ m, fuel = m + 1 := ⟨fuel - 1, by omega⟩
  have h3 : toU32 (((4 : Nat) : Int) - 1) = 3 := by decide
  unfold XSpi_LowLevelExecute
  simp only []
  obtain ⟨-, fnew, f2, f3⟩ := XSpi_LowLevelExecute_fill_spec ([0, 0, 0, 0].take 4) w
  generalize ([0, 0, 0, 0].take 4).foldl (fun w v => XSpi_WriteReg XSP_DTR_OFFSET v w) w = w0
    at f2
  generalize hwa : XSpi_WriteReg XSP_CR_OFFSET MAX31855_CR_UNINHIBIT_MODE
    (vTaskDelay 1 (XSpi_WriteReg XSP_SSR_OFFSET PL_SPI_CHANNEL_SEL_0 w0)) = wa
  have ha2 : wa.log = w.log ++ (fnew ++ [Event.spiWrite XSP_SSR_OFFSET PL_SPI_CHANNEL_SEL_0,
      Event.taskDelay 1, Event.spiWrite XSP_CR_OFFSET MAX31855_CR_UNINHIBIT_MODE]) := by
    rw [← hwa]
    show ((w0.log ++ [_]) ++ [_]) ++ [_] = _
    rw [f2]
    simp
  have ha3 : receivedWords (fnew ++ [Event.spiWrite XSP_SSR_OFFSET PL_SPI_CHANNEL_SEL_0,
      Event.taskDelay 1, Event.spiWrite XSP_CR_OFFSET MAX31855_CR_UNINHIBIT_MODE]) = 0 := by
    rw [receivedWords_append, f3]
    rfl
  have hb := XSpi_LowLevelExecute_waitTx_ready env m wa (htx _)
  obtain ⟨-, bnew, b2, b3⟩ := XSpi_LowLevelExecute_waitTx_spec env (m + 1) wa _ hb
  rw [hb]
  simp only []
  generalize wa.emit (Event.spiRead XSP_SR_OFFSET
    (env.XSpi_ReadReg wa.log XSP_SR_OFFSET % 2 ^ 32)) = wb at b2
  rw [h3]
  have hc := XSpi_LowLevelExecute_waitRx_first env 3 m wb (hrfo _)
  obtain ⟨-, cnew, c2, c3⟩ := XSpi_LowLevelExecute_waitRx_spec env 3 (m + 1) wb _ hc
  rw [hc]
  simp only []
  generalize wb.emit (Event.spiRead XSP_RFO_OFFSET
    (env.XSpi_ReadReg wb.log XSP_RFO_OFFSET % 2 ^ 32)) = wc at c2
  rw [XSpi_LowLevelExecute_drain_overrun env w.log hfull (m + 1)
    [0xFFFFFFFF, 0xFFFFFFFF, 0xFFFFFFFF, 0xFFFFFFFF] 0 wc
    ((fnew ++ [Event.spiWrite XSP_SSR_OFFSET PL_SPI_CHANNEL_SEL_0, Event.taskDelay 1,
      Event.spiWrite XSP_CR_OFFSET MAX31855_CR_UNINHIBIT_MODE]) ++ bnew ++ cnew) rfl
    (by omega) (by omega)
    (by rw [c2, b2, ha2]; simp only [List.append_assoc])
    (by rw [receivedWords_append, receivedWords_append, ha3, b3, c3])]

/-- C13 (what the code does): take a sample of an enabled thermocouple.  When
the frame transaction returns with a number of received words different from
the 4 sent (which then is less than 4), or returns a frame with a fault bit
set, `SamplePLTempSensor` returns with the error flag `bError` set to 1 and
with both thermocouple readings equal to their values before the call.  When
the receive FIFO holds more than four words (the controller shows the transmit
FIFO empty, four words received, and the receive FIFO not empty as long as at
most four words have been taken out), the transaction does not return a count:
its drain loop stores the fifth word behind the end of the four-word buffer
`pqRxBuffer`, and the sample ends there, without setting `bError`. -/
theorem C13_failed_thermocouple_keeps_values (env : Env) (fuel : Nat) (w : World)
    (hen : w.sys.bThermocoupleOk ≠ 0) :
    (∀ (w1 : World) (rx : List Nat) (new : List Event),
      XSpi_LowLevelExecute env fuel PL_SPI_CHANNEL_SEL_0 4 [0, 0, 0, 0]
        [0xFFFFFFFF, 0xFFFFFFFF, 0xFFFFFFFF, 0xFFFFFFFF] (w.setRc XST_SUCCESS) =
        Except.ok (rx, w1) →
      w1.log = w.log ++ new →
      receivedWords new ≠ 4 ∨ faultSpec rx ≠ none →
      receivedWords new ≤ 4 ∧
      returned (SamplePLTempSensor env fuel w) = true ∧
      (resultWorld (SamplePLTempSensor env fuel w) w).sys.bError = 1 ∧
      (resultWorld (SamplePLTempSensor env fuel w) w).sys.fThermocoupleTemperature =
        w.sys.fThermocoupleTemperature ∧
      (resultWorld (SamplePLTempSensor env fuel w) w).sys.fThermocoupleBoardTemperature =
        w.sys.fThermocoupleBoardTemperature) ∧
    ((∀ log, env.XSpi_ReadReg log XSP_SR_OFFSET % 2 ^ 32 &&& XSP_SR_TX_EMPTY_MASK ≠ 0) →
      (∀ log, env.XSpi_ReadReg log XSP_RFO_OFFSET % 2 ^ 32 = 3) →
      (∀ new, receivedWords new ≤ 4 →
        env.XSpi_ReadReg (w.log ++ new) XSP_SR_OFFSET % 2 ^ 32 &&& XSP_SR_RX_EMPTY_MASK = 0) →
      5 ≤ fuel →
      SamplePLTempSensor env fuel w = Except.error Fault.bufferOverrun) := by
  refine ⟨fun w1 rx new hx hnew hfail => ?_, fun htx hrfo hfull hfuel => ?_⟩
  · obtain ⟨hfr, -, -, new1, hl, hok, hbad⟩ :=
      XSpi_LowLevelExecute_spec env fuel _ 4 _ _ rx _ w1 hx
    have hnn : new1 = new := by
      have : w.log ++ new1 = w.log ++ new := by rw [← hnew, hl]; rfl
      exact List.append_cancel_left this
    subst hnn
    have hle : receivedWords new1 ≤ 4 :=
      XSpi_LowLevelExecute_count env fuel _ 4 _ _ rx _ w1 new1 hx hl
    have hrc : (SamplePLTempSensor_faults rx w1).sys.rc ≠ XST_SUCCESS := by
      by_cases hk : receivedWords new1 = 4
      · have h0 := hok hk
        rw [SamplePLTempSensor_faults_eq rx w1 h0]
        cases hf : faultSpec rx with
        | none =>
          rcases hfail with h | h
          · exact absurd hk h
          · exact absurd hf h
        | some f =>
          show (1 : Int) ≠ 0
          decide
      · have h0 := hbad hk
        have hne : w1.sys.rc ≠ XST_SUCCESS := by
          rw [h0, mismatchRc_eq]
          show ((16 * (4 % 16) + receivedWords new1 % 16 : Nat) : Int) ≠ 0
          omega
        unfold SamplePLTempSensor_faults
        rw [if_neg (fun h => hne h.symm)]
        exact hne
    have hfr2 : w.sys.onlyStatus ((SamplePLTempSensor_faults rx w1).setBError 1).sys :=
      System.onlyStatus.next (System.onlyStatus.next (System.onlyStatus.next
        (World.setRc_onlyStatus _ w) hfr) (SamplePLTempSensor_faults_onlyStatus rx w1))
        (World.setBError_onlyStatus 1 _)
    rw [SamplePLTempSensor_of_fail env fuel w w1 rx hen hx hrc]
    refine ⟨hle, rfl, rfl, ?_, ?_⟩
    · exact System.onlyStatus.fThermocoupleTemperature hfr2
    · exact System.onlyStatus.fThermocoupleBoardTemperature hfr2
  · unfold SamplePLTempSensor
    rw [if_neg hen, XSpi_LowLevelExecute_overrun env fuel (w.setRc XST_SUCCESS) htx hrfo
      hfull hfuel]

set_option maxRecDepth 100000 in
/-- C13 at a failing input: an SPI controller that shows four words received
while its receive FIFO holds five; the sample of an enabled thermocouple does
not return with `bError` set: its drain loop stores the fifth word behind the
end of `pqRxBuffer`.  With three words in the FIFO the sample of a thermocouple
that holds the readings 300 and 24 returns with `bError` set and the readings
unchanged. -/
theorem C13_failing_input :
    sampledWorld.sys.bThermocoupleOk ≠ 0 ∧
    SamplePLTempSensor (shortSpiEnv [1, 2, 3, 4, 5]) 8 sampledWorld =
      Except.error Fault.bufferOverrun ∧
    receivedWords ((transferResult (XSpi_LowLevelExecute (shortSpiEnv [1, 2, 3]) 8
      PL_SPI_CHANNEL_SEL_0 4 [0, 0, 0, 0]
      [0xFFFFFFFF, 0xFFFFFFFF, 0xFFFFFFFF, 0xFFFFFFFF] (sampledWorld.setRc XST_SUCCESS))
      ([], sampledWorld)).2.log.drop sampledWorld.log.length) = 3 ∧
    returned (SamplePLTempSensor (shortSpiEnv [1, 2, 3]) 8 sampledWorld) = true ∧
    (resultWorld (SamplePLTempSensor (shortSpiEnv [1, 2, 3]) 8 sampledWorld)
      sampledWorld).sys.bError = 1 ∧
    (resultWorld (SamplePLTempSensor (shortSpiEnv [1, 2, 3]) 8 sampledWorld)
      sampledWorld).sys.fThermocoupleTemperature = 300 ∧
    (resultWorld (SamplePLTempSensor (shortSpiEnv [1, 2, 3]) 8 sampledWorld)
      sampledWorld).sys.fThermocoupleBoardTemperature = 24 := by
  have h5 := (C13_failed_thermocouple_keeps_values (shortSpiEnv [1, 2, 3, 4, 5]) 8 sampledWorld
    (by decide)).2
    (fun log => by
      simp only [shortSpiEnv]
      split_ifs <;> decide)
    (fun log => by simp [shortSpiEnv])
    (fun new hnew => by
      have h : receivedWords (sampledWorld.log ++ new) < [1, 2, 3, 4, 5].length := by
        rw [receivedWords_append]
        have : receivedWords sampledWorld.log = 0 := rfl
        simp only [List.length_cons, List.length_nil]
        omega
      simp only [shortSpiEnv]
      rw [if_pos h, if_pos trivial]
      decide)
    (by decide)
  have h3 := (C13_failed_thermocouple_keeps_values (shortSpiEnv [1, 2, 3]) 8 sampledWorld
    (by decide)).1
    (transferResult (XSpi_LowLevelExecute (shortSpiEnv [1, 2, 3]) 8
      PL_SPI_CHANNEL_SEL_0 4 [0, 0, 0, 0]
      [0xFFFFFFFF, 0xFFFFFFFF, 0xFFFFFFFF, 0xFFFFFFFF] (sampledWorld.setRc XST_SUCCESS))
      ([], sampledWorld)).2
    (transferResult (XSpi_LowLevelExecute (shortSpiEnv [1, 2, 3]) 8
      PL_SPI_CHANNEL_SEL_0 4 [0, 0, 0, 0]
      [0xFFFFFFFF, 0xFFFFFFFF, 0xFFFFFFFF, 0xFFFFFFFF] (sampledWorld.setRc XST_SUCCESS))
      ([], sampledWorld)).1
    ((transferResult (XSpi_LowLevelExecute (shortSpiEnv [1, 2, 3]) 8
      PL_SPI_CHANNEL_SEL_0 4 [0, 0, 0, 0]
      [0xFFFFFFFF, 0xFFFFFFFF, 0xFFFFFFFF, 0xFFFFFFFF] (sampledWorld.setRc XST_SUCCESS))
      ([], sampledWorld)).2.log.drop sampledWorld.log.length)
    (transferResult_eq_ok _ _ (by decide)) (by decide) (Or.inl (by decide))
  exact ⟨by decide, h5, by decide, h3.2.1, h3.2.2.1, h3.2.2.2.1, h3.2.2.2.2⟩

/-! ## What one sample does to the status fields -/

theorem System.onlyStatusReadings.sameReadings (s : System) : s.onlyStatusReadings s := rfl

theorem System.onlyStatusReadings.nextReadings {s s1 s2 : System}
    (h1 : s.onlyStatusReadings s1) (h2 : s1.onlyStatusReadings s2) :
    s.onlyStatusReadings s2 := by
  unfold System.onlyStatusReadings at *
  rw [h2, h1]

theorem System.onlyStatus.toReadings {s s1 : System} (h : s.onlyStatus s1) :
    s.onlyStatusReadings s1 := by
  unfold System.onlyStatus at h
  unfold System.onlyStatusReadings
  rw [h]

set_option maxRecDepth 8192 in
theorem SampleBarometer_body_onlyStatus (env : Env) :
    Run.Sat (Framed System.onlyStatus) (SampleBarometer_body env) := by
  unfold SampleBarometer_body
  repeat' (with_reducible first
    | exact MAY_DIE_onlyStatus (readRegBlock_onlyStatus _ _ _ _ _)
    | exact MAY_DIE_onlyStatus (readRegsBlock_onlyStatus _ _ _ _ _ _)
    | exact MAY_DIE_onlyStatus (writeRegBlock_onlyStatus _ _ _ _ _)
    | exact MAY_DIE_onlyStatus (failBlock_onlyStatus _ _)
    | exact MAY_DIE_onlyStatus (failIfBlock_onlyStatus _ _ _)
    | exact Run.Sat.ofPure onlyStatus_chains _
    | exact Run.Sat.ofPureUnit onlyStatus_chains
    | exact Run.Sat.ofForTimeout onlyStatus_chains
        (fun b => MAY_DIE_onlyStatus (readRegBlock_onlyStatus _ _ _ _ b)) exec_delay_onlyStatus _ _
    | exact Run.Sat.ofForTimeout onlyStatus_chains
        (fun b => MAY_DIE_onlyStatus (readRegsBlock_onlyStatus _ _ _ _ _ b))
        exec_delay_onlyStatus _ _
    | refine Run.Sat.ofIte ?_ ?_
    | refine Run.Sat.ofBind onlyStatus_chains ?_ (fun _ => ?_))

set_option maxRecDepth 8192 in
theorem SampleHygrometer_humidity_onlyStatus (env : Env) :
    Run.Sat (Framed System.onlyStatus) (SampleHygrometer_humidity env) := by
  unfold SampleHygrometer_humidity
  repeat' (with_reducible first
    | exact SampleHygrometer_read_onlyStatus _ _ _
    | exact MAY_DIE_onlyStatus (writeRegBlock_onlyStatus _ _ _ _ _)
    | exact MAY_DIE_onlyStatus (failIfBlock_onlyStatus _ _ _)
    | exact Run.Sat.ofPure onlyStatus_chains _
    | exact Run.Sat.ofForTimeout onlyStatus_chains
        (fun b => MAY_DIE_onlyStatus (readRegBlock_onlyStatus _ _ _ _ b)) exec_delay_onlyStatus _ _
    | exact Run.Sat.ofForTimeout onlyStatus_chains
        (fun b => MAY_DIE_onlyStatus (readRegsBlock_onlyStatus _ _ _ _ _ b))
        exec_delay_onlyStatus _ _
    | refine Run.Sat.ofBind onlyStatus_chains ?_ (fun _ => ?_))

/-- A sample of an enabled barometer that ends at `L_DIE`: `rc` is not
`XST_SUCCESS`, `bError` is 1, and only status fields have changed. -/
theorem SampleBarometer_failed (env : Env) (w : World) (hen : w.sys.bBarometerOk ≠ 0)
    (hrc : (SampleBarometer env w).sys.rc ≠ XST_SUCCESS) :
    (SampleBarometer env w).sys.bError = 1 ∧ w.sys.onlyStatus (SampleBarometer env w).sys ∧
    (SampleBarometer_body env (w.setRc XST_SUCCESS)).isOk = false := by
  have hs := SampleBarometer_body_step env (w.setRc XST_SUCCESS)
  have hf := SampleBarometer_body_onlyStatus env (w.setRc XST_SUCCESS)
  cases hb : SampleBarometer_body env (w.setRc XST_SUCCESS) with
  | die w1 =>
    rw [hb] at hs hf
    rw [SampleBarometer_of_die env w w1 hen hb]
    exact ⟨(hs.2.2 rfl).2, System.onlyStatus.next (World.setRc_onlyStatus _ w) hf, rfl⟩
  | ok v w1 =>
    obtain ⟨xl, l, h, tl, th⟩ := v
    rw [hb] at hs
    rw [SampleBarometer_of_ok env w w1 xl l h tl th hen hb] at hrc
    exact absurd ((hs.2.1 rfl).2 rfl) hrc

/-- A sample of an enabled barometer that returns with `rc = XST_SUCCESS` has
run to its end and has not touched `bError`. -/
theorem SampleBarometer_passed (env : Env) (w : World) (hen : w.sys.bBarometerOk ≠ 0)
    (hrc : (SampleBarometer env w).sys.rc = XST_SUCCESS) :
    (SampleBarometer env w).sys.bError = w.sys.bError ∧
    (SampleBarometer_body env (w.setRc XST_SUCCESS)).isOk = true := by
  have hs := SampleBarometer_body_step env (w.setRc XST_SUCCESS)
  cases hb : SampleBarometer_body env (w.setRc XST_SUCCESS) with
  | die w1 =>
    rw [hb] at hs
    rw [SampleBarometer_of_die env w w1 hen hb] at hrc
    exact absurd hrc (hs.2.2 rfl).1
  | ok v w1 =>
    obtain ⟨xl, l, h, tl, th⟩ := v
    rw [hb] at hs
    rw [SampleBarometer_of_ok env w w1 xl l h tl th hen hb]
    exact ⟨(hs.2.1 rfl).1, rfl⟩

theorem SampleBarometer_onlyStatusReadings (env : Env) (w : World) :
    w.sys.onlyStatusReadings (SampleBarometer env w).sys := by
  by_cases hen : w.sys.bBarometerOk = 0
  · unfold SampleBarometer
    rw [if_pos hen]
    exact System.onlyStatusReadings.sameReadings _
  · have hf := SampleBarometer_body_onlyStatus env (w.setRc XST_SUCCESS)
    cases hb : SampleBarometer_body env (w.setRc XST_SUCCESS) with
    | die w1 =>
      rw [hb] at hf
      rw [SampleBarometer_of_die env w w1 hen hb]
      exact (System.onlyStatus.next (World.setRc_onlyStatus _ w) hf).toReadings
    | ok v w1 =>
      obtain ⟨xl, l, h, tl, th⟩ := v
      rw [hb] at hf
      rw [SampleBarometer_of_ok env w w1 xl l h tl th hen hb]
      have h1 : w.sys.onlyStatus w1.sys := System.onlyStatus.next (World.setRc_onlyStatus _ w) hf
      refine System.onlyStatusReadings.nextReadings h1.toReadings ?_
      rfl

/-- What a sample of an enabled hygrometer that returns does to the status:
with `rc = XST_SUCCESS` it has not touched `bError`, otherwise `bError` is 1; in
both cases it changes status fields and readings only. -/
theorem SampleHygrometer_status (env : Env) (w w1 : World) (hen : w.sys.bHygrometerOk ≠ 0)
    (hok : SampleHygrometer env w = Except.ok w1) :
    (w1.sys.rc = XST_SUCCESS → w1.sys.bError = w.sys.bError) ∧
    (w1.sys.rc ≠ XST_SUCCESS → w1.sys.bError = 1) ∧
    w.sys.onlyStatusReadings w1.sys := by
  unfold SampleHygrometer at hok
  rw [if_neg hen] at hok
  have hs1 := SampleHygrometer_humidity_step env (w.setRc XST_SUCCESS)
  have hf1 := SampleHygrometer_humidity_onlyStatus env (w.setRc XST_SUCCESS)
  cases hh : SampleHygrometer_humidity env (w.setRc XST_SUCCESS) with
  | die wa =>
    rw [hh] at hok hs1 hf1
    simp only [] at hok
    cases hok
    exact ⟨fun h => absurd h (hs1.2.2 rfl).1, fun _ => (hs1.2.2 rfl).2,
      (System.onlyStatus.next (World.setRc_onlyStatus _ w) hf1).toReadings⟩
  | ok v wa =>
    rw [hh] at hok hs1 hf1
    cases v with
    | none => cases hok
    | some vh =>
      simp only [] at hok
      have hwa : w.sys.onlyStatus wa.sys := System.onlyStatus.next (World.setRc_onlyStatus _ w) hf1
      have hw2 : w.sys.onlyStatusReadings
          ({ wa with sys.fHygrometerHumidity := f32 vh } : World).sys :=
        System.onlyStatusReadings.nextReadings hwa.toReadings rfl
      have hs2 := SampleHygrometer_temperature_step env
        { wa with sys.fHygrometerHumidity := f32 vh }
      have hf2 := SampleHygrometer_temperature_onlyStatus env
        { wa with sys.fHygrometerHumidity := f32 vh }
      cases ht : SampleHygrometer_temperature env
        { wa with sys.fHygrometerHumidity := f32 vh } with
      | die wb =>
        rw [ht] at hok hs2 hf2
        simp only [] at hok
        cases hok
        exact ⟨fun h => absurd h (hs2.2.2 rfl).1, fun _ => (hs2.2.2 rfl).2,
          System.onlyStatusReadings.nextReadings hw2 (System.onlyStatus.toReadings hf2)⟩
      | ok v2 wb =>
        rw [ht] at hok hs2 hf2
        cases v2 with
        | none => cases hok
        | some vt =>
          simp only [] at hok
          cases hok
          have hb1 : wa.sys.bError = w.sys.bError := (hs1.2.1 rfl).1
          have hr1 : wa.sys.rc = XST_SUCCESS := (hs1.2.1 rfl).2 rfl
          have hb2 : wb.sys.bError = wa.sys.bError := (hs2.2.1 rfl).1
          refine ⟨fun _ => ?_, fun h => ?_, ?_⟩
          · show wb.sys.bError = _
            rw [hb2, hb1]
          · exact absurd ((hs2.2.1 rfl).2 hr1) h
          · exact System.onlyStatusReadings.nextReadings
              (System.onlyStatusReadings.nextReadings hw2 (System.onlyStatus.toReadings hf2)) rfl

theorem SampleHygrometer_disabled (env : Env) (w : World) (hen : w.sys.bHygrometerOk = 0) :
    SampleHygrometer env w = Except.ok w := by
  unfold SampleHygrometer
  rw [if_pos hen]

theorem SamplePLTempSensor_disabled (env : Env) (fuel : Nat) (w : World)
    (hen : w.sys.bThermocoupleOk = 0) : SamplePLTempSensor env fuel w = Except.ok w := by
  unfold SamplePLTempSensor
  rw [if_pos hen]

theorem SampleBarometer_disabled (env : Env) (w : World) (hen : w.sys.bBarometerOk = 0) :
    SampleBarometer env w = w := by
  unfold SampleBarometer
  rw [if_pos hen]

/-- What a sample of an enabled thermocouple that returns does to the status:
with `rc = XST_SUCCESS` it has not touched `bError`, otherwise `bError` is 1; in
both cases it changes status fields and readings only. -/
theorem SamplePLTempSensor_status (env : Env) (fuel : Nat) (w w1 : World)
    (hen : w.sys.bThermocoupleOk ≠ 0)
    (hok : SamplePLTempSensor env fuel w = Except.ok w1) :
    (w1.sys.rc = XST_SUCCESS → w1.sys.bError = w.sys.bError) ∧
    (w1.sys.rc ≠ XST_SUCCESS → w1.sys.bError = 1) ∧
    w.sys.onlyStatusReadings w1.sys := by
  unfold SamplePLTempSensor at hok
  rw [if_neg hen] at hok
  cases hx : XSpi_LowLevelExecute env fuel PL_SPI_CHANNEL_SEL_0 4 [0, 0, 0, 0]
      [0xFFFFFFFF, 0xFFFFFFFF, 0xFFFFFFFF, 0xFFFFFFFF] (w.setRc XST_SUCCESS) with
  | error f => rw [hx] at hok; cases hok
  | ok r =>
    obtain ⟨rx, wx⟩ := r
    rw [hx] at hok
    simp only [] at hok
    obtain ⟨hfr, hbe, -, -⟩ := XSpi_LowLevelExecute_spec env fuel _ 4 _ _ rx _ wx hx
    have hfr2 : w.sys.onlyStatus (SamplePLTempSensor_faults rx wx).sys :=
      System.onlyStatus.next (System.onlyStatus.next (World.setRc_onlyStatus _ w) hfr)
        (SamplePLTempSensor_faults_onlyStatus rx wx)
    have hbe2 : (SamplePLTempSensor_faults rx wx).sys.bError = w.sys.bError := by
      rw [← show wx.sys.bError = w.sys.bError from hbe]
      unfold SamplePLTempSensor_faults
      split_ifs <;> rfl
    by_cases hrc : (SamplePLTempSensor_faults rx wx).sys.rc = XST_SUCCESS
    · rw [@MAY_DIE_of_rc_eq _ (fun w => ((), SamplePLTempSensor_faults rx w)) wx hrc] at hok
      simp only [] at hok
      cases hok
      refine ⟨fun _ => hbe2, fun h => absurd hrc h, ?_⟩
      exact System.onlyStatusReadings.nextReadings hfr2.toReadings rfl
    · rw [@MAY_DIE_of_rc_ne _ (fun w => ((), SamplePLTempSensor_faults rx w)) wx hrc] at hok
      simp only [] at hok
      cases hok
      refine ⟨fun h => absurd h hrc, fun _ => rfl, ?_⟩
      exact (System.onlyStatus.next hfr2 (World.setBError_onlyStatus 1 _)).toReadings

theorem System.onlyStatusReadings.keepsBarometerOk {s s1 : System} (h : s.onlyStatusReadings s1) :
    s1.bBarometerOk = s.bBarometerOk := by
  rw [h]

theorem System.onlyStatusReadings.keepsHygrometerOk {s s1 : System} (h : s.onlyStatusReadings s1) :
    s1.bHygrometerOk = s.bHygrometerOk := by
  rw [h]

theorem System.onlyStatusReadings.keepsThermocoupleOk {s s1 : System}
    (h : s.onlyStatusReadings s1) : s1.bThermocoupleOk = s.bThermocoupleOk := by
  rw [h]

/-- C15: in one round of the task loop, after `SampleBarometer`,
`SamplePLTempSensor` and `SampleHygrometer` have run (returned), `bError` is 1
exactly when the sample of at least one enabled sensor has failed in that round,
that is, has returned with `rc` different from `XST_SUCCESS`; otherwise it is 0.
The result does not depend on the value of `bError` before the round. -/
theorem C15_error_flag_is_or (env : Env) (fuel : Nat) (w wT wH : World)
    (hT : SamplePLTempSensor env fuel (SampleBarometer env (w.setBError 0)) = Except.ok wT)
    (hH : SampleHygrometer env wT = Except.ok wH) :
    prvUZedIotTask_samples env fuel w = Except.ok wH ∧
    (wH.sys.bError = 1 ↔
      (w.sys.bBarometerOk ≠ 0 ∧
        (SampleBarometer env (w.setBError 0)).sys.rc ≠ XST_SUCCESS) ∨
      (w.sys.bThermocoupleOk ≠ 0 ∧ wT.sys.rc ≠ XST_SUCCESS) ∨
      (w.sys.bHygrometerOk ≠ 0 ∧ wH.sys.rc ≠ XST_SUCCESS)) ∧
    (wH.sys.bError ≠ 1 → wH.sys.bError = 0) ∧
    (∀ b : Nat, prvUZedIotTask_samples env fuel (w.setBError b) =
      prvUZedIotTask_samples env fuel w) := by
  have hrun : prvUZedIotTask_samples env fuel w = Except.ok wH := by
    unfold prvUZedIotTask_samples
    simp only []
    rw [hT]
    exact hH
  -- the barometer
  have hB0 : (w.setBError 0).sys.bError = 0 := rfl
  have hBf := SampleBarometer_onlyStatusReadings env (w.setBError 0)
  have hB : (w.sys.bBarometerOk ≠ 0 ∧
        (SampleBarometer env (w.setBError 0)).sys.rc ≠ XST_SUCCESS →
        (SampleBarometer env (w.setBError 0)).sys.bError = 1) ∧
      (¬ (w.sys.bBarometerOk ≠ 0 ∧
        (SampleBarometer env (w.setBError 0)).sys.rc ≠ XST_SUCCESS) →
        (SampleBarometer env (w.setBError 0)).sys.bError = 0) := by
    by_cases hen : w.sys.bBarometerOk = 0
    · rw [SampleBarometer_disabled env (w.setBError 0) hen]
      exact ⟨fun h => absurd hen h.1, fun _ => rfl⟩
    · by_cases hrc : (SampleBarometer env (w.setBError 0)).sys.rc = XST_SUCCESS
      · exact ⟨fun h => absurd hrc h.2,
          fun _ => (SampleBarometer_passed env (w.setBError 0) hen hrc).1⟩
      · exact ⟨fun _ => (SampleBarometer_failed env (w.setBError 0) hen hrc).1,
          fun h => absurd ⟨hen, hrc⟩ h⟩
  -- the thermocouple
  have hTen : (SampleBarometer env (w.setBError 0)).sys.bThermocoupleOk =
      w.sys.bThermocoupleOk := hBf.keepsThermocoupleOk
  have hT2 : (w.sys.bThermocoupleOk ≠ 0 ∧ wT.sys.rc ≠ XST_SUCCESS → wT.sys.bError = 1) ∧
      (¬ (w.sys.bThermocoupleOk ≠ 0 ∧ wT.sys.rc ≠ XST_SUCCESS) →
        wT.sys.bError = (SampleBarometer env (w.setBError 0)).sys.bError) ∧
      (SampleBarometer env (w.setBError 0)).sys.onlyStatusReadings wT.sys := by
    by_cases hen : w.sys.bThermocoupleOk = 0
    · rw [SamplePLTempSensor_disabled env fuel _ (hTen.trans hen)] at hT
      cases hT
      exact ⟨fun h => absurd hen h.1, fun _ => rfl, System.onlyStatusReadings.sameReadings _⟩
    · have hen2 : (SampleBarometer env (w.setBError 0)).sys.bThermocoupleOk ≠ 0 := by
        rw [hTen]; exact hen
      obtain ⟨h1, h2, h3⟩ := SamplePLTempSensor_status env fuel _ wT hen2 hT
      refine ⟨fun h => h2 h.2, fun h => ?_, h3⟩
      by_cases hrc : wT.sys.rc = XST_SUCCESS
      · exact h1 hrc
      · exact absurd ⟨hen, hrc⟩ h
  -- the hygrometer
  have hHen : wT.sys.bHygrometerOk = w.sys.bHygrometerOk :=
    (hT2.2.2.keepsHygrometerOk).trans hBf.keepsHygrometerOk
  have hH2 : (w.sys.bHygrometerOk ≠ 0 ∧ wH.sys.rc ≠ XST_SUCCESS → wH.sys.bError = 1) ∧
      (¬ (w.sys.bHygrometerOk ≠ 0 ∧ wH.sys.rc ≠ XST_SUCCESS) →
        wH.sys.bError = wT.sys.bError) := by
    by_cases hen : w.sys.bHygrometerOk = 0
    · rw [SampleHygrometer_disabled env _ (hHen.trans hen)] at hH
      cases hH
      exact ⟨fun h => absurd hen h.1, fun _ => rfl⟩
    · have hen2 : wT.sys.bHygrometerOk ≠ 0 := by rw [hHen]; exact hen
      obtain ⟨h1, h2, -⟩ := SampleHygrometer_status env _ wH hen2 hH
      refine ⟨fun h => h2 h.2, fun h => ?_⟩
      by_cases hrc : wH.sys.rc = XST_SUCCESS
      · exact h1 hrc
      · exact absurd ⟨hen, hrc⟩ h
  refine ⟨hrun, ?_, ?_, fun b => rfl⟩
  · by_cases fH : w.sys.bHygrometerOk ≠ 0 ∧ wH.sys.rc ≠ XST_SUCCESS
    · exact ⟨fun _ => Or.inr (Or.inr fH), fun _ => hH2.1 fH⟩
    · by_cases fT : w.sys.bThermocoupleOk ≠ 0 ∧ wT.sys.rc ≠ XST_SUCCESS
      · exact ⟨fun _ => Or.inr (Or.inl fT), fun _ => by rw [hH2.2 fH]; exact hT2.1 fT⟩
      · by_cases fB : w.sys.bBarometerOk ≠ 0 ∧
            (SampleBarometer env (w.setBError 0)).sys.rc ≠ XST_SUCCESS
        · exact ⟨fun _ => Or.inl fB,
            fun _ => by rw [hH2.2 fH, hT2.2.1 fT]; exact hB.1 fB⟩
        · constructor
          · intro h1
            rw [hH2.2 fH, hT2.2.1 fT, hB.2 fB] at h1
            exact absurd h1 (by decide)
          · intro h
            rcases h with h | h | h
            · exact absurd h fB
            · exact absurd h fT
            · exact absurd h fH
  · intro hne
    by_cases fH : w.sys.bHygrometerOk ≠ 0 ∧ wH.sys.rc ≠ XST_SUCCESS
    · exact absurd (hH2.1 fH) hne
    · by_cases fT : w.sys.bThermocoupleOk ≠ 0 ∧ wT.sys.rc ≠ XST_SUCCESS
      · exact absurd (by rw [hH2.2 fH]; exact hT2.1 fT) hne
      · by_cases fB : w.sys.bBarometerOk ≠ 0 ∧
            (SampleBarometer env (w.setBError 0)).sys.rc ≠ XST_SUCCESS
        · exact absurd (by rw [hH2.2 fH, hT2.2.1 fT]; exact hB.1 fB) hne
        · rw [hH2.2 fH, hT2.2.1 fT, hB.2 fB]

/-- C15 at a concrete input: an ideal board whose thermocouple frame has the
open-circuit bit set, entered with `bError = 0`; the barometer and the
hygrometer sample with success, the thermocouple fails, and `bError` is 1. -/
theorem C15_witness :
    (SampleBarometer (boardEnv [0, 0, 0, 1]) (enabledWorld.setBError 0)).sys.rc =
      XST_SUCCESS ∧
    (resultWorld (SamplePLTempSensor (boardEnv [0, 0, 0, 1]) 8
      (SampleBarometer (boardEnv [0, 0, 0, 1]) (enabledWorld.setBError 0)))
      enabledWorld).sys.rc = XST_FAILURE ∧
    (resultWorld (prvUZedIotTask_samples (boardEnv [0, 0, 0, 1]) 8 enabledWorld)
      enabledWorld).sys.rc = XST_SUCCESS ∧
    returned (prvUZedIotTask_samples (boardEnv [0, 0, 0, 1]) 8 enabledWorld) = true ∧
    (resultWorld (prvUZedIotTask_samples (boardEnv [0, 0, 0, 1]) 8 enabledWorld)
      enabledWorld).sys.bError = 1 := by
  have h := C15_error_flag_is_or (boardEnv [0, 0, 0, 1]) 8 enabledWorld
    (resultWorld (SamplePLTempSensor (boardEnv [0, 0, 0, 1]) 8
      (SampleBarometer (boardEnv [0, 0, 0, 1]) (enabledWorld.setBError 0))) enabledWorld)
    (resultWorld (prvUZedIotTask_samples (boardEnv [0, 0, 0, 1]) 8 enabledWorld) enabledWorld)
    (returned_eq_ok _ _ (by decide)) (returned_eq_ok _ _ (by decide))
  refine ⟨by decide, by decide, by decide, by decide, ?_⟩
  exact h.2.1.mpr (Or.inr (Or.inl ⟨by decide, by decide⟩))

/-! ## The events of a sample -/

theorem Tidy_chains : Chains Tidy where
  refl := fun w => ⟨[], by simp, by simp, by simp⟩
  trans := by
    rintro w w1 w2 b ⟨n1, hl1, hs1, hc1⟩ ⟨n2, hl2, hs2, hc2⟩
    refine ⟨n1 ++ n2, by rw [hl2, hl1, List.append_assoc], ?_, ?_⟩
    · intro e he
      rcases List.mem_append.mp he with h | h
      · exact hs1 e h
      · exact hs2 e h
    · intro hb e he
      rcases List.mem_append.mp he with h | h
      · exact hc1 rfl e h
      · exact hc2 hb e h

theorem CodeTidy.tidyIdle (w : World) : CodeTidy w w := ⟨[], by simp, by simp, by simp⟩

theorem CodeTidy.tidySetErr {w w1 : World} (m : String) (h : CodeTidy w w1) :
    CodeTidy w (w1.setErr m) := by
  obtain ⟨new, h1, h2, h3⟩ := h
  exact ⟨new, by simpa using h1, h2, by simpa using h3⟩

theorem CodeTidy.tidyOfFail {w w1 : World} (new : List Event) (hlog : w1.log = w.log ++ new)
    (hs : ∀ e ∈ new, e.isSensorEvent = true) (hrc : w1.sys.rc ≠ XST_SUCCESS) : CodeTidy w w1 :=
  ⟨new, hlog, hs, fun h => absurd h hrc⟩

theorem MAY_DIE_tidy {α : Type} {code : World → α × World}
    (h : ∀ w, CodeTidy w (code w).2) : Run.Sat Tidy (MAY_DIE code) := by
  intro w
  obtain ⟨new, h1, h2, h3⟩ := h w
  by_cases hrc : (code w).2.sys.rc = XST_SUCCESS
  · rw [MAY_DIE_of_rc_eq hrc]
    exact ⟨new, h1, h2, fun _ => h3 hrc⟩
  · rw [MAY_DIE_of_rc_ne hrc]
    refine ⟨new ++ [Event.print (code w).2.sys.pcErr [(code w).2.sys.rc]], ?_, ?_, ?_⟩
    · simp [Res.world, h1]
    · intro e he
      rcases List.mem_append.mp he with h | h
      · exact h2 e h
      · rw [List.mem_singleton.mp h]
        rfl
    · intro h; cases h

theorem exec_delay_tidy : Run.Sat Tidy (Run.exec (vTaskDelay 1)) := by
  intro w
  exact ⟨[Event.taskDelay 1], rfl, by simp [Event.isSensorEvent], by simp [Event.isShortTransfer]⟩

theorem ReadIicRegs_codeTidy (env : Env) (a n r : Nat) (buf : List Nat) (w : World)
    (hn : n % 16 ≠ 0) : CodeTidy w (ReadIicRegs env a n r buf w).2 := by
  rw [ReadIicRegs_eq]
  simp only []
  generalize (if n > 1 then (r ||| 0x80) % 256 else r) = reg
  generalize env.XIic_Send w.log a [reg] XIIC_REPEATED_START = sent
  generalize env.XIic_Recv _ a n XIIC_STOP = data
  split_ifs with h1 h2 h3 h4
  · exact CodeTidy.tidyOfFail [Event.iicSend a [reg] XIIC_REPEATED_START sent,
      Event.print "ReadIicRegs::XIic_Send(Addr) -> 0x%08x\r\n" [1]] (by simp)
      (by simp [Event.isSensorEvent]) (by simp)
  · exact CodeTidy.tidyOfFail [Event.iicSend a [reg] XIIC_REPEATED_START sent,
      Event.print w.sys.pcErr [w.sys.rc]] (by simp) (by simp [Event.isSensorEvent])
      (by simpa using h2)
  · exact CodeTidy.tidyOfFail [Event.iicSend a [reg] XIIC_REPEATED_START sent,
      Event.iicRecv a n XIIC_STOP data,
      Event.print "ReadIicRegs::XIic_Recv(Data) -> 0x%08x\r\n" [mismatchRc data.length n]]
      (by simp) (by simp [Event.isSensorEvent]) (by simpa using h3.2)
  · exact absurd ⟨h4, mismatchRc_ne_zero data.length n hn⟩ h3
  · refine ⟨[Event.iicSend a [reg] XIIC_REPEATED_START sent,
      Event.iicRecv a n XIIC_STOP data], by simp, by simp [Event.isSensorEvent], fun _ => ?_⟩
    have hs : sent = 1 := (not_not.mp h1).symm
    have hd : data.length = n := not_not.mp h4
    simp [Event.isShortTransfer, hs, hd]

theorem WriteIicReg_codeTidy (env : Env) (a r v : Nat) (w : World) :
    CodeTidy w (WriteIicReg env a r v w) := by
  rw [WriteIicReg_eq]
  simp only []
  generalize env.XIic_Send w.log a [r, v] XIIC_STOP = sent
  split_ifs with h1 h2
  · exact CodeTidy.tidyOfFail [Event.iicSend a [r, v] XIIC_STOP sent,
      Event.print "WriteIicRegs::XIic_Send(Buf) -> 0x%08x\r\n" [mismatchRc sent 2]]
      (by simp) (by simp [Event.isSensorEvent])
      (by simpa using mismatchRc_ne_zero sent 2 (by decide))
  · exact CodeTidy.tidyOfFail [Event.iicSend a [r, v] XIIC_STOP sent,
      Event.print w.sys.pcErr [w.sys.rc]] (by simp) (by simp [Event.isSensorEvent])
      (by simpa using h2)
  · refine ⟨[Event.iicSend a [r, v] XIIC_STOP sent], by simp, by simp [Event.isSensorEvent],
      fun _ => ?_⟩
    have hs : sent = 2 := (not_not.mp h1).symm
    simp [Event.isShortTransfer, hs]

theorem readRegBlock_codeTidy (env : Env) (a r : Nat) (m : String) (b : Nat) (w : World) :
    CodeTidy w (readRegBlock env a r m b w).2 :=
  CodeTidy.tidySetErr m (ReadIicRegs_codeTidy env a 1 r [b] w (by decide))

theorem readRegsBlock_codeTidy (env : Env) (a n r : Nat) (m : String) (buf : List Nat)
    (w : World) (hn : n % 16 ≠ 0) : CodeTidy w (readRegsBlock env a n r m buf w).2 :=
  CodeTidy.tidySetErr m (ReadIicRegs_codeTidy env a n r buf w hn)

theorem writeRegBlock_codeTidy (env : Env) (a r v : Nat) (m : String) (w : World) :
    CodeTidy w (writeRegBlock env a r v m w).2 :=
  CodeTidy.tidySetErr m (WriteIicReg_codeTidy env a r v w)

theorem failBlock_codeTidy (rc : Int) (m : String) (w : World) :
    CodeTidy w (failBlock rc m w).2 :=
  ⟨[], by simp [failBlock], by simp, by simp⟩

theorem failIfBlock_codeTidy (c : Bool) (rc : Int) (m : String) (w : World) :
    CodeTidy w (failIfBlock c rc m w).2 := by
  unfold failIfBlock
  split
  · exact failBlock_codeTidy rc m w
  · exact CodeTidy.tidyIdle w

set_option maxRecDepth 8192 in
theorem SampleBarometer_body_tidy (env : Env) : Run.Sat Tidy (SampleBarometer_body env) := by
  unfold SampleBarometer_body
  repeat' (with_reducible first
    | exact MAY_DIE_tidy (readRegBlock_codeTidy _ _ _ _ _)
    | exact MAY_DIE_tidy (fun w => readRegsBlock_codeTidy _ _ _ _ _ _ w (by decide))
    | exact MAY_DIE_tidy (writeRegBlock_codeTidy _ _ _ _ _)
    | exact MAY_DIE_tidy (failBlock_codeTidy _ _)
    | exact MAY_DIE_tidy (failIfBlock_codeTidy _ _ _)
    | exact Run.Sat.ofPure Tidy_chains _
    | exact Run.Sat.ofPureUnit Tidy_chains
    | exact Run.Sat.ofForTimeout Tidy_chains
        (fun b => MAY_DIE_tidy (readRegBlock_codeTidy _ _ _ _ b)) exec_delay_tidy _ _
    | exact Run.Sat.ofForTimeout Tidy_chains
        (fun b => MAY_DIE_tidy (fun w => readRegsBlock_codeTidy _ _ _ _ _ b w (by decide)))
        exec_delay_tidy _ _
    | refine Run.Sat.ofIte ?_ ?_
    | refine Run.Sat.ofBind Tidy_chains ?_ (fun _ => ?_))

theorem SampleHygrometer_read_tidy (env : Env) (r : Nat) (m : String) :
    Run.Sat Tidy (SampleHygrometer_read env r m) :=
  MAY_DIE_tidy (readRegBlock_codeTidy _ _ _ _ _)

set_option maxRecDepth 8192 in
theorem SampleHygrometer_humidity_tidy (env : Env) :
    Run.Sat Tidy (SampleHygrometer_humidity env) := by
  unfold SampleHygrometer_humidity
  repeat' (with_reducible first
    | exact SampleHygrometer_read_tidy _ _ _
    | exact MAY_DIE_tidy (writeRegBlock_codeTidy _ _ _ _ _)
    | exact MAY_DIE_tidy (failIfBlock_codeTidy _ _ _)
    | exact Run.Sat.ofPure Tidy_chains _
    | exact Run.Sat.ofForTimeout Tidy_chains
        (fun b => MAY_DIE_tidy (readRegBlock_codeTidy _ _ _ _ b)) exec_delay_tidy _ _
    | exact Run.Sat.ofForTimeout Tidy_chains
        (fun b => MAY_DIE_tidy (fun w => readRegsBlock_codeTidy _ _ _ _ _ b w (by decide)))
        exec_delay_tidy _ _
    | refine Run.Sat.ofBind Tidy_chains ?_ (fun _ => ?_))

set_option maxRecDepth 8192 in
theorem SampleHygrometer_temperature_tidy (env : Env) :
    Run.Sat Tidy (SampleHygrometer_temperature env) := by
  unfold SampleHygrometer_temperature
  repeat' (with_reducible first
    | exact SampleHygrometer_read_tidy _ _ _
    | exact Run.Sat.ofPure Tidy_chains _
    | refine Run.Sat.ofBind Tidy_chains ?_ (fun _ => ?_))

theorem XSpi_LowLevelExecute_waitTx_events (env : Env) (fuel : Nat) (w w1 : World)
    (h : XSpi_LowLevelExecute_waitTx env fuel w = Except.ok w1) :
    ∃ new, w1.log = w.log ++ new ∧ ∀ e ∈ new, e.isSensorEvent = true := by
  induction fuel generalizing w with
  | zero => cases h
  | succ n ih =>
    unfold XSpi_LowLevelExecute_waitTx at h
    simp only [] at h
    split_ifs at h with hc
    · cases h
      exact ⟨[Event.spiRead XSP_SR_OFFSET (XSpi_ReadReg env XSP_SR_OFFSET w).1], rfl,
        by simp [Event.isSensorEvent]⟩
    · obtain ⟨new, h2, h3⟩ := ih _ h
      refine ⟨Event.spiRead XSP_SR_OFFSET (XSpi_ReadReg env XSP_SR_OFFSET w).1 :: new, ?_, ?_⟩
      · rw [h2]
        show (w.log ++ [_]) ++ new = _
        rw [List.append_assoc]
        rfl
      · intro e he
        rcases List.mem_cons.mp he with h | h
        · rw [h]; rfl
        · exact h3 e h

theorem XSpi_LowLevelExecute_waitRx_events (env : Env) (expected fuel : Nat) (w w1 : World)
    (h : XSpi_LowLevelExecute_waitRx env expected fuel w = Except.ok w1) :
    ∃ new, w1.log = w.log ++ new ∧ ∀ e ∈ new, e.isSensorEvent = true := by
  induction fuel generalizing w with
  | zero => cases h
  | succ n ih =>
    unfold XSpi_LowLevelExecute_waitRx at h
    simp only [] at h
    split_ifs at h with hc
    · obtain ⟨new, h2, h3⟩ := ih _ h
      refine ⟨Event.spiRead XSP_RFO_OFFSET (XSpi_ReadReg env XSP_RFO_OFFSET w).1 :: new, ?_, ?_⟩
      · rw [h2]
        show (w.log ++ [_]) ++ new = _
        rw [List.append_assoc]
        rfl
      · intro e he
        rcases List.mem_cons.mp he with h | h
        · rw [h]; rfl
        · exact h3 e h
    · cases h
      exact ⟨[Event.spiRead XSP_RFO_OFFSET (XSpi_ReadReg env XSP_RFO_OFFSET w).1], rfl,
        by simp [Event.isSensorEvent]⟩

theorem XSpi_LowLevelExecute_drain_events (env : Env) (fuel : Nat) (buf buf1 : List Nat)
    (n n1 : Nat) (w w1 : World)
    (h : XSpi_LowLevelExecute_drain env fuel buf n w = Except.ok (buf1, n1, w1)) :
    ∃ new, w1.log = w.log ++ new ∧ ∀ e ∈ new, e.isSensorEvent = true := by
  induction fuel generalizing w buf n with
  | zero => cases h
  | succ k ih =>
    unfold XSpi_LowLevelExecute_drain at h
    simp only [] at h
    split_ifs at h with hc hlen
    · obtain ⟨new, h2, h3⟩ := ih _ _ _ h
      refine ⟨Event.spiRead XSP_SR_OFFSET (XSpi_ReadReg env XSP_SR_OFFSET w).1 ::
        Event.spiRead XSP_DRR_OFFSET
          (XSpi_ReadReg env XSP_DRR_OFFSET (XSpi_ReadReg env XSP_SR_OFFSET w).2).1 :: new,
        ?_, ?_⟩
      · rw [h2]
        show ((w.log ++ [_]) ++ [_]) ++ new = _
        rw [List.append_assoc, List.append_assoc]
        rfl
      · intro e he
        rcases List.mem_cons.mp he with h | h
        · rw [h]; rfl
        · rcases List.mem_cons.mp h with h | h
          · rw [h]; rfl
          · exact h3 e h
    · cases h
      exact ⟨[Event.spiRead XSP_SR_OFFSET (XSpi_ReadReg env XSP_SR_OFFSET w).1], rfl,
        by simp [Event.isSensorEvent]⟩

theorem XSpi_LowLevelExecute_fill_events (l : List Nat) (w : World) :
    ∃ new, (l.foldl (fun w v => XSpi_WriteReg XSP_DTR_OFFSET v w) w).log = w.log ++ new ∧
      ∀ e ∈ new, e.isSensorEvent = true := by
  induction l generalizing w with
  | nil => exact ⟨[], by simp, by simp⟩
  | cons v l ih =>
    obtain ⟨new, h2, h3⟩ := ih (XSpi_WriteReg XSP_DTR_OFFSET v w)
    refine ⟨Event.spiWrite XSP_DTR_OFFSET v :: new, ?_, ?_⟩
    · show (l.foldl _ (XSpi_WriteReg XSP_DTR_OFFSET v w)).log = _
      rw [h2]
      show (w.log ++ [_]) ++ new = _
      rw [List.append_assoc]
      rfl
    · intro e he
      rcases List.mem_cons.mp he with h | h
      · rw [h]; rfl
      · exact h3 e h

/-- All events of a transaction of `XSpi_LowLevelExecute` that returns are
accesses to the SPI controller and delays. -/
theorem XSpi_LowLevelExecute_events (env : Env) (fuel ch n : Nat) (tx rxb rx : List Nat)
    (w w1 : World)
    (h : XSpi_LowLevelExecute env fuel ch n tx rxb w = Except.ok (rx, w1)) :
    ∃ new, w1.log = w.log ++ new ∧ ∀ e ∈ new, e.isSensorEvent = true := by
  unfold XSpi_LowLevelExecute at h
  simp only [] at h
  obtain ⟨fnew, f2, f3⟩ := XSpi_LowLevelExecute_fill_events (tx.take n) w
  generalize (tx.take n).foldl (fun w v => XSpi_WriteReg XSP_DTR_OFFSET v w) w = w0 at h f2
  generalize hwa : XSpi_WriteReg XSP_CR_OFFSET MAX31855_CR_UNINHIBIT_MODE
    (vTaskDelay 1 (XSpi_WriteReg XSP_SSR_OFFSET ch w0)) = wa at h
  have ha2 : wa.log = w.log ++ (fnew ++ [Event.spiWrite XSP_SSR_OFFSET ch, Event.taskDelay 1,
      Event.spiWrite XSP_CR_OFFSET MAX31855_CR_UNINHIBIT_MODE]) := by
    rw [← hwa]
    show ((w0.log ++ [_]) ++ [_]) ++ [_] = _
    rw [f2]
    simp
  cases hb : XSpi_LowLevelExecute_waitTx env fuel wa with
  | error f => rw [hb] at h; cases h
  | ok wb =>
    rw [hb] at h
    simp only [] at h
    obtain ⟨bnew, b2, b3⟩ := XSpi_LowLevelExecute_waitTx_events env fuel wa wb hb
    cases hc : XSpi_LowLevelExecute_waitRx env (toU32 ((n : Int) - 1)) fuel wb with
    | error f => rw [hc] at h; cases h
    | ok wc =>
      rw [hc] at h
      simp only [] at h
      obtain ⟨cnew, c2, c3⟩ := XSpi_LowLevelExecute_waitRx_events env _ fuel wb wc hc
      cases hd : XSpi_LowLevelExecute_drain env fuel rxb 0 wc with
      | error f => rw [hd] at h; cases h
      | ok r =>
        obtain ⟨rx1, k, wd⟩ := r
        rw [hd] at h
        simp only [] at h
        obtain ⟨dnew, d2, d3⟩ := XSpi_LowLevelExecute_drain_events env fuel rxb rx1 0 k wc wd hd
        have hlog : (wd.log ++ [Event.spiWrite XSP_CR_OFFSET MAX31855_CR_INIT_MODE]) ++
            [Event.spiWrite XSP_SSR_OFFSET PL_SPI_CHANNEL_SEL_NONE] = w.log ++
            ((fnew ++ [Event.spiWrite XSP_SSR_OFFSET ch, Event.taskDelay 1,
              Event.spiWrite XSP_CR_OFFSET MAX31855_CR_UNINHIBIT_MODE]) ++ bnew ++ cnew ++
              dnew ++ [Event.spiWrite XSP_CR_OFFSET MAX31855_CR_INIT_MODE,
              Event.spiWrite XSP_SSR_OFFSET PL_SPI_CHANNEL_SEL_NONE]) := by
          rw [d2, c2, b2, ha2]
          simp only [List.append_assoc, List.cons_append, List.nil_append]
        have hall : ∀ e ∈ ((fnew ++ [Event.spiWrite XSP_SSR_OFFSET ch, Event.taskDelay 1,
              Event.spiWrite XSP_CR_OFFSET MAX31855_CR_UNINHIBIT_MODE]) ++ bnew ++ cnew ++
              dnew ++ [Event.spiWrite XSP_CR_OFFSET MAX31855_CR_INIT_MODE,
              Event.spiWrite XSP_SSR_OFFSET PL_SPI_CHANNEL_SEL_NONE]),
            e.isSensorEvent = true := by
          intro e he
          simp only [List.mem_append, List.mem_cons, List.mem_singleton, List.not_mem_nil,
            or_false] at he
          rcases he with ((((h | h | h | h) | h) | h) | h) | h | h
          · exact f3 e h
          · rw [h]; rfl
          · rw [h]; rfl
          · rw [h]; rfl
          · exact b3 e h
          · exact c3 e h
          · exact d3 e h
          · rw [h]; rfl
          · rw [h]; rfl
        split_ifs at h with hk
        · cases h
          exact ⟨_, hlog, hall⟩
        · cases h
          exact ⟨_, hlog, hall⟩

/-- The events of one call of `SampleBarometer`: all are events of the sensor
code, and when the sample of an enabled barometer returns with
`rc = XST_SUCCESS` none of its transfers was short. -/
theorem SampleBarometer_events (env : Env) (w : World) :
    ∃ new, (SampleBarometer env w).log = w.log ++ new ∧
      (∀ e ∈ new, e.isSensorEvent = true) ∧
      (w.sys.bBarometerOk ≠ 0 → (SampleBarometer env w).sys.rc = XST_SUCCESS →
        ∀ e ∈ new, e.isShortTransfer = false) := by
  by_cases hen : w.sys.bBarometerOk = 0
  · rw [SampleBarometer_disabled env w hen]
    exact ⟨[], by simp, by simp, fun h => absurd hen h⟩
  · have ht := SampleBarometer_body_tidy env (w.setRc XST_SUCCESS)
    have hs := SampleBarometer_body_step env (w.setRc XST_SUCCESS)
    cases hb : SampleBarometer_body env (w.setRc XST_SUCCESS) with
    | die w1 =>
      rw [hb] at ht hs
      rw [SampleBarometer_of_die env w w1 hen hb]
      obtain ⟨new, h1, h2, -⟩ := ht
      exact ⟨new, h1, h2, fun _ hrc => absurd hrc (hs.2.2 rfl).1⟩
    | ok v w1 =>
      obtain ⟨xl, l, h, tl, th⟩ := v
      rw [hb] at ht
      rw [SampleBarometer_of_ok env w w1 xl l h tl th hen hb]
      obtain ⟨new, h1, h2, h3⟩ := ht
      exact ⟨new, h1, h2, fun _ _ => h3 rfl⟩

/-- The events of one call of `SampleHygrometer` that returns: all are events of
the sensor code, and when the sample of an enabled hygrometer returns with
`rc = XST_SUCCESS` none of its transfers was short. -/
theorem SampleHygrometer_events (env : Env) (w w1 : World)
    (hok : SampleHygrometer env w = Except.ok w1) :
    ∃ new, w1.log = w.log ++ new ∧ (∀ e ∈ new, e.isSensorEvent = true) ∧
      (w.sys.bHygrometerOk ≠ 0 → w1.sys.rc = XST_SUCCESS →
        ∀ e ∈ new, e.isShortTransfer = false) := by
  by_cases hen : w.sys.bHygrometerOk = 0
  · rw [SampleHygrometer_disabled env w hen] at hok
    cases hok
    exact ⟨[], by simp, by simp, fun h => absurd hen h⟩
  · unfold SampleHygrometer at hok
    rw [if_neg hen] at hok
    have ht1 := SampleHygrometer_humidity_tidy env (w.setRc XST_SUCCESS)
    have hs1 := SampleHygrometer_humidity_step env (w.setRc XST_SUCCESS)
    cases hh : SampleHygrometer_humidity env (w.setRc XST_SUCCESS) with
    | die wa =>
      rw [hh] at hok ht1 hs1
      simp only [] at hok
      cases hok
      obtain ⟨new, h1, h2, -⟩ := ht1
      exact ⟨new, h1, h2, fun _ hrc => absurd hrc (hs1.2.2 rfl).1⟩
    | ok v wa =>
      rw [hh] at hok ht1
      cases v with
      | none => cases hok
      | some vh =>
        simp only [] at hok
        have ht2 := SampleHygrometer_temperature_tidy env
          { wa with sys.fHygrometerHumidity := f32 vh }
        have hs2 := SampleHygrometer_temperature_step env
          { wa with sys.fHygrometerHumidity := f32 vh }
        obtain ⟨n1, a1, a2, a3⟩ := ht1
        cases ht : SampleHygrometer_temperature env
          { wa with sys.fHygrometerHumidity := f32 vh } with
        | die wb =>
          rw [ht] at hok ht2 hs2
          simp only [] at hok
          cases hok
          obtain ⟨n2, b1, b2, -⟩ := ht2
          refine ⟨n1 ++ n2, ?_, ?_, fun _ hrc => absurd hrc (hs2.2.2 rfl).1⟩
          · refine Eq.trans b1 ?_
            rw [show wa.log = w.log ++ n1 from a1, List.append_assoc]
          · intro e he
            rcases List.mem_append.mp he with h | h
            · exact a2 e h
            · exact b2 e h
        | ok v2 wb =>
          rw [ht] at hok ht2
          cases v2 with
          | none => cases hok
          | some vt =>
            simp only [] at hok
            cases hok
            obtain ⟨n2, b1, b2, b3⟩ := ht2
            refine ⟨n1 ++ n2, ?_, ?_, fun _ _ => ?_⟩
            · show wb.log = _
              rw [show wb.log = wa.log ++ n2 from b1, show wa.log = w.log ++ n1 from a1,
                List.append_assoc]
            · intro e he
              rcases List.mem_append.mp he with h | h
              · exact a2 e h
              · exact b2 e h
            · intro e he
              rcases List.mem_append.mp he with h | h
              · exact a3 rfl e h
              · exact b3 rfl e h

/-- The events of one call of `SamplePLTempSensor` that returns are events of
the sensor code. -/
theorem SamplePLTempSensor_events (env : Env) (fuel : Nat) (w w1 : World)
    (hok : SamplePLTempSensor env fuel w = Except.ok w1) :
    ∃ new, w1.log = w.log ++ new ∧ ∀ e ∈ new, e.isSensorEvent = true := by
  by_cases hen : w.sys.bThermocoupleOk = 0
  · rw [SamplePLTempSensor_disabled env fuel w hen] at hok
    cases hok
    exact ⟨[], by simp, by simp⟩
  · unfold SamplePLTempSensor at hok
    rw [if_neg hen] at hok
    cases hx : XSpi_LowLevelExecute env fuel PL_SPI_CHANNEL_SEL_0 4 [0, 0, 0, 0]
        [0xFFFFFFFF, 0xFFFFFFFF, 0xFFFFFFFF, 0xFFFFFFFF] (w.setRc XST_SUCCESS) with
    | error f => rw [hx] at hok; cases hok
    | ok r =>
      obtain ⟨rx, wx⟩ := r
      rw [hx] at hok
      simp only [] at hok
      obtain ⟨new, h1, h2⟩ := XSpi_LowLevelExecute_events env fuel _ 4 _ _ rx _ wx hx
      have hlf : (SamplePLTempSensor_faults rx wx).log = wx.log := by
        unfold SamplePLTempSensor_faults
        split_ifs <;> rfl
      by_cases hrc : (SamplePLTempSensor_faults rx wx).sys.rc = XST_SUCCESS
      · rw [@MAY_DIE_of_rc_eq _ (fun w => ((), SamplePLTempSensor_faults rx w)) wx hrc] at hok
        simp only [] at hok
        cases hok
        exact ⟨new, by show (SamplePLTempSensor_faults rx wx).log = _; rw [hlf, h1]; rfl, h2⟩
      · rw [@MAY_DIE_of_rc_ne _ (fun w => ((), SamplePLTempSensor_faults rx w)) wx hrc] at hok
        simp only [] at hok
        cases hok
        refine ⟨new ++ [Event.print (SamplePLTempSensor_faults rx wx).sys.pcErr
          [(SamplePLTempSensor_faults rx wx).sys.rc]], ?_, ?_⟩
        · show (SamplePLTempSensor_faults rx wx).log ++ [_] = _
          rw [hlf, h1, List.append_assoc]
          rfl
        · intro e he
          rcases List.mem_append.mp he with h | h
          · exact h2 e h
          · rw [List.mem_singleton.mp h]
            rfl

/-! ## Publishing -/

theorem publishesTo_append (t : String) (l1 l2 : List Event) :
    publishesTo t (l1 ++ l2) = publishesTo t l1 + publishesTo t l2 := by
  unfold publishesTo
  exact List.countP_append _ _ _

theorem publishesTo_cons_other (t : String) (e : Event) (l : List Event)
    (h : e.isPublishTo t = false) : publishesTo t (e :: l) = publishesTo t l := by
  unfold publishesTo
  rw [List.countP_cons_of_neg]
  simp [h]

theorem publishesTo_of_sensorEvents (t : String) (l : List Event)
    (h : ∀ e ∈ l, e.isSensorEvent = true) : publishesTo t l = 0 := by
  unfold publishesTo
  rw [List.countP_eq_zero]
  intro e he
  have := h e he
  cases e <;> simp_all [Event.isSensorEvent, Event.isPublishTo]

theorem BlinkLed_rounds_spec (l : List Nat) (w : World) :
    (l.foldl (fun w _ =>
      vTaskDelay 500 (XGpioPs_WritePin LED_PIN 0 (vTaskDelay 500
        (XGpioPs_WritePin LED_PIN 1 w)))) w).sys = w.sys ∧
    ∃ new, (l.foldl (fun w _ =>
      vTaskDelay 500 (XGpioPs_WritePin LED_PIN 0 (vTaskDelay 500
        (XGpioPs_WritePin LED_PIN 1 w)))) w).log = w.log ++ new ∧
      ∀ t, publishesTo t new = 0 := by
  induction l generalizing w with
  | nil => exact ⟨rfl, [], by simp, fun _ => rfl⟩
  | cons v l ih =>
    obtain ⟨h1, new, h2, h3⟩ := ih (vTaskDelay 500 (XGpioPs_WritePin LED_PIN 0
      (vTaskDelay 500 (XGpioPs_WritePin LED_PIN 1 w))))
    refine ⟨h1, [Event.gpioWritePin LED_PIN 1, Event.taskDelay 500,
      Event.gpioWritePin LED_PIN 0, Event.taskDelay 500] ++ new, ?_, ?_⟩
    · refine Eq.trans h2 ?_
      show ((((w.log ++ [_]) ++ [_]) ++ [_]) ++ [_]) ++ new = _
      simp
    · intro t
      rw [publishesTo_append, h3 t]
      rfl

theorem BlinkLed_spec (xCount xFinalOn : Nat) (w : World) :
    (BlinkLed xCount xFinalOn w).sys = w.sys ∧
    ∃ new, (BlinkLed xCount xFinalOn w).log = w.log ++ new ∧ ∀ t, publishesTo t new = 0 := by
  unfold BlinkLed
  split_ifs with h1 h2
  · exact ⟨rfl, [], by simp, fun _ => rfl⟩
  · obtain ⟨a1, new, a2, a3⟩ := BlinkLed_rounds_spec (List.range xCount) w
    refine ⟨a1, new ++ [Event.gpioWritePin LED_PIN 1], ?_, ?_⟩
    · show (List.foldl _ w (List.range xCount)).log ++ [_] = _
      rw [a2, List.append_assoc]
    · intro t
      rw [publishesTo_append, a3 t]
      rfl
  · exact BlinkLed_rounds_spec (List.range xCount) w

/-- What `prvPublish` does: it leaves the `System` record alone and publishes
once on its topic, unless the topic or the data are empty. -/
theorem prvPublish_spec (env : Env) (t : String) (tl q : Nat) (d : String) (dl : Nat)
    (w : World) :
    (prvPublish env t tl q d dl w).sys = w.sys ∧
    ∃ new, (prvPublish env t tl q d dl w).log = w.log ++ new ∧
      (∀ t1, t1 ≠ t → publishesTo t1 new = 0) ∧
      ((tl ≠ 0 ∨ t.length % 2 ^ 16 ≠ 0) → (dl ≠ 0 ∨ d.length % 2 ^ 32 ≠ 0) →
        publishesTo t new = 1) := by
  unfold prvPublish
  simp only []
  generalize htl : (if tl = 0 then t.length % 2 ^ 16 else tl) = tl1
  generalize hdl : (if dl = 0 then d.length % 2 ^ 32 else dl) = dl1
  have htl1 : (tl ≠ 0 ∨ t.length % 2 ^ 16 ≠ 0) → tl1 ≠ 0 := by
    intro h
    rw [← htl]
    split_ifs with h0
    · rcases h with h | h
      · exact absurd h0 h
      · exact h
    · exact h0
  have hdl1 : (dl ≠ 0 ∨ d.length % 2 ^ 32 ≠ 0) → dl1 ≠ 0 := by
    intro h
    rw [← hdl]
    split_ifs with h0
    · rcases h with h | h
      · exact absurd h0 h
      · exact h
    · exact h0
  by_cases ht : tl1 = 0
  · rw [if_pos ht]
    exact ⟨rfl, [], by simp, fun _ _ => rfl, fun h => absurd ht (htl1 h)⟩
  · rw [if_neg ht]
    by_cases hd : dl1 = 0
    · rw [if_pos hd]
      exact ⟨rfl, [], by simp, fun _ _ => rfl, fun _ h => absurd hd (hdl1 h)⟩
    · rw [if_neg hd]
      generalize env.MQTT_AGENT_Publish w.log t tl1 q d dl1 = res
      have hpub : ∀ (w2 : World) (m : String),
          w2.sys = (w.emit (Event.mqttPublish t tl1 q d dl1 res)).sys →
          (∃ mid, w2.log = (w.emit (Event.mqttPublish t tl1 q d dl1 res)).log ++ mid ∧
            ∀ t1, publishesTo t1 mid = 0) →
          (configPRINTF_s m [t, d] w2).sys = w.sys ∧
          ∃ new, (configPRINTF_s m [t, d] w2).log = w.log ++ new ∧
            (∀ t1, t1 ≠ t → publishesTo t1 new = 0) ∧
            ((tl ≠ 0 ∨ t.length % 2 ^ 16 ≠ 0) → (dl ≠ 0 ∨ d.length % 2 ^ 32 ≠ 0) →
              publishesTo t new = 1) := by
        intro w2 m hs ⟨mid, hl, hm⟩
        refine ⟨hs, [Event.mqttPublish t tl1 q d dl1 res] ++ mid ++ [Event.printStr m [t, d]],
          ?_, ?_, ?_⟩
        · show w2.log ++ [_] = _
          rw [hl]
          show (w.log ++ [_]) ++ mid ++ [_] = _
          simp
        · intro t1 hne
          rw [publishesTo_append, publishesTo_append, hm t1]
          have : publishesTo t1 [Event.mqttPublish t tl1 q d dl1 res] = 0 := by
            rw [publishesTo_cons_other]
            · rfl
            · simp [Event.isPublishTo, hne.symm]
          rw [this]
          rfl
        · intro _ _
          rw [publishesTo_append, publishesTo_append, hm t]
          have : publishesTo t [Event.mqttPublish t tl1 q d dl1 res] = 1 := by
            unfold publishesTo
            rw [List.countP_cons_of_pos]
            · rfl
            · simp [Event.isPublishTo]
          rw [this]
          rfl
      have hblink : ∃ mid, (BlinkLed 1 pdFALSE (w.emit (Event.mqttPublish t tl1 q d dl1 res))).log =
          (w.emit (Event.mqttPublish t tl1 q d dl1 res)).log ++ mid ∧
          ∀ t1, publishesTo t1 mid = 0 := (BlinkLed_spec 1 pdFALSE _).2
      have hblinks := (BlinkLed_spec 1 pdFALSE (w.emit (Event.mqttPublish t tl1 q d dl1 res))).1
      split_ifs
      · exact hpub _ _ rfl ⟨[], by simp, fun _ => rfl⟩
      · exact hpub _ _ hblinks hblink
      · exact hpub _ _ hblinks hblink
      · exact hpub _ _ hblinks hblink

theorem prvPublishShadow_data_length (b : Nat) : (prvPublishShadow_data b).length ≠ 0 := by
  unfold prvPublishShadow_data
  rw [String.length_append, String.length_append]
  have : ("\x7d\x7d\x7d" : String).length = 3 := by decide
  omega

/-- What `prvPublishShadow` does with a handle and a topic: it leaves the
`System` record alone and publishes once on the shadow topic. -/
theorem prvPublishShadow_spec (env : Env) (w : World) (hh : w.sys.xMQTTHandle ≠ 0)
    (ht : w.sys.usShadowTopicLength ≠ 0 ∨ w.sys.pbShadowTopic.length % 2 ^ 16 ≠ 0) :
    (prvPublishShadow env w).sys = w.sys ∧
    ∃ new, (prvPublishShadow env w).log = w.log ++ new ∧
      publishesTo w.sys.pbShadowTopic new = 1 := by
  unfold prvPublishShadow
  rw [if_neg hh]
  simp only []
  obtain ⟨h1, new, h2, -, h4⟩ := prvPublish_spec env w.sys.pbShadowTopic
    w.sys.usShadowTopicLength eMQTTQoS0
    ((prvPublishShadow_data w.sys.bError).take (UZedMAX_DATA_LENGTH - 1))
    (if (prvPublishShadow_data w.sys.bError).length ≥ UZedMAX_DATA_LENGTH
      then UZedMAX_DATA_LENGTH - 1 else (prvPublishShadow_data w.sys.bError).length) w
  refine ⟨h1, new, h2, h4 ht (Or.inl ?_)⟩
  split_ifs
  · decide
  · exact prvPublishShadow_data_length _

/-- What `prvPublishSensors` does: of the `System` record it changes at most
`bError`, and it publishes on the sensor topic only. -/
theorem prvPublishSensors_spec (env : Env) (w : World) :
    w.sys.onlyStatus (prvPublishSensors env w).sys ∧
    ∃ new, (prvPublishSensors env w).log = w.log ++ new ∧
      ∀ t1, t1 ≠ w.sys.pbSensorTopic → publishesTo t1 new = 0 := by
  unfold prvPublishSensors
  simp only []
  by_cases h1 : w.sys.xMQTTHandle = 0
  · rw [if_pos h1]
    exact ⟨System.onlyStatus.same _, [], by simp, fun _ _ => rfl⟩
  · rw [if_neg h1]
    by_cases h2 : (prvPublishSensors_data env w.sys).length ≥ UZedMAX_DATA_LENGTH
    · rw [if_pos h2]
      exact ⟨World.setBError_onlyStatus 1 w, [], by simp, fun _ _ => rfl⟩
    · rw [if_neg h2]
      obtain ⟨a1, new, a2, a3, -⟩ := prvPublish_spec env w.sys.pbSensorTopic
        w.sys.usSensorTopicLength eMQTTQoS0 (prvPublishSensors_data env w.sys)
        (prvPublishSensors_data env w.sys).length w
      refine ⟨?_, new, a2, a3⟩
      rw [a1]
      exact System.onlyStatus.same _

/-- What the three samples of one round do: they change status fields and
readings only and log events of the sensor code only. -/
theorem prvUZedIotTask_samples_spec (env : Env) (fuel : Nat) (w w1 : World)
    (h : prvUZedIotTask_samples env fuel w = Except.ok w1) :
    w.sys.onlyStatusReadings w1.sys ∧
    ∃ new, w1.log = w.log ++ new ∧ ∀ e ∈ new, e.isSensorEvent = true := by
  unfold prvUZedIotTask_samples at h
  simp only [] at h
  have hB := SampleBarometer_onlyStatusReadings env (w.setBError 0)
  obtain ⟨nB, lB, eB, -⟩ := SampleBarometer_events env (w.setBError 0)
  cases hT : SamplePLTempSensor env fuel (SampleBarometer env (w.setBError 0)) with
  | error f => rw [hT] at h; cases h
  | ok wT =>
    rw [hT] at h
    simp only [] at h
    obtain ⟨nT, lT, eT⟩ := SamplePLTempSensor_events env fuel _ wT hT
    obtain ⟨nH, lH, eH, -⟩ := SampleHygrometer_events env wT w1 h
    have fT : (SampleBarometer env (w.setBError 0)).sys.onlyStatusReadings wT.sys := by
      by_cases hen : (SampleBarometer env (w.setBError 0)).sys.bThermocoupleOk = 0
      · rw [SamplePLTempSensor_disabled env fuel _ hen] at hT
        cases hT
        exact System.onlyStatusReadings.sameReadings _
      · exact (SamplePLTempSensor_status env fuel _ wT hen hT).2.2
    have fH : wT.sys.onlyStatusReadings w1.sys := by
      by_cases hen : wT.sys.bHygrometerOk = 0
      · rw [SampleHygrometer_disabled env _ hen] at h
        cases h
        exact System.onlyStatusReadings.sameReadings _
      · exact (SampleHygrometer_status env _ w1 hen h).2.2
    refine ⟨?_, nB ++ nT ++ nH, ?_, ?_⟩
    · exact System.onlyStatusReadings.nextReadings (System.onlyStatusReadings.nextReadings
        (System.onlyStatusReadings.nextReadings
          (System.onlyStatus.toReadings (World.setBError_onlyStatus 0 w)) hB) fT) fH
    · rw [lH, lT, lB]
      simp only [List.append_assoc]
      rfl
    · intro e he
      simp only [List.mem_append] at he
      rcases he with (h | h) | h
      · exact eB e h
      · exact eT e h
      · exact eH e h

theorem connected_of_onlyStatusReadings (w w1 : World) (h : w.sys.onlyStatusReadings w1.sys)
    (hc : connected w) : connected w1 ∧ w1.sys.pbShadowTopic = w.sys.pbShadowTopic ∧
      w1.sys.pbSensorTopic = w.sys.pbSensorTopic ∧
      w1.sys.bLastReportedError = w.sys.bLastReportedError := by
  unfold connected at *
  rw [h]
  exact ⟨hc, rfl, rfl, rfl⟩

/-- One round of the task loop on a connected system: a health payload is
published exactly when the error flag of the round differs from the last
reported flag or `bFirst` is set, and `bLastReportedError` changes only then. -/
theorem prvUZedIotTask_tick_spec (env : Env) (fuel bFirst b1 : Nat) (w w1 : World)
    (hc : connected w) (h : prvUZedIotTask_tick env fuel bFirst w = Except.ok (b1, w1)) :
    b1 = 0 ∧ connected w1 ∧
    (healthPublishes w w1, w1.sys.bLastReportedError) =
      (if bFirst ≠ 0 ∨ w1.sys.bError ≠ w.sys.bLastReportedError then (1, w1.sys.bError)
       else (0, w.sys.bLastReportedError)) := by
  unfold prvUZedIotTask_tick at h
  simp only [] at h
  cases hS : prvUZedIotTask_samples env fuel (vTaskDelayUntil SAMPLING_PERIOD_MS w) with
  | error f => rw [hS] at h; cases h
  | ok wS =>
    rw [hS] at h
    simp only [] at h
    obtain ⟨fS, nS, lS, eS⟩ := prvUZedIotTask_samples_spec env fuel _ wS hS
    have fS2 : w.sys.onlyStatusReadings wS.sys := fS
    obtain ⟨cS, tS, sS, bS⟩ := connected_of_onlyStatusReadings w wS fS2 hc
    obtain ⟨fP, nP, lP, eP⟩ := prvPublishSensors_spec env wS
    obtain ⟨cP, tP, sP, bP⟩ := connected_of_onlyStatusReadings wS (prvPublishSensors env wS)
      (System.onlyStatus.toReadings fP) cS
    have hnP : publishesTo w.sys.pbShadowTopic nP = 0 :=
      eP _ (by rw [sS]; exact hc.2.2)
    have hlP : (prvPublishSensors env wS).log =
        w.log ++ ([Event.taskDelayUntil SAMPLING_PERIOD_MS] ++ nS ++ nP) := by
      rw [lP, lS]
      show (w.log ++ [_]) ++ nS ++ nP = _
      simp only [List.append_assoc]
    have hcount0 : publishesTo w.sys.pbShadowTopic
        ([Event.taskDelayUntil SAMPLING_PERIOD_MS] ++ nS ++ nP) = 0 := by
      rw [publishesTo_append, publishesTo_append, hnP, publishesTo_of_sensorEvents _ nS eS]
      rfl
    cases h
    unfold prvUZedIotTask_report
    have hbl : (prvPublishSensors env wS).sys.bLastReportedError = w.sys.bLastReportedError :=
      bP.trans bS
    have htop : (prvPublishSensors env wS).sys.pbShadowTopic = w.sys.pbShadowTopic :=
      tP.trans tS
    by_cases hcond : (prvPublishSensors env wS).sys.bLastReportedError ≠
        (prvPublishSensors env wS).sys.bError ∨ bFirst ≠ 0
    · rw [if_pos hcond]
      have hcond2 : bFirst ≠ 0 ∨
          (prvPublishSensors env wS).sys.bError ≠ w.sys.bLastReportedError := by
        rcases hcond with h | h
        · exact Or.inr (fun e => h (by rw [hbl, e]))
        · exact Or.inl h
      obtain ⟨s1, nH, lH, eH⟩ := prvPublishShadow_spec env
        ({ prvPublishSensors env wS with
            sys.bLastReportedError := (prvPublishSensors env wS).sys.bError } : World)
        cP.1 cP.2.1
      have hsb : (prvPublishShadow env ({ prvPublishSensors env wS with
            sys.bLastReportedError := (prvPublishSensors env wS).sys.bError } : World)
          ).sys.bError = (prvPublishSensors env wS).sys.bError := by rw [s1]
      have hst : (prvPublishShadow env ({ prvPublishSensors env wS with
            sys.bLastReportedError := (prvPublishSensors env wS).sys.bError } : World)
          ).sys.pbShadowTopic = w.sys.pbShadowTopic := by rw [s1]; exact htop
      refine ⟨rfl, ?_, ?_⟩
      · unfold connected
        rw [s1]
        exact cP
      · rw [if_pos (by rw [hsb]; exact hcond2)]
        refine Prod.ext ?_ ?_
        · show healthPublishes w _ = 1
          unfold healthPublishes
          rw [hst, lH]
          show publishesTo _ (List.drop w.log.length ((prvPublishSensors env wS).log ++ nH)) = 1
          rw [hlP, List.append_assoc, List.drop_left, publishesTo_append, hcount0]
          have : publishesTo w.sys.pbShadowTopic nH = 1 := by
            rw [← htop]
            exact eH
          rw [this]
        · show (prvPublishShadow env _).sys.bLastReportedError = _
          rw [hsb, s1]
    · rw [if_neg hcond]
      have hcond2 : ¬ (bFirst ≠ 0 ∨
          (prvPublishSensors env wS).sys.bError ≠ w.sys.bLastReportedError) := by
        intro h
        apply hcond
        rcases h with h | h
        · exact Or.inr h
        · exact Or.inl (fun e => h (by rw [← hbl, e]))
      refine ⟨rfl, cP, ?_⟩
      rw [if_neg hcond2]
      refine Prod.ext ?_ hbl
      show healthPublishes w _ = 0
      unfold healthPublishes
      rw [htop, hlP, List.drop_left, hcount0]

theorem loopResult_eq_ok (r : Except Fault (List World)) (h : r.toBool = true) :
    r = Except.ok (loopResult r) := by
  cases r with
  | ok ws => rfl
  | error f => cases h

theorem healthSpec_cons_pos (flag : Nat) (flags : List Nat) (last : Nat) (first : Bool)
    (h : first = true ∨ flag ≠ last) :
    healthSpec (flag :: flags) last first = (1, flag) :: healthSpec flags flag false := by
  rw [healthSpec, if_pos h]

theorem healthSpec_cons_neg (flag : Nat) (flags : List Nat) (last : Nat) (first : Bool)
    (h : ¬ (first = true ∨ flag ≠ last)) :
    healthSpec (flag :: flags) last first = (0, last) :: healthSpec flags last false := by
  rw [healthSpec, if_neg h]

/-- The rounds of the task loop on a connected system follow the edge-triggered
health policy. -/
theorem prvUZedIotTask_loop_spec (env : Env) (fuel n bFirst : Nat) (w : World)
    (ws : List World) (hc : connected w)
    (h : prvUZedIotTask_loop env fuel n bFirst w = Except.ok ws) :
    ws.length = n ∧
    healthObserved w ws =
      healthSpec (ws.map (fun x => x.sys.bError)) w.sys.bLastReportedError
        (decide (bFirst ≠ 0)) := by
  induction n generalizing bFirst w ws with
  | zero =>
    unfold prvUZedIotTask_loop at h
    cases h
    exact ⟨rfl, rfl⟩
  | succ k ih =>
    unfold prvUZedIotTask_loop at h
    cases hT : prvUZedIotTask_tick env fuel bFirst w with
    | error f => rw [hT] at h; cases h
    | ok r =>
      obtain ⟨b1, w1⟩ := r
      rw [hT] at h
      simp only [] at h
      cases hL : prvUZedIotTask_loop env fuel k b1 w1 with
      | error f => rw [hL] at h; cases h
      | ok ws1 =>
        rw [hL] at h
        simp only [] at h
        cases h
        obtain ⟨hb, hc1, hobs⟩ := prvUZedIotTask_tick_spec env fuel bFirst b1 w w1 hc hT
        subst hb
        obtain ⟨hlen, hrest⟩ := ih 0 w1 ws1 hc1 hL
        refine ⟨by simp [hlen], ?_⟩
        show (healthPublishes w w1, w1.sys.bLastReportedError) :: healthObserved w1 ws1 =
          healthSpec (w1.sys.bError :: ws1.map (fun x => x.sys.bError))
            w.sys.bLastReportedError (decide (bFirst ≠ 0))
        by_cases hcond : bFirst ≠ 0 ∨ w1.sys.bError ≠ w.sys.bLastReportedError
        · rw [if_pos hcond] at hobs
          have hlast : w1.sys.bLastReportedError = w1.sys.bError := (Prod.ext_iff.mp hobs).2
          have hcond2 : decide (bFirst ≠ 0) = true ∨ w1.sys.bError ≠ w.sys.bLastReportedError := by
            rcases hcond with h | h
            · exact Or.inl (decide_eq_true h)
            · exact Or.inr h
          rw [healthSpec_cons_pos _ _ _ _ hcond2, hobs, hrest, hlast]
          rfl
        · rw [if_neg hcond] at hobs
          have hlast : w1.sys.bLastReportedError = w.sys.bLastReportedError :=
            (Prod.ext_iff.mp hobs).2
          have hcond2 : ¬ (decide (bFirst ≠ 0) = true ∨
              w1.sys.bError ≠ w.sys.bLastReportedError) := by
            intro h
            apply hcond
            rcases h with h | h
            · exact Or.inl (of_decide_eq_true h)
            · exact Or.inr h
          rw [healthSpec_cons_neg _ _ _ _ hcond2, hobs, hrest, hlast]
          rfl

/-- C14: for every run of the first `n` rounds of the task loop on a connected
system (the MQTT handle is set, the shadow topic is composed and is not the
sensor topic), entered with `bFirst = 1`, the health payloads follow the
edge-triggered policy run over the error flags of the rounds: in a round exactly
one health payload is published when the round is the first one or its error
flag differs from the last reported flag, none otherwise, and
`bLastReportedError` takes the flag of the round in the first case and keeps its
value in the second.  For the error flags 0, 0, 1, 1, 0 the health payload is
published in rounds 1, 3 and 5 only, three publications in five rounds. -/
theorem C14_health_edge_trigger (env : Env) (fuel n : Nat) (w : World) (ws : List World)
    (hc : connected w)
    (hrun : prvUZedIotTask_loop env fuel n 1 w = Except.ok ws) :
    ws.length = n ∧
    healthObserved w ws =
      healthSpec (ws.map (fun x => x.sys.bError)) w.sys.bLastReportedError true ∧
    (ws.map (fun x => x.sys.bError) = [0, 0, 1, 1, 0] →
      (healthObserved w ws).map Prod.fst = [1, 0, 1, 0, 1] ∧
      ((healthObserved w ws).map Prod.fst).sum = 3) := by
  obtain ⟨h1, h2⟩ := prvUZedIotTask_loop_spec env fuel n 1 w ws hc hrun
  have h3 : healthObserved w ws =
      healthSpec (ws.map (fun x => x.sys.bError)) w.sys.bLastReportedError true := h2
  refine ⟨h1, h3, fun hflags => ?_⟩
  rw [h3, hflags]
  have e : healthSpec [0, 0, 1, 1, 0] w.sys.bLastReportedError true =
      [(1, 0), (0, 0), (1, 1), (0, 1), (1, 0)] := by
    rw [healthSpec_cons_pos _ _ _ _ (Or.inl rfl)]
    rfl
  rw [e]
  exact ⟨rfl, rfl⟩

set_option maxRecDepth 100000 in
/-- C14 at a concrete input: a connected system on which only the thermocouple
is enabled and whose thermocouple frames carry the open-circuit bit in rounds 3
and 4; the error flags of five rounds are 0, 0, 1, 1, 0 and the health payload
is published in rounds 1, 3 and 5. -/
theorem C14_witness :
    (loopResult (prvUZedIotTask_loop (tickSpiEnv [0, 0, 1, 1, 0]) 8 5 1 connectedWorld)).map
      (fun x => x.sys.bError) = [0, 0, 1, 1, 0] ∧
    (healthObserved connectedWorld
      (loopResult (prvUZedIotTask_loop (tickSpiEnv [0, 0, 1, 1, 0]) 8 5 1
        connectedWorld))).map Prod.fst = [1, 0, 1, 0, 1] :=
  ⟨by decide,
   ((C14_health_edge_trigger (tickSpiEnv [0, 0, 1, 1, 0]) 8 5 connectedWorld
      (loopResult (prvUZedIotTask_loop (tickSpiEnv [0, 0, 1, 1, 0]) 8 5 1 connectedWorld))
      (by decide) (loopResult_eq_ok _ (by decide))).2.2 (by decide)).1⟩

theorem System.onlyStatus.fBarometerPressure {s s1 : System} (h : s.onlyStatus s1) :
    s1.fBarometerPressure = s.fBarometerPressure := by
  rw [h]

theorem System.onlyStatus.fBarometerTemperature {s s1 : System} (h : s.onlyStatus s1) :
    s1.fBarometerTemperature = s.fBarometerTemperature := by
  rw [h]

theorem System.onlyStatus.fHygrometerTemperature {s s1 : System} (h : s.onlyStatus s1) :
    s1.fHygrometerTemperature = s.fHygrometerTemperature := by
  rw [h]

/-- A sample of an enabled hygrometer that returns with `rc = XST_SUCCESS` has
logged no short transfer and no failure report. -/
theorem SampleHygrometer_clean (env : Env) (w w1 : World) (new : List Event)
    (hen : w.sys.bHygrometerOk ≠ 0) (hok : SampleHygrometer env w = Except.ok w1)
    (hnew : w1.log = w.log ++ new) (hrc : w1.sys.rc = XST_SUCCESS) :
    (∀ e ∈ new, e.isShortTransfer = false) ∧ noReport new = true := by
  obtain ⟨n1, h1, -, h3⟩ := SampleHygrometer_events env w w1 hok
  have e1 : n1 = new := List.append_cancel_left (h1.symm.trans hnew)
  subst e1
  refine ⟨h3 hen hrc, ?_⟩
  unfold SampleHygrometer at hok
  rw [if_neg hen] at hok
  have hs1 := SampleHygrometer_humidity_step env (w.setRc XST_SUCCESS)
  cases hh : SampleHygrometer_humidity env (w.setRc XST_SUCCESS) with
  | die wa =>
    rw [hh] at hok hs1
    simp only [] at hok
    cases hok
    exact absurd hrc (hs1.2.2 rfl).1
  | ok v wa =>
    rw [hh] at hok hs1
    cases v with
    | none => cases hok
    | some vh =>
      simp only [] at hok
      have hs2 := SampleHygrometer_temperature_step env
        { wa with sys.fHygrometerHumidity := f32 vh }
      cases ht : SampleHygrometer_temperature env
        { wa with sys.fHygrometerHumidity := f32 vh } with
      | die wb =>
        rw [ht] at hok hs2
        simp only [] at hok
        cases hok
        exact absurd hrc (hs2.2.2 rfl).1
      | ok v2 wb =>
        rw [ht] at hok hs2
        cases v2 with
        | none => cases hok
        | some vt =>
          simp only [] at hok
          cases hok
          obtain ⟨⟨m1, a1, -, a3⟩, -, -⟩ := hs1
          obtain ⟨⟨m2, b1, -, b3⟩, -, -⟩ := hs2
          have hl : w.log ++ (m1 ++ m2) = w.log ++ n1 := by
            rw [← h1]
            show _ = wb.log
            rw [show wb.log = wa.log ++ m2 from b1, show wa.log = w.log ++ m1 from a1,
              List.append_assoc]
          rw [← List.append_cancel_left hl, noReport_append, a3, b3]
          rfl

/-- C17, what the code does: when a sample of an enabled hygrometer that returns
has logged a failed register read (or any failure report), it returns with `rc`
different from `XST_SUCCESS`, with `bError` set to 1 and with the hygrometer
temperature equal to its value before the call.  The humidity is equal to its
value before the call when the failure is in the humidity half of the sample;
when the humidity half has run to its end with the value `v`, the humidity is
the new value `v`, also when a read of the temperature decode fails. -/
theorem C17_failed_hygrometer_sample (env : Env) (w w1 : World) (new : List Event)
    (hen : w.sys.bHygrometerOk ≠ 0)
    (hok : SampleHygrometer env w = Except.ok w1)
    (hnew : w1.log = w.log ++ new)
    (hfail : ∃ e ∈ new, e.isShortTransfer = true ∨ e.isFailureReport = true) :
    w1.sys.rc ≠ XST_SUCCESS ∧ w1.sys.bError = 1 ∧
    w1.sys.fHygrometerTemperature = w.sys.fHygrometerTemperature ∧
    ((SampleHygrometer_humidity env (w.setRc XST_SUCCESS)).isOk = false →
      w1.sys.fHygrometerHumidity = w.sys.fHygrometerHumidity) ∧
    (∀ v : Nat, (SampleHygrometer_humidity env (w.setRc XST_SUCCESS)).value? = some (some v) →
      w1.sys.fHygrometerHumidity = f32 v) := by
  have hrc : w1.sys.rc ≠ XST_SUCCESS := by
    intro h
    obtain ⟨h1, h2⟩ := SampleHygrometer_clean env w w1 new hen hok hnew h
    obtain ⟨e, he, hs | hr⟩ := hfail
    · rw [h1 e he] at hs
      cases hs
    · have := (noReport_iff new).mp h2 e he
      rw [hr] at this
      cases this
  have hb := (SampleHygrometer_status env w w1 hen hok).2.1 hrc
  refine ⟨hrc, hb, ?_⟩
  unfold SampleHygrometer at hok
  rw [if_neg hen] at hok
  have hf1 := SampleHygrometer_humidity_onlyStatus env (w.setRc XST_SUCCESS)
  cases hh : SampleHygrometer_humidity env (w.setRc XST_SUCCESS) with
  | die wa =>
    rw [hh] at hok hf1
    simp only [] at hok
    cases hok
    have hfr : w.sys.onlyStatus w1.sys := System.onlyStatus.next (World.setRc_onlyStatus _ w) hf1
    exact ⟨hfr.fHygrometerTemperature, fun _ => hfr.fHygrometerHumidity, fun v hv => by cases hv⟩
  | ok v wa =>
    rw [hh] at hok hf1
    cases v with
    | none => cases hok
    | some vh =>
      simp only [] at hok
      have hfr : w.sys.onlyStatus wa.sys := System.onlyStatus.next (World.setRc_onlyStatus _ w) hf1
      have hs2 := SampleHygrometer_temperature_step env
        { wa with sys.fHygrometerHumidity := f32 vh }
      have hf2 := SampleHygrometer_temperature_onlyStatus env
        { wa with sys.fHygrometerHumidity := f32 vh }
      cases ht : SampleHygrometer_temperature env
        { wa with sys.fHygrometerHumidity := f32 vh } with
      | die wb =>
        rw [ht] at hok hf2
        simp only [] at hok
        cases hok
        refine ⟨?_, (fun h => by cases h), fun v hv => ?_⟩
        · exact (System.onlyStatus.fHygrometerTemperature hf2).trans hfr.fHygrometerTemperature
        · cases hv
          exact System.onlyStatus.fHygrometerHumidity hf2
      | ok v2 wb =>
        rw [ht] at hok hs2
        cases v2 with
        | none => cases hok
        | some vt =>
          simp only [] at hok
          cases hok
          have hr1 : wa.sys.rc = XST_SUCCESS := by
            have hs1 := SampleHygrometer_humidity_step env (w.setRc XST_SUCCESS)
            rw [hh] at hs1
            exact (hs1.2.1 rfl).2 rfl
          exact absurd ((hs2.2.1 rfl).2 hr1) hrc

/-- C17 at a failing input: a hygrometer that holds the readings 45 and 22 and
whose device answers every read of the humidity decode (the interpolation gives
60) but delivers no byte for the first read of the temperature decode.  The
sample returns failed, the temperature is still 22, but the humidity is 60 and
no longer 45. -/
theorem C17_failing_input :
    returned (SampleHygrometer temperatureReadFailsEnv sampledWorld) = true ∧
    (resultWorld (SampleHygrometer temperatureReadFailsEnv sampledWorld)
      sampledWorld).log.drop 22 =
      [Event.iicRecv HYGROMETER_SLAVE_ADDRESS 1 XIIC_STOP [],
       Event.print "ReadIicRegs::XIic_Recv(Data) -> 0x%08x\r\n" [1],
       Event.print "ReadIicReg(HYGROMETER_REG_T0_degC_x8) -> 0x%08x\r\n" [1]] ∧
    (resultWorld (SampleHygrometer temperatureReadFailsEnv sampledWorld)
      sampledWorld).sys.bError = 1 ∧
    sampledWorld.sys.fHygrometerTemperature = 22 ∧
    (resultWorld (SampleHygrometer temperatureReadFailsEnv sampledWorld)
      sampledWorld).sys.fHygrometerTemperature = 22 ∧
    sampledWorld.sys.fHygrometerHumidity = 45 ∧
    (resultWorld (SampleHygrometer temperatureReadFailsEnv sampledWorld)
      sampledWorld).sys.fHygrometerHumidity = 60 ∧
    (resultWorld (SampleHygrometer temperatureReadFailsEnv sampledWorld)
      sampledWorld).sys.fHygrometerHumidity ≠ sampledWorld.sys.fHygrometerHumidity := by
  have h := C17_failed_hygrometer_sample temperatureReadFailsEnv sampledWorld
    (resultWorld (SampleHygrometer temperatureReadFailsEnv sampledWorld) sampledWorld)
    ((resultWorld (SampleHygrometer temperatureReadFailsEnv sampledWorld)
      sampledWorld).log.drop sampledWorld.log.length)
    (by decide) (returned_eq_ok _ _ (by decide)) (by decide)
    ⟨Event.iicRecv HYGROMETER_SLAVE_ADDRESS 1 XIIC_STOP [], by decide, Or.inl (by decide)⟩
  have h60 := h.2.2.2.2 60 (by decide)
  have e60 : f32 ((60 : Nat) : ℚ) = 60 := by
    rw [f32_nat 60 (by norm_num)]
    norm_num
  rw [e60] at h60
  refine ⟨by decide, by decide, h.2.1, rfl, h.2.2.1, rfl, h60, ?_⟩
  rw [h60]
  show (60 : ℚ) ≠ 45
  norm_num

/-- C18, what the code does: when `ReadIicRegs` is entered with
`rc = XST_SUCCESS`, the device accepts the register address and then delivers a
number of bytes different from the count `n` asked for, the function returns
the code `((received & 0xf) << 4) | (n & 0xf)`.  The code is different from
`XST_SUCCESS` for every count that is not a multiple of 16, in particular for
`1 ≤ n ≤ 15`; for `n = 16` it is `XST_SUCCESS` exactly when the number of bytes
received is a multiple of 16, in particular when no byte was received. -/
theorem C18_read_count_mismatch (env : Env) (a n r : Nat) (buf : List Nat) (w : World)
    (data : List Nat)
    (hrc : w.sys.rc = XST_SUCCESS)
    (hsend : env.XIic_Send w.log a [if n > 1 then (r ||| 0x80) % 256 else r]
      XIIC_REPEATED_START = 1)
    (hrecv : env.XIic_Recv (w.log ++ [Event.iicSend a
      [if n > 1 then (r ||| 0x80) % 256 else r] XIIC_REPEATED_START 1]) a n XIIC_STOP = data)
    (hne : data.length ≠ n) :
    (ReadIicRegs env a n r buf w).2.sys.rc = mismatchRc data.length n ∧
    (n % 16 ≠ 0 → (ReadIicRegs env a n r buf w).2.sys.rc ≠ XST_SUCCESS) ∧
    (n = 16 → ((ReadIicRegs env a n r buf w).2.sys.rc = XST_SUCCESS ↔
      data.length % 16 = 0)) ∧
    (n = 16 → data.length = 0 → (ReadIicRegs env a n r buf w).2.sys.rc = XST_SUCCESS) := by
  have hval : (ReadIicRegs env a n r buf w).2.sys.rc = mismatchRc data.length n := by
    rw [ReadIicRegs_eq]
    simp only [World.emit_log]
    rw [hsend, hrecv]
    rw [if_neg (by decide), if_neg (not_not.mpr hrc)]
    by_cases h0 : mismatchRc data.length n ≠ XST_SUCCESS
    · rw [if_pos ⟨hne, h0⟩]
      rfl
    · rw [if_neg (fun h => h0 h.2), if_pos hne]
      rfl
  have hzero : n = 16 → ((ReadIicRegs env a n r buf w).2.sys.rc = XST_SUCCESS ↔
      data.length % 16 = 0) := by
    intro h16
    rw [hval, mismatchRc_eq, h16]
    show ((16 * (data.length % 16) + 16 % 16 : Nat) : Int) = 0 ↔ _
    omega
  refine ⟨hval, fun hn => ?_, hzero, fun h16 h0 => (hzero h16).mpr (by rw [h0])⟩
  rw [hval]
  exact mismatchRc_ne_zero data.length n hn

/-- C18 at a failing input: the 16-byte calibration burst of `StartHygrometer`
on a device that accepts the register address and then delivers no byte.
`ReadIicRegs`, entered with `rc = XST_SUCCESS`, returns `XST_SUCCESS`, and
`StartHygrometer` on this device enables the hygrometer with the calibration
bytes it had. -/
theorem C18_failing_input :
    silentBurstEnv.XIic_Recv (bootWorld.log ++ [Event.iicSend HYGROMETER_SLAVE_ADDRESS
      [(HYGROMETER_REG_CALIB_0 ||| 0x80) % 256] XIIC_REPEATED_START 1])
      HYGROMETER_SLAVE_ADDRESS 16 XIIC_STOP = [] ∧
    (ReadIicRegs silentBurstEnv HYGROMETER_SLAVE_ADDRESS 16 HYGROMETER_REG_CALIB_0
      (List.replicate 16 0) bootWorld).2.sys.rc = XST_SUCCESS ∧
    (StartHygrometer silentBurstEnv bootWorld).sys.bHygrometerOk = pdTRUE ∧
    Event.iicRecv HYGROMETER_SLAVE_ADDRESS 16 XIIC_STOP [] ∈
      (StartHygrometer silentBurstEnv bootWorld).log :=
  ⟨by decide,
   (C18_read_count_mismatch silentBurstEnv HYGROMETER_SLAVE_ADDRESS 16 HYGROMETER_REG_CALIB_0
      (List.replicate 16 0) bootWorld [] (by decide) (by decide) (by decide)
      (by decide)).2.2.2 rfl rfl,
   by decide, by decide⟩

/-! ## Bounded waits -/

theorem MAY_DIE_readRegBlock_of_ok (env : Env) (a r : Nat) (m : String) (b0 b : Nat) (w : World)
    (hrc : w.sys.rc = XST_SUCCESS)
    (hs : env.XIic_Send w.log a [r] XIIC_REPEATED_START = 1)
    (hr : env.XIic_Recv (w.log ++ [Event.iicSend a [r] XIIC_REPEATED_START 1]) a 1 XIIC_STOP
      = [b]) :
    MAY_DIE (readRegBlock env a r m b0) w =
      Res.ok (b % 256) (((w.emit (Event.iicSend a [r] XIIC_REPEATED_START 1)).emit
        (Event.iicRecv a 1 XIIC_STOP [b])).setErr m) := by
  have e1 := readRegBlock_of_ok env a r m b0 b w hrc hs hr
  have r1 := @MAY_DIE_of_rc_eq _ (readRegBlock env a r m b0) w (by rw [e1]; exact hrc)
  rw [e1] at r1
  exact r1

/-- A wait whose `k`-th read is the first to satisfy the condition, with `k` at
most the limit `n`, runs to its end with the counter at `n - k`. -/
theorem forTimeout_poll_done (env : Env) (a r : Nat) (m : String) (done : Nat → Bool)
    (c : Nat) (bs : List Nat) (n b0 : Nat) (w : World)
    (hrc : w.sys.rc = XST_SUCCESS)
    (hpoll : pollAnswers env a r w.log (bs ++ [c]) = true)
    (hwait : ∀ b ∈ bs, done (b % 256) = false) (hdone : done (c % 256) = true)
    (hn : bs.length < n) :
    ∃ w1, forTimeout (readRegBlock env a r m) done n b0 w =
        Res.ok ((((n - 1 - bs.length : Nat) : Int)), c % 256) w1 ∧
      w1.log = w.log ++ pollLog a r bs ++ readEvents a r c ∧
      w1.sys.rc = XST_SUCCESS ∧ w.sys.onlyStatus w1.sys ∧ w1.sys.bError = w.sys.bError := by
  induction bs generalizing n b0 w with
  | nil =>
    obtain ⟨k, rfl⟩ : ∃ k, n = k + 1 := ⟨n - 1, by simp at hn; omega⟩
    simp only [List.nil_append, pollAnswers, Bool.and_true, Bool.and_eq_true, beq_iff_eq] at hpoll
    have r1 := MAY_DIE_readRegBlock_of_ok env a r m b0 c w hrc hpoll.1 hpoll.2
    refine ⟨((w.emit (Event.iicSend a [r] XIIC_REPEATED_START 1)).emit
        (Event.iicRecv a 1 XIIC_STOP [c])).setErr m, ?_, ?_, ?_, ?_, ?_⟩
    · unfold UzedIot.forTimeout
      rw [Run.bind_of_ok r1, if_pos hdone]
      simp
      rfl
    · simp [pollLog, readEvents]
    · exact hrc
    · rfl
    · rfl
  | cons b bs ih =>
    obtain ⟨k, rfl⟩ : ∃ k, n = k + 1 := ⟨n - 1, by simp at hn; omega⟩
    simp only [List.cons_append, pollAnswers, Bool.and_eq_true, beq_iff_eq] at hpoll
    obtain ⟨⟨hs, hr⟩, hrest⟩ := hpoll
    have r1 := MAY_DIE_readRegBlock_of_ok env a r m b0 b w hrc hs hr
    have hnd : done (b % 256) = false := hwait b (List.mem_cons_self _ _)
    obtain ⟨w1, e1, l1, c1, f1, b1⟩ := ih k (b % 256)
      (vTaskDelay 1 (((w.emit (Event.iicSend a [r] XIIC_REPEATED_START 1)).emit
        (Event.iicRecv a 1 XIIC_STOP [b])).setErr m))
      hrc (by
        have : (vTaskDelay 1 (((w.emit (Event.iicSend a [r] XIIC_REPEATED_START 1)).emit
            (Event.iicRecv a 1 XIIC_STOP [b])).setErr m)).log =
            w.log ++ readEvents a r b ++ [Event.taskDelay 1] := by
          simp [readEvents]
        rw [this]
        exact hrest)
      (fun x hx => hwait x (List.mem_cons_of_mem _ hx))
      (by simp at hn; omega)
    refine ⟨w1, ?_, ?_, c1, ?_, ?_⟩
    · unfold UzedIot.forTimeout
      rw [Run.bind_of_ok r1, if_neg (by rw [hnd]; decide)]
      have r2 : Run.exec (vTaskDelay 1) (((w.emit (Event.iicSend a [r] XIIC_REPEATED_START 1)).emit
          (Event.iicRecv a 1 XIIC_STOP [b])).setErr m) = Res.ok () (vTaskDelay 1
          (((w.emit (Event.iicSend a [r] XIIC_REPEATED_START 1)).emit
          (Event.iicRecv a 1 XIIC_STOP [b])).setErr m)) := rfl
      rw [Run.bind_of_ok r2, e1]
      simp only [List.length_cons]
      have : k + 1 - 1 - (bs.length + 1) = k - 1 - bs.length := by omega
      rw [this]
    · rw [l1]
      simp [pollLog, readEvents]
    · exact System.onlyStatus.next (World.setErr_onlyStatus m _) f1
    · rw [b1]
      rfl

/-- A wait all of whose `n` reads fail the condition runs to its end with the
counter at -1. -/
theorem forTimeout_poll_exhausted (env : Env) (a r : Nat) (m : String) (done : Nat → Bool)
    (bs : List Nat) (n b0 : Nat) (w : World)
    (hrc : w.sys.rc = XST_SUCCESS)
    (hpoll : pollAnswers env a r w.log bs = true)
    (hwait : ∀ b ∈ bs, done (b % 256) = false)
    (hn : bs.length = n) :
    ∃ last w1, forTimeout (readRegBlock env a r m) done n b0 w = Res.ok (-1, last) w1 ∧
      w1.log = w.log ++ pollLog a r bs ∧
      w1.sys.rc = XST_SUCCESS ∧ w.sys.onlyStatus w1.sys ∧ w1.sys.bError = w.sys.bError := by
  induction bs generalizing n b0 w with
  | nil =>
    subst hn
    exact ⟨b0, w, rfl, by simp [pollLog], hrc, rfl, rfl⟩
  | cons b bs ih =>
    subst hn
    simp only [pollAnswers, Bool.and_eq_true, beq_iff_eq] at hpoll
    obtain ⟨⟨hs, hr⟩, hrest⟩ := hpoll
    have r1 := MAY_DIE_readRegBlock_of_ok env a r m b0 b w hrc hs hr
    have hnd : done (b % 256) = false := hwait b (List.mem_cons_self _ _)
    obtain ⟨last, w1, e1, l1, c1, f1, b1⟩ := ih bs.length (b % 256)
      (vTaskDelay 1 (((w.emit (Event.iicSend a [r] XIIC_REPEATED_START 1)).emit
        (Event.iicRecv a 1 XIIC_STOP [b])).setErr m))
      hrc (by
        have : (vTaskDelay 1 (((w.emit (Event.iicSend a [r] XIIC_REPEATED_START 1)).emit
            (Event.iicRecv a 1 XIIC_STOP [b])).setErr m)).log =
            w.log ++ readEvents a r b ++ [Event.taskDelay 1] := by
          simp [readEvents]
        rw [this]
        exact hrest)
      (fun x hx => hwait x (List.mem_cons_of_mem _ hx)) rfl
    refine ⟨last, w1, ?_, ?_, c1, ?_, ?_⟩
    · show forTimeout (readRegBlock env a r m) done (bs.length + 1) b0 w = _
      unfold UzedIot.forTimeout
      rw [Run.bind_of_ok r1, if_neg (by rw [hnd]; decide)]
      have r2 : Run.exec (vTaskDelay 1) (((w.emit (Event.iicSend a [r] XIIC_REPEATED_START 1)).emit
          (Event.iicRecv a 1 XIIC_STOP [b])).setErr m) = Res.ok () (vTaskDelay 1
          (((w.emit (Event.iicSend a [r] XIIC_REPEATED_START 1)).emit
          (Event.iicRecv a 1 XIIC_STOP [b])).setErr m)) := rfl
      rw [Run.bind_of_ok r2, e1]
    · rw [l1]
      simp [pollLog, readEvents]
    · exact System.onlyStatus.next (World.setErr_onlyStatus m _) f1
    · rw [b1]
      rfl

theorem MAY_DIE_writeRegBlock_of_ok (env : Env) (a r v : Nat) (m : String) (w : World)
    (hrc : w.sys.rc = XST_SUCCESS)
    (hs : env.XIic_Send w.log a [r, v] XIIC_STOP = 2) :
    MAY_DIE (writeRegBlock env a r v m) w =
      Res.ok () ((w.emit (Event.iicSend a [r, v] XIIC_STOP 2)).setErr m) := by
  have e1 : writeRegBlock env a r v m w =
      ((), (w.emit (Event.iicSend a [r, v] XIIC_STOP 2)).setErr m) := by
    unfold writeRegBlock
    rw [WriteIicReg_eq]
    simp [hs, hrc]
  have r1 := @MAY_DIE_of_rc_eq _ (writeRegBlock env a r v m) w (by rw [e1]; exact hrc)
  rw [e1] at r1
  exact r1

/-- The first event of a register write is the transfer of the register address
and the value, whatever becomes of it. -/
theorem MAY_DIE_writeRegBlock_log (env : Env) (a r v : Nat) (m : String) (w : World) :
    ∃ x tail, (MAY_DIE (writeRegBlock env a r v m) w).world.log =
      w.log ++ Event.iicSend a [r, v] XIIC_STOP x :: tail := by
  refine ⟨env.XIic_Send w.log a [r, v] XIIC_STOP, ?_⟩
  have hw : ∃ t, (writeRegBlock env a r v m w).2.log =
      w.log ++ Event.iicSend a [r, v] XIIC_STOP (env.XIic_Send w.log a [r, v] XIIC_STOP) :: t := by
    unfold writeRegBlock
    rw [WriteIicReg_eq]
    simp only []
    by_cases h1 : 2 ≠ env.XIic_Send w.log a [r, v] XIIC_STOP
    · rw [if_pos h1]
      exact ⟨[Event.print "WriteIicRegs::XIic_Send(Buf) -> 0x%08x\r\n"
        [mismatchRc (env.XIic_Send w.log a [r, v] XIIC_STOP) 2]], by simp [configPRINTF]⟩
    · rw [if_neg h1]
      by_cases h2 : w.sys.rc ≠ XST_SUCCESS
      · rw [if_pos h2]
        exact ⟨[Event.print w.sys.pcErr [w.sys.rc]], by simp [configPRINTF]⟩
      · rw [if_neg h2]
        exact ⟨[], by simp⟩
  obtain ⟨t, ht⟩ := hw
  by_cases hrc : (writeRegBlock env a r v m w).2.sys.rc = XST_SUCCESS
  · rw [MAY_DIE_of_rc_eq hrc]
    exact ⟨t, ht⟩
  · rw [MAY_DIE_of_rc_ne hrc]
    exact ⟨t ++ [Event.print (writeRegBlock env a r v m w).2.sys.pcErr
      [(writeRegBlock env a r v m w).2.sys.rc]], by simp [Res.world, configPRINTF, ht]⟩

/-- The events of a run start with those of its first part when the rest only
appends. -/
theorem Run.bind_log_head {α β : Type} {m : Run α} {f : α → Run β} {w : World}
    {pre : List Event} {e : Event} (hm : ∃ tail, (m w).world.log = pre ++ e :: tail)
    (hf : ∀ a, Run.Sat Step (f a)) :
    ∃ tail, ((m >>= f) w).world.log = pre ++ e :: tail := by
  obtain ⟨t, ht⟩ := hm
  cases hmw : m w with
  | ok a w1 =>
    rw [Run.bind_of_ok hmw]
    obtain ⟨⟨new, hn, _⟩, _⟩ := hf a w1
    rw [hmw] at ht
    exact ⟨t ++ new, by
      rw [hn]
      have : w1.log = pre ++ e :: t := ht
      rw [this]
      simp⟩
  | die w1 =>
    rw [Run.bind_die hmw]
    rw [hmw] at ht
    exact ⟨t, ht⟩

/-- The events of `StartBarometer` are those of its body followed by the delay
and the print of its end. -/
theorem StartBarometer_log_body (env : Env) (w : World) :
    ∃ tail, (StartBarometer env w).log = (StartBarometer_body env { w with
      sys.bBarometerOk := pdFALSE
      sys.fBarometerPressure := 0
      sys.fBarometerTemperature := 0 }).world.log ++ tail := by
  cases h : StartBarometer_body env { w with
      sys.bBarometerOk := pdFALSE
      sys.fBarometerPressure := 0
      sys.fBarometerTemperature := 0 } with
  | ok a w1 =>
    rw [StartBarometer_of_ok env w w1 a h]
    exact ⟨[Event.taskDelay 1, Event.print "Barometer started ok\r\n" []],
      by simp [configPRINTF, vTaskDelay, Res.world]⟩
  | die w1 =>
    rw [StartBarometer_of_die env w w1 h]
    exact ⟨[Event.print "ERROR: Barometer started not ok\r\n" []],
      by simp [configPRINTF, Res.world]⟩

set_option maxRecDepth 8192 in
/-- C19 (what the code does): in the soft-reset wait of `StartBarometer`, entered
after a good identity read and an accepted reset command, let the device
answer the reads of control register 2 with the bytes `answers`.  When the first
`k - 1` reads show the soft-reset bit set and the `k`-th shows it clear, then
for `k ≤ 99` the next event is the write of the boot command, so no timeout is
reported; for `k = 100` the function reports the timeout although the bit has
cleared, and returns with the barometer disabled and the error flag set.  When
all 100 reads show the bit set the timeout is reported as well. -/
theorem C19_swreset_wait (env : Env) (w : World) (answers : List Nat)
    (hid : readsIdentity env w BAROMETER_SLAVE_ADDRESS 0xB1)
    (hwr : env.XIic_Send (w.log ++ readEvents BAROMETER_SLAVE_ADDRESS BAROMETER_REG_WHO_AM_I 0xB1)
      BAROMETER_SLAVE_ADDRESS [BAROMETER_REG_CTRL_REG2, BAROMETER_BFLD_SWRESET] XIIC_STOP = 2)
    (hpoll : pollAnswers env BAROMETER_SLAVE_ADDRESS BAROMETER_REG_CTRL_REG2 (swresetLog w.log)
      answers = true)
    (hbyte : ∀ b ∈ answers, b < 256) :
    (∀ bs c, answers = bs ++ [c] → (∀ b ∈ bs, b &&& BAROMETER_BFLD_SWRESET ≠ 0) →
      c &&& BAROMETER_BFLD_SWRESET = 0 →
      (bs.length + 1 ≤ 99 → ∃ x rest, (StartBarometer env w).log =
        swresetLog w.log ++ pollLog BAROMETER_SLAVE_ADDRESS BAROMETER_REG_CTRL_REG2 bs ++
          readEvents BAROMETER_SLAVE_ADDRESS BAROMETER_REG_CTRL_REG2 c ++
          Event.iicSend BAROMETER_SLAVE_ADDRESS [BAROMETER_REG_CTRL_REG2, BAROMETER_BFLD_BOOT]
            XIIC_STOP x :: rest) ∧
      (bs.length + 1 = 100 →
        (StartBarometer env w).log =
          swresetLog w.log ++ pollLog BAROMETER_SLAVE_ADDRESS BAROMETER_REG_CTRL_REG2 bs ++
            readEvents BAROMETER_SLAVE_ADDRESS BAROMETER_REG_CTRL_REG2 c ++
            [Event.print "Barometer swreset timeout\r\n" [XST_FAILURE],
             Event.print "ERROR: Barometer started not ok\r\n" []] ∧
        (StartBarometer env w).sys.bBarometerOk = 0 ∧
        (StartBarometer env w).sys.bError = 1)) ∧
    ((∀ b ∈ answers, b &&& BAROMETER_BFLD_SWRESET ≠ 0) → answers.length = 100 →
      (StartBarometer env w).log =
        swresetLog w.log ++ pollLog BAROMETER_SLAVE_ADDRESS BAROMETER_REG_CTRL_REG2 answers ++
          [Event.print "Barometer swreset timeout\r\n" [XST_FAILURE],
           Event.print "ERROR: Barometer started not ok\r\n" []] ∧
      (StartBarometer env w).sys.bBarometerOk = 0 ∧
      (StartBarometer env w).sys.bError = 1) := by
  obtain ⟨hrc, hs, hr⟩ := hid
  have r1 := MAY_DIE_readRegBlock_of_ok env BAROMETER_SLAVE_ADDRESS BAROMETER_REG_WHO_AM_I
    "ReadIicReg(WHO_AM_I) -> 0x%08x\r\n" 0 0xB1 { w with
      sys.bBarometerOk := pdFALSE
      sys.fBarometerPressure := 0
      sys.fBarometerTemperature := 0 } hrc hs hr
  generalize hw1 : ((World.emit
      (Event.iicSend BAROMETER_SLAVE_ADDRESS [BAROMETER_REG_WHO_AM_I] XIIC_REPEATED_START 1)
      { w with
        sys.bBarometerOk := pdFALSE
        sys.fBarometerPressure := 0
        sys.fBarometerTemperature := 0 }).emit
      (Event.iicRecv BAROMETER_SLAVE_ADDRESS 1 XIIC_STOP [0xB1])).setErr
      "ReadIicReg(WHO_AM_I) -> 0x%08x\r\n" = w1 at r1
  have l1 : w1.log = w.log ++ readEvents BAROMETER_SLAVE_ADDRESS BAROMETER_REG_WHO_AM_I 0xB1 := by
    rw [← hw1]
    simp [readEvents]
  have c1 : w1.sys.rc = XST_SUCCESS := by
    rw [← hw1]
    exact hrc
  have k1 : w1.sys.bBarometerOk = 0 := by
    rw [← hw1]
    rfl
  have r2 : MAY_DIE (failIfBlock (0xB1 != 0xB1 % 256)
      (if 0xB1 % 256 ≠ 0 then ((0xB1 % 256 : Nat) : Int) else 1)
      "BAROMETER_WHO_AM_I = 0x%08x != 0xB1\r\n") w1 = Res.ok () w1 :=
    @MAY_DIE_of_rc_eq _ (failIfBlock (0xB1 != 0xB1 % 256)
      (if 0xB1 % 256 ≠ 0 then ((0xB1 % 256 : Nat) : Int) else 1)
      "BAROMETER_WHO_AM_I = 0x%08x != 0xB1\r\n") w1 c1
  rw [← l1] at hwr
  have r3 := MAY_DIE_writeRegBlock_of_ok env BAROMETER_SLAVE_ADDRESS BAROMETER_REG_CTRL_REG2
    BAROMETER_BFLD_SWRESET "WriteIicReg(BAROMETER_REG_CTRL_REG2::BFLD_SWRESET) -> 0x%08x\r\n"
    w1 c1 hwr
  generalize hw3 : (w1.emit (Event.iicSend BAROMETER_SLAVE_ADDRESS
      [BAROMETER_REG_CTRL_REG2, BAROMETER_BFLD_SWRESET] XIIC_STOP 2)).setErr
      "WriteIicReg(BAROMETER_REG_CTRL_REG2::BFLD_SWRESET) -> 0x%08x\r\n" = w3 at r3
  have l3 : w3.log = swresetLog w.log := by
    rw [← hw3]
    simp [swresetLog, l1]
  have c3 : w3.sys.rc = XST_SUCCESS := by
    rw [← hw3]
    exact c1
  have k3 : w3.sys.bBarometerOk = 0 := by
    rw [← hw3]
    exact k1
  rw [← l3] at hpoll
  have hdoneOf : ∀ b, b < 256 → b &&& BAROMETER_BFLD_SWRESET ≠ 0 →
      (fun b => 0 == (b &&& BAROMETER_BFLD_SWRESET)) (b % 256) = false := by
    intro b hb hne
    rw [Nat.mod_eq_of_lt hb]
    simpa [beq_eq_false_iff_ne] using fun h : 0 = b &&& BAROMETER_BFLD_SWRESET => hne h.symm
  have hdie : ∀ (t : Int × Nat) (w4 : World),
      forTimeout (readRegBlock env BAROMETER_SLAVE_ADDRESS BAROMETER_REG_CTRL_REG2
        "ReadIicReg(BAROMETER_REG_CTRL_REG2) -> 0x%08x\r\n")
        (fun b => 0 == (b &&& BAROMETER_BFLD_SWRESET)) 100 (0xB1 % 256) w3 = Res.ok t w4 →
      t.1 ≤ 0 →
      StartBarometer env w = configPRINTF "ERROR: Barometer started not ok\r\n" []
        (configPRINTF "Barometer swreset timeout\r\n" [XST_FAILURE]
          (((w4.setRc XST_FAILURE).setErr "Barometer swreset timeout\r\n").setBError 1)) := by
    intro t w4 e4 ht
    refine StartBarometer_of_die env w _ ?_
    unfold StartBarometer_body
    rw [Run.bind_of_ok r1, Run.bind_of_ok r2, Run.bind_of_ok r3, Run.bind_of_ok e4, if_pos ht]
    refine Run.bind_die ?_
    exact @MAY_DIE_of_rc_ne _ (failBlock XST_FAILURE "Barometer swreset timeout\r\n") w4
      (by show (1 : Int) ≠ 0; decide)
  refine ⟨fun bs c hans hset hclr => ⟨fun hk => ?_, fun hk => ?_⟩, fun hset hlen => ?_⟩
  · subst hans
    obtain ⟨w4, e4, l4, c4, f4, b4⟩ := forTimeout_poll_done env BAROMETER_SLAVE_ADDRESS
      BAROMETER_REG_CTRL_REG2 "ReadIicReg(BAROMETER_REG_CTRL_REG2) -> 0x%08x\r\n"
      (fun b => 0 == (b &&& BAROMETER_BFLD_SWRESET)) c bs 100 (0xB1 % 256) w3 c3 hpoll
      (fun b hb => hdoneOf b (hbyte b (List.mem_append_left _ hb)) (hset b hb))
      (by
        rw [Nat.mod_eq_of_lt (hbyte c (by simp))]
        simp [hclr])
      (by omega)
    have hb : ∃ x t, (StartBarometer_body env { w with
        sys.bBarometerOk := pdFALSE
        sys.fBarometerPressure := 0
        sys.fBarometerTemperature := 0 }).world.log = w4.log ++
        Event.iicSend BAROMETER_SLAVE_ADDRESS [BAROMETER_REG_CTRL_REG2, BAROMETER_BFLD_BOOT]
          XIIC_STOP x :: t := by
      unfold StartBarometer_body
      rw [Run.bind_of_ok r1, Run.bind_of_ok r2, Run.bind_of_ok r3, Run.bind_of_ok e4,
        if_neg (by
          show ¬ (((100 - 1 - bs.length : Nat) : Int) ≤ 0)
          omega)]
      rw [Run.bind_of_ok (show (Pure.pure PUnit.unit : Run PUnit) w4 = Res.ok PUnit.unit w4 from rfl)]
      obtain ⟨x, t0, hx⟩ := MAY_DIE_writeRegBlock_log env BAROMETER_SLAVE_ADDRESS
        BAROMETER_REG_CTRL_REG2 BAROMETER_BFLD_BOOT
        "WriteIicReg(BAROMETER_REG_CTRL_REG2::BAROMETER_BFLD_BOOT -> 0x%08x\r\n" w4
      refine ⟨x, ?_⟩
      refine Run.bind_log_head ⟨t0, hx⟩ (fun _ => ?_)
      repeat' (with_reducible first
        | exact MAY_DIE_step (readRegBlock_codeStep _ _ _ _ _)
        | exact MAY_DIE_step (writeRegBlock_codeStep _ _ _ _ _)
        | exact MAY_DIE_step (failBlock_codeStep _ _)
        | exact MAY_DIE_step (failIfBlock_codeStep _ _ _)
        | exact Run.Sat.ofPure Step_chains _
        | exact Run.Sat.ofPureUnit Step_chains
        | exact Run.Sat.ofForTimeout Step_chains
            (fun b => MAY_DIE_step (readRegBlock_codeStep _ _ _ _ b)) exec_delay_step _ _
        | refine Run.Sat.ofIte ?_ ?_
        | refine Run.Sat.ofBind Step_chains ?_ (fun _ => ?_))
    obtain ⟨x, t, hxt⟩ := hb
    obtain ⟨tail, htail⟩ := StartBarometer_log_body env w
    refine ⟨x, t ++ tail, ?_⟩
    rw [htail, hxt, l4, l3]
    simp
  · subst hans
    obtain ⟨w4, e4, l4, c4, f4, b4⟩ := forTimeout_poll_done env BAROMETER_SLAVE_ADDRESS
      BAROMETER_REG_CTRL_REG2 "ReadIicReg(BAROMETER_REG_CTRL_REG2) -> 0x%08x\r\n"
      (fun b => 0 == (b &&& BAROMETER_BFLD_SWRESET)) c bs 100 (0xB1 % 256) w3 c3 hpoll
      (fun b hb => hdoneOf b (hbyte b (List.mem_append_left _ hb)) (hset b hb))
      (by
        rw [Nat.mod_eq_of_lt (hbyte c (by simp))]
        simp [hclr])
      (by omega)
    rw [hdie _ w4 e4 (by
      show (((100 - 1 - bs.length : Nat) : Int) ≤ 0)
      omega)]
    refine ⟨?_, ?_, rfl⟩
    · simp [configPRINTF, l4, l3]
    · show w4.sys.bBarometerOk = 0
      rw [f4]
      exact k3
  · obtain ⟨last, w4, e4, l4, c4, f4, b4⟩ := forTimeout_poll_exhausted env BAROMETER_SLAVE_ADDRESS
      BAROMETER_REG_CTRL_REG2 "ReadIicReg(BAROMETER_REG_CTRL_REG2) -> 0x%08x\r\n"
      (fun b => 0 == (b &&& BAROMETER_BFLD_SWRESET)) answers 100 (0xB1 % 256) w3 c3 hpoll
      (fun b hb => hdoneOf b (hbyte b hb) (hset b hb)) hlen
    rw [hdie _ w4 e4 (by show (-1 : Int) ≤ 0; decide)]
    refine ⟨?_, ?_, rfl⟩
    · simp [configPRINTF, l4, l3]
    · show w4.sys.bBarometerOk = 0
      rw [f4]
      exact k3

set_option maxRecDepth 1000000 in
/-- C19 at the input on which the code departs from it: a barometer whose
soft-reset bit is set in the first 99 reads of control register 2 and clear in
the 100th.  The wait has seen the bit clear within its 100 polls, and yet
`StartBarometer` reports the timeout and returns with the barometer disabled
and the error flag set, without having written the boot command. -/
theorem C19_failing_input :
    pollAnswers (slowResetEnv 100) BAROMETER_SLAVE_ADDRESS BAROMETER_REG_CTRL_REG2
      (swresetLog bootWorld.log) (List.replicate 99 BAROMETER_BFLD_SWRESET ++ [0]) = true ∧
    (StartBarometer (slowResetEnv 100) bootWorld).log =
      swresetLog bootWorld.log ++
        pollLog BAROMETER_SLAVE_ADDRESS BAROMETER_REG_CTRL_REG2
          (List.replicate 99 BAROMETER_BFLD_SWRESET) ++
        readEvents BAROMETER_SLAVE_ADDRESS BAROMETER_REG_CTRL_REG2 0 ++
        [Event.print "Barometer swreset timeout\r\n" [XST_FAILURE],
         Event.print "ERROR: Barometer started not ok\r\n" []] ∧
    (StartBarometer (slowResetEnv 100) bootWorld).sys.bBarometerOk = 0 ∧
    (StartBarometer (slowResetEnv 100) bootWorld).sys.bError = 1 :=
  ⟨by decide,
   ((C19_swreset_wait (slowResetEnv 100) bootWorld
      (List.replicate 99 BAROMETER_BFLD_SWRESET ++ [0])
      ⟨by decide, by decide, by decide⟩ (by decide) (by decide) (by decide)).1
      (List.replicate 99 BAROMETER_BFLD_SWRESET) 0 rfl (by decide) (by decide)).2 (by decide)⟩

/-- C20: for every prior state of the system, whatever its `rc`,
`StartPLTempSensor` returns with the thermocouple enabled and has written to the
SPI controller, in this order, the reset value to the reset register, the
configuration inhibited, manual slave select, master, enabled to the control
register and the deselect-all value to the slave-select register, with a delay
of one millisecond after the first and the last write; `rc` is not touched. -/
theorem C20_thermocouple_bringup (w : World) :
    (StartPLTempSensor w).sys.bThermocoupleOk = pdTRUE ∧
    (StartPLTempSensor w).log = w.log ++
      [Event.spiWrite XSP_SRR_OFFSET AXI_SPI_RESET_VALUE,
       Event.taskDelay 1,
       Event.spiWrite XSP_CR_OFFSET (XSP_CR_TRANS_INHIBIT_MASK ||| XSP_CR_MANUAL_SS_MASK |||
         XSP_CR_MASTER_MODE_MASK ||| XSP_CR_ENABLE_MASK),
       Event.spiWrite XSP_SSR_OFFSET PL_SPI_CHANNEL_SEL_NONE,
       Event.taskDelay 1,
       Event.print "PL Thermocouple started - check state after first reading\r\n" []] ∧
    AXI_SPI_RESET_VALUE = 0x0A ∧ PL_SPI_CHANNEL_SEL_NONE = 0xFFFFFFFF ∧
    (StartPLTempSensor w).sys.rc = w.sys.rc := by
  refine ⟨rfl, ?_, rfl, rfl, rfl⟩
  simp [StartPLTempSensor, XSpi_WriteReg, vTaskDelay, configPRINTF, MAX31855_CR_INIT_MODE]

/-! ## The busy-wait loops of the SPI transaction -/

/-- While the status register does not show the transmit FIFO empty, the first
loop of `XSpi_LowLevelExecute` uses up any number of reads. -/
theorem XSpi_LowLevelExecute_waitTx_stuck (env : Env)
    (h : ∀ log, env.XSpi_ReadReg log XSP_SR_OFFSET % 2 ^ 32 &&& XSP_SR_TX_EMPTY_MASK = 0)
    (fuel : Nat) (w : World) :
    XSpi_LowLevelExecute_waitTx env fuel w = Except.error Fault.outOfFuel := by
  induction fuel generalizing w with
  | zero => rfl
  | succ n ih =>
    unfold XSpi_LowLevelExecute_waitTx
    simp only [XSpi_ReadReg]
    rw [if_neg (by rw [h]; decide)]
    exact ih _

/-- While the occupancy register does not show the expected count, the second
loop of `XSpi_LowLevelExecute` uses up any number of reads. -/
theorem XSpi_LowLevelExecute_waitRx_stuck (env : Env) (expected : Nat)
    (h : ∀ log, env.XSpi_ReadReg log XSP_RFO_OFFSET % 2 ^ 32 ≠ expected)
    (fuel : Nat) (w : World) :
    XSpi_LowLevelExecute_waitRx env expected fuel w = Except.error Fault.outOfFuel := by
  induction fuel generalizing w with
  | zero => rfl
  | succ n ih =>
    unfold XSpi_LowLevelExecute_waitRx
    simp only [XSpi_ReadReg]
    rw [if_pos (fun e => h _ e.symm)]
    exact ih _

/-- The first loop of `XSpi_LowLevelExecute` ends with the first read when the
status register shows the transmit FIFO empty. -/
theorem XSpi_LowLevelExecute_waitTx_first (env : Env) (fuel : Nat) (w : World)
    (h : env.XSpi_ReadReg w.log XSP_SR_OFFSET % 2 ^ 32 &&& XSP_SR_TX_EMPTY_MASK ≠ 0) :
    XSpi_LowLevelExecute_waitTx env (fuel + 1) w =
      Except.ok (w.emit (Event.spiRead XSP_SR_OFFSET
        (env.XSpi_ReadReg w.log XSP_SR_OFFSET % 2 ^ 32))) := by
  unfold XSpi_LowLevelExecute_waitTx
  simp only [XSpi_ReadReg]
  rw [if_pos h]

/-- C21 (what the code does): the transaction has no bound of its own.  On a
controller whose status register never shows the transmit FIFO empty,
`XSpi_LowLevelExecute` has not returned after any number `fuel` of reads of that
register, whatever `fuel` is, and neither has `SamplePLTempSensor` on an enabled
thermocouple.  The same holds when the transmit FIFO reads empty but the
occupancy register never shows the count `xByteCount - 1`. -/
theorem C21_transaction_blocks (env : Env) (fuel ch n : Nat) (tx rx : List Nat) (w : World) :
    ((∀ log, env.XSpi_ReadReg log XSP_SR_OFFSET % 2 ^ 32 &&& XSP_SR_TX_EMPTY_MASK = 0) →
      XSpi_LowLevelExecute env fuel ch n tx rx w = Except.error Fault.outOfFuel ∧
      (w.sys.bThermocoupleOk ≠ 0 →
        SamplePLTempSensor env fuel w = Except.error Fault.outOfFuel)) ∧
    ((∀ log, env.XSpi_ReadReg log XSP_SR_OFFSET % 2 ^ 32 &&& XSP_SR_TX_EMPTY_MASK ≠ 0) →
      (∀ log, env.XSpi_ReadReg log XSP_RFO_OFFSET % 2 ^ 32 ≠ toU32 ((n : Int) - 1)) →
      XSpi_LowLevelExecute env fuel ch n tx rx w = Except.error Fault.outOfFuel) := by
  constructor
  · intro h
    have key : ∀ (ch n : Nat) (tx rx : List Nat) (w : World),
        XSpi_LowLevelExecute env fuel ch n tx rx w = Except.error Fault.outOfFuel := by
      intro ch n tx rx w
      unfold XSpi_LowLevelExecute
      simp only []
      rw [XSpi_LowLevelExecute_waitTx_stuck env h]
    refine ⟨key ch n tx rx w, fun hen => ?_⟩
    unfold SamplePLTempSensor
    rw [if_neg hen, key]
  · intro h1 h2
    unfold XSpi_LowLevelExecute
    simp only []
    cases fuel with
    | zero => rfl
    | succ k =>
      rw [XSpi_LowLevelExecute_waitTx_first env k _ (h1 _)]
      simp only []
      rw [XSpi_LowLevelExecute_waitRx_stuck env _ h2]

/-- C21 at a failing input: on a controller all of whose registers read zero the
sample of an enabled thermocouple is still in its first loop after a million
reads of the status register; on a controller whose transmit FIFO reads empty
and whose occupancy register stays at zero the transaction of four words is
still in its second loop after a million reads. -/
theorem C21_failing_input :
    SamplePLTempSensor busySpiEnv 1000000 enabledWorld = Except.error Fault.outOfFuel ∧
    XSpi_LowLevelExecute noAnswerSpiEnv 1000000 PL_SPI_CHANNEL_SEL_0 4 [0, 0, 0, 0]
      [0xFFFFFFFF, 0xFFFFFFFF, 0xFFFFFFFF, 0xFFFFFFFF] enabledWorld =
      Except.error Fault.outOfFuel :=
  ⟨((C21_transaction_blocks busySpiEnv 1000000 PL_SPI_CHANNEL_SEL_0 4 [0, 0, 0, 0]
      [0xFFFFFFFF, 0xFFFFFFFF, 0xFFFFFFFF, 0xFFFFFFFF] enabledWorld).1
      (fun _ => by simp [busySpiEnv])).2 (by decide),
   (C21_transaction_blocks noAnswerSpiEnv 1000000 PL_SPI_CHANNEL_SEL_0 4 [0, 0, 0, 0]
      [0xFFFFFFFF, 0xFFFFFFFF, 0xFFFFFFFF, 0xFFFFFFFF] enabledWorld).2
      (fun _ => by simp [noAnswerSpiEnv]) (fun _ => by simp [noAnswerSpiEnv, toU32])⟩

/-! ## Division by zero in the hygrometer decode -/

theorem faultOf_eq_error (r : Except Fault World) (f : Fault) (h : faultOf r = some f) :
    r = Except.error f := by
  cases r with
  | ok w1 => cases h
  | error g =>
    cases h
    rfl

theorem Res.eq_ok_of_value {α : Type} (r : Res α) (a : α) (h : r.value? = some a) :
    r = Res.ok a r.world := by
  cases r with
  | ok b w1 =>
    cases h
    rfl
  | die w1 => cases h

theorem humidityOfBytes_equal_anchors (b30 b31 b36 b37 b3A b3B b28 b29 : Nat)
    (h36 : b36 < 256) (h3A : b3A < 256) (he : le16 b3A b3B = le16 b36 b37) :
    humidityOfBytes b30 b31 b36 b37 b3A b3B b28 b29 = none := by
  unfold humidityOfBytes SampleHygrometer_humidityValue SampleHygrometer_interpolate
  rw [le16_eq _ _ h36, le16_eq _ _ h3A, he]
  simp

theorem temperatureOfBytes_equal_anchors (b32 b33 b35 b3C b3D b3E b3F b2A b2B : Nat)
    (h3C : b3C < 256) (h3E : b3E < 256) (he : le16 b3E b3F = le16 b3C b3D) :
    temperatureOfBytes b32 b33 b35 b3C b3D b3E b3F b2A b2B = none := by
  unfold temperatureOfBytes SampleHygrometer_temperatureValue SampleHygrometer_interpolate
  rw [le16_eq _ _ h3C, le16_eq _ _ h3E, he]
  simp

/-- C22 (what the code does): a sample of an enabled hygrometer either returns or
ends in a division by zero, and it does end in a division by zero whenever the
reads of a decode all succeed and deliver equal anchors: H1_OUT = H0_OUT in the
humidity decode, or T1_OUT = T0_OUT in the temperature decode that follows a
humidity decode with the value `vh`. -/
theorem C22_hygrometer_division_by_zero (env : Env) (w : World)
    (hen : w.sys.bHygrometerOk ≠ 0) :
    (∀ f, SampleHygrometer env w = Except.error f → f = Fault.divisionByZero) ∧
    (∀ (v : Option Nat) (wa : World) (pre : List Event) (b30 b31 b36 b37 b3A b3B b28 b29 : Nat),
      SampleHygrometer_humidity env (w.setRc XST_SUCCESS) = Res.ok v wa →
      wa.log = pre ++ hygrometerHumidityReads b30 b31 b36 b37 b3A b3B b28 b29 →
      le16 (b3A % 256) (b3B % 256) = le16 (b36 % 256) (b37 % 256) →
      SampleHygrometer env w = Except.error Fault.divisionByZero) ∧
    (∀ (vh : Nat) (wa wb : World) (v : Option Nat)
        (b32 b33 b35 b3C b3D b3E b3F b2A b2B : Nat),
      SampleHygrometer_humidity env (w.setRc XST_SUCCESS) = Res.ok (some vh) wa →
      SampleHygrometer_temperature env { wa with sys.fHygrometerHumidity := f32 vh } =
        Res.ok v wb →
      wb.log = wa.log ++ hygrometerTemperatureReads b32 b33 b35 b3C b3D b3E b3F b2A b2B →
      le16 (b3E % 256) (b3F % 256) = le16 (b3C % 256) (b3D % 256) →
      SampleHygrometer env w = Except.error Fault.divisionByZero) := by
  refine ⟨?_, ?_, ?_⟩
  · intro f hf
    unfold SampleHygrometer at hf
    rw [if_neg hen] at hf
    cases hh : SampleHygrometer_humidity env (w.setRc XST_SUCCESS) with
    | die wa =>
      rw [hh] at hf
      cases hf
    | ok v wa =>
      rw [hh] at hf
      cases v with
      | none =>
        cases hf
        rfl
      | some vh =>
        simp only [] at hf
        cases ht : SampleHygrometer_temperature env
            { wa with sys.fHygrometerHumidity := f32 vh } with
        | die wb =>
          rw [ht] at hf
          cases hf
        | ok v2 wb =>
          rw [ht] at hf
          cases v2 with
          | none =>
            cases hf
            rfl
          | some vt => cases hf
  · intro v wa pre b30 b31 b36 b37 b3A b3B b28 b29 hh hlog he
    obtain ⟨pre1, x1, x2, x3, x4, x5, x6, x7, x8, hl1, hv1⟩ :=
      SampleHygrometer_humidity_ok env _ wa v hh
    have hl3 : pre1 ++ hygrometerHumidityReads x1 x2 x3 x4 x5 x6 x7 x8 =
        pre ++ hygrometerHumidityReads b30 b31 b36 b37 b3A b3B b28 b29 := by
      rw [← hl1, hlog]
    have hev := (List.append_inj' hl3 (by simp [hygrometerHumidityReads, readEvents])).2
    simp only [hygrometerHumidityReads, readEvents,
      List.cons_append, List.nil_append, List.cons.injEq, Event.iicRecv.injEq,
      and_true, true_and] at hev
    obtain ⟨r1, r2, r3, r4, r5, r6, r7, r8⟩ := hev
    subst r1 r2 r3 r4 r5 r6 r7 r8
    rw [humidityOfBytes_equal_anchors _ _ _ _ _ _ _ _ (Nat.mod_lt _ (by norm_num))
      (Nat.mod_lt _ (by norm_num)) he] at hv1
    subst hv1
    unfold SampleHygrometer
    rw [if_neg hen, hh]
  · intro vh wa wb v b32 b33 b35 b3C b3D b3E b3F b2A b2B hh ht hlog he
    obtain ⟨y1, y2, y3, y4, y5, y6, y7, y8, y9, hl2, hv2⟩ :=
      SampleHygrometer_temperature_ok env _ wb v ht
    have hl3 : wa.log ++ hygrometerTemperatureReads y1 y2 y3 y4 y5 y6 y7 y8 y9 =
        wa.log ++ hygrometerTemperatureReads b32 b33 b35 b3C b3D b3E b3F b2A b2B := by
      rw [← hlog]
      exact hl2.symm
    have hev := List.append_cancel_left hl3
    simp only [hygrometerTemperatureReads, readEvents,
      List.cons_append, List.nil_append, List.cons.injEq, Event.iicRecv.injEq,
      and_true, true_and] at hev
    obtain ⟨q1, q2, q3, q4, q5, q6, q7, q8, q9⟩ := hev
    subst q1 q2 q3 q4 q5 q6 q7 q8 q9
    rw [temperatureOfBytes_equal_anchors _ _ _ _ _ _ _ _ _ (Nat.mod_lt _ (by norm_num))
      (Nat.mod_lt _ (by norm_num)) he] at hv2
    subst hv2
    unfold SampleHygrometer
    rw [if_neg hen, hh]
    simp only []
    rw [ht]

/-- C22 at a failing input: an enabled hygrometer on an ideal bus whose anchor
registers H0_OUT and H1_OUT both read zero.  All reads of the humidity decode
succeed and the sample ends in the division by zero of step 5.  On a device
whose humidity registers are those of the example and whose anchors T0_OUT and
T1_OUT both read zero the sample ends in the division by zero of step 6. -/
theorem C22_failing_input :
    (SampleHygrometer_humidity (regEnv equalAnchorRegs)
      (enabledWorld.setRc XST_SUCCESS)).value? = some none ∧
    SampleHygrometer (regEnv equalAnchorRegs) enabledWorld =
      Except.error Fault.divisionByZero ∧
    SampleHygrometer (regEnv equalTemperatureAnchorRegs) enabledWorld =
      Except.error Fault.divisionByZero :=
  ⟨by decide,
   (C22_hygrometer_division_by_zero (regEnv equalAnchorRegs) enabledWorld (by decide)).2.1
      none (SampleHygrometer_humidity (regEnv equalAnchorRegs)
        (enabledWorld.setRc XST_SUCCESS)).world
      ((SampleHygrometer_humidity (regEnv equalAnchorRegs)
        (enabledWorld.setRc XST_SUCCESS)).world.log.take 5)
      0 0 0 0 0 0 0 0 (Res.eq_ok_of_value _ _ (by decide)) (by decide) (by decide),
   faultOf_eq_error _ _ (by decide)⟩

/-! ## Calibration temperatures of the hygrometer -/

set_option maxRecDepth 100000 in
theorem and_three_eq_mod (m : Nat) (hm : m < 256) : m &&& 0x03 = m % 4 := by
  revert m
  decide

set_option maxRecDepth 100000 in
theorem and_twelve_shiftLeft (m : Nat) (hm : m < 256) :
    (m &&& 0x0C) <<< 6 = (m / 4 % 4) <<< 8 := by
  revert m
  decide

/-- C25: for all bytes `t0`, `t1` and `m` read from the registers T0_degC_x8,
T1_degC_x8 and T1_T0_MSB, the calibration temperatures that the temperature
decode uses are `T0_degC = ((m mod 4) * 256 + t0) / 8` and
`T1_degC = (((m / 4) mod 4) * 256 + t1) / 8` with truncating division; both lie
in 0..127, and two bytes `m` that agree in their bits 0..3 give the same
temperatures.  These are the values with which the temperature decode of
`SampleHygrometer` interpolates whenever its nine reads succeed and the first
three deliver `t0`, `t1` and `m`. -/
theorem C25_calibration_temperature (t0 t1 m : Nat) (h0 : t0 < 256) (h1 : t1 < 256)
    (hm : m < 256) :
    T0_degC_of t0 m = (m % 4 * 256 + t0) / 8 ∧
    T1_degC_of t1 m = (m / 4 % 4 * 256 + t1) / 8 ∧
    T0_degC_of t0 m ≤ 127 ∧ T1_degC_of t1 m ≤ 127 ∧
    (∀ m2, m2 < 256 → m2 % 16 = m % 16 →
      T0_degC_of t0 m2 = T0_degC_of t0 m ∧ T1_degC_of t1 m2 = T1_degC_of t1 m) ∧
    (∀ b3C b3D b3E b3F b2A b2B : Nat,
      temperatureOfBytes t0 t1 m b3C b3D b3E b3F b2A b2B =
        SampleHygrometer_temperatureValue (((b2B <<< 8) ||| b2A : Nat) : Int)
          (((b3D <<< 8) ||| b3C : Nat) : Int) (((b3F <<< 8) ||| b3E : Nat) : Int)
          (((m % 4 * 256 + t0) / 8 : Nat) : Int) (((m / 4 % 4 * 256 + t1) / 8 : Nat) : Int)) ∧
    (∀ (env : Env) (w wb : World) (v : Option Nat) (b3C b3D b3E b3F b2A b2B : Nat),
      SampleHygrometer_temperature env w = Res.ok v wb →
      wb.log = w.log ++ hygrometerTemperatureReads t0 t1 m b3C b3D b3E b3F b2A b2B →
      v = SampleHygrometer_temperatureValue
          ((((b2B % 256) <<< 8) ||| (b2A % 256) : Nat) : Int)
          ((((b3D % 256) <<< 8) ||| (b3C % 256) : Nat) : Int)
          ((((b3F % 256) <<< 8) ||| (b3E % 256) : Nat) : Int)
          (((m % 4 * 256 + t0) / 8 : Nat) : Int) (((m / 4 % 4 * 256 + t1) / 8 : Nat) : Int)) := by
  have e0 : ∀ x, x < 256 → T0_degC_of t0 x = (x % 4 * 256 + t0) / 8 := by
    intro x hx
    unfold T0_degC_of
    rw [and_three_eq_mod x hx, shiftLeft_or_of_lt _ _ 8 (by simpa using h0),
      Nat.shiftRight_eq_div_pow]
    norm_num [Nat.mul_comm]
  have e1 : ∀ x, x < 256 → T1_degC_of t1 x = (x / 4 % 4 * 256 + t1) / 8 := by
    intro x hx
    unfold T1_degC_of
    rw [and_twelve_shiftLeft x hx, shiftLeft_or_of_lt _ _ 8 (by simpa using h1),
      Nat.shiftRight_eq_div_pow]
    norm_num [Nat.mul_comm]
  have hbytes : ∀ b3C b3D b3E b3F b2A b2B : Nat,
      temperatureOfBytes t0 t1 m b3C b3D b3E b3F b2A b2B =
        SampleHygrometer_temperatureValue (((b2B <<< 8) ||| b2A : Nat) : Int)
          (((b3D <<< 8) ||| b3C : Nat) : Int) (((b3F <<< 8) ||| b3E : Nat) : Int)
          (((m % 4 * 256 + t0) / 8 : Nat) : Int) (((m / 4 % 4 * 256 + t1) / 8 : Nat) : Int) := by
    intro b3C b3D b3E b3F b2A b2B
    unfold temperatureOfBytes
    have a0 : (((m &&& 0x03) <<< 8) ||| t0) >>> 3 = (m % 4 * 256 + t0) / 8 := e0 m hm
    have a1 : (((m &&& 0x0C) <<< 6) ||| t1) >>> 3 = (m / 4 % 4 * 256 + t1) / 8 := e1 m hm
    rw [a0, a1]
  refine ⟨e0 m hm, e1 m hm, ?_, ?_, ?_, hbytes, ?_⟩
  · rw [e0 m hm]
    omega
  · rw [e1 m hm]
    omega
  · intro m2 hm2 he
    rw [e0 m2 hm2, e1 m2 hm2, e0 m hm, e1 m hm]
    have a : m2 % 4 = m % 4 := by omega
    have b : m2 / 4 % 4 = m / 4 % 4 := by omega
    rw [a, b]
    exact ⟨rfl, rfl⟩
  · intro env w wb v b3C b3D b3E b3F b2A b2B ht hlog
    obtain ⟨y1, y2, y3, y4, y5, y6, y7, y8, y9, hl2, hv2⟩ :=
      SampleHygrometer_temperature_ok env w wb v ht
    have hl3 : w.log ++ hygrometerTemperatureReads y1 y2 y3 y4 y5 y6 y7 y8 y9 =
        w.log ++ hygrometerTemperatureReads t0 t1 m b3C b3D b3E b3F b2A b2B := by
      rw [← hlog]
      exact hl2.symm
    have hev := List.append_cancel_left hl3
    simp only [hygrometerTemperatureReads, readEvents,
      List.cons_append, List.nil_append, List.cons.injEq, Event.iicRecv.injEq,
      and_true, true_and] at hev
    obtain ⟨q1, q2, q3, q4, q5, q6, q7, q8, q9⟩ := hev
    subst q1 q2 q3 q4 q5 q6 q7 q8 q9
    rw [hv2, Nat.mod_eq_of_lt h0, Nat.mod_eq_of_lt h1, Nat.mod_eq_of_lt hm]
    exact hbytes _ _ _ _ _ _

/-- C25 at a concrete input: T0_degC_x8 = 0xA0, T1_degC_x8 = 0xF0 and the byte
0xF6 in the shared register (bits 0..1 are 2, bits 2..3 are 1) give
T0_degC = (2 * 256 + 160) / 8 = 84 and T1_degC = (256 + 240) / 8 = 62; the byte
0x06 gives the same. -/
theorem C25_witness :
    T0_degC_of 0xA0 0xF6 = 84 ∧ T1_degC_of 0xF0 0xF6 = 62 ∧
    T0_degC_of 0xA0 0x06 = 84 ∧ T1_degC_of 0xF0 0x06 = 62 :=
  have h := C25_calibration_temperature 0xA0 0xF0 0xF6 (by decide) (by decide) (by decide)
  have h2 := h.2.2.2.2.1 0x06 (by decide) (by decide)
  ⟨h.1.trans (by decide), h.2.1.trans (by decide), h2.1.trans (h.1.trans (by decide)),
    h2.2.trans (h.2.1.trans (by decide))⟩

/-! ## The last reported error flag -/

theorem prvPublishShadow_sys (env : Env) (w : World) : (prvPublishShadow env w).sys = w.sys := by
  unfold prvPublishShadow
  by_cases hh : w.sys.xMQTTHandle = 0
  · rw [if_pos hh]
  · rw [if_neg hh]
    exact (prvPublish_spec env _ _ _ _ _ w).1

theorem prvUZedIotTask_report_last (env : Env) (bFirst : Nat) (w : World) :
    (prvUZedIotTask_report env bFirst w).sys.bLastReportedError =
      (prvUZedIotTask_report env bFirst w).sys.bError := by
  unfold prvUZedIotTask_report
  by_cases hc : w.sys.bLastReportedError ≠ w.sys.bError ∨ bFirst ≠ 0
  · rw [if_pos hc, prvPublishShadow_sys]
  · rw [if_neg hc]
    by_contra hne
    exact hc (Or.inl hne)

theorem prvUZedIotTask_tick_last (env : Env) (fuel bFirst b1 : Nat) (w w1 : World)
    (h : prvUZedIotTask_tick env fuel bFirst w = Except.ok (b1, w1)) :
    w1.sys.bLastReportedError = w1.sys.bError := by
  unfold prvUZedIotTask_tick at h
  simp only [] at h
  cases hS : prvUZedIotTask_samples env fuel (vTaskDelayUntil SAMPLING_PERIOD_MS w) with
  | error f => rw [hS] at h; cases h
  | ok wS =>
    rw [hS] at h
    simp only [] at h
    cases h
    exact prvUZedIotTask_report_last env bFirst _

/-- C29: in every run of the first `n` rounds of the task loop, whatever the
world and the value of `bFirst` it is entered with (so whatever
`bLastReportedError` held before the first round) and whatever the error flags
of the rounds are, `bLastReportedError` equals `bError` at the end of every
round. -/
theorem C29_last_reported_equals_error (env : Env) (fuel n bFirst : Nat) (w : World)
    (ws : List World) (h : prvUZedIotTask_loop env fuel n bFirst w = Except.ok ws) :
    ws.length = n ∧ ∀ x ∈ ws, x.sys.bLastReportedError = x.sys.bError := by
  induction n generalizing bFirst w ws with
  | zero =>
    unfold prvUZedIotTask_loop at h
    cases h
    exact ⟨rfl, fun x hx => by cases hx⟩
  | succ k ih =>
    unfold prvUZedIotTask_loop at h
    cases hT : prvUZedIotTask_tick env fuel bFirst w with
    | error f => rw [hT] at h; cases h
    | ok r =>
      obtain ⟨b1, w1⟩ := r
      rw [hT] at h
      simp only [] at h
      cases hL : prvUZedIotTask_loop env fuel k b1 w1 with
      | error f => rw [hL] at h; cases h
      | ok ws1 =>
        rw [hL] at h
        simp only [] at h
        cases h
        obtain ⟨hlen, hall⟩ := ih b1 w1 ws1 hL
        refine ⟨by simp [hlen], fun x hx => ?_⟩
        rcases List.mem_cons.mp hx with hx | hx
        · rw [hx]
          exact prvUZedIotTask_tick_last env fuel bFirst b1 w w1 hT
        · exact hall x hx

set_option maxRecDepth 100000 in
/-- C29 at a concrete input: the five rounds of a connected system whose
thermocouple frames carry the open-circuit bit in rounds 3 and 4, entered with
`bLastReportedError = 1`; the error flags are 0, 0, 1, 1, 0 and so are the last
reported flags at the end of the rounds. -/
theorem C29_witness :
    (loopResult (prvUZedIotTask_loop (tickSpiEnv [0, 0, 1, 1, 0]) 8 5 1
      { connectedWorld with sys.bLastReportedError := 1 })).map
      (fun x => x.sys.bError) = [0, 0, 1, 1, 0] ∧
    ∀ x ∈ loopResult (prvUZedIotTask_loop (tickSpiEnv [0, 0, 1, 1, 0]) 8 5 1
      { connectedWorld with sys.bLastReportedError := 1 }),
      x.sys.bLastReportedError = x.sys.bError :=
  ⟨by decide,
   (C29_last_reported_equals_error (tickSpiEnv [0, 0, 1, 1, 0]) 8 5 1
      { connectedWorld with sys.bLastReportedError := 1 }
      (loopResult (prvUZedIotTask_loop (tickSpiEnv [0, 0, 1, 1, 0]) 8 5 1
        { connectedWorld with sys.bLastReportedError := 1 }))
      (loopResult_eq_ok _ (by decide))).2⟩

/-! ## The range of the humidity reading -/

/-- C30: for every successful sample of an enabled hygrometer with
H1_OUT ≠ H0_OUT, with `r` the truncating interpolation
`(H_OUT - H0_OUT) * (H1_rh - H0_rh) / (H1_OUT - H0_OUT) + H0_rh` over the bytes
read, the stored humidity is `min (r mod 2 ^ 16) 1000`, the result being
narrowed to `u16` before the saturation test; so the stored humidity lies in
0..1000. -/
theorem C30_humidity_range (env : Env) (w w1 : World) (pre : List Event)
    (b30 b31 b36 b37 b3A b3B b28 b29 b32 b33 b35 b3C b3D b3E b3F b2A b2B : Nat)
    (hen : w.sys.bHygrometerOk ≠ 0)
    (hok : SampleHygrometer env w = Except.ok w1)
    (hrc : w1.sys.rc = XST_SUCCESS)
    (hlog : w1.log = pre ++ hygrometerHumidityReads b30 b31 b36 b37 b3A b3B b28 b29 ++
      hygrometerTemperatureReads b32 b33 b35 b3C b3D b3E b3F b2A b2B)
    (hb : ∀ b ∈ [b30, b31, b36, b37, b3A, b3B, b28, b29, b32, b33, b35, b3C, b3D, b3E,
      b3F, b2A, b2B], b < 256)
    (hne : le16 b3A b3B ≠ le16 b36 b37) :
    w1.sys.fHygrometerHumidity =
      ((min (interpolationSpec (le16 b28 b29) (le16 b36 b37) (le16 b3A b3B)
        ((b30 / 2 : Nat) : Int) ((b31 / 2 : Nat) : Int) % 2 ^ 16) 1000 : Int) : ℚ) ∧
    0 ≤ w1.sys.fHygrometerHumidity ∧ w1.sys.fHygrometerHumidity ≤ 1000 := by
  have hst := (SampleHygrometer_stored env w w1 pre b30 b31 b36 b37 b3A b3B b28 b29 b32 b33
    b35 b3C b3D b3E b3F b2A b2B hen hok hrc hlog hb).1 hne
  generalize interpolationSpec (le16 b28 b29) (le16 b36 b37) (le16 b3A b3B)
    ((b30 / 2 : Nat) : Int) ((b31 / 2 : Nat) : Int) = r at hst ⊢
  have hu : ((toU16 r : Nat) : Int) = r % 2 ^ 16 := by
    unfold toU16
    exact Int.toNat_of_nonneg (Int.emod_nonneg _ (by norm_num))
  have hm : (((min (toU16 r) 1000 : Nat)) : Int) = min (r % 2 ^ 16) 1000 := by
    rw [← hu]
    omega
  refine ⟨?_, ?_, ?_⟩
  · rw [hst, ← hm]
    norm_cast
  · rw [hst]
    positivity
  · rw [hst]
    have : min (toU16 r) 1000 ≤ 1000 := Nat.min_le_right _ _
    exact_mod_cast this

/-- C30 at a concrete input: an ideal bus whose hygrometer holds H0_rh = 0,
H1_rh = 1, H0_OUT = 1, H1_OUT = 2 and H_OUT = 0; the interpolation gives -1,
which is 65535 modulo 2 ^ 16, and the stored humidity is 1000. -/
theorem C30_witness :
    returned (SampleHygrometer (regEnv belowAnchorRegs) enabledWorld) = true ∧
    (resultWorld (SampleHygrometer (regEnv belowAnchorRegs) enabledWorld) enabledWorld).sys.rc =
      XST_SUCCESS ∧
    interpolationSpec (le16 0 0) (le16 1 0) (le16 2 0) ((0 / 2 : Nat) : Int)
      ((2 / 2 : Nat) : Int) = -1 ∧
    (resultWorld (SampleHygrometer (regEnv belowAnchorRegs) enabledWorld)
      enabledWorld).sys.fHygrometerHumidity = 1000 := by
  have hst := (C30_humidity_range (regEnv belowAnchorRegs) enabledWorld
    (resultWorld (SampleHygrometer (regEnv belowAnchorRegs) enabledWorld) enabledWorld)
    ((resultWorld (SampleHygrometer (regEnv belowAnchorRegs) enabledWorld)
      enabledWorld).log.take 5)
    0 2 1 0 2 0 0 0 0 8 0 1 0 2 0 0 0
    (by decide) (returned_eq_ok _ _ (by decide)) (by decide) (by decide) (by decide)
    (by decide)).1
  have hv : min (interpolationSpec (le16 0 0) (le16 1 0) (le16 2 0)
      ((0 / 2 : Nat) : Int) ((2 / 2 : Nat) : Int) % 2 ^ 16) 1000 = 1000 := by decide
  rw [hv] at hst
  refine ⟨by decide, by decide, by decide, ?_⟩
  rw [hst]
  norm_num

/-! ## The register writes of a bring-up -/

theorem Run.WritesOk.writesOfPure {α : Type} (a : α) : Run.WritesOk (Run.pure a) [] := by
  intro w b w1 h
  cases h
  exact ⟨[], by simp, rfl⟩

theorem Run.WritesOk.writesOfPureUnit : Run.WritesOk (Pure.pure PUnit.unit : Run PUnit) [] :=
  Run.WritesOk.writesOfPure PUnit.unit

theorem Run.WritesOk.writesOfBind {α β : Type} {m : Run α} {f : α → Run β} {ws1 ws2 : List Event}
    (hm : Run.WritesOk m ws1) (hf : ∀ a, Run.WritesOk (f a) ws2) :
    Run.WritesOk (m >>= f) (ws1 ++ ws2) := by
  intro w b w2 h
  obtain ⟨a, w1, h1, h2⟩ := Run.bind_ok h
  obtain ⟨n1, l1, f1⟩ := hm w a w1 h1
  obtain ⟨n2, l2, f2⟩ := hf a w1 b w2 h2
  exact ⟨n1 ++ n2, by rw [l2, l1, List.append_assoc], by rw [List.filter_append, f1, f2]⟩

theorem Run.WritesOk.writesOfIte {α : Type} {c : Prop} [Decidable c] {m n : Run α} {ws : List Event}
    (hm : Run.WritesOk m ws) (hn : Run.WritesOk n ws) :
    Run.WritesOk (if c then m else n) ws := by
  split
  · exact hm
  · exact hn

theorem MAY_DIE_readRegBlock_writesOk (env : Env) (a r : Nat) (m : String) (b0 : Nat) :
    Run.WritesOk (MAY_DIE (readRegBlock env a r m b0)) [] := by
  intro w x w1 h
  obtain ⟨b, -, hl⟩ := MAY_DIE_readRegBlock_ok h
  exact ⟨readEvents a r b, hl, rfl⟩

theorem MAY_DIE_writeRegBlock_ok {env : Env} {a r v : Nat} {m : String} {w w1 : World}
    {x : Unit} (h : MAY_DIE (writeRegBlock env a r v m) w = Res.ok x w1) :
    w1.log = w.log ++ [regWrite a r v] := by
  obtain ⟨h1, -, h3⟩ := MAY_DIE_ok h
  rw [h3]
  unfold writeRegBlock at h1 ⊢
  rw [WriteIicReg_eq] at h1 ⊢
  simp only [] at h1 ⊢
  by_cases c1 : 2 ≠ env.XIic_Send w.log a [r, v] XIIC_STOP
  · rw [if_pos c1] at h1
    exact absurd h1 (by simpa using mismatchRc_ne_zero _ 2 (by decide))
  · rw [if_neg c1] at h1 ⊢
    by_cases c2 : w.sys.rc ≠ XST_SUCCESS
    · rw [if_pos c2] at h1
      exact absurd h1 (by simpa using c2)
    · rw [if_neg c2]
      have : env.XIic_Send w.log a [r, v] XIIC_STOP = 2 := (not_not.mp c1).symm
      rw [this]
      rfl

theorem MAY_DIE_writeRegBlock_writesOk (env : Env) (a r v : Nat) (m : String) :
    Run.WritesOk (MAY_DIE (writeRegBlock env a r v m)) [regWrite a r v] := by
  intro w x w1 h
  exact ⟨[regWrite a r v], MAY_DIE_writeRegBlock_ok h, rfl⟩

theorem MAY_DIE_failBlock_writesOk (rc : Int) (m : String) :
    Run.WritesOk (MAY_DIE (failBlock rc m)) [] := by
  intro w x w1 h
  obtain ⟨-, -, h3⟩ := MAY_DIE_ok h
  exact ⟨[], by rw [h3]; simp [failBlock], rfl⟩

theorem MAY_DIE_failIfBlock_writesOk (c : Bool) (rc : Int) (m : String) :
    Run.WritesOk (MAY_DIE (failIfBlock c rc m)) [] := by
  intro w x w1 h
  obtain ⟨-, -, h3⟩ := MAY_DIE_ok h
  refine ⟨[], ?_, rfl⟩
  rw [h3]
  unfold failIfBlock
  split <;> simp [failBlock]

theorem Run.WritesOk.writesOfForTimeout {α : Type} {read : α → World → α × World} {done : α → Bool}
    (hread : ∀ b, Run.WritesOk (MAY_DIE (read b)) []) (n : Nat) (b : α) :
    Run.WritesOk (forTimeout read done n b) [] := by
  induction n generalizing b with
  | zero =>
    intro w x w1 h
    cases h
    exact ⟨[], by simp, rfl⟩
  | succ k ih =>
    intro w x w2 h
    unfold UzedIot.forTimeout at h
    obtain ⟨b1, w1, h1, h2⟩ := Run.bind_ok h
    obtain ⟨n1, l1, f1⟩ := hread b w b1 w1 h1
    by_cases hd : done b1 = true
    · rw [if_pos hd] at h2
      cases h2
      exact ⟨n1, l1, f1⟩
    · rw [if_neg hd] at h2
      obtain ⟨u, wd, hu, h3⟩ := Run.bind_ok h2
      cases hu
      obtain ⟨n2, l2, f2⟩ := ih b1 _ x w2 h3
      refine ⟨n1 ++ [Event.taskDelay 1] ++ n2, ?_, ?_⟩
      · rw [l2]
        show (w1.log ++ [_]) ++ n2 = _
        rw [l1]
        simp
      · rw [List.filter_append, List.filter_append, f1, f2]
        rfl

theorem Run.EndsWith.endsOfBind {α β : Type} {m : Run α} {f : α → Run β} {e : Event}
    (hm : Run.Sat Step m) (hf : ∀ a, Run.EndsWith (f a) e) : Run.EndsWith (m >>= f) e := by
  intro w b w2 h
  obtain ⟨a, w1, h1, h2⟩ := Run.bind_ok h
  obtain ⟨⟨n1, l1, -⟩, -⟩ := hm w
  rw [h1] at l1
  obtain ⟨pre, l2⟩ := hf a w1 b w2 h2
  exact ⟨n1 ++ pre, by
    rw [l2]
    have : w1.log = w.log ++ n1 := l1
    rw [this]
    simp⟩

theorem MAY_DIE_writeRegBlock_endsWith (env : Env) (a r v : Nat) (m : String) :
    Run.EndsWith (MAY_DIE (writeRegBlock env a r v m)) (regWrite a r v) := by
  intro w x w1 h
  exact ⟨[], by rw [MAY_DIE_writeRegBlock_ok h]; simp⟩

theorem Run.EndsWith.endsOfIte {α : Type} {c : Prop} [Decidable c] {m n : Run α} {e : Event}
    (hm : Run.EndsWith m e) (hn : Run.EndsWith n e) : Run.EndsWith (if c then m else n) e := by
  split
  · exact hm
  · exact hn

set_option maxRecDepth 8192 in
theorem StartBarometer_body_writesOk (env : Env) :
    Run.WritesOk (StartBarometer_body env) (StartBarometer_configWrites ++
      [regWrite BAROMETER_SLAVE_ADDRESS BAROMETER_REG_CTRL_REG1 BAROMETER_BFLD_PD]) := by
  have h : ∃ ws, Run.WritesOk (StartBarometer_body env) ws ∧
      ws = StartBarometer_configWrites ++
        [regWrite BAROMETER_SLAVE_ADDRESS BAROMETER_REG_CTRL_REG1 BAROMETER_BFLD_PD] := by
    apply Exists.intro
    apply And.intro
    case left =>
      unfold StartBarometer_body
      repeat' (with_reducible first
        | exact MAY_DIE_readRegBlock_writesOk _ _ _ _ _
        | exact MAY_DIE_writeRegBlock_writesOk _ _ _ _ _
        | exact MAY_DIE_failBlock_writesOk _ _
        | exact MAY_DIE_failIfBlock_writesOk _ _ _
        | exact Run.WritesOk.writesOfPure _
        | exact Run.WritesOk.writesOfPureUnit
        | exact Run.WritesOk.writesOfForTimeout (fun b => MAY_DIE_readRegBlock_writesOk _ _ _ _ b) _ _
        | apply Run.WritesOk.writesOfIte
        | apply Run.WritesOk.writesOfBind
        | intro _)
    case right => rfl
  obtain ⟨ws, h1, h2⟩ := h
  rw [← h2]
  exact h1

set_option maxRecDepth 8192 in
theorem StartBarometer_body_endsWith (env : Env) :
    Run.EndsWith (StartBarometer_body env)
      (regWrite BAROMETER_SLAVE_ADDRESS BAROMETER_REG_CTRL_REG1 BAROMETER_BFLD_PD) := by
  unfold StartBarometer_body
  repeat' (with_reducible first
    | exact MAY_DIE_writeRegBlock_endsWith _ _ _ _ _
    | exact MAY_DIE_step (readRegBlock_codeStep _ _ _ _ _)
    | exact MAY_DIE_step (writeRegBlock_codeStep _ _ _ _ _)
    | exact MAY_DIE_step (failBlock_codeStep _ _)
    | exact MAY_DIE_step (failIfBlock_codeStep _ _ _)
    | exact Run.Sat.ofPure Step_chains _
    | exact Run.Sat.ofPureUnit Step_chains
    | exact Run.Sat.ofForTimeout Step_chains (fun b => MAY_DIE_step (readRegBlock_codeStep _ _ _ _ b))
        exec_delay_step _ _
    | refine Run.Sat.ofIte ?_ ?_
    | refine Run.Sat.ofBind Step_chains ?_ (fun _ => ?_)
    | refine Run.EndsWith.endsOfIte ?_ ?_
    | refine Run.EndsWith.endsOfBind ?_ (fun _ => ?_))

/-- C26: in every bring-up of the barometer that ends with the barometer
enabled, the last three events are the accepted write of the power-down field
value to control register 1, the delay of one millisecond and the print
"Barometer started ok": the power-down write is the last bus access.  The
register writes before it are, in this order, the soft reset, the boot command
and every other configuration write to the control registers 2 and 1, so the
power-down write comes after the two waits and after all of them. -/
theorem C26_power_down_last (env : Env) (w : World)
    (hen : (StartBarometer env w).sys.bBarometerOk ≠ 0) :
    ∃ pre, (StartBarometer env w).log = w.log ++ pre ++
        [Event.iicSend BAROMETER_SLAVE_ADDRESS [BAROMETER_REG_CTRL_REG1, BAROMETER_BFLD_PD]
          XIIC_STOP 2,
         Event.taskDelay 1, Event.print "Barometer started ok\r\n" []] ∧
      pre.filter Event.isRegisterWrite = StartBarometer_configWrites ∧
      BAROMETER_REG_CTRL_REG1 = 0x10 := by
  cases hb : StartBarometer_body env { w with
      sys.bBarometerOk := pdFALSE
      sys.fBarometerPressure := 0
      sys.fBarometerTemperature := 0 } with
  | die w1 =>
    exfalso
    have hf := StartBarometer_body_onlyStatus env { w with
      sys.bBarometerOk := pdFALSE
      sys.fBarometerPressure := 0
      sys.fBarometerTemperature := 0 }
    rw [hb] at hf
    rw [StartBarometer_of_die env w w1 hb] at hen
    apply hen
    show w1.sys.bBarometerOk = 0
    have hf2 : w1.sys = _ := hf
    rw [hf2]
  | ok a w1 =>
    obtain ⟨new, hl, hw⟩ := StartBarometer_body_writesOk env _ a w1 hb
    obtain ⟨pre, hp⟩ := StartBarometer_body_endsWith env _ a w1 hb
    have hnew : new = pre ++
        [regWrite BAROMETER_SLAVE_ADDRESS BAROMETER_REG_CTRL_REG1 BAROMETER_BFLD_PD] := by
      have : w.log ++ new = w.log ++ (pre ++
          [regWrite BAROMETER_SLAVE_ADDRESS BAROMETER_REG_CTRL_REG1 BAROMETER_BFLD_PD]) := by
        rw [← List.append_assoc]
        exact hl.symm.trans hp
      exact List.append_cancel_left this
    refine ⟨pre, ?_, ?_, rfl⟩
    · rw [StartBarometer_of_ok env w w1 a hb]
      show (w1.log ++ [_]) ++ [_] = _
      rw [hp]
      simp [regWrite]
    · rw [hnew, List.filter_append] at hw
      exact List.append_cancel_right hw

/-- C26 at a concrete input: on a healthy board the bring-up of the barometer
ends with the barometer enabled. -/
theorem C26_witness :
    (StartBarometer (regEnv healthyRegs) bootWorld).sys.bBarometerOk = pdTRUE ∧
    ∃ pre, (StartBarometer (regEnv healthyRegs) bootWorld).log = bootWorld.log ++ pre ++
        [Event.iicSend BAROMETER_SLAVE_ADDRESS [BAROMETER_REG_CTRL_REG1, BAROMETER_BFLD_PD]
          XIIC_STOP 2,
         Event.taskDelay 1, Event.print "Barometer started ok\r\n" []] ∧
      pre.filter Event.isRegisterWrite = StartBarometer_configWrites ∧
      BAROMETER_REG_CTRL_REG1 = 0x10 :=
  ⟨by decide, C26_power_down_last (regEnv healthyRegs) bootWorld (by decide)⟩

/-! ## Counting the transfers of a sample -/

theorem Run.Sends.sendsOfPure {α : Type} (q : Nat → List Nat → Nat → Bool) (a : α) :
    Run.Sends q (Run.pure a) 0 :=
  fun _ => ⟨[], by simp [Run.pure, Res.world], by simp⟩

theorem Run.Sends.sendsOfBind {α β : Type} {q : Nat → List Nat → Nat → Bool} {m : Run α}
    {f : α → Run β} {k1 k2 : Nat}
    (hm : Run.Sends q m k1) (hf : ∀ a, Run.Sends q (f a) k2) :
    Run.Sends q (m >>= f) (k1 + k2) := by
  intro w
  obtain ⟨n1, l1, c1⟩ := hm w
  cases hmw : m w with
  | ok a w1 =>
    rw [Run.bind_of_ok hmw]
    rw [hmw] at l1
    obtain ⟨n2, l2, c2⟩ := hf a w1
    refine ⟨n1 ++ n2, ?_, ?_⟩
    · rw [l2]
      have : w1.log = w.log ++ n1 := l1
      rw [this, List.append_assoc]
    · rw [List.countP_append]
      omega
  | die w1 =>
    rw [Run.bind_die hmw]
    rw [hmw] at l1
    exact ⟨n1, l1, by omega⟩

theorem MAY_DIE_sends {α : Type} {q : Nat → List Nat → Nat → Bool} {code : World → α × World}
    {k : Nat} (h : ∀ w, CodeSends q w (code w).2 k) : Run.Sends q (MAY_DIE code) k := by
  intro w
  obtain ⟨new, h1, h2⟩ := h w
  by_cases hrc : (code w).2.sys.rc = XST_SUCCESS
  · rw [MAY_DIE_of_rc_eq hrc]
    exact ⟨new, h1, h2⟩
  · rw [MAY_DIE_of_rc_ne hrc]
    refine ⟨new ++ [Event.print (code w).2.sys.pcErr [(code w).2.sys.rc]], ?_, ?_⟩
    · simp [Res.world, h1]
    · rw [List.countP_append]
      simpa [Event.sendIs] using h2

theorem exec_delay_sends (q : Nat → List Nat → Nat → Bool) :
    Run.Sends q (Run.exec (vTaskDelay 1)) 0 :=
  fun _ => ⟨[Event.taskDelay 1], rfl, by simp [Event.sendIs]⟩

theorem Run.Sends.sendsOfForTimeout {α : Type} {q : Nat → List Nat → Nat → Bool}
    {read : α → World → α × World} {done : α → Bool} {k : Nat}
    (hread : ∀ b, Run.Sends q (MAY_DIE (read b)) k) (n : Nat) (b : α) :
    Run.Sends q (forTimeout read done n b) (n * k) := by
  induction n generalizing b with
  | zero =>
    rw [Nat.zero_mul]
    exact Run.Sends.sendsOfPure q _
  | succ n ih =>
    unfold UzedIot.forTimeout
    have e : (n + 1) * k = k + (0 + n * k) := by ring
    rw [e]
    refine Run.Sends.sendsOfBind (hread b) (fun b1 => ?_)
    split
    · intro w
      obtain ⟨new, h1, h2⟩ := Run.Sends.sendsOfPure q ((n : Int), b1) w
      exact ⟨new, h1, by omega⟩
    · exact Run.Sends.sendsOfBind (exec_delay_sends q) (fun _ => ih b1)

theorem ReadIicRegs_codeSends (q : Nat → List Nat → Nat → Bool) (env : Env) (a n r : Nat)
    (buf : List Nat) (w : World) :
    CodeSends q w (ReadIicRegs env a n r buf w).2
      (q a [if n > 1 then (r ||| 0x80) % 256 else r] XIIC_REPEATED_START).toNat := by
  rw [ReadIicRegs_eq]
  simp only []
  generalize (if n > 1 then (r ||| 0x80) % 256 else r) = reg
  generalize env.XIic_Send w.log a [reg] XIIC_REPEATED_START = sent
  generalize env.XIic_Recv _ a n XIIC_STOP = data
  split_ifs with h1 h2 h3 h4
  · exact ⟨[Event.iicSend a [reg] XIIC_REPEATED_START sent,
      Event.print "ReadIicRegs::XIic_Send(Addr) -> 0x%08x\r\n" [1]], by simp [configPRINTF],
      by cases hq : q a [reg] XIIC_REPEATED_START <;> simp [Event.sendIs, hq]⟩
  · exact ⟨[Event.iicSend a [reg] XIIC_REPEATED_START sent,
      Event.print w.sys.pcErr [w.sys.rc]], by simp [configPRINTF],
      by cases hq : q a [reg] XIIC_REPEATED_START <;> simp [Event.sendIs, hq]⟩
  · exact ⟨[Event.iicSend a [reg] XIIC_REPEATED_START sent,
      Event.iicRecv a n XIIC_STOP data,
      Event.print "ReadIicRegs::XIic_Recv(Data) -> 0x%08x\r\n" [mismatchRc data.length n]],
      by simp [configPRINTF],
      by cases hq : q a [reg] XIIC_REPEATED_START <;> simp [Event.sendIs, hq]⟩
  · exact ⟨[Event.iicSend a [reg] XIIC_REPEATED_START sent,
      Event.iicRecv a n XIIC_STOP data], by simp,
      by cases hq : q a [reg] XIIC_REPEATED_START <;> simp [Event.sendIs, hq]⟩
  · exact ⟨[Event.iicSend a [reg] XIIC_REPEATED_START sent,
      Event.iicRecv a n XIIC_STOP data], by simp,
      by cases hq : q a [reg] XIIC_REPEATED_START <;> simp [Event.sendIs, hq]⟩

theorem WriteIicReg_codeSends (q : Nat → List Nat → Nat → Bool) (env : Env) (a r v : Nat)
    (w : World) : CodeSends q w (WriteIicReg env a r v w) (q a [r, v] XIIC_STOP).toNat := by
  rw [WriteIicReg_eq]
  simp only []
  generalize env.XIic_Send w.log a [r, v] XIIC_STOP = sent
  split_ifs with h1 h2
  · exact ⟨[Event.iicSend a [r, v] XIIC_STOP sent,
      Event.print "WriteIicRegs::XIic_Send(Buf) -> 0x%08x\r\n" [mismatchRc sent 2]],
      by simp [configPRINTF],
      by cases hq : q a [r, v] XIIC_STOP <;> simp [Event.sendIs, hq]⟩
  · exact ⟨[Event.iicSend a [r, v] XIIC_STOP sent,
      Event.print w.sys.pcErr [w.sys.rc]], by simp [configPRINTF],
      by cases hq : q a [r, v] XIIC_STOP <;> simp [Event.sendIs, hq]⟩
  · exact ⟨[Event.iicSend a [r, v] XIIC_STOP sent], by simp,
      by cases hq : q a [r, v] XIIC_STOP <;> simp [Event.sendIs, hq]⟩

theorem CodeSends.sendsSetErr {q : Nat → List Nat → Nat → Bool} {w w1 : World} {k : Nat}
    (m : String) (h : CodeSends q w w1 k) : CodeSends q w (w1.setErr m) k := by
  obtain ⟨new, h1, h2⟩ := h
  exact ⟨new, by simpa using h1, h2⟩

theorem readRegBlock_codeSends (q : Nat → List Nat → Nat → Bool) (env : Env) (a r : Nat)
    (m : String) (b : Nat) (w : World) :
    CodeSends q w (readRegBlock env a r m b w).2 (q a [r] XIIC_REPEATED_START).toNat :=
  CodeSends.sendsSetErr m (ReadIicRegs_codeSends q env a 1 r [b] w)

theorem readRegsBlock_codeSends (q : Nat → List Nat → Nat → Bool) (env : Env) (a n r : Nat)
    (m : String) (buf : List Nat) (w : World) :
    CodeSends q w (readRegsBlock env a n r m buf w).2
      (q a [if n > 1 then (r ||| 0x80) % 256 else r] XIIC_REPEATED_START).toNat :=
  CodeSends.sendsSetErr m (ReadIicRegs_codeSends q env a n r buf w)

theorem writeRegBlock_codeSends (q : Nat → List Nat → Nat → Bool) (env : Env) (a r v : Nat)
    (m : String) (w : World) :
    CodeSends q w (writeRegBlock env a r v m w).2 (q a [r, v] XIIC_STOP).toNat :=
  CodeSends.sendsSetErr m (WriteIicReg_codeSends q env a r v w)

theorem failIfBlock_codeSends (q : Nat → List Nat → Nat → Bool) (c : Bool) (rc : Int)
    (m : String) (w : World) : CodeSends q w (failIfBlock c rc m w).2 0 := by
  unfold failIfBlock
  split
  · exact ⟨[], by simp [failBlock], by simp⟩
  · exact ⟨[], by simp, by simp⟩

set_option maxRecDepth 8192 in
theorem SampleBarometer_body_sends (q : Nat → List Nat → Nat → Bool) (env : Env) :
    Run.Sends q (SampleBarometer_body env) (SampleBarometer_sendBound q) := by
  have h : ∃ k, Run.Sends q (SampleBarometer_body env) k ∧ k = SampleBarometer_sendBound q := by
    apply Exists.intro
    apply And.intro
    case left =>
      unfold SampleBarometer_body
      repeat' (with_reducible first
        | exact MAY_DIE_sends (readRegBlock_codeSends q _ _ _ _ _)
        | exact MAY_DIE_sends (readRegsBlock_codeSends q _ _ _ _ _ _)
        | exact MAY_DIE_sends (writeRegBlock_codeSends q _ _ _ _ _)
        | exact MAY_DIE_sends (failIfBlock_codeSends q _ _ _)
        | exact Run.Sends.sendsOfPure q _
        | exact Run.Sends.sendsOfForTimeout (fun b => MAY_DIE_sends (readRegBlock_codeSends q _ _ _ _ b))
            _ _
        | exact Run.Sends.sendsOfForTimeout
            (fun b => MAY_DIE_sends (readRegsBlock_codeSends q _ _ _ _ _ b)) _ _
        | apply Run.Sends.sendsOfBind
        | intro _)
    case right =>
      simp only [SampleBarometer_sendBound, burstReg]
      norm_num
      ring
  obtain ⟨k, h1, h2⟩ := h
  rw [← h2]
  exact h1

/-- A wait that ends with a counter that is not negative has left its loop by
the `break`: the value last read satisfies the condition, and it is the value
of the last read of the wait. -/
theorem forTimeout_ok_break {α : Type} {read : α → World → α × World} {done : α → Bool}
    (hext : ∀ b w, ∃ new, (read b w).2.log = w.log ++ new)
    (n : Nat) (b : α) (w : World) (t : Int) (x : α) (w1 : World)
    (h : forTimeout read done n b w = Res.ok (t, x) w1) (ht : 0 ≤ t) :
    done x = true ∧ ∃ b0 w0 pre, MAY_DIE (read b0) w0 = Res.ok x w1 ∧ w0.log = w.log ++ pre := by
  induction n generalizing b w with
  | zero =>
    cases h
    exact absurd ht (by decide)
  | succ k ih =>
    unfold UzedIot.forTimeout at h
    obtain ⟨b1, wa, h1, h2⟩ := Run.bind_ok h
    by_cases hd : done b1 = true
    · rw [if_pos hd] at h2
      cases h2
      exact ⟨hd, b, w, [], h1, by simp⟩
    · rw [if_neg hd] at h2
      obtain ⟨u, wd, hu, h3⟩ := Run.bind_ok h2
      cases hu
      obtain ⟨hx, b0, w0, pre, hr, hl⟩ := ih b1 _ h3
      obtain ⟨new, hn⟩ := hext b w
      obtain ⟨-, -, e3⟩ := MAY_DIE_ok h1
      refine ⟨hx, b0, w0, new ++ [Event.taskDelay 1] ++ pre, hr, ?_⟩
      rw [hl]
      show (wa.log ++ [_]) ++ pre = _
      rw [e3, hn]
      simp

/-- A `MAY_DIE` around a read of `n` registers that ran on: the device has
delivered exactly `n` bytes. -/
theorem MAY_DIE_readRegsBlock_ok {env : Env} {a n r : Nat} {m : String} {buf : List Nat}
    {w w1 : World} {x : List Nat} (hn : n % 16 ≠ 0)
    (h : MAY_DIE (readRegsBlock env a n r m buf) w = Res.ok x w1) :
    ∃ data, data.length = n ∧ x = deposit buf n data ∧
      w1.log = w.log ++ [Event.iicSend a [if n > 1 then (r ||| 0x80) % 256 else r]
        XIIC_REPEATED_START 1, Event.iicRecv a n XIIC_STOP data] := by
  obtain ⟨h1, h2, h3⟩ := MAY_DIE_ok h
  subst h2 h3
  unfold readRegsBlock at h1 ⊢
  rw [ReadIicRegs_eq] at h1 ⊢
  simp only [] at h1 ⊢
  generalize (if n > 1 then (r ||| 0x80) % 256 else r) = reg at h1 ⊢
  generalize hsent : env.XIic_Send w.log a [reg] XIIC_REPEATED_START = sent at h1 ⊢
  generalize hdata : env.XIic_Recv _ a n XIIC_STOP = data at h1 ⊢
  split_ifs at h1 ⊢ with c1 c2 c3 c4
  · simp at h1
  · simp at h1
    exact absurd h1 c2
  · simp at h1
    exact absurd h1 c3.2
  · exact absurd h1 (by simpa using mismatchRc_ne_zero data.length n hn)
  · have hs : sent = 1 := (not_not.mp c1).symm
    subst hs
    exact ⟨data, not_not.mp c4, rfl, by simp⟩

theorem SampleBarometer_log (env : Env) (w : World) (hen : w.sys.bBarometerOk ≠ 0) :
    (SampleBarometer env w).log = (SampleBarometer_body env (w.setRc XST_SUCCESS)).world.log := by
  cases hb : SampleBarometer_body env (w.setRc XST_SUCCESS) with
  | die w1 => rw [SampleBarometer_of_die env w w1 hen hb]; rfl
  | ok v w1 =>
    obtain ⟨xl, l, h, tl, th⟩ := v
    rw [SampleBarometer_of_ok env w w1 xl l h tl th hen hb]
    rfl

/-- A barometer sample whose body ran to its end has read the status register
with both data-ready bits set. -/
theorem SampleBarometer_body_ready (env : Env) (w w1 : World) (d : Nat × Nat × Nat × Nat × Nat)
    (h : SampleBarometer_body env w = Res.ok d w1) :
    ∃ pre data post, w1.log = w.log ++ pre ++
        [Event.iicRecv BAROMETER_SLAVE_ADDRESS 6 XIIC_STOP data] ++ post ∧
      data.length = 6 ∧
      (data.headD 0 % 256) &&& (BAROMETER_BFLD_P_DA ||| BAROMETER_BFLD_T_DA) =
        BAROMETER_BFLD_P_DA ||| BAROMETER_BFLD_T_DA := by
  unfold SampleBarometer_body at h
  obtain ⟨_, wa, ha, h⟩ := Run.bind_ok h
  obtain ⟨_, wb, hb, h⟩ := Run.bind_ok h
  obtain ⟨_, wc, hc, h⟩ := Run.bind_ok h
  obtain ⟨t, wd, hd, h⟩ := Run.bind_ok h
  obtain ⟨_, we, he, h⟩ := Run.bind_ok h
  -- the events before the second wait
  have l1 : ∃ n1, wc.log = w.log ++ n1 := by
    obtain ⟨na, la, -⟩ := (MAY_DIE_step (writeRegBlock_codeStep env _ _ _ _) w).1
    rw [ha] at la
    obtain ⟨nb, lb, -⟩ := (Run.Sat.ofForTimeout Step_chains
      (fun b => MAY_DIE_step (readRegBlock_codeStep env _ _ _ b)) exec_delay_step _ _ wa).1
    rw [hb] at lb
    obtain ⟨nc, lc, -⟩ := (MAY_DIE_step (failIfBlock_codeStep _ _ _) wb).1
    rw [hc] at lc
    exact ⟨na ++ nb ++ nc, by
      rw [show wc.log = wb.log ++ nc from lc, show wb.log = wa.log ++ nb from lb,
        show wa.log = w.log ++ na from la]
      simp⟩
  obtain ⟨n1, l1⟩ := l1
  -- the second wait has left by the break
  have ht : 0 < t.1 := by
    obtain ⟨e1, -, -⟩ := MAY_DIE_ok he
    by_contra hneg
    have : decide (t.1 ≤ 0) = true := decide_eq_true (by omega)
    rw [this] at e1
    simp [failIfBlock, failBlock] at e1
  obtain ⟨hx, b0, w0, pre, hr, hl⟩ := forTimeout_ok_break
    (fun b w => by
      obtain ⟨new, h1, -⟩ := readRegsBlock_codeSends isWrite env BAROMETER_SLAVE_ADDRESS 6
        BAROMETER_REG_STATUS_REG "ReadIicRegs(6@BAROMETER_REG_STATUS_REG) -> 0x%08x\r\n" b w
      exact ⟨new, h1⟩)
    50 _ wc t.1 t.2 wd hd (by omega)
  obtain ⟨data, hlen, hdep, hlog⟩ := MAY_DIE_readRegsBlock_ok (by decide) hr
  -- the events after the second wait
  have l2 : ∃ n2, w1.log = wd.log ++ n2 := by
    obtain ⟨ne, le, -⟩ := (MAY_DIE_step (failIfBlock_codeStep _ _ _) wd).1
    rw [he] at le
    obtain ⟨x1, w2, h1, h⟩ := Run.bind_ok h
    obtain ⟨x2, w3, h2, h⟩ := Run.bind_ok h
    obtain ⟨x3, w4, h3, h⟩ := Run.bind_ok h
    obtain ⟨x4, w5, h4, h⟩ := Run.bind_ok h
    obtain ⟨x5, w6, h5, h⟩ := Run.bind_ok h
    obtain ⟨b1, -, l1⟩ := MAY_DIE_readRegsBlock_one_ok h1
    obtain ⟨b2, -, l2⟩ := MAY_DIE_readRegsBlock_one_ok h2
    obtain ⟨b3, -, l3⟩ := MAY_DIE_readRegsBlock_one_ok h3
    obtain ⟨b4, -, l4⟩ := MAY_DIE_readRegsBlock_one_ok h4
    obtain ⟨b5, -, l5⟩ := MAY_DIE_readRegsBlock_one_ok h5
    cases h
    exact ⟨ne ++ barometerOutputReads b1 b2 b3 b4 b5, by
      rw [l5, l4, l3, l2, l1, show we.log = wd.log ++ ne from le]
      simp [barometerOutputReads]⟩
  obtain ⟨n2, l2⟩ := l2
  refine ⟨n1 ++ pre ++ [Event.iicSend BAROMETER_SLAVE_ADDRESS
    [if 6 > 1 then (BAROMETER_REG_STATUS_REG ||| 0x80) % 256 else BAROMETER_REG_STATUS_REG]
    XIIC_REPEATED_START 1], data, n2, ?_, hlen, ?_⟩
  · rw [l2, hlog, hl, l1]
    simp
  · have hh : t.2.headD 0 = data.headD 0 % 256 := by
      rw [hdep]
      obtain ⟨d0, rest, hd0⟩ : ∃ d0 rest, data = d0 :: rest := by
        cases data with
        | nil => cases hlen
        | cons d0 rest => exact ⟨d0, rest, rfl⟩
      subst hd0
      simp [deposit]
    rw [← hh]
    have := hx
    simp only [beq_iff_eq] at this
    exact this.symm

/-- C28: one call of `SampleBarometer` on an enabled barometer returns, whatever
the bus does, having made at most one register write, at most 50 reads of
control register 2, at most 50 reads that start at the status register, at most
5 reads of the output registers and no other transfer to a device.  When it
returns with `rc = XST_SUCCESS`, one of the reads of the status register has
delivered six bytes the first of which has both the pressure-ready and the
temperature-ready bit set. -/
theorem C28_barometer_sample_bounded (env : Env) (w : World) (hen : w.sys.bBarometerOk ≠ 0) :
    ∃ new, (SampleBarometer env w).log = w.log ++ new ∧
      new.countP (Event.sendIs isWrite) ≤ 1 ∧
      new.countP (Event.sendIs (isReadIn [BAROMETER_REG_CTRL_REG2])) ≤ 50 ∧
      new.countP (Event.sendIs (isReadIn [burstReg BAROMETER_REG_STATUS_REG])) ≤ 50 ∧
      new.countP (Event.sendIs (isReadIn barometerOutputRegs)) ≤ 5 ∧
      new.countP (Event.sendIs isOtherTransfer) = 0 ∧
      ((SampleBarometer env w).sys.rc = XST_SUCCESS →
        ∃ data, Event.iicRecv BAROMETER_SLAVE_ADDRESS 6 XIIC_STOP data ∈ new ∧
          data.length = 6 ∧
          (data.headD 0 % 256) &&& (BAROMETER_BFLD_P_DA ||| BAROMETER_BFLD_T_DA) =
            BAROMETER_BFLD_P_DA ||| BAROMETER_BFLD_T_DA) := by
  have hlog := SampleBarometer_log env w hen
  obtain ⟨new, h0, c0⟩ := SampleBarometer_body_sends isWrite env (w.setRc XST_SUCCESS)
  have key : ∀ q, new.countP (Event.sendIs q) ≤ SampleBarometer_sendBound q := by
    intro q
    obtain ⟨n1, h1, c1⟩ := SampleBarometer_body_sends q env (w.setRc XST_SUCCESS)
    have : n1 = new := List.append_cancel_left (h1.symm.trans h0)
    rw [← this]
    exact c1
  refine ⟨new, hlog.trans h0, ?_, ?_, ?_, ?_, ?_, ?_⟩
  · exact (key isWrite).trans (by decide)
  · exact (key _).trans (by decide)
  · exact (key _).trans (by decide)
  · exact (key _).trans (by decide)
  · exact Nat.le_zero.mp ((key isOtherTransfer).trans (by decide))
  · intro hrc
    obtain ⟨-, hok⟩ := SampleBarometer_passed env w hen hrc
    cases hb : SampleBarometer_body env (w.setRc XST_SUCCESS) with
    | die w1 => rw [hb] at hok; cases hok
    | ok d w1 =>
      obtain ⟨pre, data, post, hl, hlen, hbits⟩ := SampleBarometer_body_ready env _ w1 d hb
      refine ⟨data, ?_, hlen, hbits⟩
      rw [hb] at h0
      have e : new = pre ++ [Event.iicRecv BAROMETER_SLAVE_ADDRESS 6 XIIC_STOP data] ++ post := by
        have h2 : w.log ++ new = w.log ++
            (pre ++ [Event.iicRecv BAROMETER_SLAVE_ADDRESS 6 XIIC_STOP data] ++ post) := by
          rw [← List.append_assoc, ← List.append_assoc]
          exact h0.symm.trans hl
        exact List.append_cancel_left h2
      rw [e]
      simp

/-- C28 at a concrete input: on an ideal bus whose barometer has its data ready
the sample of an enabled barometer returns with `rc = XST_SUCCESS`, within the
bounds. -/
theorem C28_witness :
    (SampleBarometer (regEnv barometerRegs) enabledWorld).sys.rc = XST_SUCCESS ∧
    ∃ new, (SampleBarometer (regEnv barometerRegs) enabledWorld).log = enabledWorld.log ++ new ∧
      new.countP (Event.sendIs isWrite) ≤ 1 ∧
      new.countP (Event.sendIs (isReadIn [BAROMETER_REG_CTRL_REG2])) ≤ 50 ∧
      new.countP (Event.sendIs (isReadIn [burstReg BAROMETER_REG_STATUS_REG])) ≤ 50 ∧
      new.countP (Event.sendIs (isReadIn barometerOutputRegs)) ≤ 5 ∧
      new.countP (Event.sendIs isOtherTransfer) = 0 ∧
      ((SampleBarometer (regEnv barometerRegs) enabledWorld).sys.rc = XST_SUCCESS →
        ∃ data, Event.iicRecv BAROMETER_SLAVE_ADDRESS 6 XIIC_STOP data ∈ new ∧
          data.length = 6 ∧
          (data.headD 0 % 256) &&& (BAROMETER_BFLD_P_DA ||| BAROMETER_BFLD_T_DA) =
            BAROMETER_BFLD_P_DA ||| BAROMETER_BFLD_T_DA) :=
  ⟨by decide, C28_barometer_sample_bounded (regEnv barometerRegs) enabledWorld (by decide)⟩

/-! ## The telemetry record -/

theorem prvPublishSensors_data_eq (env : Env) (s : System) :
    prvPublishSensors_data env s = renderRecord env.snprintf_f2 (telemetryRecord s) := by
  have e : "\n" ++ "\x7d" = "\n\x7d" := by decide
  simp only [prvPublishSensors_data, renderRecord, renderFields, renderField, telemetryRecord,
    String.append_assoc, e]

theorem renderRecord_length (fmt : ℚ → String) (s : System) :
    (renderRecord fmt (telemetryRecord s)).length =
      133 + ((fmt s.fBarometerPressure).length + (fmt s.fBarometerTemperature).length +
        (fmt s.fThermocoupleTemperature).length + (fmt s.fThermocoupleBoardTemperature).length +
        (fmt s.fHygrometerHumidity).length + (fmt s.fHygrometerTemperature).length) := by
  simp only [renderRecord, renderFields, renderField, telemetryRecord, String.length_append]
  have e1 : "\x7b\n ".length = 3 := by decide
  have e2 : "\n\x7d".length = 2 := by decide
  have e3 : "\"".length = 1 := by decide
  have e4 : "\": ".length = 3 := by decide
  have e5 : ",\n".length = 2 := by decide
  have n1 : "Pressure".length = 8 := by decide
  have n2 : "Pressure_Sensor_Temp".length = 20 := by decide
  have n3 : "Thermocouple_Temp".length = 17 := by decide
  have n4 : "Board_Temp_1".length = 12 := by decide
  have n5 : "Relative_Humidity".length = 17 := by decide
  have n6 : "Humidity_Sensor_Temp".length = 20 := by decide
  rw [e1, e2, e3, e4, e5, n1, n2, n3, n4, n5, n6]
  omega

/-- What `prvPublish` logs when neither the topic nor the data are empty: the
publication, followed by events that are no publications. -/
theorem prvPublish_publishes (env : Env) (t : String) (tl q : Nat) (d : String) (dl : Nat)
    (w : World) (htl : tl ≠ 0 ∨ t.length % 2 ^ 16 ≠ 0) (hdl : dl ≠ 0) :
    ∃ rest, (prvPublish env t tl q d dl w).log = w.log ++
        Event.mqttPublish t (if tl = 0 then t.length % 2 ^ 16 else tl) q d dl
          (env.MQTT_AGENT_Publish w.log t (if tl = 0 then t.length % 2 ^ 16 else tl) q d dl)
          :: rest ∧
      ∀ t1, publishesTo t1 rest = 0 := by
  unfold prvPublish
  simp only []
  generalize htl1 : (if tl = 0 then t.length % 2 ^ 16 else tl) = tl1
  have h1 : tl1 ≠ 0 := by
    rw [← htl1]
    split_ifs with h0
    · rcases htl with h | h
      · exact absurd h0 h
      · exact h
    · exact h0
  rw [if_neg h1, if_neg hdl, if_neg hdl]
  generalize env.MQTT_AGENT_Publish w.log t tl1 q d dl = r
  have hblink : ∀ (fmt : String), ∃ rest,
      (configPRINTF_s fmt [t, d] (BlinkLed 1 pdFALSE
        (w.emit (Event.mqttPublish t tl1 q d dl r)))).log =
        w.log ++ Event.mqttPublish t tl1 q d dl r :: rest ∧ ∀ t1, publishesTo t1 rest = 0 := by
    intro fmt
    obtain ⟨-, new, a2, a3⟩ := BlinkLed_spec 1 pdFALSE (w.emit (Event.mqttPublish t tl1 q d dl r))
    refine ⟨new ++ [Event.printStr fmt [t, d]], ?_, ?_⟩
    · show (BlinkLed 1 pdFALSE (w.emit (Event.mqttPublish t tl1 q d dl r))).log ++ [_] = _
      rw [a2]
      simp [World.emit]
    · intro t1
      rw [publishesTo_append, a3 t1]
      rfl
  split_ifs with c1 c2 c3
  · exact ⟨[Event.printStr "Success: Published '%s'\r\n" [t, d]], by
      simp [configPRINTF_s, World.emit], fun _ => rfl⟩
  · exact hblink _
  · exact hblink _
  · exact hblink _

/-- C23: in a round of the task loop on a system with an MQTT handle and a
sensor topic, whatever the three samples did (none of them is assumed enabled
or successful), `prvPublishSensors` hands exactly one publication to the MQTT
agent, on the sensor topic at QoS 0, whose data are the text of the telemetry
record: the six fields Pressure, Pressure_Sensor_Temp, Thermocouple_Temp,
Board_Temp_1, Relative_Humidity, Humidity_Sensor_Temp in this order, with the
readings stored after the samples.  The premise on the length is the guard of
the function (the text has to fit the buffer of 256 bytes); it holds whenever
each of the six numbers prints in at most 20 characters. -/
theorem C23_telemetry_record (env : Env) (fuel bFirst : Nat) (w wS : World)
    (hh : w.sys.xMQTTHandle ≠ 0)
    (ht : w.sys.usSensorTopicLength ≠ 0 ∨ w.sys.pbSensorTopic.length % 2 ^ 16 ≠ 0)
    (hS : prvUZedIotTask_samples env fuel (vTaskDelayUntil SAMPLING_PERIOD_MS w) = Except.ok wS)
    (hlen : (renderRecord env.snprintf_f2 (telemetryRecord wS.sys)).length <
      UZedMAX_DATA_LENGTH) :
    prvUZedIotTask_tick env fuel bFirst w =
      Except.ok (0, prvUZedIotTask_report env bFirst (prvPublishSensors env wS)) ∧
    (∃ rest, (prvPublishSensors env wS).log = wS.log ++
        Event.mqttPublish w.sys.pbSensorTopic
          (if w.sys.usSensorTopicLength = 0 then w.sys.pbSensorTopic.length % 2 ^ 16
            else w.sys.usSensorTopicLength)
          eMQTTQoS0 (renderRecord env.snprintf_f2 (telemetryRecord wS.sys))
          (renderRecord env.snprintf_f2 (telemetryRecord wS.sys)).length
          (env.MQTT_AGENT_Publish wS.log w.sys.pbSensorTopic
            (if w.sys.usSensorTopicLength = 0 then w.sys.pbSensorTopic.length % 2 ^ 16
              else w.sys.usSensorTopicLength)
            eMQTTQoS0 (renderRecord env.snprintf_f2 (telemetryRecord wS.sys))
            (renderRecord env.snprintf_f2 (telemetryRecord wS.sys)).length) :: rest ∧
      ∀ t1, publishesTo t1 rest = 0) ∧
    (prvPublishSensors env wS).sys = wS.sys ∧
    (telemetryRecord wS.sys).map Prod.fst =
      ["Pressure", "Pressure_Sensor_Temp", "Thermocouple_Temp", "Board_Temp_1",
       "Relative_Humidity", "Humidity_Sensor_Temp"] ∧
    (telemetryRecord wS.sys).map Prod.snd =
      [wS.sys.fBarometerPressure, wS.sys.fBarometerTemperature,
       wS.sys.fThermocoupleTemperature, wS.sys.fThermocoupleBoardTemperature,
       wS.sys.fHygrometerHumidity, wS.sys.fHygrometerTemperature] ∧
    eMQTTQoS0 = 0 ∧
    ((∀ f ∈ telemetryRecord wS.sys, (env.snprintf_f2 f.2).length ≤ 20) →
      (renderRecord env.snprintf_f2 (telemetryRecord wS.sys)).length < UZedMAX_DATA_LENGTH) := by
  obtain ⟨fS, -⟩ := prvUZedIotTask_samples_spec env fuel _ wS hS
  have fS2 : w.sys.onlyStatusReadings wS.sys := fS
  have e1 : wS.sys.xMQTTHandle = w.sys.xMQTTHandle := by rw [fS2]
  have e2 : wS.sys.pbSensorTopic = w.sys.pbSensorTopic := by rw [fS2]
  have e3 : wS.sys.usSensorTopicLength = w.sys.usSensorTopicLength := by rw [fS2]
  have hpub : prvPublishSensors env wS =
      prvPublish env w.sys.pbSensorTopic w.sys.usSensorTopicLength eMQTTQoS0
        (renderRecord env.snprintf_f2 (telemetryRecord wS.sys))
        (renderRecord env.snprintf_f2 (telemetryRecord wS.sys)).length wS := by
    unfold prvPublishSensors
    simp only []
    rw [if_neg (by rw [e1]; exact hh), prvPublishSensors_data_eq, if_neg (by omega), e2, e3]
  have hpos : (renderRecord env.snprintf_f2 (telemetryRecord wS.sys)).length ≠ 0 := by
    rw [renderRecord_length]
    omega
  refine ⟨?_, ?_, ?_, rfl, rfl, rfl, ?_⟩
  · unfold prvUZedIotTask_tick
    simp only []
    rw [hS]
  · rw [hpub]
    exact prvPublish_publishes env _ _ _ _ _ wS ht hpos
  · rw [hpub]
    exact (prvPublish_spec env _ _ _ _ _ wS).1
  · intro hw
    rw [renderRecord_length]
    have a1 := hw ("Pressure", wS.sys.fBarometerPressure) (by simp [telemetryRecord])
    have a2 := hw ("Pressure_Sensor_Temp", wS.sys.fBarometerTemperature)
      (by simp [telemetryRecord])
    have a3 := hw ("Thermocouple_Temp", wS.sys.fThermocoupleTemperature)
      (by simp [telemetryRecord])
    have a4 := hw ("Board_Temp_1", wS.sys.fThermocoupleBoardTemperature)
      (by simp [telemetryRecord])
    have a5 := hw ("Relative_Humidity", wS.sys.fHygrometerHumidity) (by simp [telemetryRecord])
    have a6 := hw ("Humidity_Sensor_Temp", wS.sys.fHygrometerTemperature)
      (by simp [telemetryRecord])
    simp only [] at a1 a2 a3 a4 a5 a6
    show _ < 256
    omega

set_option maxRecDepth 100000 in
/-- C23 at a concrete input: the first round of a connected system on which only
the thermocouple is enabled, with an `snprintf` that prints every number as
"0.00": the samples return and the record is published once, with its six
fields. -/
theorem C23_witness :
    returned (prvUZedIotTask_samples (tickSpiEnv [0]) 8
      (vTaskDelayUntil SAMPLING_PERIOD_MS connectedWorld)) = true ∧
    renderRecord (tickSpiEnv [0]).snprintf_f2 (telemetryRecord
      (resultWorld (prvUZedIotTask_samples (tickSpiEnv [0]) 8
        (vTaskDelayUntil SAMPLING_PERIOD_MS connectedWorld)) connectedWorld).sys) =
      "\x7b\n \"Pressure\": 0.00,\n\"Pressure_Sensor_Temp\": 0.00,\n\"Thermocouple_Temp\": 0.00,\n\"Board_Temp_1\": 0.00,\n\"Relative_Humidity\": 0.00,\n\"Humidity_Sensor_Temp\": 0.00\n\x7d" ∧
    ∃ rest, (prvPublishSensors (tickSpiEnv [0])
        (resultWorld (prvUZedIotTask_samples (tickSpiEnv [0]) 8
          (vTaskDelayUntil SAMPLING_PERIOD_MS connectedWorld)) connectedWorld)).log =
      (resultWorld (prvUZedIotTask_samples (tickSpiEnv [0]) 8
        (vTaskDelayUntil SAMPLING_PERIOD_MS connectedWorld)) connectedWorld).log ++
        Event.mqttPublish connectedWorld.sys.pbSensorTopic
          (if connectedWorld.sys.usSensorTopicLength = 0
            then connectedWorld.sys.pbSensorTopic.length % 2 ^ 16
            else connectedWorld.sys.usSensorTopicLength)
          eMQTTQoS0 (renderRecord (tickSpiEnv [0]).snprintf_f2 (telemetryRecord
            (resultWorld (prvUZedIotTask_samples (tickSpiEnv [0]) 8
              (vTaskDelayUntil SAMPLING_PERIOD_MS connectedWorld)) connectedWorld).sys))
          (renderRecord (tickSpiEnv [0]).snprintf_f2 (telemetryRecord
            (resultWorld (prvUZedIotTask_samples (tickSpiEnv [0]) 8
              (vTaskDelayUntil SAMPLING_PERIOD_MS connectedWorld)) connectedWorld).sys)).length
          ((tickSpiEnv [0]).MQTT_AGENT_Publish
            (resultWorld (prvUZedIotTask_samples (tickSpiEnv [0]) 8
              (vTaskDelayUntil SAMPLING_PERIOD_MS connectedWorld)) connectedWorld).log
            connectedWorld.sys.pbSensorTopic
            (if connectedWorld.sys.usSensorTopicLength = 0
              then connectedWorld.sys.pbSensorTopic.length % 2 ^ 16
              else connectedWorld.sys.usSensorTopicLength)
            eMQTTQoS0 (renderRecord (tickSpiEnv [0]).snprintf_f2 (telemetryRecord
              (resultWorld (prvUZedIotTask_samples (tickSpiEnv [0]) 8
                (vTaskDelayUntil SAMPLING_PERIOD_MS connectedWorld)) connectedWorld).sys))
            (renderRecord (tickSpiEnv [0]).snprintf_f2 (telemetryRecord
              (resultWorld (prvUZedIotTask_samples (tickSpiEnv [0]) 8
                (vTaskDelayUntil SAMPLING_PERIOD_MS connectedWorld))
                connectedWorld).sys)).length) :: rest ∧
      ∀ t1, publishesTo t1 rest = 0 :=
  ⟨by decide, by decide,
   (C23_telemetry_record (tickSpiEnv [0]) 8 1 connectedWorld
      (resultWorld (prvUZedIotTask_samples (tickSpiEnv [0]) 8
        (vTaskDelayUntil SAMPLING_PERIOD_MS connectedWorld)) connectedWorld)
      (by decide) (by decide) (returned_eq_ok _ _ (by decide)) (by decide)).2.1⟩

/-! ## Runs in two worlds with related histories -/

theorem Run.bind_die_cases {α β : Type} {m : Run α} {f : α → Run β} {w v : World}
    (h : (m >>= f) w = Res.die v) :
    m w = Res.die v ∨ ∃ a w1, m w = Res.ok a w1 ∧ f a w1 = Res.die v := by
  rw [Run.bind_eq] at h
  unfold Run.bind at h
  cases hm : m w with
  | ok a w1 =>
    rw [hm] at h
    exact Or.inr ⟨a, w1, rfl, h⟩
  | die w1 =>
    rw [hm] at h
    cases h
    exact Or.inl rfl

theorem Run.Same.sameOfPure {α : Type} (L : List Event → List Event → Prop) (a : α) :
    Run.Same L (Run.pure a) (Run.pure a) := by
  intro w w1 hq
  refine ⟨fun b v h => ?_, fun v h => ?_⟩
  · cases h
    exact ⟨w1, rfl, hq⟩
  · cases h

theorem Run.Same.sameOfBind {α β : Type} {L : List Event → List Event → Prop}
    {m m1 : Run α} {f f1 : α → Run β}
    (hm : Run.Same L m m1) (hf : ∀ a, Run.Same L (f a) (f1 a)) :
    Run.Same L (m >>= f) (m1 >>= f1) := by
  intro w w1 hq
  refine ⟨fun b v h => ?_, fun v h => ?_⟩
  · obtain ⟨a, u, h1, h2⟩ := Run.bind_ok h
    obtain ⟨u1, e1, q1⟩ := (hm w w1 hq).1 a u h1
    obtain ⟨v1, e2, q2⟩ := (hf a u u1 q1).1 b v h2
    exact ⟨v1, by rw [Run.bind_of_ok e1]; exact e2, q2⟩
  · rcases Run.bind_die_cases h with h1 | ⟨a, u, h1, h2⟩
    · obtain ⟨v1, e1, q1⟩ := (hm w w1 hq).2 v h1
      exact ⟨v1, Run.bind_die e1, q1⟩
    · obtain ⟨u1, e1, q1⟩ := (hm w w1 hq).1 a u h1
      obtain ⟨v1, e2, q2⟩ := (hf a u u1 q1).2 v h2
      exact ⟨v1, by rw [Run.bind_of_ok e1]; exact e2, q2⟩

theorem Run.Same.sameOfIte {α : Type} {L : List Event → List Event → Prop} {c : Prop}
    [Decidable c] {m m1 n n1 : Run α}
    (hm : Run.Same L m m1) (hn : Run.Same L n n1) :
    Run.Same L (if c then m else n) (if c then m1 else n1) := by
  split
  · exact hm
  · exact hn

theorem MAY_DIE_same {α : Type} {L : List Event → List Event → Prop}
    {code code1 : World → α × World} (hL : Grows L) (h : CodeSame L code code1) :
    Run.Same L (MAY_DIE code) (MAY_DIE code1) := by
  intro w w1 hq
  obtain ⟨e1, e2, e3, e4⟩ := h w w1 hq
  refine ⟨fun a v hv => ?_, fun v hv => ?_⟩
  · obtain ⟨c1, c2, c3⟩ := MAY_DIE_ok hv
    have c4 : (code1 w1).2.sys.rc = XST_SUCCESS := e3 ▸ c1
    refine ⟨(code1 w1).2, ?_, ?_⟩
    · rw [MAY_DIE_of_rc_eq c4, c2, e1]
    · rw [c3]
      exact ⟨e2, c1, c4⟩
  · by_cases c1 : (code w).2.sys.rc = XST_SUCCESS
    · rw [MAY_DIE_of_rc_eq c1] at hv
      cases hv
    · rw [MAY_DIE_of_rc_ne c1] at hv
      cases hv
      have c4 : (code1 w1).2.sys.rc ≠ XST_SUCCESS := e3 ▸ c1
      refine ⟨_, MAY_DIE_of_rc_ne c4, ?_, ?_⟩
      · simp only [configPRINTF, World.emit, World.setBError]
        rw [← e3, ← e4 c1]
        exact hL _ _ _ e2
      · exact e3

theorem exec_delay_same {L : List Event → List Event → Prop} (hL : Grows L) :
    Run.Same L (Run.exec (vTaskDelay 1)) (Run.exec (vTaskDelay 1)) := by
  intro w w1 hq
  refine ⟨fun a v h => ?_, fun v h => ?_⟩
  · cases h
    exact ⟨vTaskDelay 1 w1, rfl, hL _ _ _ hq.1, hq.2.1, hq.2.2⟩
  · cases h

theorem Run.Same.sameOfForTimeout {α : Type} {L : List Event → List Event → Prop}
    {read read1 : α → World → α × World} {done : α → Bool} (hL : Grows L)
    (hread : ∀ b, Run.Same L (MAY_DIE (read b)) (MAY_DIE (read1 b))) (n : Nat) (b : α) :
    Run.Same L (forTimeout read done n b) (forTimeout read1 done n b) := by
  induction n generalizing b with
  | zero => exact Run.Same.sameOfPure L _
  | succ n ih =>
    unfold UzedIot.forTimeout
    refine Run.Same.sameOfBind (hread b) (fun b1 => ?_)
    split
    · exact Run.Same.sameOfPure L _
    · exact Run.Same.sameOfBind (exec_delay_same hL) (fun _ => ih b1)

theorem ReadIicRegs_codeSame {L : List Event → List Event → Prop} {env env1 : Env}
    (ha : Env.alike L env env1) (a n r : Nat) (buf : List Nat) :
    CodeSame L (ReadIicRegs env a n r buf) (ReadIicRegs env1 a n r buf) := by
  intro w w1 hq
  obtain ⟨hl, h1, h2⟩ := hq
  obtain ⟨hL, hs, hr, -⟩ := ha
  rw [ReadIicRegs_eq, ReadIicRegs_eq]
  simp only [World.emit]
  generalize (if n > 1 then (r ||| 0x80) % 256 else r) = reg
  rw [← hs _ _ a [reg] XIIC_REPEATED_START hl]
  generalize env.XIic_Send w.log a [reg] XIIC_REPEATED_START = sent
  have hl1 := hL _ _ (Event.iicSend a [reg] XIIC_REPEATED_START sent) hl
  rw [← hr _ _ a n XIIC_STOP hl1]
  generalize env.XIic_Recv _ a n XIIC_STOP = data
  have hl2 := hL _ _ (Event.iicRecv a n XIIC_STOP data) hl1
  have hl3 := hL _ _ (Event.print "ReadIicRegs::XIic_Send(Addr) -> 0x%08x\r\n" [1]) hl1
  have hl4 := hL _ _ (Event.print "ReadIicRegs::XIic_Recv(Data) -> 0x%08x\r\n"
    [mismatchRc data.length n]) hl2
  rw [if_neg (not_not.mpr h1), if_neg (not_not.mpr h2)]
  simp only [List.append_assoc, List.singleton_append, List.cons_append, List.nil_append]
    at hl1 hl2 hl3 hl4
  split_ifs <;>
    simp [configPRINTF, World.emit, World.setRc, World.setErr, World.setBError, h1, h2, hl1,
      hl2, hl3, hl4]

theorem WriteIicReg_codeSame {L : List Event → List Event → Prop} {env env1 : Env}
    (ha : Env.alike L env env1) (a r v : Nat) :
    CodeSame L (fun w => ((), WriteIicReg env a r v w))
      (fun w => ((), WriteIicReg env1 a r v w)) := by
  intro w w1 hq
  obtain ⟨hl, h1, h2⟩ := hq
  obtain ⟨hL, hs, -, -⟩ := ha
  simp only []
  rw [WriteIicReg_eq, WriteIicReg_eq]
  simp only [World.emit]
  rw [← hs _ _ a [r, v] XIIC_STOP hl]
  generalize env.XIic_Send w.log a [r, v] XIIC_STOP = sent
  have hl1 := hL _ _ (Event.iicSend a [r, v] XIIC_STOP sent) hl
  have hl2 := hL _ _ (Event.print "WriteIicRegs::XIic_Send(Buf) -> 0x%08x\r\n"
    [mismatchRc sent 2]) hl1
  rw [if_neg (not_not.mpr h1), if_neg (not_not.mpr h2)]
  simp only [List.append_assoc, List.singleton_append, List.cons_append, List.nil_append]
    at hl1 hl2
  split_ifs <;>
    simp [configPRINTF, World.emit, World.setRc, World.setErr, World.setBError, h1, h2, hl1, hl2]

theorem readRegsBlock_codeSame {L : List Event → List Event → Prop} {env env1 : Env}
    (ha : Env.alike L env env1) (a n r : Nat) (m : String) (buf : List Nat) :
    CodeSame L (readRegsBlock env a n r m buf) (readRegsBlock env1 a n r m buf) := by
  intro w w1 hq
  obtain ⟨e1, e2, e3, -⟩ := ReadIicRegs_codeSame ha a n r buf w w1 hq
  exact ⟨e1, e2, e3, fun _ => rfl⟩

theorem readRegBlock_codeSame {L : List Event → List Event → Prop} {env env1 : Env}
    (ha : Env.alike L env env1) (a r : Nat) (m : String) (b : Nat) :
    CodeSame L (readRegBlock env a r m b) (readRegBlock env1 a r m b) := by
  intro w w1 hq
  obtain ⟨e1, e2, e3, -⟩ := ReadIicRegs_codeSame ha a 1 r [b] w w1 hq
  refine ⟨?_, e2, e3, fun _ => rfl⟩
  show (ReadIicRegs env a 1 r [b] w).1.headD b = (ReadIicRegs env1 a 1 r [b] w1).1.headD b
  rw [e1]

theorem writeRegBlock_codeSame {L : List Event → List Event → Prop} {env env1 : Env}
    (ha : Env.alike L env env1) (a r v : Nat) (m : String) :
    CodeSame L (writeRegBlock env a r v m) (writeRegBlock env1 a r v m) := by
  intro w w1 hq
  obtain ⟨-, e2, e3, -⟩ := WriteIicReg_codeSame ha a r v w w1 hq
  exact ⟨rfl, e2, e3, fun _ => rfl⟩

theorem failIfBlock_codeSame (L : List Event → List Event → Prop) (c : Bool) (rc : Int)
    (m : String) : CodeSame L (failIfBlock c rc m) (failIfBlock c rc m) := by
  intro w w1 hq
  obtain ⟨hl, h1, h2⟩ := hq
  unfold failIfBlock
  cases c
  · exact ⟨rfl, hl, h1.trans h2.symm, fun h => absurd h1 h⟩
  · exact ⟨rfl, hl, rfl, fun _ => rfl⟩

theorem sameOutcome_error {α : Type} {R : α → α → Prop} {f : Fault} {y : Except Fault α}
    (h : sameOutcome R (Except.error f) y) : y = Except.error f := by
  cases y with
  | error f1 =>
    have e : f = f1 := h
    rw [e]
  | ok a => exact absurd h id

theorem sameOutcome_ok {α : Type} {R : α → α → Prop} {a : α} {y : Except Fault α}
    (h : sameOutcome R (Except.ok a) y) : ∃ a1, y = Except.ok a1 ∧ R a a1 := by
  cases y with
  | error f => exact absurd h id
  | ok a1 => exact ⟨a1, rfl, h⟩

theorem sameSince_grows (l l1 : List Event) : Grows (sameSince l l1) := by
  rintro k k1 e ⟨new, h1, h2⟩
  exact ⟨new ++ [e], by rw [h1, List.append_assoc], by rw [h2, List.append_assoc]⟩

theorem sameSince_alike {env env1 : Env} {l l1 : List Event}
    (hsend : ∀ new a b o, env.XIic_Send (l ++ new) a b o = env1.XIic_Send (l1 ++ new) a b o)
    (hrecv : ∀ new a n o, env.XIic_Recv (l ++ new) a n o = env1.XIic_Recv (l1 ++ new) a n o)
    (hspi : ∀ new r, env.XSpi_ReadReg (l ++ new) r = env1.XSpi_ReadReg (l1 ++ new) r) :
    Env.alike (sameSince l l1) env env1 := by
  refine ⟨sameSince_grows l l1, ?_, ?_, ?_⟩
  · rintro k k1 a b o ⟨new, h1, h2⟩
    rw [h1, h2]
    exact hsend new a b o
  · rintro k k1 a n o ⟨new, h1, h2⟩
    rw [h1, h2]
    exact hrecv new a n o
  · rintro k k1 r ⟨new, h1, h2⟩
    rw [h1, h2]
    exact hspi new r

theorem eq_alike (env : Env) : Env.alike Eq env env := by
  refine ⟨?_, ?_, ?_, ?_⟩
  · intro l l1 e h
    rw [h]
  · intro l l1 a b o h
    rw [h]
  · intro l l1 a n o h
    rw [h]
  · intro l l1 r h
    rw [h]

theorem SampleHygrometer_read_same {L : List Event → List Event → Prop} {env env1 : Env}
    (ha : Env.alike L env env1) (r : Nat) (m : String) :
    Run.Same L (SampleHygrometer_read env r m) (SampleHygrometer_read env1 r m) :=
  MAY_DIE_same ha.1 (readRegBlock_codeSame ha _ _ _ _)

set_option maxRecDepth 8192 in
theorem SampleHygrometer_humidity_same {L : List Event → List Event → Prop} {env env1 : Env}
    (ha : Env.alike L env env1) :
    Run.Same L (SampleHygrometer_humidity env) (SampleHygrometer_humidity env1) := by
  have hL : Grows L := ha.1
  unfold SampleHygrometer_humidity
  repeat' (with_reducible first
    | exact SampleHygrometer_read_same ha _ _
    | exact MAY_DIE_same hL (writeRegBlock_codeSame ha _ _ _ _)
    | exact MAY_DIE_same hL (failIfBlock_codeSame L _ _ _)
    | exact Run.Same.sameOfPure L _
    | exact Run.Same.sameOfForTimeout hL
        (fun b => MAY_DIE_same hL (readRegBlock_codeSame ha _ _ _ b)) _ _
    | exact Run.Same.sameOfForTimeout hL
        (fun b => MAY_DIE_same hL (readRegsBlock_codeSame ha _ _ _ _ b)) _ _
    | refine Run.Same.sameOfBind ?_ (fun _ => ?_))

set_option maxRecDepth 8192 in
theorem SampleHygrometer_temperature_same {L : List Event → List Event → Prop}
    {env env1 : Env} (ha : Env.alike L env env1) :
    Run.Same L (SampleHygrometer_temperature env) (SampleHygrometer_temperature env1) := by
  have hL : Grows L := ha.1
  unfold SampleHygrometer_temperature
  repeat' (with_reducible first
    | exact SampleHygrometer_read_same ha _ _
    | exact Run.Same.sameOfPure L _
    | refine Run.Same.sameOfBind ?_ (fun _ => ?_))

set_option maxRecDepth 8192 in
theorem SampleBarometer_body_same {L : List Event → List Event → Prop} {env env1 : Env}
    (ha : Env.alike L env env1) :
    Run.Same L (SampleBarometer_body env) (SampleBarometer_body env1) := by
  have hL : Grows L := ha.1
  unfold SampleBarometer_body
  repeat' (with_reducible first
    | exact MAY_DIE_same hL (writeRegBlock_codeSame ha _ _ _ _)
    | exact MAY_DIE_same hL (readRegsBlock_codeSame ha _ _ _ _ _)
    | exact MAY_DIE_same hL (failIfBlock_codeSame L _ _ _)
    | exact Run.Same.sameOfPure L _
    | exact Run.Same.sameOfForTimeout hL
        (fun b => MAY_DIE_same hL (readRegBlock_codeSame ha _ _ _ b)) _ _
    | exact Run.Same.sameOfForTimeout hL
        (fun b => MAY_DIE_same hL (readRegsBlock_codeSame ha _ _ _ _ b)) _ _
    | refine Run.Same.sameOfBind ?_ (fun _ => ?_))

theorem Run.Sat.atDie {α : Type} {R : World → World → Bool → Prop} {m : Run α} {w v : World}
    (h : Run.Sat R m) (e : m w = Res.die v) : R w v false := by
  have := h w
  rw [e] at this
  exact this

theorem Run.Sat.atOk {α : Type} {R : World → World → Bool → Prop} {m : Run α} {w v : World}
    {a : α} (h : Run.Sat R m) (e : m w = Res.ok a v) : R w v true := by
  have := h w
  rw [e] at this
  exact this

/-- Two samples of an enabled barometer on buses that answer alike end the same
way whatever else the two worlds hold: related histories, the same `rc`, the
same readings after success, and the same readings after a failure when they
were the same before. -/
theorem SampleBarometer_same {L : List Event → List Event → Prop} {env env1 : Env}
    (ha : Env.alike L env env1) (w w1 : World)
    (hen : w.sys.bBarometerOk ≠ 0) (hen1 : w1.sys.bBarometerOk ≠ 0) (hl : L w.log w1.log) :
    L (SampleBarometer env w).log (SampleBarometer env1 w1).log ∧
    (SampleBarometer env w).sys.rc = (SampleBarometer env1 w1).sys.rc ∧
    ((SampleBarometer env w).sys.rc = XST_SUCCESS →
      (SampleBarometer env w).sys.barometerReadings =
        (SampleBarometer env1 w1).sys.barometerReadings) ∧
    (w.sys.barometerReadings = w1.sys.barometerReadings →
      (SampleBarometer env w).sys.barometerReadings =
        (SampleBarometer env1 w1).sys.barometerReadings) := by
  have hs := SampleBarometer_body_same ha (w.setRc XST_SUCCESS) (w1.setRc XST_SUCCESS)
    ⟨hl, rfl, rfl⟩
  cases hb : SampleBarometer_body env (w.setRc XST_SUCCESS) with
  | die v =>
    obtain ⟨v1, e1, l1, r1⟩ := hs.2 v hb
    have hst : Step (w.setRc XST_SUCCESS) v false := (SampleBarometer_body_step env).atDie hb
    have hf : (w.setRc XST_SUCCESS).sys.onlyStatus v.sys :=
      (SampleBarometer_body_onlyStatus env).atDie hb
    have hf1 : (w1.setRc XST_SUCCESS).sys.onlyStatus v1.sys :=
      (SampleBarometer_body_onlyStatus env1).atDie e1
    rw [SampleBarometer_of_die env w v hen hb, SampleBarometer_of_die env1 w1 v1 hen1 e1]
    refine ⟨l1, r1, fun h => absurd h (hst.2.2 rfl).1, fun h => ?_⟩
    have a1 : v.sys.barometerReadings = w.sys.barometerReadings := by
      unfold System.barometerReadings
      rw [System.onlyStatus.fBarometerPressure hf, System.onlyStatus.fBarometerTemperature hf]
      rfl
    have a2 : v1.sys.barometerReadings = w1.sys.barometerReadings := by
      unfold System.barometerReadings
      rw [System.onlyStatus.fBarometerPressure hf1, System.onlyStatus.fBarometerTemperature hf1]
      rfl
    rw [a1, a2, h]
  | ok d v =>
    obtain ⟨xl, l, h, tl, th⟩ := d
    obtain ⟨v1, e1, q⟩ := hs.1 _ v hb
    rw [SampleBarometer_of_ok env w v xl l h tl th hen hb,
      SampleBarometer_of_ok env1 w1 v1 xl l h tl th hen1 e1]
    exact ⟨q.1, q.2.1.trans q.2.2.symm, fun _ => rfl, fun _ => rfl⟩

/-- Two samples of an enabled hygrometer on buses that answer alike end the same
way whatever else the two worlds hold: the same fault, or both return with
related histories, the same `rc`, the same readings after success, and the same
readings after a failure when they were the same before. -/
theorem SampleHygrometer_same {L : List Event → List Event → Prop} {env env1 : Env}
    (ha : Env.alike L env env1) (w w1 : World)
    (hen : w.sys.bHygrometerOk ≠ 0) (hen1 : w1.sys.bHygrometerOk ≠ 0) (hl : L w.log w1.log) :
    sameOutcome (fun v v1 => L v.log v1.log ∧ v.sys.rc = v1.sys.rc ∧
        (v.sys.rc = XST_SUCCESS → v.sys.hygrometerReadings = v1.sys.hygrometerReadings) ∧
        (w.sys.hygrometerReadings = w1.sys.hygrometerReadings →
          v.sys.hygrometerReadings = v1.sys.hygrometerReadings))
      (SampleHygrometer env w) (SampleHygrometer env1 w1) := by
  have hs := SampleHygrometer_humidity_same ha (w.setRc XST_SUCCESS) (w1.setRc XST_SUCCESS)
    ⟨hl, rfl, rfl⟩
  unfold SampleHygrometer
  rw [if_neg hen, if_neg hen1]
  cases hb : SampleHygrometer_humidity env (w.setRc XST_SUCCESS) with
  | die v =>
    obtain ⟨v1, e1, l1, r1⟩ := hs.2 v hb
    have hst : Step (w.setRc XST_SUCCESS) v false :=
      (SampleHygrometer_humidity_step env).atDie hb
    have hf : (w.setRc XST_SUCCESS).sys.onlyStatus v.sys :=
      (SampleHygrometer_humidity_onlyStatus env).atDie hb
    have hf1 : (w1.setRc XST_SUCCESS).sys.onlyStatus v1.sys :=
      (SampleHygrometer_humidity_onlyStatus env1).atDie e1
    rw [e1]
    refine ⟨l1, r1, fun h => absurd h (hst.2.2 rfl).1, fun h => ?_⟩
    have a1 : v.sys.hygrometerReadings = w.sys.hygrometerReadings := by
      unfold System.hygrometerReadings
      rw [System.onlyStatus.fHygrometerHumidity hf, System.onlyStatus.fHygrometerTemperature hf]
      rfl
    have a2 : v1.sys.hygrometerReadings = w1.sys.hygrometerReadings := by
      unfold System.hygrometerReadings
      rw [System.onlyStatus.fHygrometerHumidity hf1,
        System.onlyStatus.fHygrometerTemperature hf1]
      rfl
    rw [a1, a2, h]
  | ok d v =>
    obtain ⟨v1, e1, q⟩ := hs.1 _ v hb
    rw [e1]
    cases d with
    | none => exact rfl
    | some vh =>
      have hf0 : (w.setRc XST_SUCCESS).sys.onlyStatus v.sys :=
        (SampleHygrometer_humidity_onlyStatus env).atOk hb
      have hf01 : (w1.setRc XST_SUCCESS).sys.onlyStatus v1.sys :=
        (SampleHygrometer_humidity_onlyStatus env1).atOk e1
      have ht := SampleHygrometer_temperature_same ha
        ({ v with sys.fHygrometerHumidity := f32 vh } : World)
        ({ v1 with sys.fHygrometerHumidity := f32 vh } : World) ⟨q.1, q.2.1, q.2.2⟩
      simp only []
      cases hc : SampleHygrometer_temperature env
          ({ v with sys.fHygrometerHumidity := f32 vh } : World) with
      | die u =>
        obtain ⟨u1, e2, l2, r2⟩ := ht.2 u hc
        have hst : Step _ u false := (SampleHygrometer_temperature_step env).atDie hc
        have hf : System.onlyStatus _ u.sys :=
          (SampleHygrometer_temperature_onlyStatus env).atDie hc
        have hf1 : System.onlyStatus _ u1.sys :=
          (SampleHygrometer_temperature_onlyStatus env1).atDie e2
        rw [e2]
        refine ⟨l2, r2, fun h => absurd h (hst.2.2 rfl).1, fun h => ?_⟩
        have b1 : u.sys.fHygrometerHumidity = f32 vh :=
          System.onlyStatus.fHygrometerHumidity hf
        have b2 : u1.sys.fHygrometerHumidity = f32 vh :=
          System.onlyStatus.fHygrometerHumidity hf1
        have c1 : u.sys.fHygrometerTemperature = v.sys.fHygrometerTemperature := by
          have := System.onlyStatus.fHygrometerTemperature hf
          exact this
        have c2 : v.sys.fHygrometerTemperature = w.sys.fHygrometerTemperature :=
          System.onlyStatus.fHygrometerTemperature hf0
        have c3 : u1.sys.fHygrometerTemperature = v1.sys.fHygrometerTemperature := by
          have := System.onlyStatus.fHygrometerTemperature hf1
          exact this
        have c4 : v1.sys.fHygrometerTemperature = w1.sys.fHygrometerTemperature :=
          System.onlyStatus.fHygrometerTemperature hf01
        have b3 := c1.trans c2
        have b4 := c3.trans c4
        have b5 : w.sys.fHygrometerTemperature = w1.sys.fHygrometerTemperature :=
          congrArg Prod.snd h
        unfold System.hygrometerReadings
        rw [b1, b2, b3, b4, b5]
      | ok d2 u =>
        obtain ⟨u1, e2, q2⟩ := ht.1 _ u hc
        rw [e2]
        cases d2 with
        | none => exact rfl
        | some vt =>
          have hf : System.onlyStatus _ u.sys :=
            (SampleHygrometer_temperature_onlyStatus env).atOk hc
          have hf1 : System.onlyStatus _ u1.sys :=
            (SampleHygrometer_temperature_onlyStatus env1).atOk e2
          have b1 : u.sys.fHygrometerHumidity = f32 vh :=
            System.onlyStatus.fHygrometerHumidity hf
          have b2 : u1.sys.fHygrometerHumidity = f32 vh :=
            System.onlyStatus.fHygrometerHumidity hf1
          have b6 : ∀ x : World, ({ x with sys.fHygrometerTemperature := f32 vt } :
              World).sys.hygrometerReadings = (x.sys.fHygrometerHumidity, f32 vt) :=
            fun _ => rfl
          refine ⟨q2.1, q2.2.1.trans q2.2.2.symm, fun _ => ?_, fun _ => ?_⟩
          · rw [b6, b6, b1, b2]
          · rw [b6, b6, b1, b2]

theorem XSpi_LowLevelExecute_waitTx_same {L : List Event → List Event → Prop}
    {env env1 : Env} (ha : Env.alike L env env1) (fuel : Nat) (w w1 : World)
    (hl : L w.log w1.log) :
    sameOutcome (fun v v1 => L v.log v1.log ∧ v.sys = w.sys ∧ v1.sys = w1.sys)
      (XSpi_LowLevelExecute_waitTx env fuel w) (XSpi_LowLevelExecute_waitTx env1 fuel w1) := by
  induction fuel generalizing w w1 with
  | zero => exact rfl
  | succ n ih =>
    unfold XSpi_LowLevelExecute_waitTx
    simp only [XSpi_ReadReg]
    rw [← ha.2.2.2 _ _ XSP_SR_OFFSET hl]
    have hl1 := ha.1 _ _ (Event.spiRead XSP_SR_OFFSET
      (env.XSpi_ReadReg w.log XSP_SR_OFFSET % 2 ^ 32)) hl
    split_ifs
    · exact ⟨hl1, rfl, rfl⟩
    · exact ih _ _ hl1

theorem XSpi_LowLevelExecute_waitRx_same {L : List Event → List Event → Prop}
    {env env1 : Env} (ha : Env.alike L env env1) (x fuel : Nat) (w w1 : World)
    (hl : L w.log w1.log) :
    sameOutcome (fun v v1 => L v.log v1.log ∧ v.sys = w.sys ∧ v1.sys = w1.sys)
      (XSpi_LowLevelExecute_waitRx env x fuel w)
      (XSpi_LowLevelExecute_waitRx env1 x fuel w1) := by
  induction fuel generalizing w w1 with
  | zero => exact rfl
  | succ n ih =>
    unfold XSpi_LowLevelExecute_waitRx
    simp only [XSpi_ReadReg]
    rw [← ha.2.2.2 _ _ XSP_RFO_OFFSET hl]
    have hl1 := ha.1 _ _ (Event.spiRead XSP_RFO_OFFSET
      (env.XSpi_ReadReg w.log XSP_RFO_OFFSET % 2 ^ 32)) hl
    split_ifs
    · exact ih _ _ hl1
    · exact ⟨hl1, rfl, rfl⟩

theorem XSpi_LowLevelExecute_drain_same {L : List Event → List Event → Prop}
    {env env1 : Env} (ha : Env.alike L env env1) (fuel : Nat) (rx : List Nat) (k : Nat)
    (w w1 : World) (hl : L w.log w1.log) :
    sameOutcome (fun r r1 => r.1 = r1.1 ∧ r.2.1 = r1.2.1 ∧ L r.2.2.log r1.2.2.log ∧
        r.2.2.sys = w.sys ∧ r1.2.2.sys = w1.sys)
      (XSpi_LowLevelExecute_drain env fuel rx k w)
      (XSpi_LowLevelExecute_drain env1 fuel rx k w1) := by
  induction fuel generalizing w w1 rx k with
  | zero => exact rfl
  | succ n ih =>
    unfold XSpi_LowLevelExecute_drain
    simp only [XSpi_ReadReg, World.emit]
    rw [← ha.2.2.2 _ _ XSP_SR_OFFSET hl]
    have hl1 := ha.1 _ _ (Event.spiRead XSP_SR_OFFSET
      (env.XSpi_ReadReg w.log XSP_SR_OFFSET % 2 ^ 32)) hl
    rw [← ha.2.2.2 _ _ XSP_DRR_OFFSET hl1]
    have hl2 := ha.1 _ _ (Event.spiRead XSP_DRR_OFFSET
      (env.XSpi_ReadReg (w.log ++ [Event.spiRead XSP_SR_OFFSET
        (env.XSpi_ReadReg w.log XSP_SR_OFFSET % 2 ^ 32)]) XSP_DRR_OFFSET % 2 ^ 32)) hl1
    split_ifs
    · exact ih _ _ _ _ hl2
    · exact rfl
    · exact ⟨rfl, rfl, hl1, rfl, rfl⟩

theorem XSpi_WriteReg_foldl_same {L : List Event → List Event → Prop} (hL : Grows L)
    (tx : List Nat) (w w1 : World) (hl : L w.log w1.log) :
    L (tx.foldl (fun w v => XSpi_WriteReg XSP_DTR_OFFSET v w) w).log
      (tx.foldl (fun w v => XSpi_WriteReg XSP_DTR_OFFSET v w) w1).log ∧
    (tx.foldl (fun w v => XSpi_WriteReg XSP_DTR_OFFSET v w) w).sys = w.sys ∧
    (tx.foldl (fun w v => XSpi_WriteReg XSP_DTR_OFFSET v w) w1).sys = w1.sys := by
  induction tx generalizing w w1 with
  | nil => exact ⟨hl, rfl, rfl⟩
  | cons a t ih =>
    simp only [List.foldl_cons]
    exact ih _ _ (hL _ _ (Event.spiWrite XSP_DTR_OFFSET a) hl)

/-- Two transactions on controllers that answer alike end the same way: the
same fault, or the same received words, related histories, the same `rc` and,
when `rc` is not `XST_SUCCESS`, the same message. -/
theorem XSpi_LowLevelExecute_same {L : List Event → List Event → Prop} {env env1 : Env}
    (ha : Env.alike L env env1) (fuel ch n : Nat) (tx rx : List Nat) (w w1 : World)
    (hl : L w.log w1.log) :
    sameOutcome (fun r r1 => r.1 = r1.1 ∧ L r.2.log r1.2.log ∧ r.2.sys.rc = r1.2.sys.rc ∧
        (r.2.sys.rc ≠ XST_SUCCESS → r.2.sys.pcErr = r1.2.sys.pcErr))
      (XSpi_LowLevelExecute env fuel ch n tx rx w)
      (XSpi_LowLevelExecute env1 fuel ch n tx rx w1) := by
  have hL := ha.1
  unfold XSpi_LowLevelExecute
  simp only []
  have h0 := (XSpi_WriteReg_foldl_same hL (tx.take n) w w1 hl).1
  have h1 : L (XSpi_WriteReg XSP_CR_OFFSET MAX31855_CR_UNINHIBIT_MODE (vTaskDelay 1
      (XSpi_WriteReg XSP_SSR_OFFSET ch ((tx.take n).foldl
        (fun w v => XSpi_WriteReg XSP_DTR_OFFSET v w) w)))).log
      (XSpi_WriteReg XSP_CR_OFFSET MAX31855_CR_UNINHIBIT_MODE (vTaskDelay 1
      (XSpi_WriteReg XSP_SSR_OFFSET ch ((tx.take n).foldl
        (fun w v => XSpi_WriteReg XSP_DTR_OFFSET v w) w1)))).log :=
    hL _ _ _ (hL _ _ _ (hL _ _ _ h0))
  have hA := XSpi_LowLevelExecute_waitTx_same ha fuel _ _ h1
  cases eA : XSpi_LowLevelExecute_waitTx env fuel (XSpi_WriteReg XSP_CR_OFFSET
      MAX31855_CR_UNINHIBIT_MODE (vTaskDelay 1 (XSpi_WriteReg XSP_SSR_OFFSET ch
        ((tx.take n).foldl (fun w v => XSpi_WriteReg XSP_DTR_OFFSET v w) w)))) with
  | error f =>
    rw [eA] at hA
    rw [sameOutcome_error hA]
    exact rfl
  | ok a =>
    rw [eA] at hA
    obtain ⟨a1, eA1, hA1, -, -⟩ := sameOutcome_ok hA
    rw [eA1]
    simp only []
    have hB := XSpi_LowLevelExecute_waitRx_same ha (toU32 ((n : Int) - 1)) fuel a a1 hA1
    cases eB : XSpi_LowLevelExecute_waitRx env (toU32 ((n : Int) - 1)) fuel a with
    | error f =>
      rw [eB] at hB
      rw [sameOutcome_error hB]
      exact rfl
    | ok b =>
      rw [eB] at hB
      obtain ⟨b1, eB1, hB1, -, -⟩ := sameOutcome_ok hB
      rw [eB1]
      simp only []
      have hC := XSpi_LowLevelExecute_drain_same ha fuel rx 0 b b1 hB1
      cases eC : XSpi_LowLevelExecute_drain env fuel rx 0 b with
      | error f =>
        rw [eC] at hC
        rw [sameOutcome_error hC]
        exact rfl
      | ok c =>
        rw [eC] at hC
        obtain ⟨c1, eC1, hC1, hC2, hC3, -, -⟩ := sameOutcome_ok hC
        rw [eC1]
        obtain ⟨r, k, v⟩ := c
        obtain ⟨r1, k1, v1⟩ := c1
        simp only [] at hC1 hC2 hC3
        subst hC1 hC2
        simp only []
        have hD : L (XSpi_WriteReg XSP_SSR_OFFSET PL_SPI_CHANNEL_SEL_NONE
            (XSpi_WriteReg XSP_CR_OFFSET MAX31855_CR_INIT_MODE v)).log
            (XSpi_WriteReg XSP_SSR_OFFSET PL_SPI_CHANNEL_SEL_NONE
            (XSpi_WriteReg XSP_CR_OFFSET MAX31855_CR_INIT_MODE v1)).log :=
          hL _ _ _ (hL _ _ _ hC3)
        split_ifs
        · exact ⟨rfl, hD, rfl, fun _ => rfl⟩
        · exact ⟨rfl, hD, rfl, fun h => absurd rfl h⟩

/-- Two samples of an enabled thermocouple on controllers that answer alike end
the same way whatever else the two worlds hold: the same fault, or both return
with related histories, the same `rc`, the same readings after success, and
the same readings after a failure when they were the same before. -/
theorem SamplePLTempSensor_same {L : List Event → List Event → Prop} {env env1 : Env}
    (ha : Env.alike L env env1) (fuel : Nat) (w w1 : World)
    (hen : w.sys.bThermocoupleOk ≠ 0) (hen1 : w1.sys.bThermocoupleOk ≠ 0)
    (hl : L w.log w1.log) :
    sameOutcome (fun v v1 => L v.log v1.log ∧ v.sys.rc = v1.sys.rc ∧
        (v.sys.rc = XST_SUCCESS → v.sys.thermocoupleReadings = v1.sys.thermocoupleReadings) ∧
        (w.sys.thermocoupleReadings = w1.sys.thermocoupleReadings →
          v.sys.thermocoupleReadings = v1.sys.thermocoupleReadings))
      (SamplePLTempSensor env fuel w) (SamplePLTempSensor env1 fuel w1) := by
  have hL := ha.1
  have hx := XSpi_LowLevelExecute_same ha fuel PL_SPI_CHANNEL_SEL_0 4 [0, 0, 0, 0]
    [0xFFFFFFFF, 0xFFFFFFFF, 0xFFFFFFFF, 0xFFFFFFFF] (w.setRc XST_SUCCESS)
    (w1.setRc XST_SUCCESS) hl
  unfold SamplePLTempSensor
  rw [if_neg hen, if_neg hen1]
  cases ex : XSpi_LowLevelExecute env fuel PL_SPI_CHANNEL_SEL_0 4 [0, 0, 0, 0]
    [0xFFFFFFFF, 0xFFFFFFFF, 0xFFFFFFFF, 0xFFFFFFFF] (w.setRc XST_SUCCESS) with
  | error f =>
    rw [ex] at hx
    rw [sameOutcome_error hx]
    exact rfl
  | ok r =>
    rw [ex] at hx
    obtain ⟨r1, ex1, hr, hlog, hrc, herr⟩ := sameOutcome_ok hx
    rw [ex1]
    obtain ⟨rx, v⟩ := r
    obtain ⟨rx1, v1⟩ := r1
    simp only [] at hr hlog hrc herr
    subst hr
    simp only []
    have hs := (XSpi_LowLevelExecute_spec env fuel _ _ _ _ _ _ _ ex).1
    have hs1 := (XSpi_LowLevelExecute_spec env1 fuel _ _ _ _ _ _ _ ex1).1
    have hf := SamplePLTempSensor_faults_onlyStatus rx v
    have hf1 := SamplePLTempSensor_faults_onlyStatus rx v1
    have hlogf : (SamplePLTempSensor_faults rx v).log = v.log := by
      unfold SamplePLTempSensor_faults
      split_ifs <;> rfl
    have hlogf1 : (SamplePLTempSensor_faults rx v1).log = v1.log := by
      unfold SamplePLTempSensor_faults
      split_ifs <;> rfl
    have hrcf : (SamplePLTempSensor_faults rx v).sys.rc =
        (SamplePLTempSensor_faults rx v1).sys.rc ∧
        ((SamplePLTempSensor_faults rx v).sys.rc ≠ XST_SUCCESS →
          (SamplePLTempSensor_faults rx v).sys.pcErr =
            (SamplePLTempSensor_faults rx v1).sys.pcErr) := by
      unfold SamplePLTempSensor_faults
      rw [← hrc]
      split_ifs with c1 <;>
        first
        | exact ⟨rfl, fun _ => rfl⟩
        | exact ⟨hrc, fun h => absurd c1.symm h⟩
        | exact ⟨hrc, fun _ => herr (fun e => c1 e.symm)⟩
    by_cases hc : (SamplePLTempSensor_faults rx v).sys.rc = XST_SUCCESS
    · have hc1 : (SamplePLTempSensor_faults rx v1).sys.rc = XST_SUCCESS := hrcf.1 ▸ hc
      rw [@MAY_DIE_of_rc_eq _ (fun w => ((), SamplePLTempSensor_faults rx w)) v hc,
        @MAY_DIE_of_rc_eq _ (fun w => ((), SamplePLTempSensor_faults rx w)) v1 hc1]
      refine ⟨?_, hrcf.1, fun _ => rfl, fun _ => rfl⟩
      show L (SamplePLTempSensor_faults rx v).log (SamplePLTempSensor_faults rx v1).log
      rw [hlogf, hlogf1]
      exact hlog
    · have hc1 : (SamplePLTempSensor_faults rx v1).sys.rc ≠ XST_SUCCESS := hrcf.1 ▸ hc
      rw [@MAY_DIE_of_rc_ne _ (fun w => ((), SamplePLTempSensor_faults rx w)) v hc,
        @MAY_DIE_of_rc_ne _ (fun w => ((), SamplePLTempSensor_faults rx w)) v1 hc1]
      refine ⟨?_, hrcf.1, fun h => absurd h hc, fun h => ?_⟩
      · show L ((SamplePLTempSensor_faults rx v).log ++ _)
          ((SamplePLTempSensor_faults rx v1).log ++ _)
        rw [hlogf, hlogf1, ← hrcf.1, ← hrcf.2 hc]
        exact hL _ _ _ hlog
      · have a1 : (SamplePLTempSensor_faults rx v).sys.thermocoupleReadings =
            w.sys.thermocoupleReadings := by
          unfold System.thermocoupleReadings
          rw [System.onlyStatus.fThermocoupleTemperature hf,
            System.onlyStatus.fThermocoupleBoardTemperature hf,
            System.onlyStatus.fThermocoupleTemperature hs,
            System.onlyStatus.fThermocoupleBoardTemperature hs]
          rfl
        have a2 : (SamplePLTempSensor_faults rx v1).sys.thermocoupleReadings =
            w1.sys.thermocoupleReadings := by
          unfold System.thermocoupleReadings
          rw [System.onlyStatus.fThermocoupleTemperature hf1,
            System.onlyStatus.fThermocoupleBoardTemperature hf1,
            System.onlyStatus.fThermocoupleTemperature hs1,
            System.onlyStatus.fThermocoupleBoardTemperature hs1]
          rfl
        show (SamplePLTempSensor_faults rx v).sys.thermocoupleReadings =
          (SamplePLTempSensor_faults rx v1).sys.thermocoupleReadings
        rw [a1, a2, h]

/-- A barometer sample, failed or not, leaves the readings of the two other
sensors as they were. -/
theorem SampleBarometer_keepsOthers (env : Env) (w : World) :
    (SampleBarometer env w).sys.hygrometerReadings = w.sys.hygrometerReadings ∧
    (SampleBarometer env w).sys.thermocoupleReadings = w.sys.thermocoupleReadings := by
  by_cases hen : w.sys.bBarometerOk = 0
  · rw [SampleBarometer_disabled env w hen]
    exact ⟨rfl, rfl⟩
  · have key : ∀ v : World, (w.setRc XST_SUCCESS).sys.onlyStatus v.sys →
        v.sys.hygrometerReadings = w.sys.hygrometerReadings ∧
        v.sys.thermocoupleReadings = w.sys.thermocoupleReadings := by
      intro v hf
      unfold System.hygrometerReadings System.thermocoupleReadings
      rw [System.onlyStatus.fHygrometerHumidity hf, System.onlyStatus.fHygrometerTemperature hf,
        System.onlyStatus.fThermocoupleTemperature hf,
        System.onlyStatus.fThermocoupleBoardTemperature hf]
      exact ⟨rfl, rfl⟩
    cases hb : SampleBarometer_body env (w.setRc XST_SUCCESS) with
    | die v =>
      rw [SampleBarometer_of_die env w v hen hb]
      exact key v ((SampleBarometer_body_onlyStatus env).atDie hb)
    | ok d v =>
      obtain ⟨xl, l, h, tl, th⟩ := d
      rw [SampleBarometer_of_ok env w v xl l h tl th hen hb]
      exact key v ((SampleBarometer_body_onlyStatus env).atOk hb)

/-- A thermocouple sample that returns, failed or not, leaves the readings of
the two other sensors as they were. -/
theorem SamplePLTempSensor_keepsOthers (env : Env) (fuel : Nat) (w v : World)
    (h : SamplePLTempSensor env fuel w = Except.ok v) :
    v.sys.barometerReadings = w.sys.barometerReadings ∧
    v.sys.hygrometerReadings = w.sys.hygrometerReadings := by
  by_cases hen : w.sys.bThermocoupleOk = 0
  · rw [SamplePLTempSensor_disabled env fuel w hen] at h
    cases h
    exact ⟨rfl, rfl⟩
  · unfold SamplePLTempSensor at h
    rw [if_neg hen] at h
    cases ex : XSpi_LowLevelExecute env fuel PL_SPI_CHANNEL_SEL_0 4 [0, 0, 0, 0]
      [0xFFFFFFFF, 0xFFFFFFFF, 0xFFFFFFFF, 0xFFFFFFFF] (w.setRc XST_SUCCESS) with
    | error f =>
      rw [ex] at h
      cases h
    | ok r =>
      obtain ⟨rx, u⟩ := r
      rw [ex] at h
      simp only [] at h
      have hs := (XSpi_LowLevelExecute_spec env fuel _ _ _ _ _ _ _ ex).1
      have hf := SamplePLTempSensor_faults_onlyStatus rx u
      have key : (SamplePLTempSensor_faults rx u).sys.barometerReadings =
            w.sys.barometerReadings ∧
          (SamplePLTempSensor_faults rx u).sys.hygrometerReadings =
            w.sys.hygrometerReadings := by
        unfold System.barometerReadings System.hygrometerReadings
        rw [System.onlyStatus.fHygrometerHumidity hf, System.onlyStatus.fHygrometerTemperature hf,
          System.onlyStatus.fBarometerPressure hf, System.onlyStatus.fBarometerTemperature hf,
          System.onlyStatus.fHygrometerHumidity hs, System.onlyStatus.fHygrometerTemperature hs,
          System.onlyStatus.fBarometerPressure hs, System.onlyStatus.fBarometerTemperature hs]
        exact ⟨rfl, rfl⟩
      by_cases hc : (SamplePLTempSensor_faults rx u).sys.rc = XST_SUCCESS
      · rw [@MAY_DIE_of_rc_eq _ (fun w => ((), SamplePLTempSensor_faults rx w)) u hc] at h
        cases h
        exact key
      · rw [@MAY_DIE_of_rc_ne _ (fun w => ((), SamplePLTempSensor_faults rx w)) u hc] at h
        cases h
        exact key

/-- A hygrometer sample that returns, failed or not, leaves the readings of
the two other sensors as they were. -/
theorem SampleHygrometer_keepsOthers (env : Env) (w v : World)
    (h : SampleHygrometer env w = Except.ok v) :
    v.sys.barometerReadings = w.sys.barometerReadings ∧
    v.sys.thermocoupleReadings = w.sys.thermocoupleReadings := by
  by_cases hen : w.sys.bHygrometerOk = 0
  · rw [SampleHygrometer_disabled env w hen] at h
    cases h
    exact ⟨rfl, rfl⟩
  · have key : ∀ a b : World, a.sys.onlyStatus b.sys →
        b.sys.barometerReadings = a.sys.barometerReadings ∧
        b.sys.thermocoupleReadings = a.sys.thermocoupleReadings := by
      intro a b hf
      unfold System.barometerReadings System.thermocoupleReadings
      rw [System.onlyStatus.fBarometerPressure hf, System.onlyStatus.fBarometerTemperature hf,
        System.onlyStatus.fThermocoupleTemperature hf,
        System.onlyStatus.fThermocoupleBoardTemperature hf]
      exact ⟨rfl, rfl⟩
    unfold SampleHygrometer at h
    rw [if_neg hen] at h
    cases hb : SampleHygrometer_humidity env (w.setRc XST_SUCCESS) with
    | die u =>
      rw [hb] at h
      cases h
      have k1 := key (w.setRc XST_SUCCESS) _ ((SampleHygrometer_humidity_onlyStatus env).atDie hb)
      exact k1
    | ok d u =>
      rw [hb] at h
      have k1 : u.sys.barometerReadings = w.sys.barometerReadings ∧
          u.sys.thermocoupleReadings = w.sys.thermocoupleReadings :=
        key (w.setRc XST_SUCCESS) _ ((SampleHygrometer_humidity_onlyStatus env).atOk hb)
      cases d with
      | none => cases h
      | some vh =>
        simp only [] at h
        cases hc : SampleHygrometer_temperature env
            ({ u with sys.fHygrometerHumidity := f32 vh } : World) with
        | die x =>
          rw [hc] at h
          cases h
          have k2 : v.sys.barometerReadings = u.sys.barometerReadings ∧
              v.sys.thermocoupleReadings = u.sys.thermocoupleReadings :=
            key ({ u with sys.fHygrometerHumidity := f32 vh } : World) _
              ((SampleHygrometer_temperature_onlyStatus env).atDie hc)
          exact ⟨k2.1.trans k1.1, k2.2.trans k1.2⟩
        | ok d2 x =>
          rw [hc] at h
          have k2 : x.sys.barometerReadings = u.sys.barometerReadings ∧
              x.sys.thermocoupleReadings = u.sys.thermocoupleReadings :=
            key ({ u with sys.fHygrometerHumidity := f32 vh } : World) _
              ((SampleHygrometer_temperature_onlyStatus env).atOk hc)
          cases d2 with
          | none => cases h
          | some vt =>
            cases h
            exact ⟨k2.1.trans k1.1, k2.2.trans k1.2⟩

/-- C27: per-sample errors are local within a tick.  (1) Every Sample function,
failed or not, leaves the stored readings of the two other sensors as they
were.  (2) The outcome of a sample of an enabled sensor does not depend on what
an earlier sample left in `rc`, `pcErr`, `bError` or in the other readings: run
in two worlds, on buses that answer alike from there on, it ends in the same
fault or returns in both with the same new events and the same `rc`; after
success it has stored the same readings, and after a failure its readings are
the same when they were the same before. -/
theorem C27_sample_errors_local (env env1 : Env) (fuel : Nat) (w w1 : World)
    (hsend : ∀ new a b o,
      env.XIic_Send (w.log ++ new) a b o = env1.XIic_Send (w1.log ++ new) a b o)
    (hrecv : ∀ new a n o,
      env.XIic_Recv (w.log ++ new) a n o = env1.XIic_Recv (w1.log ++ new) a n o)
    (hspi : ∀ new r, env.XSpi_ReadReg (w.log ++ new) r = env1.XSpi_ReadReg (w1.log ++ new) r) :
    ((SampleBarometer env w).sys.hygrometerReadings = w.sys.hygrometerReadings ∧
      (SampleBarometer env w).sys.thermocoupleReadings = w.sys.thermocoupleReadings) ∧
    (∀ v, SamplePLTempSensor env fuel w = Except.ok v →
      v.sys.barometerReadings = w.sys.barometerReadings ∧
      v.sys.hygrometerReadings = w.sys.hygrometerReadings) ∧
    (∀ v, SampleHygrometer env w = Except.ok v →
      v.sys.barometerReadings = w.sys.barometerReadings ∧
      v.sys.thermocoupleReadings = w.sys.thermocoupleReadings) ∧
    (w.sys.bBarometerOk ≠ 0 → w1.sys.bBarometerOk ≠ 0 →
      (∃ new, (SampleBarometer env w).log = w.log ++ new ∧
        (SampleBarometer env1 w1).log = w1.log ++ new) ∧
      (SampleBarometer env w).sys.rc = (SampleBarometer env1 w1).sys.rc ∧
      ((SampleBarometer env w).sys.rc = XST_SUCCESS →
        (SampleBarometer env w).sys.barometerReadings =
          (SampleBarometer env1 w1).sys.barometerReadings) ∧
      (w.sys.barometerReadings = w1.sys.barometerReadings →
        (SampleBarometer env w).sys.barometerReadings =
          (SampleBarometer env1 w1).sys.barometerReadings)) ∧
    (w.sys.bThermocoupleOk ≠ 0 → w1.sys.bThermocoupleOk ≠ 0 →
      (∀ f, SamplePLTempSensor env fuel w = Except.error f →
        SamplePLTempSensor env1 fuel w1 = Except.error f) ∧
      (∀ v, SamplePLTempSensor env fuel w = Except.ok v →
        ∃ v1, SamplePLTempSensor env1 fuel w1 = Except.ok v1 ∧
          (∃ new, v.log = w.log ++ new ∧ v1.log = w1.log ++ new) ∧
          v.sys.rc = v1.sys.rc ∧
          (v.sys.rc = XST_SUCCESS →
            v.sys.thermocoupleReadings = v1.sys.thermocoupleReadings) ∧
          (w.sys.thermocoupleReadings = w1.sys.thermocoupleReadings →
            v.sys.thermocoupleReadings = v1.sys.thermocoupleReadings))) ∧
    (w.sys.bHygrometerOk ≠ 0 → w1.sys.bHygrometerOk ≠ 0 →
      (∀ f, SampleHygrometer env w = Except.error f →
        SampleHygrometer env1 w1 = Except.error f) ∧
      (∀ v, SampleHygrometer env w = Except.ok v →
        ∃ v1, SampleHygrometer env1 w1 = Except.ok v1 ∧
          (∃ new, v.log = w.log ++ new ∧ v1.log = w1.log ++ new) ∧
          v.sys.rc = v1.sys.rc ∧
          (v.sys.rc = XST_SUCCESS →
            v.sys.hygrometerReadings = v1.sys.hygrometerReadings) ∧
          (w.sys.hygrometerReadings = w1.sys.hygrometerReadings →
            v.sys.hygrometerReadings = v1.sys.hygrometerReadings))) := by
  have ha := sameSince_alike hsend hrecv hspi
  have hl : sameSince w.log w1.log w.log w1.log := ⟨[], by simp, by simp⟩
  refine ⟨SampleBarometer_keepsOthers env w, SamplePLTempSensor_keepsOthers env fuel w,
    SampleHygrometer_keepsOthers env w, fun hen hen1 => ?_, fun hen hen1 => ?_,
    fun hen hen1 => ?_⟩
  · exact SampleBarometer_same ha w w1 hen hen1 hl
  · have hs := SamplePLTempSensor_same ha fuel w w1 hen hen1 hl
    refine ⟨fun f e => ?_, fun v e => ?_⟩
    · rw [e] at hs
      exact sameOutcome_error hs
    · rw [e] at hs
      exact sameOutcome_ok hs
  · have hs := SampleHygrometer_same ha w w1 hen hen1 hl
    refine ⟨fun f e => ?_, fun v e => ?_⟩
    · rw [e] at hs
      exact sameOutcome_error hs
    · rw [e] at hs
      exact sameOutcome_ok hs

theorem regEnv_recv_append (regs : Nat → Nat → Nat) (l l1 new : List Event) (a n o : Nat)
    (h : (regEnv regs).XIic_Recv l a n o = (regEnv regs).XIic_Recv l1 a n o) :
    (regEnv regs).XIic_Recv (l ++ new) a n o = (regEnv regs).XIic_Recv (l1 ++ new) a n o := by
  rcases List.eq_nil_or_concat new with hn | ⟨t, x, hn⟩
  · rw [hn, List.append_nil, List.append_nil, h]
  · have e : (l ++ new).getLast? = (l1 ++ new).getLast? := by
      rw [hn, List.concat_eq_append, ← List.append_assoc, ← List.append_assoc]
      simp
    unfold regEnv
    simp only []
    rw [e]

set_option maxRecDepth 100000 in
/-- C27 at a concrete input: an ideal bus with the hygrometer of the spec's
example, once in the world a failed earlier sample has left (`rc` a failure
code, `bError` set, the report logged) and once in a world without an earlier
failure.  The hygrometer sample returns in both with `rc = XST_SUCCESS` and
the same readings. -/
theorem C27_witness :
    failedWorld.sys.rc ≠ enabledWorld.sys.rc ∧ failedWorld.log ≠ enabledWorld.log ∧
    ∃ v v1, SampleHygrometer (regEnv hygrometerRegs) failedWorld = Except.ok v ∧
      SampleHygrometer (regEnv hygrometerRegs) enabledWorld = Except.ok v1 ∧
      v.sys.rc = XST_SUCCESS ∧ v1.sys.rc = XST_SUCCESS ∧
      v.sys.hygrometerReadings = v1.sys.hygrometerReadings := by
  have h := (C27_sample_errors_local (regEnv hygrometerRegs) (regEnv hygrometerRegs) 0
    failedWorld enabledWorld (fun _ _ _ _ => rfl)
    (fun new a n o => regEnv_recv_append hygrometerRegs _ _ new a n o rfl)
    (fun _ _ => rfl)).2.2.2.2.2 (by decide) (by decide)
  have hv := returned_eq_ok (SampleHygrometer (regEnv hygrometerRegs) failedWorld) failedWorld
    (by decide)
  obtain ⟨v1, e1, -, hrc, hr, -⟩ := h.2 _ hv
  have hrc0 : (resultWorld (SampleHygrometer (regEnv hygrometerRegs) failedWorld)
      failedWorld).sys.rc = XST_SUCCESS := by decide
  exact ⟨by decide, by decide, _, v1, hv, e1, hrc0, hrc ▸ hrc0, hr hrc0⟩

theorem System.onlyStatusReadings.keepsCalibration {s s1 : System}
    (h : s.onlyStatusReadings s1) :
    s1.pbHygrometerCalibration = s.pbHygrometerCalibration := by
  rw [h]

/-- C24 (amended): the humidity and temperature that a successful sample of an
enabled hygrometer stores are a function of the seventeen bytes read in that
sample: the calibration registers 0x30, 0x31, 0x36, 0x37, 0x3A, 0x3B (humidity)
and 0x32, 0x33, 0x35, 0x3C to 0x3F (temperature) as the device delivers them
at sample time, and the output bytes H_OUT and T_OUT.  The calibration bytes
stored at bring-up in `pbHygrometerCalibration` are not changed by sampling and
are not used by it: with any other stored bytes `cal` the sample logs the same
events, succeeds and stores the same readings. -/
theorem C24_sample_calibration (env : Env) (w w1 : World) (pre : List Event)
    (b30 b31 b36 b37 b3A b3B b28 b29 b32 b33 b35 b3C b3D b3E b3F b2A b2B : Nat)
    (cal : List Nat)
    (hen : w.sys.bHygrometerOk ≠ 0)
    (hok : SampleHygrometer env w = Except.ok w1)
    (hrc : w1.sys.rc = XST_SUCCESS)
    (hlog : w1.log = pre ++ hygrometerHumidityReads b30 b31 b36 b37 b3A b3B b28 b29 ++
      hygrometerTemperatureReads b32 b33 b35 b3C b3D b3E b3F b2A b2B) :
    (∃ vh vt : Nat,
      humidityOfBytes (b30 % 256) (b31 % 256) (b36 % 256) (b37 % 256) (b3A % 256)
        (b3B % 256) (b28 % 256) (b29 % 256) = some vh ∧
      temperatureOfBytes (b32 % 256) (b33 % 256) (b35 % 256) (b3C % 256) (b3D % 256)
        (b3E % 256) (b3F % 256) (b2A % 256) (b2B % 256) = some vt ∧
      w1.sys.fHygrometerHumidity = f32 vh ∧ w1.sys.fHygrometerTemperature = f32 vt) ∧
    w1.sys.pbHygrometerCalibration = w.sys.pbHygrometerCalibration ∧
    ∃ v, SampleHygrometer env { w with sys.pbHygrometerCalibration := cal } = Except.ok v ∧
      v.log = w1.log ∧ v.sys.rc = XST_SUCCESS ∧
      v.sys.hygrometerReadings = w1.sys.hygrometerReadings ∧
      v.sys.pbHygrometerCalibration = cal := by
  refine ⟨SampleHygrometer_success env w w1 pre b30 b31 b36 b37 b3A b3B b28 b29 b32 b33 b35
    b3C b3D b3E b3F b2A b2B hen hok hrc hlog,
    (SampleHygrometer_status env w w1 hen hok).2.2.keepsCalibration, ?_⟩
  have hs := SampleHygrometer_same (eq_alike env) w
    ({ w with sys.pbHygrometerCalibration := cal } : World) hen hen rfl
  rw [hok] at hs
  obtain ⟨v, e, h1, h2, h3, -⟩ := sameOutcome_ok hs
  refine ⟨v, e, h1.symm, h2 ▸ hrc, (h3 hrc).symm, ?_⟩
  have hk := (SampleHygrometer_status env
    ({ w with sys.pbHygrometerCalibration := cal } : World) v hen e).2.2.keepsCalibration
  exact hk

set_option maxRecDepth 100000 in
/-- C24 at a concrete input: an ideal bus with the hygrometer of the spec's
example and a world that holds its calibration bytes; the sample succeeds, and
with sixteen bytes 0xFF stored instead it succeeds with the same readings. -/
theorem C24_witness :
    calibratedWorld.sys.bHygrometerOk ≠ 0 ∧
    returned (SampleHygrometer (regEnv hygrometerRegs) calibratedWorld) = true ∧
    (resultWorld (SampleHygrometer (regEnv hygrometerRegs) calibratedWorld)
      calibratedWorld).sys.rc = XST_SUCCESS ∧
    (resultWorld (SampleHygrometer (regEnv hygrometerRegs) calibratedWorld)
      calibratedWorld).sys.pbHygrometerCalibration =
        calibratedWorld.sys.pbHygrometerCalibration ∧
    ∃ v, SampleHygrometer (regEnv hygrometerRegs)
        { calibratedWorld with sys.pbHygrometerCalibration := List.replicate 16 0xFF } =
          Except.ok v ∧
      v.log = (resultWorld (SampleHygrometer (regEnv hygrometerRegs) calibratedWorld)
        calibratedWorld).log ∧
      v.sys.rc = XST_SUCCESS ∧
      v.sys.hygrometerReadings =
        (resultWorld (SampleHygrometer (regEnv hygrometerRegs) calibratedWorld)
          calibratedWorld).sys.hygrometerReadings ∧
      v.sys.pbHygrometerCalibration = List.replicate 16 0xFF :=
  ⟨by decide, by decide, by decide,
   (C24_sample_calibration (regEnv hygrometerRegs) calibratedWorld
      (resultWorld (SampleHygrometer (regEnv hygrometerRegs) calibratedWorld) calibratedWorld)
      ((resultWorld (SampleHygrometer (regEnv hygrometerRegs) calibratedWorld)
        calibratedWorld).log.take 5)
      80 160 0 0 0xE8 3 0xF4 1 160 240 0 0 0 0xE8 3 0xF4 1 (List.replicate 16 0xFF)
      (by decide) (returned_eq_ok _ _ (by decide)) (by decide) (by decide)).2⟩

set_option maxRecDepth 100000 in
/-- C24 as stated fails: two samples start in the same world, so with the same
stored calibration, and read the same output bytes H_OUT = 500 and T_OUT = 500;
the device delivers the calibration byte H1_rH_x2 = 160 in the first and 200 in
the second.  Both succeed and leave the stored calibration as it was, but the
first stores the humidity 60 and the second 70. -/
theorem C24_counterexample :
    returned (SampleHygrometer (regEnv hygrometerRegs) calibratedWorld) = true ∧
    returned (SampleHygrometer (regEnv driftedCalibrationRegs) calibratedWorld) = true ∧
    (resultWorld (SampleHygrometer (regEnv hygrometerRegs) calibratedWorld)
      calibratedWorld).sys.rc = XST_SUCCESS ∧
    (resultWorld (SampleHygrometer (regEnv driftedCalibrationRegs) calibratedWorld)
      calibratedWorld).sys.rc = XST_SUCCESS ∧
    (resultWorld (SampleHygrometer (regEnv hygrometerRegs) calibratedWorld) calibratedWorld).log =
      (resultWorld (SampleHygrometer (regEnv hygrometerRegs) calibratedWorld)
        calibratedWorld).log.take 5 ++
      hygrometerHumidityReads 80 160 0 0 0xE8 3 0xF4 1 ++
      hygrometerTemperatureReads 160 240 0 0 0 0xE8 3 0xF4 1 ∧
    (resultWorld (SampleHygrometer (regEnv driftedCalibrationRegs) calibratedWorld)
        calibratedWorld).log =
      (resultWorld (SampleHygrometer (regEnv driftedCalibrationRegs) calibratedWorld)
        calibratedWorld).log.take 5 ++
      hygrometerHumidityReads 80 200 0 0 0xE8 3 0xF4 1 ++
      hygrometerTemperatureReads 160 240 0 0 0 0xE8 3 0xF4 1 ∧
    (resultWorld (SampleHygrometer (regEnv hygrometerRegs) calibratedWorld)
      calibratedWorld).sys.pbHygrometerCalibration =
        calibratedWorld.sys.pbHygrometerCalibration ∧
    (resultWorld (SampleHygrometer (regEnv driftedCalibrationRegs) calibratedWorld)
      calibratedWorld).sys.pbHygrometerCalibration =
        calibratedWorld.sys.pbHygrometerCalibration ∧
    calibratedWorld.sys.pbHygrometerCalibration =
      [80, 160, 160, 240, 0, 0, 0, 0, 0, 0, 0xE8, 3, 0, 0, 0xE8, 3] ∧
    (resultWorld (SampleHygrometer (regEnv hygrometerRegs) calibratedWorld)
      calibratedWorld).sys.fHygrometerHumidity = 60 ∧
    (resultWorld (SampleHygrometer (regEnv driftedCalibrationRegs) calibratedWorld)
      calibratedWorld).sys.fHygrometerHumidity = 70 ∧
    (resultWorld (SampleHygrometer (regEnv hygrometerRegs) calibratedWorld)
      calibratedWorld).sys.fHygrometerHumidity ≠
    (resultWorld (SampleHygrometer (regEnv driftedCalibrationRegs) calibratedWorld)
      calibratedWorld).sys.fHygrometerHumidity := by
  have hA := (SampleHygrometer_stored (regEnv hygrometerRegs) calibratedWorld
    (resultWorld (SampleHygrometer (regEnv hygrometerRegs) calibratedWorld) calibratedWorld)
    ((resultWorld (SampleHygrometer (regEnv hygrometerRegs) calibratedWorld)
      calibratedWorld).log.take 5)
    80 160 0 0 0xE8 3 0xF4 1 160 240 0 0 0 0xE8 3 0xF4 1
    (by decide) (returned_eq_ok _ _ (by decide)) (by decide) (by decide) (by decide)).1
    (by decide)
  have hB := (SampleHygrometer_stored (regEnv driftedCalibrationRegs) calibratedWorld
    (resultWorld (SampleHygrometer (regEnv driftedCalibrationRegs) calibratedWorld)
      calibratedWorld)
    ((resultWorld (SampleHygrometer (regEnv driftedCalibrationRegs) calibratedWorld)
      calibratedWorld).log.take 5)
    80 200 0 0 0xE8 3 0xF4 1 160 240 0 0 0 0xE8 3 0xF4 1
    (by decide) (returned_eq_ok _ _ (by decide)) (by decide) (by decide) (by decide)).1
    (by decide)
  have vA : min (toU16 (interpolationSpec (le16 0xF4 1) (le16 0 0) (le16 0xE8 3)
      ((80 / 2 : Nat) : Int) ((160 / 2 : Nat) : Int))) 1000 = 60 := by decide
  have vB : min (toU16 (interpolationSpec (le16 0xF4 1) (le16 0 0) (le16 0xE8 3)
      ((80 / 2 : Nat) : Int) ((200 / 2 : Nat) : Int))) 1000 = 70 := by decide
  rw [vA] at hA
  rw [vB] at hB
  refine ⟨by decide, by decide, by decide, by decide, by decide, by decide, by decide,
    by decide, by decide, ?_, ?_, ?_⟩
  · rw [hA]; norm_num
  · rw [hB]; norm_num
  · rw [hA, hB]; norm_num

end UzedIot
